import Mathlib

/-!
# ScrollPresenter: view-change request queue and completion reconciliation

A shallow embedding of the asynchronous view-change machinery of
`src/controls/dev/ScrollPresenter/ScrollPresenter.cpp`.

Conventions of the embedding.

* C++ `int` / `int32_t` values are `Int`; where the 32-bit range matters the bound
  `INT_MAX` is explicit.
* `double` / `float` payload values live in an arbitrary type `α`; only the operations
  the code applies to them (here `+` and the literal `0.0`) are required of `α`, so no
  algebraic law that floating point lacks is used.  A NaN marker is `none`.
* Heap objects held through `std::shared_ptr` carry their identity in the field `id`;
  pointer equality is equality of `id`, `std::list::remove (ptr)` drops the entries with
  that `id`.
* `MUX_ASSERT` is a debug-only check and does not change control flow.
* Effects on collaborators (events raised, scroll-controller notifications, motion-engine
  requests) are appended to the chronological field `trace`; calls of `CompleteViewChange`
  are appended to `completedViewChanges`.  Event listeners are external code and are not
  re-entered.
* The rendering-layer bookkeeping (Rendering event hook, expression animation restarts,
  `InvalidateViewport`) and the snap-point refresh of `IdleStateEntered` never read or
  write the operation queue and are not part of the state.
-/

/-- Kind of the motion-engine primitive an asynchronous operation stands for. -/
inductive InteractionTrackerAsyncOperationType
  | TryUpdatePosition
  | TryUpdatePositionBy
  | TryUpdatePositionWithAnimation
  | TryUpdatePositionWithAdditionalVelocity
  | TryUpdateScale
  | TryUpdateScaleWithAnimation
  | TryUpdateScaleWithAdditionalVelocity
  deriving DecidableEq

/-- Modelled from the spec: the enumeration `InteractionTrackerAsyncOperationTrigger` is
declared in a header outside the sources; the spec describes it as a bitset over
DirectCall, HorizontalControllerRequest, VerticalControllerRequest and BringIntoView.
One Boolean per bit. -/
structure InteractionTrackerAsyncOperationTrigger where
  DirectViewChange : Bool
  HorizontalScrollControllerRequest : Bool
  VerticalScrollControllerRequest : Bool
  BringIntoViewRequest : Bool
  deriving DecidableEq

/-- Result carried by a view-change completion. -/
inductive ScrollPresenterViewChangeResult
  | Completed
  | Interrupted
  | Ignored
  deriving DecidableEq

/-- Whether payload values are absolute or relative to the current view. -/
inductive ScrollPresenterViewKind
  | Absolute
  | RelativeToCurrentView
  deriving DecidableEq

/-- Animation mode of a request. -/
inductive ScrollingAnimationMode
  | Disabled
  | Enabled
  | Auto
  deriving DecidableEq

/-- Snap-points mode of a request. -/
inductive ScrollingSnapPointsMode
  | Default
  | Ignore
  deriving DecidableEq

/-- Interaction state mirrored from the motion engine. -/
inductive ScrollingInteractionState
  | Idle
  | Interaction
  | Inertia
  | Animation
  deriving DecidableEq

/-- Options object of a scroll or zoom request (`ScrollingScrollOptions`,
`ScrollingZoomOptions`): an animation mode and a snap-points mode. -/
structure ScrollingOptions where
  AnimationMode : ScrollingAnimationMode
  SnapPointsMode : ScrollingSnapPointsMode
  deriving DecidableEq

/-- Extra data of a `BringIntoViewOffsetsChange`. -/
structure BringIntoViewData (α : Type) where
  Element : Nat
  ElementRect : α × α × α × α
  HorizontalAlignmentRatio : α
  VerticalAlignmentRatio : α
  HorizontalOffset : α
  VerticalOffset : α
  deriving DecidableEq

/-- Payload of an operation: `OffsetsChange` (with the bring-into-view extension when
present), `OffsetsChangeWithAdditionalVelocity`, `ZoomFactorChange` and
`ZoomFactorChangeWithAdditionalVelocity`. -/
inductive ViewChangeBase (α : Type)
  | OffsetsChange (ZoomedHorizontalOffset ZoomedVerticalOffset : α)
      (ViewKind : ScrollPresenterViewKind) (Options : Option ScrollingOptions)
      (bringIntoView : Option (BringIntoViewData α))
  | OffsetsChangeWithAdditionalVelocity (OffsetsVelocity AnticipatedOffsetsChange : α × α)
      (InertiaDecayRate : Option (α × α))
  | ZoomFactorChange (ZoomFactor : α) (CenterPoint : Option (α × α))
      (ViewKind : ScrollPresenterViewKind) (Options : Option ScrollingOptions)
  | ZoomFactorChangeWithAdditionalVelocity (ZoomFactorVelocity AnticipatedZoomFactorChange : α)
      (CenterPoint : Option (α × α)) (InertiaDecayRate : Option α)
  deriving DecidableEq

/-- Modelled from the spec: the class `InteractionTrackerAsyncOperation` is declared in a
header outside the sources; its fields follow the spec's data model (operation type,
trigger, correlation ID, motion-engine request ID assigned once dispatched, status flags,
countdown of scheduling ticks, optional required prior operation, payload) and the
accessors `ScrollPresenter.cpp` calls.  `id` is the identity of the shared object and
`requiredOperation` holds the identity of the required operation. -/
structure InteractionTrackerAsyncOperation (α : Type) where
  id : Nat
  operationType : InteractionTrackerAsyncOperationType
  operationTrigger : InteractionTrackerAsyncOperationTrigger
  isDelayed : Bool
  isCanceled : Bool
  isCompleted : Bool
  preProcessingTicksCountdown : Int
  queuedOperationTicks : Int
  postProcessingTicksCountdown : Int
  requestId : Int
  viewChangeCorrelationId : Int
  requiredOperation : Option Nat
  viewChangeBase : Option (ViewChangeBase α)
  deriving DecidableEq

/-- Constants declared in headers outside the sources and kept as parameters: the number
of ticks granted to a dispatched non-animated operation before it is considered completed
(`c_maxNonAnimatedOperationTicks`) and the default modes of the scroll options
(`ScrollingScrollOptions::s_default...`) and of the zoom options
(`ScrollingZoomOptions::s_default...`). -/
structure HeaderConstants where
  c_maxNonAnimatedOperationTicks : Int
  scrollDefaultAnimationMode : ScrollingAnimationMode
  scrollDefaultSnapPointsMode : ScrollingSnapPointsMode
  zoomDefaultAnimationMode : ScrollingAnimationMode
  zoomDefaultSnapPointsMode : ScrollingSnapPointsMode
  deriving DecidableEq

/-- Effects the presenter has on its collaborators. -/
inductive Effect
  | ScrollCompleted (OffsetsChangeCorrelationId : Int) (Result : ScrollPresenterViewChangeResult)
  | ZoomCompleted (ZoomFactorChangeCorrelationId : Int) (Result : ScrollPresenterViewChangeResult)
  | NotifyRequestedScrollCompleted (horizontalScrollController : Bool) (correlationId : Int)
  | StateChanged
  | InteractionTrackerRequest (operation : Nat)
      (operationType : InteractionTrackerAsyncOperationType) (requestId : Int)
  deriving DecidableEq

/-- The part of the `ScrollPresenter` instance the request queue and the completion
reconciler read and write. -/
structure ScrollPresenter (α : Type) where
  m_interactionTrackerAsyncOperations : List (InteractionTrackerAsyncOperation α)
  m_latestViewChangeCorrelationId : Int
  m_latestInteractionTrackerRequest : Int
  m_state : ScrollingInteractionState
  m_anticipatedZoomedHorizontalOffset : Option α
  m_anticipatedZoomedVerticalOffset : Option α
  m_anticipatedZoomFactor : Option α
  PositionInertiaDecayRate : Option (α × α)
  ScaleInertiaDecayRate : Option α
  Content : Bool
  IsLoaded : Bool
  m_interactionTracker : Bool
  m_scrollCompletedEventSource : Bool
  m_zoomCompletedEventSource : Bool
  m_stateChangedEventSource : Bool
  m_horizontalScrollController : Bool
  m_verticalScrollController : Bool
  isAnimationsEnabled : Bool
  constants : HeaderConstants
  allocatedOperations : Nat
  completedViewChanges : List (InteractionTrackerAsyncOperation α × ScrollPresenterViewChangeResult)
  trace : List Effect
  deriving DecidableEq

namespace InteractionTrackerAsyncOperationTrigger

/-- The trigger value `DirectViewChange`. -/
def direct : InteractionTrackerAsyncOperationTrigger := ⟨true, false, false, false⟩

/-- The trigger value `HorizontalScrollControllerRequest`. -/
def horizontal : InteractionTrackerAsyncOperationTrigger := ⟨false, true, false, false⟩

/-- The trigger value `VerticalScrollControllerRequest`. -/
def vertical : InteractionTrackerAsyncOperationTrigger := ⟨false, false, true, false⟩

/-- The trigger value `BringIntoViewRequest`. -/
def bringIntoView : InteractionTrackerAsyncOperationTrigger := ⟨false, false, false, true⟩

/-- Bitwise or of two trigger values. -/
def union (a b : InteractionTrackerAsyncOperationTrigger) : InteractionTrackerAsyncOperationTrigger :=
  ⟨a.DirectViewChange || b.DirectViewChange,
   a.HorizontalScrollControllerRequest || b.HorizontalScrollControllerRequest,
   a.VerticalScrollControllerRequest || b.VerticalScrollControllerRequest,
   a.BringIntoViewRequest || b.BringIntoViewRequest⟩

/-- The test `(static_cast<int>(a) & static_cast<int>(b)) != 0`. -/
def intersects (a b : InteractionTrackerAsyncOperationTrigger) : Bool :=
  (a.DirectViewChange && b.DirectViewChange) ||
  (a.HorizontalScrollControllerRequest && b.HorizontalScrollControllerRequest) ||
  (a.VerticalScrollControllerRequest && b.VerticalScrollControllerRequest) ||
  (a.BringIntoViewRequest && b.BringIntoViewRequest)

end InteractionTrackerAsyncOperationTrigger

namespace InteractionTrackerAsyncOperation

variable {α : Type}

/-- Modelled from the spec: `IsAnimated` of the absent header.  The instantaneous
primitives `TryUpdatePosition`, `TryUpdatePositionBy` and `TryUpdateScale` are the
non-animated operations; the animation and additional-velocity primitives are animated. -/
def IsAnimated (op : InteractionTrackerAsyncOperation α) : Bool :=
  match op.operationType with
  | .TryUpdatePosition => false
  | .TryUpdatePositionBy => false
  | .TryUpdateScale => false
  | _ => true

/-- Modelled from the spec: `IsQueued` of the absent header.  An operation is queued while
its countdown of scheduling ticks before dispatch is positive. -/
def IsQueued (op : InteractionTrackerAsyncOperation α) : Bool :=
  decide (op.preProcessingTicksCountdown > 0)

/-- Modelled from the spec: `IsUnqueueing` of the absent header, the status flag
Unqueueing.  A queued operation is unqueueing once its countdown has started to run down
from the value it was queued with. -/
def IsUnqueueing (op : InteractionTrackerAsyncOperation α) : Bool :=
  decide (op.preProcessingTicksCountdown > 0) &&
    decide (op.preProcessingTicksCountdown < op.queuedOperationTicks)

/-- Modelled from the spec: `GetTicksCountdown` of the absent header, the countdown of
scheduling ticks remaining before dispatch. -/
def GetTicksCountdown (op : InteractionTrackerAsyncOperation α) : Int :=
  op.preProcessingTicksCountdown

/-- Modelled from the spec: `SetTicksCountdown` of the absent header; the operation is
queued afresh with the given countdown. -/
def SetTicksCountdown (op : InteractionTrackerAsyncOperation α) (ticksCountdown : Int) :
    InteractionTrackerAsyncOperation α :=
  { op with preProcessingTicksCountdown := ticksCountdown, queuedOperationTicks := ticksCountdown }

/-- Modelled from the spec: `SetIsCompleted` of the absent header, the status flag
Completed. -/
def SetIsCompleted (op : InteractionTrackerAsyncOperation α) (isCompleted : Bool) :
    InteractionTrackerAsyncOperation α :=
  { op with isCompleted := isCompleted }

/-- Modelled from the spec: `SetIsScrollControllerRequest` of the absent header; adds the
bit of the requesting controller to the trigger bitset. -/
def SetIsScrollControllerRequest (op : InteractionTrackerAsyncOperation α)
    (isFromHorizontalScrollController : Bool) : InteractionTrackerAsyncOperation α :=
  let requester : InteractionTrackerAsyncOperationTrigger :=
    if isFromHorizontalScrollController then .horizontal else .vertical
  { op with operationTrigger := op.operationTrigger.union requester }

/-- Modelled from the spec: `SetIsDelayed` of the absent header, the status flag Delayed. -/
def SetIsDelayed (op : InteractionTrackerAsyncOperation α) (isDelayed : Bool) :
    InteractionTrackerAsyncOperation α :=
  { op with isDelayed := isDelayed }

/-- Modelled from the spec: `SetRequestId` of the absent header, the motion-engine request
ID assigned once dispatched. -/
def SetRequestId (op : InteractionTrackerAsyncOperation α) (requestId : Int) :
    InteractionTrackerAsyncOperation α :=
  { op with requestId := requestId }

/-- Modelled from the spec: `SetViewChangeCorrelationId` of the absent header. -/
def SetViewChangeCorrelationId (op : InteractionTrackerAsyncOperation α)
    (viewChangeCorrelationId : Int) : InteractionTrackerAsyncOperation α :=
  { op with viewChangeCorrelationId := viewChangeCorrelationId }

/-- Modelled from the spec: `SetRequiredOperation` of the absent header; the argument is
the identity of the required prior operation. -/
def SetRequiredOperation (op : InteractionTrackerAsyncOperation α)
    (requiredOperation : Option Nat) : InteractionTrackerAsyncOperation α :=
  { op with requiredOperation := requiredOperation }

/-- The number of ticks a newly queued operation waits, `c_queuedOperationTicks == 3`
according to the comment on `MaximizeInteractionTrackerOperationsTicksCountdown`. -/
def c_queuedOperationTicks : Int := 3

/-- Modelled from the spec: the constructor of the absent header.  A new operation is not
canceled and not completed, has not been dispatched (request ID -1), carries no correlation
ID yet (-1), waits `c_queuedOperationTicks` ticks and, when it is not animated, is granted
`maxNonAnimatedOperationTicks` ticks after its dispatch. -/
def create (id : Nat) (operationType : InteractionTrackerAsyncOperationType)
    (operationTrigger : InteractionTrackerAsyncOperationTrigger) (isDelayed : Bool)
    (viewChangeBase : ViewChangeBase α) (maxNonAnimatedOperationTicks : Int) :
    InteractionTrackerAsyncOperation α :=
  { id := id, operationType := operationType, operationTrigger := operationTrigger,
    isDelayed := isDelayed, isCanceled := false, isCompleted := false,
    preProcessingTicksCountdown := c_queuedOperationTicks,
    queuedOperationTicks := c_queuedOperationTicks,
    postProcessingTicksCountdown :=
      (match operationType with
       | .TryUpdatePosition => maxNonAnimatedOperationTicks
       | .TryUpdatePositionBy => maxNonAnimatedOperationTicks
       | .TryUpdateScale => maxNonAnimatedOperationTicks
       | _ => 0),
    requestId := -1, viewChangeCorrelationId := -1, requiredOperation := none,
    viewChangeBase := some viewChangeBase }

/-- Modelled from the spec: the decrement of `TickQueuedOperation` of the absent header;
a queued operation with a positive tick countdown decrements it and is dispatched at
zero. -/
def TickQueuedOperation (op : InteractionTrackerAsyncOperation α) :
    InteractionTrackerAsyncOperation α :=
  { op with preProcessingTicksCountdown := op.preProcessingTicksCountdown - 1 }

/-- Modelled from the spec: the decrement of `TickNonAnimatedOperation` of the absent
header; a dispatched non-animated operation is force-completed when its grace countdown
reaches zero. -/
def TickNonAnimatedOperation (op : InteractionTrackerAsyncOperation α) :
    InteractionTrackerAsyncOperation α :=
  { op with postProcessingTicksCountdown := op.postProcessingTicksCountdown - 1 }

end InteractionTrackerAsyncOperation

namespace ScrollPresenter

variable {α : Type}

/-- The sentinel correlation ID returned when a request is dropped. -/
def s_noOpCorrelationId : Int := -1

/-- The largest `int` value, `std::numeric_limits<int>::max ()`. -/
def INT_MAX : Int := 2147483647

/-- Appends an effect to the chronological trace. -/
def emit (s : ScrollPresenter α) (e : Effect) : ScrollPresenter α :=
  { s with trace := s.trace ++ [e] }

/-- The call `m_interactionTrackerAsyncOperations.remove (operation)`: drops the entries
that point to the given object. -/
def removeOperation (s : ScrollPresenter α) (operation : InteractionTrackerAsyncOperation α) :
    ScrollPresenter α :=
  { s with m_interactionTrackerAsyncOperations :=
      s.m_interactionTrackerAsyncOperations.filter (fun o => o.id != operation.id) }

/-- A write through a shared pointer: the queued object with the given identity is
replaced by its updated value. -/
def updateOperation (s : ScrollPresenter α) (id : Nat)
    (f : InteractionTrackerAsyncOperation α → InteractionTrackerAsyncOperation α) :
    ScrollPresenter α :=
  { s with m_interactionTrackerAsyncOperations :=
      s.m_interactionTrackerAsyncOperations.map (fun o => if o.id == id then f o else o) }

/-- Clears the anticipated view: the three values become NaN. -/
def ResetAnticipatedView (s : ScrollPresenter α) : ScrollPresenter α :=
  { s with m_anticipatedZoomedHorizontalOffset := none,
           m_anticipatedZoomedVerticalOffset := none,
           m_anticipatedZoomFactor := none }

/-- Restores the default offsets inertia decay rate of the motion engine. -/
def ResetOffsetsInertiaDecayRate (s : ScrollPresenter α) : ScrollPresenter α :=
  { s with PositionInertiaDecayRate := none }

/-- Restores the default zoom factor inertia decay rate of the motion engine. -/
def ResetZoomFactorInertiaDecayRate (s : ScrollPresenter α) : ScrollPresenter α :=
  { s with ScaleInertiaDecayRate := none }

/-- Records the new interaction state and raises StateChanged when it differs. -/
def UpdateState (s : ScrollPresenter α) (state : ScrollingInteractionState) : ScrollPresenter α :=
  if state ≠ s.m_state then
    let s1 := { s with m_state := state }
    if s1.m_stateChangedEventSource then s1.emit .StateChanged else s1
  else s

/-- First queued operation recorded with the given motion-engine request ID. -/
def GetInteractionTrackerOperationFromRequestId (s : ScrollPresenter α) (requestId : Int) :
    Option (InteractionTrackerAsyncOperation α) :=
  s.m_interactionTrackerAsyncOperations.find? (fun o => o.requestId == requestId)

/-- Restores the default offsets decay rate unless a newer offsets change with additional
velocity is in progress. -/
def PostProcessOffsetsChange (s : ScrollPresenter α)
    (interactionTrackerAsyncOperation : InteractionTrackerAsyncOperation α) : ScrollPresenter α :=
  let keep : Bool :=
    interactionTrackerAsyncOperation.requestId != s.m_latestInteractionTrackerRequest &&
    (match s.GetInteractionTrackerOperationFromRequestId s.m_latestInteractionTrackerRequest with
     | some latest => latest.operationType == .TryUpdatePositionWithAdditionalVelocity
     | none => false)
  if keep then s else s.ResetOffsetsInertiaDecayRate

/-- Restores the default zoom factor decay rate unless a newer zoom factor change with
additional velocity is in progress. -/
def PostProcessZoomFactorChange (s : ScrollPresenter α)
    (interactionTrackerAsyncOperation : InteractionTrackerAsyncOperation α) : ScrollPresenter α :=
  let keep : Bool :=
    interactionTrackerAsyncOperation.requestId != s.m_latestInteractionTrackerRequest &&
    (match s.GetInteractionTrackerOperationFromRequestId s.m_latestInteractionTrackerRequest with
     | some latest => latest.operationType == .TryUpdateScaleWithAdditionalVelocity
     | none => false)
  if keep then s else s.ResetZoomFactorInertiaDecayRate

/-- Raises ScrollCompleted or ZoomCompleted for the correlation ID when a listener is
registered; the test `if (viewChangeCorrelationId)` skips the value 0. -/
def RaiseViewChangeCompleted (s : ScrollPresenter α) (isForScroll : Bool)
    (result : ScrollPresenterViewChangeResult) (viewChangeCorrelationId : Int) :
    ScrollPresenter α :=
  if viewChangeCorrelationId ≠ 0 then
    if isForScroll && s.m_scrollCompletedEventSource then
      s.emit (.ScrollCompleted viewChangeCorrelationId result)
    else if !isForScroll && s.m_zoomCompletedEventSource then
      s.emit (.ZoomCompleted viewChangeCorrelationId result)
    else s
  else s

/-- Outcome of the `switch` of `CompleteViewChange` on trigger and operation type: whether
a completion event is raised and whether it is the scroll one, whether the horizontal
controller is notified, whether the vertical controller is notified.  A direct or
bring-into-view operation raises the scroll event for the four position types and the zoom
event otherwise; a controller operation raises the scroll event; any other trigger value
matches no `case`. -/
def completionRouting (interactionTrackerAsyncOperation : InteractionTrackerAsyncOperation α) :
    Option Bool × Bool × Bool :=
  let trigger := interactionTrackerAsyncOperation.operationTrigger
  if trigger = .direct ∨ trigger = .bringIntoView then
    match interactionTrackerAsyncOperation.operationType with
    | .TryUpdatePosition => (some true, false, false)
    | .TryUpdatePositionBy => (some true, false, false)
    | .TryUpdatePositionWithAnimation => (some true, false, false)
    | .TryUpdatePositionWithAdditionalVelocity => (some true, false, false)
    | _ => (some false, false, false)
  else if trigger = .horizontal then (some true, true, false)
  else if trigger = .vertical then (some true, false, true)
  else if trigger = InteractionTrackerAsyncOperationTrigger.horizontal.union .vertical then
    (some true, true, true)
  else (none, false, false)

/-- Marks the operation completed and notifies the requester: the completion event chosen
by trigger and operation type, then the scroll controllers that issued the request. -/
def CompleteViewChange (s : ScrollPresenter α)
    (interactionTrackerAsyncOperation : InteractionTrackerAsyncOperation α)
    (result : ScrollPresenterViewChangeResult) : ScrollPresenter α :=
  let viewChangeCorrelationId := interactionTrackerAsyncOperation.viewChangeCorrelationId
  let completedOperation := interactionTrackerAsyncOperation.SetIsCompleted true
  let s0 := s.updateOperation interactionTrackerAsyncOperation.id (fun o => o.SetIsCompleted true)
  let s1 := { s0 with completedViewChanges := s0.completedViewChanges ++ [(completedOperation, result)] }
  let routing := completionRouting interactionTrackerAsyncOperation
  let s2 := match routing.1 with
    | some isForScroll => s1.RaiseViewChangeCompleted isForScroll result viewChangeCorrelationId
    | none => s1
  let onHorizontalOffsetChangeCompleted := routing.2.1
  let onVerticalOffsetChangeCompleted := routing.2.2
  let s3 := if onHorizontalOffsetChangeCompleted && s2.m_horizontalScrollController then
      s2.emit (.NotifyRequestedScrollCompleted true viewChangeCorrelationId) else s2
  if onVerticalOffsetChangeCompleted && s3.m_verticalScrollController then
    s3.emit (.NotifyRequestedScrollCompleted false viewChangeCorrelationId) else s3

/-- Body of the loop of `CompleteInteractionTrackerOperations` for one operation. -/
def completeOperationStep (requestId : Int)
    (operationResult priorNonAnimatedOperationsResult priorAnimatedOperationsResult :
      ScrollPresenterViewChangeResult)
    (completeNonAnimatedOperation completeAnimatedOperation
      completePriorNonAnimatedOperations completePriorAnimatedOperations : Bool)
    (s : ScrollPresenter α) (interactionTrackerAsyncOperation : InteractionTrackerAsyncOperation α) :
    ScrollPresenter α :=
  let isMatch : Bool := requestId == -1 || requestId == interactionTrackerAsyncOperation.requestId
  let isPriorMatch : Bool :=
    decide (requestId > interactionTrackerAsyncOperation.requestId) &&
      (-1 : Int) != interactionTrackerAsyncOperation.requestId
  if (isPriorMatch && (completePriorNonAnimatedOperations || completePriorAnimatedOperations)) ||
      (isMatch && (completeNonAnimatedOperation || completeAnimatedOperation)) then
    let isOperationAnimated := interactionTrackerAsyncOperation.IsAnimated
    let complete : Bool :=
      (isMatch && completeNonAnimatedOperation && !isOperationAnimated) ||
      (isMatch && completeAnimatedOperation && isOperationAnimated) ||
      (isPriorMatch && completePriorNonAnimatedOperations && !isOperationAnimated) ||
      (isPriorMatch && completePriorAnimatedOperations && isOperationAnimated)
    if complete then
      let s1 := s.CompleteViewChange interactionTrackerAsyncOperation
        (if isMatch then operationResult
         else if isOperationAnimated then priorAnimatedOperationsResult
         else priorNonAnimatedOperationsResult)
      let s2 := s1.removeOperation interactionTrackerAsyncOperation
      let s3 := if s2.m_interactionTrackerAsyncOperations.isEmpty then s2.ResetAnticipatedView else s2
      match interactionTrackerAsyncOperation.operationType with
      | .TryUpdatePositionWithAdditionalVelocity => s3.PostProcessOffsetsChange interactionTrackerAsyncOperation
      | .TryUpdateScaleWithAdditionalVelocity => s3.PostProcessZoomFactorChange interactionTrackerAsyncOperation
      | _ => s3
    else s
  else s

/-- Completion sweep over the queue, in queue order.  The iterator is advanced before the
body runs, so removing the current entry leaves the walk over the remaining entries
intact. -/
def CompleteInteractionTrackerOperations (s : ScrollPresenter α) (requestId : Int)
    (operationResult priorNonAnimatedOperationsResult priorAnimatedOperationsResult :
      ScrollPresenterViewChangeResult)
    (completeNonAnimatedOperation completeAnimatedOperation
      completePriorNonAnimatedOperations completePriorAnimatedOperations : Bool) :
    ScrollPresenter α :=
  if s.m_interactionTrackerAsyncOperations.isEmpty then s
  else
    s.m_interactionTrackerAsyncOperations.foldl
      (completeOperationStep requestId operationResult priorNonAnimatedOperationsResult
        priorAnimatedOperationsResult completeNonAnimatedOperation completeAnimatedOperation
        completePriorNonAnimatedOperations completePriorAnimatedOperations) s

/-- Callback of the motion engine: the Idle state was entered for `RequestId`. -/
def IdleStateEntered (s : ScrollPresenter α) (RequestId : Int) : ScrollPresenter α :=
  let s1 := s.UpdateState .Idle
  if !s1.m_interactionTrackerAsyncOperations.isEmpty then
    let requestId := RequestId
    if requestId ≠ 0 then
      s1.CompleteInteractionTrackerOperations requestId .Completed .Completed .Interrupted
        true true true true
    else s1
  else s1

/-- Callback of the motion engine: the Interacting state was entered. -/
def InteractingStateEntered (s : ScrollPresenter α) : ScrollPresenter α :=
  let s1 := if s.m_state = .Inertia then
      s.ResetOffsetsInertiaDecayRate.ResetZoomFactorInertiaDecayRate else s
  let s2 := s1.UpdateState .Interaction
  if !s2.m_interactionTrackerAsyncOperations.isEmpty then
    s2.CompleteInteractionTrackerOperations (-1) .Interrupted .Completed .Interrupted
      true true true true
  else s2

/-- Callback of the motion engine: the request `RequestId` was ignored. -/
def RequestIgnored (s : ScrollPresenter α) (RequestId : Int) : ScrollPresenter α :=
  if !s.m_interactionTrackerAsyncOperations.isEmpty then
    s.CompleteInteractionTrackerOperations RequestId .Ignored .Ignored .Ignored
      true true false false
  else s

/-- Callback of the motion engine: the values changed for `RequestId`.  Only the completion
sweep of the callback is embedded; the refresh of the confirmed offsets and zoom factor
from the reported position and scale does not touch the queue. -/
def ValuesChanged (s : ScrollPresenter α) (RequestId : Int) : ScrollPresenter α :=
  let requestId := RequestId
  if requestId ≠ 0 ∧ ¬ s.m_interactionTrackerAsyncOperations.isEmpty then
    s.CompleteInteractionTrackerOperations requestId .Completed .Completed .Interrupted
      true false true true
  else s

/-- The presenter is loaded and owns a motion engine. -/
def IsLoadedAndSetUp (s : ScrollPresenter α) : Bool :=
  s.IsLoaded && s.m_interactionTracker

/-- Resolves the mode Auto from the platform setting (or its test override). -/
def GetComputedAnimationMode (s : ScrollPresenter α) (animationMode : ScrollingAnimationMode) :
    ScrollingAnimationMode :=
  if animationMode = .Auto then
    (if s.isAnimationsEnabled then .Enabled else .Disabled)
  else animationMode

/-- The correlation ID that follows the latest one; wraps from `INT_MAX` to 0. -/
def GetNextViewChangeCorrelationId (s : ScrollPresenter α) : Int :=
  if s.m_latestViewChangeCorrelationId = INT_MAX then 0
  else s.m_latestViewChangeCorrelationId + 1

/-- The assignment `m_latestViewChangeCorrelationId = GetNextViewChangeCorrelationId ()`. -/
def storeNextViewChangeCorrelationId (s : ScrollPresenter α) : ScrollPresenter α :=
  { s with m_latestViewChangeCorrelationId := s.GetNextViewChangeCorrelationId }

/-- Body of the loop of `CompleteDelayedOperations` for one operation. -/
def completeDelayedStep (s : ScrollPresenter α)
    (interactionTrackerAsyncOperation : InteractionTrackerAsyncOperation α) : ScrollPresenter α :=
  if interactionTrackerAsyncOperation.isDelayed then
    let s1 := s.CompleteViewChange interactionTrackerAsyncOperation .Interrupted
    let s2 := s1.removeOperation interactionTrackerAsyncOperation
    if s2.m_interactionTrackerAsyncOperations.isEmpty then s2.ResetAnticipatedView else s2
  else s

/-- Completes every delayed operation with result Interrupted and removes it. -/
def CompleteDelayedOperations (s : ScrollPresenter α) : ScrollPresenter α :=
  if s.m_interactionTrackerAsyncOperations.isEmpty then s
  else s.m_interactionTrackerAsyncOperations.foldl completeDelayedStep s

/-- Largest remaining ticks countdown among the operations that are neither completed nor
canceled; 0 when there is none. -/
def GetInteractionTrackerOperationsTicksCountdown (s : ScrollPresenter α) : Int :=
  s.m_interactionTrackerAsyncOperations.foldl
    (fun ticksCountdown o =>
      if !o.isCompleted && !o.isCanceled then max ticksCountdown o.GetTicksCountdown
      else ticksCountdown) 0

/-- Backward walk of `GetLastNonAnimatedInteractionTrackerOperation` over the reversed
queue; the flag tells whether the reference operation has been seen. -/
def lastNonAnimatedScan (priorTo : Nat) :
    Bool → List (InteractionTrackerAsyncOperation α) → Option (InteractionTrackerAsyncOperation α)
  | _, [] => none
  | priorInteractionTrackerOperationSeen, o :: rest =>
    if !priorInteractionTrackerOperationSeen && priorTo == o.id then
      lastNonAnimatedScan priorTo true rest
    else if priorInteractionTrackerOperationSeen && !o.IsAnimated && !o.isCompleted &&
        !o.isCanceled then
      some o
    else lastNonAnimatedScan priorTo priorInteractionTrackerOperationSeen rest

/-- Most recent operation located before the given one that is not animated, not completed
and not canceled. -/
def GetLastNonAnimatedInteractionTrackerOperation (s : ScrollPresenter α)
    (priorToInteractionTrackerOperation : InteractionTrackerAsyncOperation α) :
    Option (InteractionTrackerAsyncOperation α) :=
  lastNonAnimatedScan priorToInteractionTrackerOperation.id false
    s.m_interactionTrackerAsyncOperations.reverse

/-- View kind of an offsets or zoom factor change payload. -/
def viewKindOf : ViewChangeBase α → Option ScrollPresenterViewKind
  | .OffsetsChange _ _ k _ _ => some k
  | .ZoomFactorChange _ _ k _ => some k
  | _ => none

/-- Options object of an offsets or zoom factor change payload. -/
def optionsOf : ViewChangeBase α → Option ScrollingOptions
  | .OffsetsChange _ _ _ o _ => o
  | .ZoomFactorChange _ _ _ o => o
  | _ => none

/-- The comparisons `GetInteractionTrackerOperationFromKinds` makes on an offsets or zoom
factor change: same view kind, same animation mode, same snap-points mode, an absent
options object standing for the scroll defaults. -/
def kindsAgree (s : ScrollPresenter α) (viewChange : ViewChangeBase α)
    (viewKind : ScrollPresenterViewKind) (options : Option ScrollingOptions) : Bool :=
  let optionsClone := optionsOf viewChange
  let animationMode := match options with
    | some o => o.AnimationMode
    | none => s.constants.scrollDefaultAnimationMode
  let animationModeClone := match optionsClone with
    | some o => o.AnimationMode
    | none => s.constants.scrollDefaultAnimationMode
  let snapPointsMode := match options with
    | some o => o.SnapPointsMode
    | none => s.constants.scrollDefaultSnapPointsMode
  let snapPointsModeClone := match optionsClone with
    | some o => o.SnapPointsMode
    | none => s.constants.scrollDefaultSnapPointsMode
  if viewKindOf viewChange ≠ some viewKind then false
  else if animationModeClone ≠ animationMode then false
  else if snapPointsModeClone ≠ snapPointsMode then false
  else true

/-- Backward walk of `GetInteractionTrackerOperationFromKinds` over the reversed queue. -/
def fromKindsScan (s : ScrollPresenter α) (isOperationTypeForOffsetsChange : Bool)
    (operationTrigger : InteractionTrackerAsyncOperationTrigger)
    (viewKind : ScrollPresenterViewKind) (options : Option ScrollingOptions) :
    List (InteractionTrackerAsyncOperation α) → Option (InteractionTrackerAsyncOperation α)
  | [] => none
  | o :: rest =>
    if !(o.operationTrigger.intersects operationTrigger) && !o.isCanceled then none
    else
      match o.viewChangeBase with
      | none => fromKindsScan s isOperationTypeForOffsetsChange operationTrigger viewKind options rest
      | some viewChangeBase =>
        if !(o.operationTrigger.intersects operationTrigger) || !o.IsQueued || o.IsUnqueueing ||
            o.isCanceled then
          fromKindsScan s isOperationTypeForOffsetsChange operationTrigger viewKind options rest
        else
          let offsetsFamily : Bool :=
            if !isOperationTypeForOffsetsChange then false
            else s.kindsAgree viewChangeBase viewKind options
          let zoomFamily : Bool :=
            if isOperationTypeForOffsetsChange then false
            else s.kindsAgree viewChangeBase viewKind options
          let accepted : Bool :=
            match o.operationType with
            | .TryUpdatePosition => offsetsFamily
            | .TryUpdatePositionBy => offsetsFamily
            | .TryUpdatePositionWithAnimation => offsetsFamily
            | .TryUpdateScale => zoomFamily
            | .TryUpdateScaleWithAnimation => zoomFamily
            | _ => true
          if accepted then some o
          else fromKindsScan s isOperationTypeForOffsetsChange operationTrigger viewKind options rest

/-- Most recent operation a controller request with the given trigger, view kind and
options can be merged into; none as soon as a non-canceled operation of another trigger is
met. -/
def GetInteractionTrackerOperationFromKinds (s : ScrollPresenter α)
    (isOperationTypeForOffsetsChange : Bool)
    (operationTrigger : InteractionTrackerAsyncOperationTrigger)
    (viewKind : ScrollPresenterViewKind) (options : Option ScrollingOptions) :
    Option (InteractionTrackerAsyncOperation α) :=
  s.fromKindsScan isOperationTypeForOffsetsChange operationTrigger viewKind options
    s.m_interactionTrackerAsyncOperations.reverse

/-- Assignment of the correlation ID at the end of the four request entry points that mint
a new ID whenever the caller asks for one. -/
def assignNewCorrelationId (s : ScrollPresenter α)
    (interactionTrackerAsyncOperation : InteractionTrackerAsyncOperation α)
    (viewChangeCorrelationId : Bool) : ScrollPresenter α × Option Int :=
  if viewChangeCorrelationId then
    let s1 := s.storeNextViewChangeCorrelationId
    (s1.updateOperation interactionTrackerAsyncOperation.id
        (fun o => o.SetViewChangeCorrelationId s1.m_latestViewChangeCorrelationId),
      some s1.m_latestViewChangeCorrelationId)
  else (s, none)

/-- The call `push_back` of a newly allocated operation. -/
def pushOperation (s : ScrollPresenter α)
    (interactionTrackerAsyncOperation : InteractionTrackerAsyncOperation α) : ScrollPresenter α :=
  { s with
    m_interactionTrackerAsyncOperations :=
      s.m_interactionTrackerAsyncOperations ++ [interactionTrackerAsyncOperation],
    allocatedOperations := s.allocatedOperations + 1 }

/-- The tick countdown given to a new operation: the default for a direct view change,
otherwise the largest countdown of the pending operations, at least 1. -/
def initialTicks (s : ScrollPresenter α)
    (operationTrigger : InteractionTrackerAsyncOperationTrigger)
    (interactionTrackerAsyncOperation : InteractionTrackerAsyncOperation α) :
    InteractionTrackerAsyncOperation α :=
  if operationTrigger ≠ .direct then
    interactionTrackerAsyncOperation.SetTicksCountdown
      (max 1 s.GetInteractionTrackerOperationsTicksCountdown)
  else interactionTrackerAsyncOperation

/-- Queues an offsets change.  The Boolean `viewChangeCorrelationId` tells whether the
caller passed the optional out-parameter; the second component is the value left in it.
The source leaves `operationType` unset when the computed animation mode is Auto, which
`GetComputedAnimationMode` never returns; that branch takes `TryUpdatePosition` here. -/
def ChangeOffsetsPrivate (s : ScrollPresenter α)
    (zoomedHorizontalOffset zoomedVerticalOffset : α) (offsetsKind : ScrollPresenterViewKind)
    (options : Option ScrollingOptions)
    (bringIntoViewRequestedEventArgs : Option (BringIntoViewData α))
    (operationTrigger : InteractionTrackerAsyncOperationTrigger)
    (existingViewChangeCorrelationId : Int) (viewChangeCorrelationId : Bool) :
    ScrollPresenter α × Option Int :=
  let noOp : Option Int := if viewChangeCorrelationId then some s_noOpCorrelationId else none
  let animationMode0 := match options with
    | some o => o.AnimationMode
    | none => s.constants.scrollDefaultAnimationMode
  let snapPointsMode := match options with
    | some o => o.SnapPointsMode
    | none => s.constants.scrollDefaultSnapPointsMode
  let animationMode := s.GetComputedAnimationMode animationMode0
  let operationType : InteractionTrackerAsyncOperationType :=
    match animationMode, offsetsKind with
    | .Disabled, .Absolute => .TryUpdatePosition
    | .Disabled, .RelativeToCurrentView => .TryUpdatePositionBy
    | .Enabled, _ => .TryUpdatePositionWithAnimation
    | .Auto, _ => .TryUpdatePosition
  if !s.Content then (s, noOp)
  else
    let delayOperation := !s.IsLoadedAndSetUp
    let isScrollControllerRequest :=
      operationTrigger.HorizontalScrollControllerRequest ||
        operationTrigger.VerticalScrollControllerRequest
    let optionsClone : Option ScrollingOptions :=
      if options.isSome && !isScrollControllerRequest then some ⟨animationMode, snapPointsMode⟩
      else none
    let s1 := if !delayOperation then s.CompleteDelayedOperations else s
    let storedOptions := match optionsClone with
      | some clone => some clone
      | none => options
    let offsetsChange : ViewChangeBase α :=
      .OffsetsChange zoomedHorizontalOffset zoomedVerticalOffset offsetsKind storedOptions
        (if operationTrigger.BringIntoViewRequest then bringIntoViewRequestedEventArgs else none)
    let interactionTrackerAsyncOperation :=
      s1.initialTicks operationTrigger
        (InteractionTrackerAsyncOperation.create s1.allocatedOperations operationType
          operationTrigger delayOperation offsetsChange
          s1.constants.c_maxNonAnimatedOperationTicks)
    let s2 := s1.pushOperation interactionTrackerAsyncOperation
    if viewChangeCorrelationId then
      if existingViewChangeCorrelationId ≠ s_noOpCorrelationId then
        (s2.updateOperation interactionTrackerAsyncOperation.id
            (fun o => o.SetViewChangeCorrelationId existingViewChangeCorrelationId),
          some existingViewChangeCorrelationId)
      else s2.assignNewCorrelationId interactionTrackerAsyncOperation true
    else if existingViewChangeCorrelationId ≠ s_noOpCorrelationId then
      (s2.updateOperation interactionTrackerAsyncOperation.id
          (fun o => o.SetViewChangeCorrelationId existingViewChangeCorrelationId), none)
    else (s2, none)

/-- Queues an offsets change with additional velocity. -/
def ChangeOffsetsWithAdditionalVelocityPrivate (s : ScrollPresenter α)
    (offsetsVelocity anticipatedOffsetsChange : α × α) (inertiaDecayRate : Option (α × α))
    (operationTrigger : InteractionTrackerAsyncOperationTrigger)
    (viewChangeCorrelationId : Bool) : ScrollPresenter α × Option Int :=
  let noOp : Option Int := if viewChangeCorrelationId then some s_noOpCorrelationId else none
  if !s.Content then (s, noOp)
  else
    let delayOperation := !s.IsLoadedAndSetUp
    let offsetsChangeWithAdditionalVelocity : ViewChangeBase α :=
      .OffsetsChangeWithAdditionalVelocity offsetsVelocity anticipatedOffsetsChange inertiaDecayRate
    let s1 := if !delayOperation then s.CompleteDelayedOperations else s
    let interactionTrackerAsyncOperation :=
      s1.initialTicks operationTrigger
        (InteractionTrackerAsyncOperation.create s1.allocatedOperations
          .TryUpdatePositionWithAdditionalVelocity operationTrigger delayOperation
          offsetsChangeWithAdditionalVelocity s1.constants.c_maxNonAnimatedOperationTicks)
    let s2 := s1.pushOperation interactionTrackerAsyncOperation
    s2.assignNewCorrelationId interactionTrackerAsyncOperation viewChangeCorrelationId

/-- Queues a zoom factor change and records its required prior operation.  The unset
`operationType` of the unreachable mode Auto is taken as `TryUpdateScale`. -/
def ChangeZoomFactorPrivate (s : ScrollPresenter α) (zoomFactor : α)
    (centerPoint : Option (α × α)) (zoomFactorKind : ScrollPresenterViewKind)
    (options : Option ScrollingOptions) (viewChangeCorrelationId : Bool) :
    ScrollPresenter α × Option Int :=
  let noOp : Option Int := if viewChangeCorrelationId then some s_noOpCorrelationId else none
  if !s.Content then (s, noOp)
  else
    let animationMode0 := match options with
      | some o => o.AnimationMode
      | none => s.constants.zoomDefaultAnimationMode
    let snapPointsMode := match options with
      | some o => o.SnapPointsMode
      | none => s.constants.zoomDefaultSnapPointsMode
    let animationMode := s.GetComputedAnimationMode animationMode0
    let operationType : InteractionTrackerAsyncOperationType :=
      match animationMode with
      | .Disabled => .TryUpdateScale
      | .Enabled => .TryUpdateScaleWithAnimation
      | .Auto => .TryUpdateScale
    let delayOperation := !s.IsLoadedAndSetUp
    let optionsClone : Option ScrollingOptions :=
      if options.isSome then some ⟨animationMode, snapPointsMode⟩ else none
    let s1 := if !delayOperation then s.CompleteDelayedOperations else s
    let storedOptions := match optionsClone with
      | some clone => some clone
      | none => options
    let zoomFactorChange : ViewChangeBase α :=
      .ZoomFactorChange zoomFactor centerPoint zoomFactorKind storedOptions
    let interactionTrackerAsyncOperation :=
      InteractionTrackerAsyncOperation.create s1.allocatedOperations operationType .direct
        delayOperation zoomFactorChange s1.constants.c_maxNonAnimatedOperationTicks
    let s2 := s1.pushOperation interactionTrackerAsyncOperation
    let required := s2.GetLastNonAnimatedInteractionTrackerOperation interactionTrackerAsyncOperation
    let s3 := s2.updateOperation interactionTrackerAsyncOperation.id
      (fun o => o.SetRequiredOperation (required.map (fun r => r.id)))
    s3.assignNewCorrelationId interactionTrackerAsyncOperation viewChangeCorrelationId

/-- Queues a zoom factor change with additional velocity. -/
def ChangeZoomFactorWithAdditionalVelocityPrivate (s : ScrollPresenter α)
    (zoomFactorVelocity anticipatedZoomFactorChange : α) (centerPoint : Option (α × α))
    (inertiaDecayRate : Option α) (operationTrigger : InteractionTrackerAsyncOperationTrigger)
    (viewChangeCorrelationId : Bool) : ScrollPresenter α × Option Int :=
  let noOp : Option Int := if viewChangeCorrelationId then some s_noOpCorrelationId else none
  if !s.Content then (s, noOp)
  else
    let delayOperation := !s.IsLoadedAndSetUp
    let zoomFactorChangeWithAdditionalVelocity : ViewChangeBase α :=
      .ZoomFactorChangeWithAdditionalVelocity zoomFactorVelocity anticipatedZoomFactorChange
        centerPoint inertiaDecayRate
    let s1 := if !delayOperation then s.CompleteDelayedOperations else s
    let interactionTrackerAsyncOperation :=
      s1.initialTicks operationTrigger
        (InteractionTrackerAsyncOperation.create s1.allocatedOperations
          .TryUpdateScaleWithAdditionalVelocity operationTrigger delayOperation
          zoomFactorChangeWithAdditionalVelocity s1.constants.c_maxNonAnimatedOperationTicks)
    let s2 := s1.pushOperation interactionTrackerAsyncOperation
    s2.assignNewCorrelationId interactionTrackerAsyncOperation viewChangeCorrelationId

/-- The value a public request method returns: what the entry point left in the
out-parameter it was given. -/
def returnedCorrelationId (r : ScrollPresenter α × Option Int) : ScrollPresenter α × Int :=
  (r.1, r.2.getD s_noOpCorrelationId)

/-- Public method `ScrollTo`. -/
def ScrollTo (s : ScrollPresenter α) (horizontalOffset verticalOffset : α)
    (options : Option ScrollingOptions) : ScrollPresenter α × Int :=
  returnedCorrelationId
    (s.ChangeOffsetsPrivate horizontalOffset verticalOffset .Absolute options none .direct
      s_noOpCorrelationId true)

/-- Public method `ScrollBy`. -/
def ScrollBy (s : ScrollPresenter α) (horizontalOffsetDelta verticalOffsetDelta : α)
    (options : Option ScrollingOptions) : ScrollPresenter α × Int :=
  returnedCorrelationId
    (s.ChangeOffsetsPrivate horizontalOffsetDelta verticalOffsetDelta .RelativeToCurrentView
      options none .direct s_noOpCorrelationId true)

/-- Public method `AddScrollVelocity`. -/
def AddScrollVelocity [Zero α] (s : ScrollPresenter α) (offsetsVelocity : α × α)
    (inertiaDecayRate : Option (α × α)) : ScrollPresenter α × Int :=
  returnedCorrelationId
    (s.ChangeOffsetsWithAdditionalVelocityPrivate offsetsVelocity (0, 0) inertiaDecayRate
      .direct true)

/-- Public method `ZoomTo`. -/
def ZoomTo (s : ScrollPresenter α) (zoomFactor : α) (centerPoint : Option (α × α))
    (options : Option ScrollingOptions) : ScrollPresenter α × Int :=
  returnedCorrelationId (s.ChangeZoomFactorPrivate zoomFactor centerPoint .Absolute options true)

/-- Public method `ZoomBy`. -/
def ZoomBy (s : ScrollPresenter α) (zoomFactorDelta : α) (centerPoint : Option (α × α))
    (options : Option ScrollingOptions) : ScrollPresenter α × Int :=
  returnedCorrelationId
    (s.ChangeZoomFactorPrivate zoomFactorDelta centerPoint .RelativeToCurrentView options true)

/-- Public method `AddZoomVelocity`. -/
def AddZoomVelocity [Zero α] (s : ScrollPresenter α) (zoomFactorVelocity : α)
    (centerPoint : Option (α × α)) (inertiaDecayRate : Option α) : ScrollPresenter α × Int :=
  returnedCorrelationId
    (s.ChangeZoomFactorWithAdditionalVelocityPrivate zoomFactorVelocity 0 centerPoint
      inertiaDecayRate .direct true)

/-- The in-place merge of a controller delta into a queued offsets change. -/
def addOffsetDelta [Add α] (isFromHorizontalScrollController : Bool) (OffsetDelta : α) :
    ViewChangeBase α → ViewChangeBase α
  | .OffsetsChange h v k o b =>
    if isFromHorizontalScrollController then .OffsetsChange (h + OffsetDelta) v k o b
    else .OffsetsChange h (v + OffsetDelta) k o b
  | other => other

/-- Handler of the scroll controller event ScrollByRequested.  The second component is the
correlation ID written back to the event arguments, none when nothing is written. -/
def OnScrollControllerScrollByRequested [Add α] [Zero α] (s : ScrollPresenter α)
    (isFromHorizontalScrollController : Bool) (OffsetDelta : α)
    (Options : Option ScrollingOptions) : ScrollPresenter α × Option Int :=
  let found := s.GetInteractionTrackerOperationFromKinds true
    (InteractionTrackerAsyncOperationTrigger.horizontal.union .vertical)
    .RelativeToCurrentView Options
  let result : ScrollPresenter α × Int :=
    match found with
    | none =>
      returnedCorrelationId
        (s.ChangeOffsetsPrivate
          (if isFromHorizontalScrollController then OffsetDelta else 0)
          (if isFromHorizontalScrollController then 0 else OffsetDelta)
          .RelativeToCurrentView Options none
          (if isFromHorizontalScrollController then .horizontal else .vertical)
          s_noOpCorrelationId true)
    | some interactionTrackerAsyncOperation =>
      let existingViewChangeCorrelationId := interactionTrackerAsyncOperation.viewChangeCorrelationId
      (s.updateOperation interactionTrackerAsyncOperation.id
          (fun o =>
            let o1 := o.SetIsScrollControllerRequest isFromHorizontalScrollController
            { o1 with viewChangeBase :=
                o1.viewChangeBase.map (addOffsetDelta isFromHorizontalScrollController OffsetDelta) }),
        existingViewChangeCorrelationId)
  (result.1, if result.2 ≠ s_noOpCorrelationId then some result.2 else none)

/-- A run of consecutive ScrollByRequested events from one scroll controller, each with
its delta and its options object; the second component lists the correlation IDs reported,
in order. -/
def scrollByRequests [Add α] [Zero α] (isFromHorizontalScrollController : Bool) :
    ScrollPresenter α → List (α × Option ScrollingOptions) → ScrollPresenter α × List (Option Int)
  | s, [] => (s, [])
  | s, request :: requests =>
    let r := s.OnScrollControllerScrollByRequested isFromHorizontalScrollController
      request.1 request.2
    let rest := scrollByRequests isFromHorizontalScrollController r.1 requests
    (rest.1, r.2 :: rest.2)

/-- The animation mode and snap-points mode a scroll options object stands for, an absent
object standing for the defaults. -/
def scrollModes (constants : HeaderConstants) (options : Option ScrollingOptions) :
    ScrollingAnimationMode × ScrollingSnapPointsMode :=
  match options with
  | some o => (o.AnimationMode, o.SnapPointsMode)
  | none => (constants.scrollDefaultAnimationMode, constants.scrollDefaultSnapPointsMode)

/-- The motion-engine requests made so far, oldest first. -/
def interactionTrackerRequests (s : ScrollPresenter α) : List Effect :=
  s.trace.filter (fun e => match e with
    | .InteractionTrackerRequest _ _ _ => true
    | _ => false)

/-- Dereferences a shared pointer to an operation: the queued object with that identity
or, once the object has left the queue, the object as `CompleteViewChange` left it. -/
def lookupOperation (s : ScrollPresenter α) (id : Nat) :
    Option (InteractionTrackerAsyncOperation α) :=
  match s.m_interactionTrackerAsyncOperations.find? (fun o => o.id == id) with
  | some o => some o
  | none => (s.completedViewChanges.reverse.find? (fun e => e.1.id == id)).map (fun e => e.1)

/-- Hands a dequeued operation to the motion engine and records the request ID the engine
returns.  The engine is external: `tracker n` is the ID it returns for its request number
`n`.  The resolution of the payload by `ProcessOffsetsChange` and
`ProcessZoomFactorChange` (anticipated view, snap points, Starting events) neither reads nor
writes the queue and is not part of this definition. -/
def ProcessDequeuedViewChange (s : ScrollPresenter α) (tracker : Nat → Int)
    (interactionTrackerAsyncOperation : InteractionTrackerAsyncOperation α) : ScrollPresenter α :=
  let requestId := tracker s.interactionTrackerRequests.length
  let s1 := ({ s with m_latestInteractionTrackerRequest := requestId }).emit
    (.InteractionTrackerRequest interactionTrackerAsyncOperation.id
      interactionTrackerAsyncOperation.operationType requestId)
  s1.updateOperation interactionTrackerAsyncOperation.id
    (fun o => o.SetRequestId s1.m_latestInteractionTrackerRequest)

/-- Body of the loop of `OnCompositionTargetRendering` for one operation; the Boolean is
the local flag `delayProcessingViewChanges`.  A required operation whose object cannot be
found (which shared ownership rules out) counts as completed. -/
def tickStep (tracker : Nat → Int) (st : ScrollPresenter α × Bool)
    (interactionTrackerAsyncOperation : InteractionTrackerAsyncOperation α) :
    ScrollPresenter α × Bool :=
  let s := st.1
  let delayProcessingViewChanges := st.2
  if interactionTrackerAsyncOperation.isDelayed then
    (s.updateOperation interactionTrackerAsyncOperation.id (fun o => o.SetIsDelayed false),
      delayProcessingViewChanges)
  else if interactionTrackerAsyncOperation.IsQueued then
    let decision : ScrollPresenter α × Bool :=
      if !delayProcessingViewChanges && interactionTrackerAsyncOperation.GetTicksCountdown == 1 then
        match interactionTrackerAsyncOperation.requiredOperation with
        | none => (s, delayProcessingViewChanges)
        | some requiredInteractionTrackerAsyncOperation =>
          let pending : Bool :=
            match s.lookupOperation requiredInteractionTrackerAsyncOperation with
            | some required => !required.isCanceled && !required.isCompleted
            | none => false
          if pending then (s, true)
          else
            let older := s.GetLastNonAnimatedInteractionTrackerOperation
              interactionTrackerAsyncOperation
            (s.updateOperation interactionTrackerAsyncOperation.id
                (fun o => o.SetRequiredOperation (older.map (fun r => r.id))),
              delayProcessingViewChanges || older.isSome)
      else (s, delayProcessingViewChanges)
    if decision.2 then
      ((if interactionTrackerAsyncOperation.GetTicksCountdown > 1 then
          decision.1.updateOperation interactionTrackerAsyncOperation.id (fun o => o.TickQueuedOperation)
        else decision.1), decision.2)
    else
      let s2 := decision.1.updateOperation interactionTrackerAsyncOperation.id
        (fun o => o.TickQueuedOperation)
      if interactionTrackerAsyncOperation.TickQueuedOperation.preProcessingTicksCountdown == 0 then
        (s2.ProcessDequeuedViewChange tracker interactionTrackerAsyncOperation, decision.2)
      else (s2, decision.2)
  else if !interactionTrackerAsyncOperation.IsAnimated then
    let s1 := s.updateOperation interactionTrackerAsyncOperation.id
      (fun o => o.TickNonAnimatedOperation)
    if interactionTrackerAsyncOperation.TickNonAnimatedOperation.postProcessingTicksCountdown == 0 then
      let s2 := s1.CompleteViewChange interactionTrackerAsyncOperation.TickNonAnimatedOperation
        .Completed
      let s3 := s2.removeOperation interactionTrackerAsyncOperation
      ((if s3.m_interactionTrackerAsyncOperations.isEmpty then s3.ResetAnticipatedView else s3),
        delayProcessingViewChanges)
    else (s1, delayProcessingViewChanges)
  else st

/-- The tick handler: walks the queue in order, clearing delays, counting down, deferring
to required operations, dispatching, and force-completing dispatched non-animated
operations. -/
def OnCompositionTargetRendering (s : ScrollPresenter α) (tracker : Nat → Int) :
    ScrollPresenter α :=
  if !s.m_interactionTrackerAsyncOperations.isEmpty && s.IsLoaded then
    (s.m_interactionTrackerAsyncOperations.foldl (tickStep tracker) (s, false)).1
  else s

/-- The test `complete` of the sweep body. -/
def sweepCompletes (requestId : Int)
    (completeNonAnimatedOperation completeAnimatedOperation
      completePriorNonAnimatedOperations completePriorAnimatedOperations : Bool)
    (o : InteractionTrackerAsyncOperation α) : Bool :=
  let isMatch : Bool := requestId == -1 || requestId == o.requestId
  let isPriorMatch : Bool := decide (requestId > o.requestId) && (-1 : Int) != o.requestId
  (isMatch && completeNonAnimatedOperation && !o.IsAnimated) ||
  (isMatch && completeAnimatedOperation && o.IsAnimated) ||
  (isPriorMatch && completePriorNonAnimatedOperations && !o.IsAnimated) ||
  (isPriorMatch && completePriorAnimatedOperations && o.IsAnimated)

/-- The result the sweep body hands to `CompleteViewChange`. -/
def sweepResult (requestId : Int)
    (operationResult priorNonAnimatedOperationsResult priorAnimatedOperationsResult :
      ScrollPresenterViewChangeResult)
    (o : InteractionTrackerAsyncOperation α) : ScrollPresenterViewChangeResult :=
  if requestId == -1 || requestId == o.requestId then operationResult
  else if o.IsAnimated then priorAnimatedOperationsResult
  else priorNonAnimatedOperationsResult


/-- A sample operation over integer payloads: direct trigger, dispatched with the given
request ID, no payload. -/
def sampleOperation (id : Nat) (operationType : InteractionTrackerAsyncOperationType)
    (requestId viewChangeCorrelationId : Int) : InteractionTrackerAsyncOperation Int :=
  { id := id, operationType := operationType, operationTrigger := .direct,
    isDelayed := false, isCanceled := false, isCompleted := false,
    preProcessingTicksCountdown := 0, queuedOperationTicks := 3,
    postProcessingTicksCountdown := 2, requestId := requestId,
    viewChangeCorrelationId := viewChangeCorrelationId,
    requiredOperation := none, viewChangeBase := none }

/-- A sample presenter over integer payloads: loaded, with content, tracker and listeners,
holding the given queue. -/
def samplePresenter (queue : List (InteractionTrackerAsyncOperation Int)) : ScrollPresenter Int :=
  { m_interactionTrackerAsyncOperations := queue, m_latestViewChangeCorrelationId := 7,
    m_latestInteractionTrackerRequest := 9, m_state := .Idle,
    m_anticipatedZoomedHorizontalOffset := none, m_anticipatedZoomedVerticalOffset := none,
    m_anticipatedZoomFactor := none, PositionInertiaDecayRate := none,
    ScaleInertiaDecayRate := none, Content := true, IsLoaded := true,
    m_interactionTracker := true, m_scrollCompletedEventSource := true,
    m_zoomCompletedEventSource := true, m_stateChangedEventSource := true,
    m_horizontalScrollController := true, m_verticalScrollController := true,
    isAnimationsEnabled := true,
    constants := ⟨10, .Auto, .Default, .Auto, .Default⟩, allocatedOperations := 10,
    completedViewChanges := [], trace := [] }

/-- A sample queue: a non-animated offsets change dispatched as request 1, an animated zoom
factor change dispatched as request 2 and an offsets change that is not dispatched yet. -/
def sampleQueue : List (InteractionTrackerAsyncOperation Int) :=
  [sampleOperation 0 .TryUpdatePosition 1 1,
   sampleOperation 1 .TryUpdateScaleWithAnimation 2 2,
   { sampleOperation 2 .TryUpdatePositionBy (-1) 3 with preProcessingTicksCountdown := 3 }]

/-- The sample presenter with the sample queue and no content attached. -/
def sampleNoContent : ScrollPresenter Int :=
  { samplePresenter sampleQueue with Content := false }

/-- A dispatched non-animated offsets change, required by `sampleDeferred`. -/
def sampleRequired : InteractionTrackerAsyncOperation Int :=
  sampleOperation 0 .TryUpdatePosition 1 1

/-- A queued zoom factor change at its last tick that requires `sampleRequired`. -/
def sampleDeferred : InteractionTrackerAsyncOperation Int :=
  { sampleOperation 1 .TryUpdateScale (-1) 2 with
    preProcessingTicksCountdown := 1, requiredOperation := some 0 }

/-- A queued offsets change at its last tick, located after `sampleDeferred`. -/
def sampleFollower : InteractionTrackerAsyncOperation Int :=
  { sampleOperation 2 .TryUpdatePositionBy (-1) 3 with preProcessingTicksCountdown := 1 }

/-- A motion engine that numbers its requests from 2. -/
def sampleTracker : Nat → Int := fun n => n + 2

/-- A sample queue with a delayed offsets change in front of a dispatched animated zoom
factor change and a delayed zoom factor change. -/
def sampleDelayedQueue : List (InteractionTrackerAsyncOperation Int) :=
  [{ sampleOperation 0 .TryUpdatePosition (-1) 1 with
      isDelayed := true, preProcessingTicksCountdown := 3 },
   sampleOperation 1 .TryUpdateScaleWithAnimation 2 2,
   { sampleOperation 2 .TryUpdateScale (-1) 3 with
      isDelayed := true, preProcessingTicksCountdown := 3 }]

end ScrollPresenter

/-! ## Machine arithmetic

The offsets, sizes and zoom factors of the presenter are IEEE 754 numbers (`double` and
`float`) and the durations of its animations are `int64_t` integers.  This section models
the finite numbers of those formats and the operations the presenter applies to them,
rounding included. -/

/-- The value of an `int64_t` computation whose mathematical result is `x`: the result
modulo `2^64`, taken between `-2^63` and `2^63 - 1`.  The C++ standard leaves signed
overflow undefined; the model returns what the two's complement arithmetic of the
processor returns. -/
def wrapInt64 (x : Int) : Int :=
  (x + 9223372036854775808) % 18446744073709551616 - 9223372036854775808

/-- The nearest integer to `n / d`, ties to the even integer (`d` positive). -/
def roundHalfEven (n d : Nat) : Nat :=
  let q := n / d
  let r := n % d
  if 2 * r < d then q
  else if d < 2 * r then q + 1
  else if q % 2 = 0 then q else q + 1

/-- The number of binary digits of `n` added to `digits`, by at most `fuel` halvings. -/
def bitLengthAux : Nat → Nat → Nat → Nat
  | 0, _, digits => digits
  | fuel + 1, n, digits => if n = 0 then digits else bitLengthAux fuel (n / 2) (digits + 1)

/-- The number of binary digits of `n`: 0 for 0, otherwise the `k` with
`2 ^ (k - 1) ≤ n < 2 ^ k`. -/
def bitLength (n : Nat) : Nat := bitLengthAux n n 0

/-- Rounding to nearest, ties to even, of the rational `num / den` (`den` positive) to a
number with at most `precision` significant binary digits that is a multiple of
`2 ^ quantum`.  The exponent range is not bounded above. -/
def roundNearestEven (precision quantum : Nat) (num : Int) (den : Nat) : Int :=
  let n := num.natAbs
  let e := quantum + (bitLength (n / (den * 2 ^ quantum)) - precision)
  let m := roundHalfEven n (den * 2 ^ e) * 2 ^ e
  if num < 0 then -(m : Int) else (m : Int)

/-- The integer part of the square root of `n`, found one binary digit at a time from the
digit of weight `2 ^ digits` down: `root` holds the digits found so far. -/
def integerSqrt (n : Nat) : Nat → Nat → Nat
  | 0, root => if (root + 1) * (root + 1) ≤ n then root + 1 else root
  | digits + 1, root =>
    if (root + 2 ^ (digits + 1)) * (root + 2 ^ (digits + 1)) ≤ n then
      integerSqrt n digits (root + 2 ^ (digits + 1))
    else integerSqrt n digits root

/-- A finite `double` (IEEE 754 binary64) number: the value is `units * 2 ^ (-1074)`, a
multiple of the smallest positive `double`.  The numbers of the format are the multiples
with at most 53 significant binary digits below `2 ^ 1024`; the operations below round
their exact result to nearest, ties to even, as the processor does.  Infinities and NaN are
not values of this type: the exponent range is not bounded above, so the model agrees with
the format as long as no result reaches `2 ^ 1024` and no division is by zero.  A `float`
(binary32) number is the `double` of the same value, see `toSingle`. -/
structure Double where
  units : Int
  deriving DecidableEq

namespace Double

/-- The exponent of the unit: a `double` is a multiple of `2 ^ (-1074)`. -/
def unitExponent : Nat := 1074

/-- The `double` nearest to `num / den` (`den` positive). -/
def ofRatio (num : Int) (den : Nat) : Double :=
  ⟨roundNearestEven 53 0 (num * 2 ^ unitExponent) den⟩

/-- Conversion of an integer to `double`. -/
def ofInt (n : Int) : Double := ofRatio n 1

/-- The rational value of a `double`. -/
def toRat (a : Double) : ℚ := (a.units : ℚ) / 2 ^ unitExponent

/-- The comparisons of `double` numbers are those of their values. -/
instance : LinearOrder Double :=
  LinearOrder.lift' Double.units (fun a b h => by cases a; cases b; simp_all)

instance : Zero Double := ⟨⟨0⟩⟩

/-- Sum of two `double` numbers. -/
instance : Add Double := ⟨fun a b => ⟨roundNearestEven 53 0 (a.units + b.units) 1⟩⟩

/-- Difference of two `double` numbers. -/
instance : Sub Double := ⟨fun a b => ⟨roundNearestEven 53 0 (a.units - b.units) 1⟩⟩

/-- Product of two `double` numbers. -/
instance : Mul Double :=
  ⟨fun a b => ⟨roundNearestEven 53 0 (a.units * b.units) (2 ^ unitExponent)⟩⟩

/-- Negation, which is exact. -/
instance : Neg Double := ⟨fun a => ⟨-a.units⟩⟩

/-- Quotient of two `double` numbers.  A division by zero gives an infinity or NaN in the
format and is outside the model, which returns 0. -/
instance : Div Double :=
  ⟨fun a b =>
    if b.units = 0 then ⟨0⟩
    else if b.units < 0 then ⟨roundNearestEven 53 0 (-(a.units * 2 ^ unitExponent)) b.units.natAbs⟩
    else ⟨roundNearestEven 53 0 (a.units * 2 ^ unitExponent) b.units.natAbs⟩⟩

/-- Absolute value `abs`, which is exact. -/
def abs (a : Double) : Double := ⟨(a.units.natAbs : Int)⟩

/-- The call `pow (a, 2.0)`, taken as the correctly rounded square of `a`. -/
def powTwo (a : Double) : Double := a * a

/-- Square root `sqrt` of a `double` that is not negative, correctly rounded: the result is
`m * 2 ^ e` units where `m` is the integer nearest to `sqrt (units * 2 ^ 1074) / 2 ^ e` and
has 53 binary digits.  The square root of a negative number is NaN in the format and is
outside the model, which returns 0. -/
def sqrt (a : Double) : Double :=
  if a.units ≤ 0 then ⟨0⟩
  else
    let n := a.units.natAbs * 2 ^ unitExponent
    let e := bitLength (integerSqrt n (bitLength n / 2) 0) - 53
    let m := integerSqrt (n / 4 ^ e) (bitLength n / 2) 0
    let m1 := if (2 * m + 1) * (2 * m + 1) * 4 ^ e ≤ 4 * n then m + 1 else m
    ⟨((m1 * 2 ^ e : Nat) : Int)⟩

/-- Conversion `static_cast<float>` to the nearest `float` (IEEE 754 binary32) number: 24
significant binary digits, multiples of `2 ^ (-149)`. -/
def toSingle (a : Double) : Double :=
  ⟨roundNearestEven 24 (unitExponent - 149) a.units 1⟩

/-- Difference of two `float` numbers, rounded to `float`. -/
def subSingle (a b : Double) : Double :=
  ⟨roundNearestEven 24 (unitExponent - 149) (a.units - b.units) 1⟩

/-- Conversion `static_cast<int64_t>`: the fractional part is discarded.  For a value
outside the range of `int64_t` the C++ standard leaves the result undefined; the model
returns what the conversion instruction of x86-64 processors returns, `-2^63`. -/
def toInt64 (a : Double) : Int :=
  let t : Int :=
    if a.units < 0 then -((a.units.natAbs / 2 ^ unitExponent : Nat) : Int)
    else ((a.units.natAbs / 2 ^ unitExponent : Nat) : Int)
  if -9223372036854775808 ≤ t ∧ t < 9223372036854775808 then t else -9223372036854775808

end Double

/-! ## Resolution of dequeued requests

The functions below embed what `ProcessOffsetsChange`, `ProcessZoomFactorChange` and their
additional-velocity overloads do with the payload of a request: resolution of the target,
snap points, anticipated view, inertia decay rates and the request made of the motion
engine.  The arithmetic on `double` and `float` values is carried out in a type `α` of
numbers.  The functions that resolve the anticipated view take `α` a linearly ordered ring
(with a division where the code divides), that is, exact arithmetic: rounding, the casts
between `float` and `double`, infinities and NaN operands are outside that part of the
embedding.  The durations of the animations are computed on the machine numbers of the
previous section.  `std::max`, `std::min` and `std::clamp` are spelled out with the
comparisons the C++ library makes. -/

/-- Modelled from the spec: a consolidated snap point of the absent header
`SnapPointWrapper.h`, reduced to what `ComputeValueAfterSnapPoints` calls: the bounds of
the zone in which it applies and the value it snaps a candidate to. -/
structure SnapPointWrapper (α : Type) where
  ActualApplicableZone : α × α
  Evaluate : α → α

/-- The members of the presenter that the resolution of a request reads and never writes:
the confirmed view, the extent, the viewport, the layout offsets of the content, the three
sorted sets of consolidated snap points (in set order) and the registrations of listeners
of the Starting events. -/
structure ScrollPresenterView (α : Type) where
  m_zoomedHorizontalOffset : α
  m_zoomedVerticalOffset : α
  m_zoomFactor : α
  m_unzoomedExtentWidth : α
  m_unzoomedExtentHeight : α
  m_viewportWidth : α
  m_viewportHeight : α
  m_contentLayoutOffsetX : α
  m_contentLayoutOffsetY : α
  m_sortedConsolidatedHorizontalSnapPoints : List (SnapPointWrapper α)
  m_sortedConsolidatedVerticalSnapPoints : List (SnapPointWrapper α)
  m_sortedConsolidatedZoomSnapPoints : List (SnapPointWrapper α)
  m_scrollStartingEventSource : Bool
  m_zoomStartingEventSource : Bool

/-- The two dimensions `UpdateAnticipatedOffset` is called with. -/
inductive ScrollPresenterDimension
  | HorizontalScroll
  | VerticalScroll
  deriving DecidableEq

/-- What the resolution of a request asks of the motion engine and the Starting event it
raises.  Offsets handed to `TryUpdatePosition` and to the position animation are recorded
before `ComputePositionFromOffsets` translates them into engine coordinates. -/
inductive ProcessingEffect (α : Type)
  | TryUpdatePositionBy (amount : α × α)
  | TryUpdatePosition (zoomedOffsets : α × α)
  | TryUpdatePositionWithAnimation (zoomedOffsets : α × α)
  | TryUpdatePositionWithAdditionalVelocity (velocityInPixelsPerSecond : α × α)
  | TryUpdateScale (value : α) (centerPoint : α × α)
  | TryUpdateScaleWithAnimation (value : α) (centerPoint : α × α)
  | TryUpdateScaleWithAdditionalVelocity (velocityInPercentPerSecond : α) (centerPoint : α × α)
  | ScrollStarting (correlationId : Int) (horizontalOffset verticalOffset zoomFactor : α)
  | ZoomStarting (correlationId : Int) (horizontalOffset verticalOffset zoomFactor : α)
  deriving DecidableEq

namespace ScrollPresenter

variable {α : Type}

/-- The C++ `std::max (a, b)`: `(a < b) ? b : a`. -/
def stdMax [LinearOrder α] (a b : α) : α := if a < b then b else a

/-- The C++ `std::min (a, b)`: `(b < a) ? b : a`. -/
def stdMin [LinearOrder α] (a b : α) : α := if b < a then b else a

/-- The C++ `std::clamp (v, lo, hi)`: `(v < lo) ? lo : (hi < v) ? hi : v`. -/
def stdClamp [LinearOrder α] (v lo hi : α) : α := if v < lo then lo else if hi < v then hi else v

/-- The anticipated horizontal offset, or the confirmed one while the anticipated one is
NaN. -/
def AnticipatedZoomedHorizontalOffset (s : ScrollPresenter α) (view : ScrollPresenterView α) : α :=
  match s.m_anticipatedZoomedHorizontalOffset with
  | none => view.m_zoomedHorizontalOffset
  | some anticipated => anticipated

/-- The anticipated vertical offset, or the confirmed one while the anticipated one is
NaN. -/
def AnticipatedZoomedVerticalOffset (s : ScrollPresenter α) (view : ScrollPresenterView α) : α :=
  match s.m_anticipatedZoomedVerticalOffset with
  | none => view.m_zoomedVerticalOffset
  | some anticipated => anticipated

/-- The anticipated zoom factor, or the confirmed one while the anticipated one is NaN. -/
def AnticipatedZoomFactor (s : ScrollPresenter α) (view : ScrollPresenterView α) : α :=
  match s.m_anticipatedZoomFactor with
  | none => view.m_zoomFactor
  | some anticipated => anticipated

/-- Scrollable width at the anticipated zoom factor. -/
def AnticipatedScrollableWidth [LinearOrderedRing α] (s : ScrollPresenter α)
    (view : ScrollPresenterView α) : α :=
  stdMax 0 (view.m_unzoomedExtentWidth * s.AnticipatedZoomFactor view - view.m_viewportWidth)

/-- Scrollable height at the anticipated zoom factor. -/
def AnticipatedScrollableHeight [LinearOrderedRing α] (s : ScrollPresenter α)
    (view : ScrollPresenterView α) : α :=
  stdMax 0 (view.m_unzoomedExtentHeight * s.AnticipatedZoomFactor view - view.m_viewportHeight)

/-- Stores an anticipated offset; NaN is `none`.  The test for a change in the source only
guards a trace statement and an assignment of an equal value. -/
def UpdateAnticipatedOffset (s : ScrollPresenter α) (dimension : ScrollPresenterDimension)
    (zoomedOffset : Option α) : ScrollPresenter α :=
  match dimension with
  | .HorizontalScroll => { s with m_anticipatedZoomedHorizontalOffset := zoomedOffset }
  | .VerticalScroll => { s with m_anticipatedZoomedVerticalOffset := zoomedOffset }

/-- Stores the anticipated zoom factor; NaN is `none`. -/
def UpdateAnticipatedZoomFactor (s : ScrollPresenter α) (zoomFactor : Option α) :
    ScrollPresenter α :=
  { s with m_anticipatedZoomFactor := zoomFactor }

/-- Evaluates what a value becomes once the snap points are applied: the walk over the set
returns the evaluation by the first snap point whose applicable zone holds the value. -/
def ComputeValueAfterSnapPoints [LinearOrder α] (value : α) :
    List (SnapPointWrapper α) → α
  | [] => value
  | snapPointWrapper :: rest =>
    if snapPointWrapper.ActualApplicableZone.1 ≤ value ∧
        snapPointWrapper.ActualApplicableZone.2 ≥ value then
      snapPointWrapper.Evaluate value
    else ComputeValueAfterSnapPoints value rest

/-- Raises ScrollStarting when a listener is registered. -/
def RaiseScrollStarting (view : ScrollPresenterView α) (offsetsChangeCorrelationId : Int)
    (anticipatedHorizontalOffset anticipatedVerticalOffset anticipatedZoomFactor : α) :
    List (ProcessingEffect α) :=
  if view.m_scrollStartingEventSource then
    [.ScrollStarting offsetsChangeCorrelationId anticipatedHorizontalOffset
      anticipatedVerticalOffset anticipatedZoomFactor]
  else []

/-- Raises ZoomStarting when a listener is registered. -/
def RaiseZoomStarting (view : ScrollPresenterView α) (zoomFactorChangeCorrelationId : Int)
    (anticipatedHorizontalOffset anticipatedVerticalOffset anticipatedZoomFactor : α) :
    List (ProcessingEffect α) :=
  if view.m_zoomStartingEventSource then
    [.ZoomStarting zoomFactorChangeCorrelationId anticipatedHorizontalOffset
      anticipatedVerticalOffset anticipatedZoomFactor]
  else []

/-- Launches the motion-engine request of an offsets change.  `requestId` is the ID the
engine returns for the request.  `ComputeBringIntoViewUpdatedTargetOffsets` stands for the
re-evaluation of the target of a bring-into-view request from the current layout.  The
parameter `isForAsyncOperation` of the source only decides whether the Rendering event is
hooked and is left out.  The computed animation mode is never Auto; the `switch` of the
source has no `case` for it. -/
def ProcessOffsetsChange [LinearOrderedRing α] (s : ScrollPresenter α)
    (view : ScrollPresenterView α)
    (ComputeBringIntoViewUpdatedTargetOffsets :
      BringIntoViewData α → ScrollingSnapPointsMode → α × α)
    (operationTrigger : InteractionTrackerAsyncOperationTrigger)
    (ZoomedHorizontalOffset ZoomedVerticalOffset : α) (ViewKind : ScrollPresenterViewKind)
    (Options : Option ScrollingOptions)
    (bringIntoViewOffsetsChange : Option (BringIntoViewData α))
    (offsetsChangeCorrelationId : Int) (requestId : Int) :
    ScrollPresenter α × List (ProcessingEffect α) :=
  let animationMode0 := match Options with
    | some o => o.AnimationMode
    | none => s.constants.scrollDefaultAnimationMode
  let snapPointsMode := match Options with
    | some o => o.SnapPointsMode
    | none => s.constants.scrollDefaultSnapPointsMode
  let animationMode := s.GetComputedAnimationMode animationMode0
  let requested : α × α :=
    if operationTrigger.BringIntoViewRequest && s.Content then
      match bringIntoViewOffsetsChange with
      | some bringIntoView => ComputeBringIntoViewUpdatedTargetOffsets bringIntoView snapPointsMode
      | none => (ZoomedHorizontalOffset, ZoomedVerticalOffset)
    else (ZoomedHorizontalOffset, ZoomedVerticalOffset)
  let anticipatedZoomedHorizontalOffset := s.AnticipatedZoomedHorizontalOffset view
  let anticipatedZoomedVerticalOffset := s.AnticipatedZoomedVerticalOffset view
  let resolved : α × α :=
    match ViewKind with
    | .RelativeToCurrentView =>
      if snapPointsMode = .Default ∨ animationMode = .Enabled then
        (requested.1 + anticipatedZoomedHorizontalOffset,
          requested.2 + anticipatedZoomedVerticalOffset)
      else requested
    | .Absolute => requested
  let zoomedHorizontalOffset :=
    if snapPointsMode = .Default then
      ComputeValueAfterSnapPoints resolved.1 view.m_sortedConsolidatedHorizontalSnapPoints
    else resolved.1
  let zoomedVerticalOffset :=
    if snapPointsMode = .Default then
      ComputeValueAfterSnapPoints resolved.2 view.m_sortedConsolidatedVerticalSnapPoints
    else resolved.2
  match animationMode with
  | .Disabled =>
    let s1 := { s with m_latestInteractionTrackerRequest := requestId }
    if ViewKind = .RelativeToCurrentView ∧ snapPointsMode = .Ignore then
      let s2 :=
        if zoomedHorizontalOffset ≠ 0 then
          s1.UpdateAnticipatedOffset .HorizontalScroll
            (some (stdMin (s1.AnticipatedScrollableWidth view)
              (stdMax 0 (zoomedHorizontalOffset + anticipatedZoomedHorizontalOffset))))
        else s1
      let s3 :=
        if zoomedVerticalOffset ≠ 0 then
          s2.UpdateAnticipatedOffset .VerticalScroll
            (some (stdMin (s2.AnticipatedScrollableHeight view)
              (stdMax 0 (zoomedVerticalOffset + anticipatedZoomedVerticalOffset))))
        else s2
      (s3, .TryUpdatePositionBy (zoomedHorizontalOffset, zoomedVerticalOffset) ::
        RaiseScrollStarting view offsetsChangeCorrelationId
          (s3.AnticipatedZoomedHorizontalOffset view) (s3.AnticipatedZoomedVerticalOffset view)
          (s3.AnticipatedZoomFactor view))
    else
      let s2 := s1.UpdateAnticipatedOffset .HorizontalScroll
        (some (stdMin (s1.AnticipatedScrollableWidth view) (stdMax 0 zoomedHorizontalOffset)))
      let s3 := s2.UpdateAnticipatedOffset .VerticalScroll
        (some (stdMin (s2.AnticipatedScrollableHeight view) (stdMax 0 zoomedVerticalOffset)))
      (s3, .TryUpdatePosition (zoomedHorizontalOffset, zoomedVerticalOffset) ::
        RaiseScrollStarting view offsetsChangeCorrelationId
          (s3.AnticipatedZoomedHorizontalOffset view) (s3.AnticipatedZoomedVerticalOffset view)
          (s3.AnticipatedZoomFactor view))
  | .Enabled =>
    (({ s with m_latestInteractionTrackerRequest := requestId }).ResetAnticipatedView,
      [.TryUpdatePositionWithAnimation (zoomedHorizontalOffset, zoomedVerticalOffset)])
  | .Auto => (s, [])

/-- The second overload of `ProcessOffsetsChange`: launches the motion-engine request of an
offsets change with additional velocity.  The two tests on the trigger are equalities with
the enumerators `HorizontalScrollControllerRequest` and `VerticalScrollControllerRequest`. -/
def ProcessOffsetsChangeWithAdditionalVelocity [LinearOrderedRing α] (s : ScrollPresenter α)
    (operationTrigger : InteractionTrackerAsyncOperationTrigger)
    (OffsetsVelocity : α × α) (InertiaDecayRate : Option (α × α)) (requestId : Int) :
    ScrollPresenter α × List (ProcessingEffect α) :=
  let s_minimumVelocity : α := 30
  let offsetsVelocity : α × α :=
    if operationTrigger = .horizontal ∨ operationTrigger = .vertical then
      if s.m_state ≠ .Inertia then
        let horizontal : α × α :=
          if OffsetsVelocity.1 < 0 then (OffsetsVelocity.1 - s_minimumVelocity, OffsetsVelocity.2)
          else if OffsetsVelocity.1 > 0 then
            (OffsetsVelocity.1 + s_minimumVelocity, OffsetsVelocity.2)
          else OffsetsVelocity
        if horizontal.2 < 0 then (horizontal.1, horizontal.2 - s_minimumVelocity)
        else if horizontal.2 > 0 then (horizontal.1, horizontal.2 + s_minimumVelocity)
        else horizontal
      else OffsetsVelocity
    else OffsetsVelocity
  let s1 : ScrollPresenter α :=
    (match InertiaDecayRate with
     | some inertiaDecayRate =>
       let horizontalInertiaDecayRate := stdClamp inertiaDecayRate.1 0 1
       let verticalInertiaDecayRate := stdClamp inertiaDecayRate.2 0 1
       { s with
         PositionInertiaDecayRate := some (horizontalInertiaDecayRate, verticalInertiaDecayRate) }
     | none => s.ResetOffsetsInertiaDecayRate)
  (({ s1 with m_latestInteractionTrackerRequest := requestId }).ResetAnticipatedView,
    [.TryUpdatePositionWithAdditionalVelocity offsetsVelocity])

/-- Launches the motion-engine request of a zoom factor change.  The defaults for an absent
options object are those of the scroll options, as in the source. -/
def ProcessZoomFactorChange [LinearOrderedRing α] [Div α] (s : ScrollPresenter α)
    (view : ScrollPresenterView α) (ZoomFactor : α) (CenterPoint : Option (α × α))
    (ViewKind : ScrollPresenterViewKind) (Options : Option ScrollingOptions)
    (zoomFactorChangeCorrelationId : Int) (requestId : Int) :
    ScrollPresenter α × List (ProcessingEffect α) :=
  let centerPoint2D : α × α := match CenterPoint with
    | none => (view.m_viewportWidth / 2, view.m_viewportHeight / 2)
    | some nullableCenterPoint => nullableCenterPoint
  let centerPoint : α × α :=
    (centerPoint2D.1 - view.m_contentLayoutOffsetX, centerPoint2D.2 - view.m_contentLayoutOffsetY)
  let resolved : α := match ViewKind with
    | .RelativeToCurrentView => ZoomFactor + s.AnticipatedZoomFactor view
    | .Absolute => ZoomFactor
  let animationMode0 := match Options with
    | some o => o.AnimationMode
    | none => s.constants.scrollDefaultAnimationMode
  let snapPointsMode := match Options with
    | some o => o.SnapPointsMode
    | none => s.constants.scrollDefaultSnapPointsMode
  let animationMode := s.GetComputedAnimationMode animationMode0
  let zoomFactor : α :=
    if snapPointsMode = .Default then
      ComputeValueAfterSnapPoints resolved view.m_sortedConsolidatedZoomSnapPoints
    else resolved
  match animationMode with
  | .Disabled =>
    let s1 := { s with m_latestInteractionTrackerRequest := requestId }
    let newAnticipatedZoomedHorizontalOffset0 : α :=
      zoomFactor / s1.AnticipatedZoomFactor view *
        (s1.AnticipatedZoomedHorizontalOffset view + centerPoint.1) - centerPoint.1
    let newAnticipatedZoomedVerticalOffset0 : α :=
      zoomFactor / s1.AnticipatedZoomFactor view *
        (s1.AnticipatedZoomedVerticalOffset view + centerPoint.2) - centerPoint.2
    let s2 := s1.UpdateAnticipatedZoomFactor (some zoomFactor)
    let newAnticipatedZoomedHorizontalOffset :=
      stdMin (s2.AnticipatedScrollableWidth view) (stdMax 0 newAnticipatedZoomedHorizontalOffset0)
    let s3 := s2.UpdateAnticipatedOffset .HorizontalScroll (some newAnticipatedZoomedHorizontalOffset)
    let newAnticipatedZoomedVerticalOffset :=
      stdMin (s3.AnticipatedScrollableHeight view) (stdMax 0 newAnticipatedZoomedVerticalOffset0)
    let s4 := s3.UpdateAnticipatedOffset .VerticalScroll (some newAnticipatedZoomedVerticalOffset)
    (s4, .TryUpdateScale zoomFactor centerPoint ::
      RaiseZoomStarting view zoomFactorChangeCorrelationId newAnticipatedZoomedHorizontalOffset
        newAnticipatedZoomedVerticalOffset zoomFactor)
  | .Enabled =>
    (({ s with m_latestInteractionTrackerRequest := requestId }).ResetAnticipatedView,
      [.TryUpdateScaleWithAnimation zoomFactor centerPoint])
  | .Auto => (s, [])

/-- The second overload of `ProcessZoomFactorChange`: launches the motion-engine request
of a zoom factor change with additional velocity. -/
def ProcessZoomFactorChangeWithAdditionalVelocity [LinearOrderedRing α] [Div α]
    (s : ScrollPresenter α) (view : ScrollPresenterView α) (ZoomFactorVelocity : α)
    (CenterPoint : Option (α × α)) (InertiaDecayRate : Option α) (requestId : Int) :
    ScrollPresenter α × List (ProcessingEffect α) :=
  let s1 := match InertiaDecayRate with
    | some inertiaDecayRate =>
      { s with ScaleInertiaDecayRate := some (stdClamp inertiaDecayRate 0 1) }
    | none => s.ResetZoomFactorInertiaDecayRate
  let centerPoint2D : α × α := match CenterPoint with
    | none => (view.m_viewportWidth / 2, view.m_viewportHeight / 2)
    | some nullableCenterPoint => nullableCenterPoint
  let centerPoint : α × α :=
    (centerPoint2D.1 - view.m_contentLayoutOffsetX, centerPoint2D.2 - view.m_contentLayoutOffsetY)
  (({ s1 with m_latestInteractionTrackerRequest := requestId }).ResetAnticipatedView,
    [.TryUpdateScaleWithAdditionalVelocity ZoomFactorVelocity centerPoint])

/-- The automation-peer path: an immediate jump to the given offsets, processed without an
operation in the queue. -/
def ScrollToOffsets [LinearOrderedRing α] (s : ScrollPresenter α)
    (view : ScrollPresenterView α)
    (ComputeBringIntoViewUpdatedTargetOffsets :
      BringIntoViewData α → ScrollingSnapPointsMode → α × α)
    (horizontalOffset verticalOffset : α) (requestId : Int) :
    ScrollPresenter α × List (ProcessingEffect α) :=
  if s.m_interactionTracker then
    s.ProcessOffsetsChange view ComputeBringIntoViewUpdatedTargetOffsets .direct
      horizontalOffset verticalOffset .Absolute (some ⟨.Disabled, .Ignore⟩) none
      s_noOpCorrelationId requestId
  else (s, [])

/-- A run of RelativeToCurrentView offsets changes handed to the motion engine one after
the other, none of them completed in between; every element holds the two deltas. -/
def processRelativeOffsetsChanges [LinearOrderedRing α] (view : ScrollPresenterView α)
    (ComputeBringIntoViewUpdatedTargetOffsets :
      BringIntoViewData α → ScrollingSnapPointsMode → α × α)
    (operationTrigger : InteractionTrackerAsyncOperationTrigger)
    (Options : Option ScrollingOptions) (offsetsChangeCorrelationId requestId : Int) :
    ScrollPresenter α → List (α × α) → ScrollPresenter α
  | s, [] => s
  | s, delta :: rest =>
    processRelativeOffsetsChanges view ComputeBringIntoViewUpdatedTargetOffsets operationTrigger
      Options offsetsChangeCorrelationId requestId
      (s.ProcessOffsetsChange view ComputeBringIntoViewUpdatedTargetOffsets operationTrigger
        delta.1 delta.2 .RelativeToCurrentView Options none offsetsChangeCorrelationId
        requestId).1 rest

/-- A sample view over integer payloads: confirmed offsets (0, 0) at zoom factor 1, a
content of 100 by 100 in a viewport of 50 by 50, no snap point, listeners registered. -/
def sampleView : ScrollPresenterView Int :=
  { m_zoomedHorizontalOffset := 0, m_zoomedVerticalOffset := 0, m_zoomFactor := 1,
    m_unzoomedExtentWidth := 100, m_unzoomedExtentHeight := 100,
    m_viewportWidth := 50, m_viewportHeight := 50,
    m_contentLayoutOffsetX := 0, m_contentLayoutOffsetY := 0,
    m_sortedConsolidatedHorizontalSnapPoints := [],
    m_sortedConsolidatedVerticalSnapPoints := [],
    m_sortedConsolidatedZoomSnapPoints := [],
    m_scrollStartingEventSource := true, m_zoomStartingEventSource := true }

/-- A bring-into-view re-evaluation that keeps the offsets recorded at request time. -/
def sampleBringIntoView : BringIntoViewData Int → ScrollingSnapPointsMode → Int × Int :=
  fun bringIntoView _ => (bringIntoView.HorizontalOffset, bringIntoView.VerticalOffset)

/-- The local `distance` of `GetPositionAnimation`:
`static_cast<int64_t> (sqrt (pow (dx, 2.0) + pow (dy, 2.0)))` where `dx` and `dy` are the
differences between the target offsets and the confirmed offsets, every operation in
`double` arithmetic. -/
def positionAnimationDistance (view : ScrollPresenterView Double)
    (zoomedHorizontalOffset zoomedVerticalOffset : Double) : Int :=
  Double.toInt64 (Double.sqrt
    (Double.powTwo (zoomedHorizontalOffset - view.m_zoomedHorizontalOffset) +
      Double.powTwo (zoomedVerticalOffset - view.m_zoomedVerticalOffset)))

/-- The `Duration` that `GetPositionAnimation` gives the keyframe animation towards the
target offsets, in units of 100 ns:
`std::clamp (distance * unitDuration, minDuration, maxDuration) * 10000`, in `int64_t`
arithmetic.  The duration in milliseconds is this number divided by 10000.  The three
parameters are the static constants `s_offsetsChange...` of the absent header or their
test-hook overrides. -/
def GetPositionAnimation (view : ScrollPresenterView Double)
    (zoomedHorizontalOffset zoomedVerticalOffset : Double)
    (unitDuration minDuration maxDuration : Int) : Int :=
  let distance : Int := positionAnimationDistance view zoomedHorizontalOffset zoomedVerticalOffset
  wrapInt64 (stdClamp (wrapInt64 (distance * unitDuration)) minDuration maxDuration * 10000)

/-- The local `distance` of `GetZoomFactorAnimation`:
`static_cast<int64_t> (abs (zoomFactor - m_zoomFactor))`, the difference in `float`
arithmetic. -/
def zoomFactorAnimationDistance (view : ScrollPresenterView Double) (zoomFactor : Double) : Int :=
  Double.toInt64 (Double.abs (Double.subSingle zoomFactor view.m_zoomFactor))

/-- The `Duration` that `GetZoomFactorAnimation` gives the keyframe animation towards the
target zoom factor, in units of 100 ns:
`std::clamp (distance * unitDuration, minDuration, maxDuration) * 10000`, in `int64_t`
arithmetic.  The three parameters are the static constants `s_zoomFactorChange...` of the
absent header or their test-hook overrides. -/
def GetZoomFactorAnimation (view : ScrollPresenterView Double) (zoomFactor : Double)
    (unitDuration minDuration maxDuration : Int) : Int :=
  let distance : Int := zoomFactorAnimationDistance view zoomFactor
  wrapInt64 (stdClamp (wrapInt64 (distance * unitDuration)) minDuration maxDuration * 10000)

/-- A sample view over `double` payloads: confirmed offsets (0, 0) at zoom factor 1, a
content of 100 by 100 in a viewport of 50 by 50, no snap point, listeners registered. -/
def sampleDoubleView : ScrollPresenterView Double :=
  { m_zoomedHorizontalOffset := Double.ofInt 0, m_zoomedVerticalOffset := Double.ofInt 0,
    m_zoomFactor := Double.ofInt 1,
    m_unzoomedExtentWidth := Double.ofInt 100, m_unzoomedExtentHeight := Double.ofInt 100,
    m_viewportWidth := Double.ofInt 50, m_viewportHeight := Double.ofInt 50,
    m_contentLayoutOffsetX := Double.ofInt 0, m_contentLayoutOffsetY := Double.ofInt 0,
    m_sortedConsolidatedHorizontalSnapPoints := [],
    m_sortedConsolidatedVerticalSnapPoints := [],
    m_sortedConsolidatedZoomSnapPoints := [],
    m_scrollStartingEventSource := true, m_zoomStartingEventSource := true }

/-- The identities of the operations handed to the motion engine so far, oldest first. -/
def dispatchedOperations (s : ScrollPresenter α) : List Nat :=
  s.interactionTrackerRequests.filterMap (fun e => match e with
    | .InteractionTrackerRequest operation _ _ => some operation
    | _ => none)

/-- What happens to a presenter between two observations: a request admitted by one of the
four entry points, a tick of the Rendering event, a callback of the motion engine, or a
change of the loaded or set-up status. -/
inductive PresenterEvent (α : Type)
  | ChangeOffsets (zoomedHorizontalOffset zoomedVerticalOffset : α)
      (offsetsKind : ScrollPresenterViewKind) (options : Option ScrollingOptions)
      (bringIntoViewRequestedEventArgs : Option (BringIntoViewData α))
      (operationTrigger : InteractionTrackerAsyncOperationTrigger)
      (existingViewChangeCorrelationId : Int) (viewChangeCorrelationId : Bool)
  | ChangeOffsetsWithAdditionalVelocity (offsetsVelocity anticipatedOffsetsChange : α × α)
      (inertiaDecayRate : Option (α × α))
      (operationTrigger : InteractionTrackerAsyncOperationTrigger)
      (viewChangeCorrelationId : Bool)
  | ChangeZoomFactor (zoomFactor : α) (centerPoint : Option (α × α))
      (zoomFactorKind : ScrollPresenterViewKind) (options : Option ScrollingOptions)
      (viewChangeCorrelationId : Bool)
  | ChangeZoomFactorWithAdditionalVelocity (zoomFactorVelocity anticipatedZoomFactorChange : α)
      (centerPoint : Option (α × α)) (inertiaDecayRate : Option α)
      (operationTrigger : InteractionTrackerAsyncOperationTrigger)
      (viewChangeCorrelationId : Bool)
  | CompositionTargetRendering (tracker : Nat → Int)
  | IdleStateEntered (RequestId : Int)
  | InteractingStateEntered
  | RequestIgnored (RequestId : Int)
  | ValuesChanged (RequestId : Int)
  | Loaded (isLoaded : Bool)
  | InteractionTrackerSetUp (isSetUp : Bool)

/-- The presenter after one event. -/
def handleEvent (s : ScrollPresenter α) : PresenterEvent α → ScrollPresenter α
  | .ChangeOffsets zoomedHorizontalOffset zoomedVerticalOffset offsetsKind options
      bringIntoViewRequestedEventArgs operationTrigger existingViewChangeCorrelationId
      viewChangeCorrelationId =>
    (s.ChangeOffsetsPrivate zoomedHorizontalOffset zoomedVerticalOffset offsetsKind options
      bringIntoViewRequestedEventArgs operationTrigger existingViewChangeCorrelationId
      viewChangeCorrelationId).1
  | .ChangeOffsetsWithAdditionalVelocity offsetsVelocity anticipatedOffsetsChange inertiaDecayRate
      operationTrigger viewChangeCorrelationId =>
    (s.ChangeOffsetsWithAdditionalVelocityPrivate offsetsVelocity anticipatedOffsetsChange
      inertiaDecayRate operationTrigger viewChangeCorrelationId).1
  | .ChangeZoomFactor zoomFactor centerPoint zoomFactorKind options viewChangeCorrelationId =>
    (s.ChangeZoomFactorPrivate zoomFactor centerPoint zoomFactorKind options
      viewChangeCorrelationId).1
  | .ChangeZoomFactorWithAdditionalVelocity zoomFactorVelocity anticipatedZoomFactorChange
      centerPoint inertiaDecayRate operationTrigger viewChangeCorrelationId =>
    (s.ChangeZoomFactorWithAdditionalVelocityPrivate zoomFactorVelocity
      anticipatedZoomFactorChange centerPoint inertiaDecayRate operationTrigger
      viewChangeCorrelationId).1
  | .CompositionTargetRendering tracker => s.OnCompositionTargetRendering tracker
  | .IdleStateEntered RequestId => s.IdleStateEntered RequestId
  | .InteractingStateEntered => s.InteractingStateEntered
  | .RequestIgnored RequestId => s.RequestIgnored RequestId
  | .ValuesChanged RequestId => s.ValuesChanged RequestId
  | .Loaded isLoaded => { s with IsLoaded := isLoaded }
  | .InteractionTrackerSetUp isSetUp => { s with m_interactionTracker := isSetUp }

/-- The presenter after a sequence of events, oldest first. -/
def handleEvents (s : ScrollPresenter α) (events : List (PresenterEvent α)) : ScrollPresenter α :=
  events.foldl handleEvent s

/-- The scheduling invariant of the queue.  Identities are allocated in admission order, so
the queue and the motion-engine requests are in admission order when their identities
increase; no queued operation is completed or canceled and every countdown lies between 0
and `c_queuedOperationTicks`; countdowns do not decrease along the queue and no operation
follows a delayed one without being delayed itself; every operation that still waits for
its dispatch was admitted after all the operations dispatched so far. -/
def SchedulingInvariant (s : ScrollPresenter α) : Prop :=
  (s.m_interactionTrackerAsyncOperations.map (fun o => o.id)).Pairwise (fun a b => a < b) ∧
  (∀ o ∈ s.m_interactionTrackerAsyncOperations, o.id < s.allocatedOperations) ∧
  (∀ o ∈ s.m_interactionTrackerAsyncOperations,
    o.isCompleted = false ∧ o.isCanceled = false ∧ 0 ≤ o.preProcessingTicksCountdown ∧
      o.preProcessingTicksCountdown ≤ InteractionTrackerAsyncOperation.c_queuedOperationTicks) ∧
  s.m_interactionTrackerAsyncOperations.Pairwise
    (fun a b => a.preProcessingTicksCountdown ≤ b.preProcessingTicksCountdown ∧
      (a.isDelayed = true → b.isDelayed = true)) ∧
  s.dispatchedOperations.Pairwise (fun a b => a < b) ∧
  (∀ d ∈ s.dispatchedOperations, d < s.allocatedOperations) ∧
  (∀ o ∈ s.m_interactionTrackerAsyncOperations, 0 < o.preProcessingTicksCountdown →
    ∀ d ∈ s.dispatchedOperations, d < o.id)

/-- The first part of the body of the tick walk for a queued operation, the local value
`decision` of `tickStep`: at the last tick of the operation, and unless processing is
already deferred, the required operation is examined and replaced when it is no longer
pending.  The Boolean is the resulting flag `delayProcessingViewChanges`. -/
def requiredOperationDecision (s : ScrollPresenter α) (delayProcessingViewChanges : Bool)
    (interactionTrackerAsyncOperation : InteractionTrackerAsyncOperation α) :
    ScrollPresenter α × Bool :=
  if !delayProcessingViewChanges && interactionTrackerAsyncOperation.GetTicksCountdown == 1 then
    match interactionTrackerAsyncOperation.requiredOperation with
    | none => (s, delayProcessingViewChanges)
    | some requiredInteractionTrackerAsyncOperation =>
      let pending : Bool :=
        match s.lookupOperation requiredInteractionTrackerAsyncOperation with
        | some required => !required.isCanceled && !required.isCompleted
        | none => false
      if pending then (s, true)
      else
        let older := s.GetLastNonAnimatedInteractionTrackerOperation
          interactionTrackerAsyncOperation
        (s.updateOperation interactionTrackerAsyncOperation.id
            (fun o => o.SetRequiredOperation (older.map (fun r => r.id))),
          delayProcessingViewChanges || older.isSome)
  else (s, delayProcessingViewChanges)

/-- A sample sequence of events: a direct offsets request and a zoom factor request, one tick,
a request of the horizontal scroll controller, three more ticks. -/
def sampleEvents : List (PresenterEvent Int) :=
  [.ChangeOffsets 10 20 .Absolute none none .direct (-1) true,
   .ChangeZoomFactor 2 none .Absolute none true,
   .CompositionTargetRendering sampleTracker,
   .ChangeOffsets 5 5 .RelativeToCurrentView none none .horizontal (-1) true,
   .CompositionTargetRendering sampleTracker,
   .CompositionTargetRendering sampleTracker,
   .CompositionTargetRendering sampleTracker]

end ScrollPresenter

/-! ## Resize resets, validation, panning redirection, snap-point sets and bring-into-view

The functions below embed the reset of the countdowns after a change of size, the
validation and the set-up of the zoom factor boundaries, the redirection of a pan request
of a scroll controller, the maintenance of a consolidated set of snap points and the
computation of the target of a bring-into-view request.  A `std::set` is the list of its
elements in the order of its comparator.  An exception is an `Except.error` carrying the
`HRESULT` of the `winrt::hresult_error`.  The functions of the bring-into-view computation
ask of the numbers only the operations they use, so that they run both in exact arithmetic
and on the `Double` numbers of the section on machine arithmetic. -/

/-- A `double` by class, for the code that tells the classes apart with `isnan` and
`isfinite`: a finite number, one of the two infinities, or a NaN. -/
inductive DoubleValue (α : Type)
  | finite (value : α)
  | positiveInfinity
  | negativeInfinity
  | notANumber

/-- Arguments of the PanRequested event of a scroll controller: the pointer point to track
and the flag Handled. -/
structure ScrollControllerPanRequestedEventArgs where
  PointerPoint : Nat
  Handled : Bool
  deriving DecidableEq

/-- The zoom factor boundaries held by the motion engine. -/
structure InteractionTrackerScaleBoundaries (α : Type) where
  MinScale : α
  MaxScale : α
  deriving DecidableEq

/-- One call of `DetermineActualApplicableZone`: the wrapper it is called on and its three
arguments. -/
structure DetermineActualApplicableZoneCall (W : Type) where
  current : W
  previous : Option W
  next : Option W
  forImpulseOnly : Bool
  deriving DecidableEq

/-- The rectangle of an element in the coordinates of the content, as `GetDescendantBounds`
returns it. -/
structure DescendantBounds (α : Type) where
  X : α
  Y : α
  Width : α
  Height : α
  deriving DecidableEq

/-- What `ComputeBringIntoViewTargetOffsets` hands back through its output parameters,
together with the outcome of its `MUX_ASSERT` bounds checks: `boundsAfterAppliedOffset` is
the conjunction of the four checks that follow the applied-offset step and
`boundsAfterSnapPoints` that of the four checks that follow the snap points (true when
that block is skipped). -/
structure BringIntoViewTargetOffsets (α : Type) where
  targetZoomedHorizontalOffset : α
  targetZoomedVerticalOffset : α
  appliedOffsetX : α
  appliedOffsetY : α
  targetRect : DescendantBounds α
  boundsAfterAppliedOffset : Bool
  boundsAfterSnapPoints : Bool

namespace InteractionTrackerAsyncOperation

variable {α : Type}

/-- Modelled from the spec: `SetMaxTicksCountdown` of the absent header; the tick countdown
of the operation is reset to the maximum value `c_queuedOperationTicks`, the operation
being queued afresh as by `SetTicksCountdown`. -/
def SetMaxTicksCountdown (op : InteractionTrackerAsyncOperation α) :
    InteractionTrackerAsyncOperation α :=
  op.SetTicksCountdown c_queuedOperationTicks

end InteractionTrackerAsyncOperation

namespace ScrollPresenter

variable {α : Type}

/-- Body of the loop of `MaximizeInteractionTrackerOperationsTicksCountdown` for one
operation. -/
def maximizeStep (s : ScrollPresenter α)
    (interactionTrackerAsyncOperation : InteractionTrackerAsyncOperation α) : ScrollPresenter α :=
  if !interactionTrackerAsyncOperation.isDelayed &&
      !interactionTrackerAsyncOperation.isCanceled &&
      !interactionTrackerAsyncOperation.isCompleted &&
      interactionTrackerAsyncOperation.IsQueued then
    s.updateOperation interactionTrackerAsyncOperation.id (fun o => o.SetMaxTicksCountdown)
  else s

/-- Sets the ticks countdown of the queued operations to the maximum value; invoked when
the extent or the viewport size changed. -/
def MaximizeInteractionTrackerOperationsTicksCountdown (s : ScrollPresenter α) :
    ScrollPresenter α :=
  if s.m_interactionTrackerAsyncOperations.isEmpty then s
  else s.m_interactionTrackerAsyncOperations.foldl maximizeStep s

/-- The test of `maximizeStep` on an operation. -/
def maximizeApplies (o : InteractionTrackerAsyncOperation α) : Bool :=
  !o.isDelayed && !o.isCanceled && !o.isCompleted && o.IsQueued

/-- A presenter that is not loaded receives a relative offsets request of its horizontal
scroll controller. -/
def sampleDelayedEvents : List (PresenterEvent Int) :=
  [.Loaded false,
   .ChangeOffsets 5 5 .RelativeToCurrentView none none .horizontal (-1) true]

/-- The `HRESULT` value `E_INVALIDARG`, 0x80070057 as a signed 32-bit integer. -/
def E_INVALIDARG : Int := -2147024809

/-- The `HRESULT` value `E_ACCESSDENIED`, 0x80070005 as a signed 32-bit integer. -/
def E_ACCESSDENIED : Int := -2147024891

/-- The C library classification `isnan`. -/
def isnan : DoubleValue α → Bool
  | .notANumber => true
  | _ => false

/-- The C library classification `isfinite`. -/
def isfinite : DoubleValue α → Bool
  | .finite _ => true
  | _ => false

/-- A zoom factor boundary is valid when it is neither NaN nor infinite. -/
def IsZoomFactorBoundaryValid (value : DoubleValue α) : Bool :=
  !isnan value && isfinite value

/-- Throws `E_INVALIDARG` for an invalid zoom factor boundary. -/
def ValidateZoomFactoryBoundary (value : DoubleValue α) : Except Int Unit :=
  if !IsZoomFactorBoundaryValid value then .error E_INVALIDARG
  else .ok ()

/-- Handler of the PanRequested event of the panning info of a scroll controller.
`isFromHorizontalScrollController` tells which of the two panning infos is the sender, the
two options are the visual interaction sources of the controllers, and
`TryRedirectForManipulation source pointerPoint` is the call made of the platform, which
returns normally or throws an `hresult_error`.  The result is the list of the redirection
calls made, with the arguments as the handler leaves them or the exception that leaves the
handler. -/
def OnScrollControllerPanningInfoPanRequested
    (m_horizontalScrollControllerVisualInteractionSource
      m_verticalScrollControllerVisualInteractionSource : Option Nat)
    (TryRedirectForManipulation : Nat → Nat → Except Int Unit)
    (isFromHorizontalScrollController : Bool) (args : ScrollControllerPanRequestedEventArgs) :
    List (Nat × Nat) × Except Int ScrollControllerPanRequestedEventArgs :=
  if args.Handled then ([], .ok args)
  else
    let scrollControllerVisualInteractionSource :=
      if isFromHorizontalScrollController then
        m_horizontalScrollControllerVisualInteractionSource
      else m_verticalScrollControllerVisualInteractionSource
    match scrollControllerVisualInteractionSource with
    | some source =>
      match TryRedirectForManipulation source args.PointerPoint with
      | .error e =>
        if e = E_ACCESSDENIED then ([(source, args.PointerPoint)], .ok args)
        else ([(source, args.PointerPoint)], .error e)
      | .ok _ => ([(source, args.PointerPoint)], .ok { args with Handled := true })
    | none => ([], .ok args)

/-- Sets the zoom factor boundaries of the motion engine, in the order that keeps the
minimum at or below the maximum.  The result is the state of the engine between the two
assignments and its state after them. -/
def SetupInteractionTrackerZoomFactorBoundaries [LinearOrder α] [Zero α]
    (m_interactionTracker : InteractionTrackerScaleBoundaries α)
    (minZoomFactor maxZoomFactor : α) :
    InteractionTrackerScaleBoundaries α × InteractionTrackerScaleBoundaries α :=
  let oldMaxZoomFactor := m_interactionTracker.MaxScale
  let minZoomFactor := stdMax 0 minZoomFactor
  let maxZoomFactor := stdMax minZoomFactor maxZoomFactor
  let newMinZoomFactor := minZoomFactor
  let newMaxZoomFactor := maxZoomFactor
  if newMinZoomFactor > oldMaxZoomFactor then
    let t1 := { m_interactionTracker with MaxScale := newMaxZoomFactor }
    (t1, { t1 with MinScale := newMinZoomFactor })
  else
    let t1 := { m_interactionTracker with MinScale := newMinZoomFactor }
    (t1, { t1 with MaxScale := newMaxZoomFactor })

/-- Computes the offset that brings a child into a viewport with the smallest change. -/
def ComputeZoomedOffsetWithMinimalChange [LinearOrder α] [Add α] [Sub α]
    (viewportStart viewportEnd childStart childEnd : α) : α :=
  let above : Bool := decide (childStart < viewportStart) && decide (childEnd < viewportEnd)
  let below : Bool := decide (childEnd > viewportEnd) && decide (childStart > viewportStart)
  let larger : Bool := decide ((childEnd - childStart) > (viewportEnd - viewportStart))
  if (above && !larger) || (below && larger) then childStart
  else if above || below then childEnd - viewportEnd + viewportStart
  else viewportStart

/-- Scrollable width at the confirmed zoom factor. -/
def ScrollableWidth [LinearOrder α] [Zero α] [Mul α] [Sub α] (view : ScrollPresenterView α) : α :=
  stdMax 0 (view.m_unzoomedExtentWidth * view.m_zoomFactor - view.m_viewportWidth)

/-- Scrollable height at the confirmed zoom factor. -/
def ScrollableHeight [LinearOrder α] [Zero α] [Mul α] [Sub α] (view : ScrollPresenterView α) : α :=
  stdMax 0 (view.m_unzoomedExtentHeight * view.m_zoomFactor - view.m_viewportHeight)

/-- The applied-offset step of `ComputeBringIntoViewTargetOffsets` in one dimension: as
much of the requested offset as keeps the target within the scrollable range is subtracted
from the target.  The result is the target and the applied offset. -/
def applyBringIntoViewOffset [LinearOrder α] [Zero α] [Sub α] [Neg α]
    (targetZoomedOffsetTmp scrollableSize offset : α) : α × α :=
  if offset ≠ 0 ∧ targetZoomedOffsetTmp ≥ 0 then
    if targetZoomedOffsetTmp ≤ scrollableSize then
      let appliedOffsetTmp :=
        if offset > 0 then stdMin targetZoomedOffsetTmp offset
        else -stdMin (scrollableSize - targetZoomedOffsetTmp) (-offset)
      (targetZoomedOffsetTmp - appliedOffsetTmp, appliedOffsetTmp)
    else (targetZoomedOffsetTmp, 0)
  else (targetZoomedOffsetTmp, 0)

/-- Computes the target offsets of a bring-into-view request for the rectangle
`transformedRect` of the element in content coordinates.  An alignment ratio that is NaN
is `none`. -/
def ComputeBringIntoViewTargetOffsets [LinearOrder α] [Zero α] [Add α] [Sub α] [Mul α] [Neg α]
    [Div α]
    (view : ScrollPresenterView α) (transformedRect : DescendantBounds α)
    (snapPointsMode : ScrollingSnapPointsMode)
    (horizontalAlignmentRatio verticalAlignmentRatio : Option α)
    (horizontalOffset verticalOffset : α) : BringIntoViewTargetOffsets α :=
  let targetX := transformedRect.X
  let targetWidth := transformedRect.Width
  let targetY := transformedRect.Y
  let targetHeight := transformedRect.Height
  let horizontal : α × α :=
    match horizontalAlignmentRatio with
    | some ratio =>
      (targetX + (targetWidth - view.m_viewportWidth / view.m_zoomFactor) * ratio,
        view.m_viewportWidth / view.m_zoomFactor)
    | none => (targetX, targetWidth)
  let vertical : α × α :=
    match verticalAlignmentRatio with
    | some ratio =>
      (targetY + (targetHeight - view.m_viewportHeight / view.m_zoomFactor) * ratio,
        view.m_viewportHeight / view.m_zoomFactor)
    | none => (targetY, targetHeight)
  let targetX := horizontal.1
  let targetWidth := horizontal.2
  let targetY := vertical.1
  let targetHeight := vertical.2
  let targetZoomedHorizontalOffsetTmp := ComputeZoomedOffsetWithMinimalChange
    view.m_zoomedHorizontalOffset (view.m_zoomedHorizontalOffset + view.m_viewportWidth)
    (targetX * view.m_zoomFactor) ((targetX + targetWidth) * view.m_zoomFactor)
  let targetZoomedVerticalOffsetTmp := ComputeZoomedOffsetWithMinimalChange
    view.m_zoomedVerticalOffset (view.m_zoomedVerticalOffset + view.m_viewportHeight)
    (targetY * view.m_zoomFactor) ((targetY + targetHeight) * view.m_zoomFactor)
  let scrollableWidth := ScrollableWidth view
  let scrollableHeight := ScrollableHeight view
  let targetZoomedHorizontalOffsetTmp := stdClamp targetZoomedHorizontalOffsetTmp 0 scrollableWidth
  let targetZoomedVerticalOffsetTmp := stdClamp targetZoomedVerticalOffsetTmp 0 scrollableHeight
  let appliedX := applyBringIntoViewOffset targetZoomedHorizontalOffsetTmp scrollableWidth
    horizontalOffset
  let appliedY := applyBringIntoViewOffset targetZoomedVerticalOffsetTmp scrollableHeight
    verticalOffset
  let targetZoomedHorizontalOffsetTmp := appliedX.1
  let appliedOffsetXTmp := appliedX.2
  let targetZoomedVerticalOffsetTmp := appliedY.1
  let appliedOffsetYTmp := appliedY.2
  let boundsAfterAppliedOffset : Bool :=
    decide (targetZoomedHorizontalOffsetTmp ≥ 0) && decide (targetZoomedVerticalOffsetTmp ≥ 0) &&
    decide (targetZoomedHorizontalOffsetTmp ≤ scrollableWidth) &&
    decide (targetZoomedVerticalOffsetTmp ≤ scrollableHeight)
  let snapped : α × α :=
    if snapPointsMode = .Default then
      (stdClamp (ComputeValueAfterSnapPoints targetZoomedHorizontalOffsetTmp
          view.m_sortedConsolidatedHorizontalSnapPoints) 0 scrollableWidth,
        stdClamp (ComputeValueAfterSnapPoints targetZoomedVerticalOffsetTmp
          view.m_sortedConsolidatedVerticalSnapPoints) 0 scrollableHeight)
    else (targetZoomedHorizontalOffsetTmp, targetZoomedVerticalOffsetTmp)
  let boundsAfterSnapPoints : Bool :=
    if snapPointsMode = .Default then
      decide (snapped.1 ≥ 0) && decide (snapped.2 ≥ 0) &&
      decide (snapped.1 ≤ scrollableWidth) && decide (snapped.2 ≤ scrollableHeight)
    else true
  { targetZoomedHorizontalOffset := snapped.1,
    targetZoomedVerticalOffset := snapped.2,
    appliedOffsetX := appliedOffsetXTmp,
    appliedOffsetY := appliedOffsetYTmp,
    targetRect := ⟨targetX, targetY, targetWidth, targetHeight⟩,
    boundsAfterAppliedOffset := boundsAfterAppliedOffset,
    boundsAfterSnapPoints := boundsAfterSnapPoints }

section SnapPointsSet

variable {W : Type}

/-- The call `std::set::lower_bound`: the position of the first element that does not
compare less than the item, the size of the set when every element compares less. -/
def lower_bound (less : W → W → Bool) (item : W) : List W → Nat
  | [] => 0
  | w :: rest => if less w item then lower_bound less item rest + 1 else 0

/-- The call `std::set::insert`: the item takes its place in the order of the comparator
unless the set holds an element equivalent to it, in which case the set is left as it
is. -/
def setInsert (less : W → W → Bool) (item : W) (snapPointsSet : List W) : List W :=
  let position := lower_bound less item snapPointsSet
  match snapPointsSet[position]? with
  | some w =>
    if less item w then snapPointsSet.take position ++ item :: snapPointsSet.drop position
    else snapPointsSet
  | none => snapPointsSet ++ [item]

/-- Adds a wrapped snap point to a consolidated set.  `less` is the comparator
`SnapPointWrapperComparator` of the set, `equal lower inserted` the comparison
`*lowerSnapPoint == inserted` of `SnapPointBase` and `Combine wrapper inserted` the wrapper
once `wrapper->Combine (inserted)` has run; the three belong to headers outside the
sources. -/
def SnapPointsVectorItemInsertedHelper (less equal : W → W → Bool) (Combine : W → W → W)
    (insertedItem : W) (snapPointsSet : List W) : List W :=
  if snapPointsSet.isEmpty then setInsert less insertedItem snapPointsSet
  else
    let lowerBound := lower_bound less insertedItem snapPointsSet
    match snapPointsSet[lowerBound]? with
    | some lowerSnapPoint =>
      if equal lowerSnapPoint insertedItem then
        snapPointsSet.set lowerBound (Combine lowerSnapPoint insertedItem)
      else
        match snapPointsSet[lowerBound + 1]? with
        | some upperSnapPoint =>
          if equal upperSnapPoint insertedItem then
            snapPointsSet.set (lowerBound + 1) (Combine upperSnapPoint insertedItem)
          else setInsert less insertedItem snapPointsSet
        | none => setInsert less insertedItem snapPointsSet
    | none => setInsert less insertedItem snapPointsSet

/-- Rebuilds a consolidated set from the vector of the user. -/
def RegenerateSnapPointsSet (less equal : W → W → Bool) (Combine : W → W → W)
    (userVector : List W) : List W :=
  userVector.foldl
    (fun internalSet snapPointWrapper =>
      SnapPointsVectorItemInsertedHelper less equal Combine snapPointWrapper internalSet) []

/-- The equivalence of the comparator: neither element compares less than the other. -/
def equivalent (less : W → W → Bool) (a b : W) : Bool := !less a b && !less b a

/-- The state of the loop of `UpdateSnapPointsRanges`: the wrappers already updated, the
calls made so far and the local variables `previousSnapPointWrapper`,
`currentSnapPointWrapper` and `nextSnapPointWrapper`. -/
structure SnapPointsRangesWalk (W : Type) where
  updated : List W
  calls : List (DetermineActualApplicableZoneCall W)
  previousSnapPointWrapper : Option W
  currentSnapPointWrapper : Option W
  nextSnapPointWrapper : Option W

/-- Body of the loop of `UpdateSnapPointsRanges` for one element of the set.  The call of
`DetermineActualApplicableZone` writes the wrapper `currentSnapPointWrapper` points to, so
the variable holds the updated wrapper afterwards. -/
def snapPointsRangesStep (DetermineActualApplicableZone : W → Option W → Option W → Bool → W)
    (forImpulseOnly : Bool) (walk : SnapPointsRangesWalk W) (snapPointWrapper : W) :
    SnapPointsRangesWalk W :=
  let previousSnapPointWrapper := walk.currentSnapPointWrapper
  let currentSnapPointWrapper := walk.nextSnapPointWrapper
  let nextSnapPointWrapper := some snapPointWrapper
  match currentSnapPointWrapper with
  | some current =>
    let written := DetermineActualApplicableZone current previousSnapPointWrapper
      nextSnapPointWrapper forImpulseOnly
    { updated := walk.updated ++ [written],
      calls := walk.calls ++
        [⟨current, previousSnapPointWrapper, nextSnapPointWrapper, forImpulseOnly⟩],
      previousSnapPointWrapper := previousSnapPointWrapper,
      currentSnapPointWrapper := some written,
      nextSnapPointWrapper := nextSnapPointWrapper }
  | none =>
    { walk with previousSnapPointWrapper := previousSnapPointWrapper,
                currentSnapPointWrapper := none,
                nextSnapPointWrapper := nextSnapPointWrapper }

/-- Recomputes the applicable zone of every wrapper of a set from its neighbours.  The
result is the set once every wrapper is written and the calls of
`DetermineActualApplicableZone` in the order they are made. -/
def UpdateSnapPointsRanges (DetermineActualApplicableZone : W → Option W → Option W → Bool → W)
    (snapPointsSet : List W) (forImpulseOnly : Bool) :
    List W × List (DetermineActualApplicableZoneCall W) :=
  let walk := snapPointsSet.foldl
    (snapPointsRangesStep DetermineActualApplicableZone forImpulseOnly)
    ⟨[], [], none, none, none⟩
  match walk.nextSnapPointWrapper with
  | some next =>
    (walk.updated ++
        [DetermineActualApplicableZone next walk.currentSnapPointWrapper none forImpulseOnly],
      walk.calls ++ [⟨next, walk.currentSnapPointWrapper, none, forImpulseOnly⟩])
  | none => (walk.updated, walk.calls)

/-- The calls the walk over a sorted set is expected to make, one per wrapper in order:
each wrapper with its predecessor, as the call on the predecessor left it, and with its
successor. -/
def expectedZoneCalls (DetermineActualApplicableZone : W → Option W → Option W → Bool → W)
    (forImpulseOnly : Bool) : Option W → List W → List (DetermineActualApplicableZoneCall W)
  | _, [] => []
  | previous, w :: rest =>
    ⟨w, previous, rest.head?, forImpulseOnly⟩ ::
      expectedZoneCalls DetermineActualApplicableZone forImpulseOnly
        (some (DetermineActualApplicableZone w previous rest.head? forImpulseOnly)) rest

end SnapPointsSet

/-- Modelled from the spec: a sample comparator for wrappers given as the pair of the lower
bound of their applicable range and their snap value; the comparator of the set belongs to
a header outside the sources and the spec keeps a set sorted by the lower bound of the
applicable range. -/
def sampleLess : Int × Int → Int × Int → Bool := fun a b => decide (a.1 < b.1)

/-- Modelled from the spec: a sample domain equality on the same pairs; the comparison
`==` of `SnapPointBase` belongs to a header outside the sources and the spec calls
domain-equal two snap points of the same effective snap value. -/
def sampleEqual : Int × Int → Int × Int → Bool := fun a b => decide (a.2 = b.2)

/-- A sample `Combine` that leaves the wrapper as it is. -/
def sampleCombine : Int × Int → Int × Int → Int × Int := fun w _ => w

/-- What a routine that completes operations owes the queue, between the presenter `s` it
starts from and the presenter `r` it returns: no operation left in the queue is flagged
completed, no operation handed to `CompleteViewChange` during the routine is left in the
queue, the operations left are in the order they had, and an operation that was not handed
to `CompleteViewChange` is still in the queue. -/
def CompletionsLeaveTheQueue (s r : ScrollPresenter α) : Prop :=
  (∀ o ∈ r.m_interactionTrackerAsyncOperations, o.isCompleted = false) ∧
  (∀ e ∈ r.completedViewChanges.drop s.completedViewChanges.length,
    ∀ o ∈ r.m_interactionTrackerAsyncOperations, o.id ≠ e.1.id) ∧
  (r.m_interactionTrackerAsyncOperations.map (fun o => o.id)).Sublist
    (s.m_interactionTrackerAsyncOperations.map (fun o => o.id)) ∧
  (∀ o ∈ s.m_interactionTrackerAsyncOperations,
    (∃ o' ∈ r.m_interactionTrackerAsyncOperations, o'.id = o.id) ∨
    (∃ e ∈ r.completedViewChanges.drop s.completedViewChanges.length, e.1.id = o.id))

/-- The horizontal scroll controller asks for additional velocity. -/
def sampleVelocityEvents : List (PresenterEvent Int) :=
  [.ChangeOffsetsWithAdditionalVelocity (100, 0) (0, 0) none .horizontal true]

/-- A view over `double` payloads for a bring-into-view request: a content 3.9 wide in a
viewport 1 wide, scrolled to the horizontal offset 0.7 at zoom factor 1; the other members
are those of `sampleDoubleView`.  The viewport width and the zoom factor, which the program
obtains from `float` values, are `float` numbers. -/
def sampleBringIntoViewView : ScrollPresenterView Double :=
  { sampleDoubleView with
    m_zoomedHorizontalOffset := Double.ofRatio 7 10,
    m_unzoomedExtentWidth := Double.ofRatio 39 10,
    m_viewportWidth := Double.ofInt 1 }

/-- The bounds of an element of no extent at the point (0.75, 0) of the content, which the
viewport of `sampleBringIntoViewView` shows; the four numbers are `float` numbers, as
those of a `winrt::Rect`. -/
def sampleDescendantBounds : DescendantBounds Double :=
  ⟨Double.ofRatio 3 4, Double.ofInt 0, Double.ofInt 0, Double.ofInt 0⟩

/-- The request mints a correlation ID: it passes the out-parameter of the entry point and,
for `ChangeOffsetsPrivate`, brings no existing ID. -/
def mintsCorrelationId : PresenterEvent α → Bool
  | .ChangeOffsets _ _ _ _ _ _ existingViewChangeCorrelationId viewChangeCorrelationId =>
    viewChangeCorrelationId && existingViewChangeCorrelationId == s_noOpCorrelationId
  | .ChangeOffsetsWithAdditionalVelocity _ _ _ _ viewChangeCorrelationId => viewChangeCorrelationId
  | .ChangeZoomFactor _ _ _ _ viewChangeCorrelationId => viewChangeCorrelationId
  | .ChangeZoomFactorWithAdditionalVelocity _ _ _ _ _ viewChangeCorrelationId =>
    viewChangeCorrelationId
  | _ => false

/-- The value the entry point of a request leaves in the out-parameter for the correlation
ID; `none` when the caller passes none and for the events that are not requests. -/
def returnedCorrelationIdOfEvent (s : ScrollPresenter α) : PresenterEvent α → Option Int
  | .ChangeOffsets zoomedHorizontalOffset zoomedVerticalOffset offsetsKind options
      bringIntoViewRequestedEventArgs operationTrigger existingViewChangeCorrelationId
      viewChangeCorrelationId =>
    (s.ChangeOffsetsPrivate zoomedHorizontalOffset zoomedVerticalOffset offsetsKind options
      bringIntoViewRequestedEventArgs operationTrigger existingViewChangeCorrelationId
      viewChangeCorrelationId).2
  | .ChangeOffsetsWithAdditionalVelocity offsetsVelocity anticipatedOffsetsChange inertiaDecayRate
      operationTrigger viewChangeCorrelationId =>
    (s.ChangeOffsetsWithAdditionalVelocityPrivate offsetsVelocity anticipatedOffsetsChange
      inertiaDecayRate operationTrigger viewChangeCorrelationId).2
  | .ChangeZoomFactor zoomFactor centerPoint zoomFactorKind options viewChangeCorrelationId =>
    (s.ChangeZoomFactorPrivate zoomFactor centerPoint zoomFactorKind options
      viewChangeCorrelationId).2
  | .ChangeZoomFactorWithAdditionalVelocity zoomFactorVelocity anticipatedZoomFactorChange
      centerPoint inertiaDecayRate operationTrigger viewChangeCorrelationId =>
    (s.ChangeZoomFactorWithAdditionalVelocityPrivate zoomFactorVelocity
      anticipatedZoomFactorChange centerPoint inertiaDecayRate operationTrigger
      viewChangeCorrelationId).2
  | _ => none

/-- The correlation IDs returned to the requests of the sequence that mint one, oldest
first. -/
def mintedCorrelationIds (s : ScrollPresenter α) : List (PresenterEvent α) → List Int
  | [] => []
  | e :: rest =>
    (if mintsCorrelationId e then (s.returnedCorrelationIdOfEvent e).toList else []) ++
      mintedCorrelationIds (s.handleEvent e) rest

/-- The handler of the BringIntoViewRequested event, reduced to what it does to the
presenter.  What the framework and the listeners decide is passed in: `ignored` is the
test that makes the handler return at once (request handled already, target that is the
presenter itself or is collapsed), `targetOffsets` the offsets that
`ComputeBringIntoViewTargetOffsetsFromRequestEventArgs` computes at first,
`RaiseBringingIntoView` the outcome of the BringingIntoView event (`none` when a listener
cancels, otherwise the snap-points mode the listeners leave), `ignoredAfterBringingIntoView`
the second test and `updatedTargetOffsets` the offsets computed again after the event.  The
updates of the event arguments for the parents of the presenter are not embedded. -/
def OnBringIntoViewRequestedHandler [DecidableEq α] (s : ScrollPresenter α)
    (view : ScrollPresenterView α) (ignored HasBringingIntoViewListener : Bool)
    (targetOffsets : α × α) (RaiseBringingIntoView : Option ScrollingSnapPointsMode)
    (ignoredAfterBringingIntoView : Bool) (updatedTargetOffsets : α × α)
    (AnimationDesired : Bool) (args : BringIntoViewData α) : ScrollPresenter α :=
  let request (s : ScrollPresenter α) (offsetsChangeCorrelationId : Int)
      (target : α × α) (snapPointsMode : ScrollingSnapPointsMode) : ScrollPresenter α :=
    if target.1 ≠ view.m_zoomedHorizontalOffset ∨ target.2 ≠ view.m_zoomedVerticalOffset then
      (s.ChangeOffsetsPrivate target.1 target.2 .Absolute
        (some ⟨if AnimationDesired then .Auto else .Disabled, snapPointsMode⟩) (some args)
        .bringIntoView offsetsChangeCorrelationId false).1
    else s.RaiseViewChangeCompleted true .Completed offsetsChangeCorrelationId
  if ignored then s
  else if HasBringingIntoViewListener then
    let s1 := s.storeNextViewChangeCorrelationId
    let offsetsChangeCorrelationId := s1.m_latestViewChangeCorrelationId
    match RaiseBringingIntoView with
    | none => s1.RaiseViewChangeCompleted true .Completed offsetsChangeCorrelationId
    | some snapPointsMode =>
      if !s1.Content || ignoredAfterBringingIntoView then s1
      else request s1 offsetsChangeCorrelationId updatedTargetOffsets snapPointsMode
  else request s s_noOpCorrelationId targetOffsets .Ignore

/-- The sample arguments of a bring-into-view request. -/
def sampleBringIntoViewData : BringIntoViewData Int := ⟨1, (0, 0, 10, 10), 0, 0, 0, 0⟩

/-- A view at pixel scale: a content 651.4 wide in a viewport 200 wide, scrolled to the
horizontal offset 100 at the `float` zoom factor nearest to 1.1. -/
def samplePixelView : ScrollPresenterView Double :=
  { sampleDoubleView with
    m_zoomedHorizontalOffset := Double.ofInt 100,
    m_zoomFactor := Double.toSingle (Double.ofRatio 11 10),
    m_unzoomedExtentWidth := Double.ofRatio 6514 10,
    m_viewportWidth := Double.ofInt 200 }

/-- The bounds of an element 1 wide at the `float` abscissa nearest to 4.1, to the left of
the viewport of `samplePixelView`. -/
def samplePixelBounds : DescendantBounds Double :=
  ⟨Double.toSingle (Double.ofRatio 41 10), Double.ofInt 0, Double.ofInt 1, Double.ofInt 0⟩

end ScrollPresenter

/-! ## Theorems -/

namespace ScrollPresenter

variable {α : Type}

@[simp] theorem emit_queue (s : ScrollPresenter α) (e : Effect) :
    (s.emit e).m_interactionTrackerAsyncOperations = s.m_interactionTrackerAsyncOperations := rfl

@[simp] theorem emit_completed (s : ScrollPresenter α) (e : Effect) :
    (s.emit e).completedViewChanges = s.completedViewChanges := rfl

@[simp] theorem RaiseViewChangeCompleted_queue (s : ScrollPresenter α) (b : Bool)
    (r : ScrollPresenterViewChangeResult) (c : Int) :
    (s.RaiseViewChangeCompleted b r c).m_interactionTrackerAsyncOperations =
      s.m_interactionTrackerAsyncOperations := by
  unfold RaiseViewChangeCompleted
  split_ifs <;> rfl

@[simp] theorem RaiseViewChangeCompleted_completed (s : ScrollPresenter α) (b : Bool)
    (r : ScrollPresenterViewChangeResult) (c : Int) :
    (s.RaiseViewChangeCompleted b r c).completedViewChanges = s.completedViewChanges := by
  unfold RaiseViewChangeCompleted
  split_ifs <;> rfl

@[simp] theorem RaiseViewChangeCompleted_hsc (s : ScrollPresenter α) (b : Bool)
    (r : ScrollPresenterViewChangeResult) (c : Int) :
    (s.RaiseViewChangeCompleted b r c).m_horizontalScrollController =
      s.m_horizontalScrollController := by
  unfold RaiseViewChangeCompleted
  split_ifs <;> rfl

theorem CompleteViewChange_queue (s : ScrollPresenter α)
    (o : InteractionTrackerAsyncOperation α) (r : ScrollPresenterViewChangeResult) :
    (s.CompleteViewChange o r).m_interactionTrackerAsyncOperations =
      s.m_interactionTrackerAsyncOperations.map
        (fun x => if x.id == o.id then x.SetIsCompleted true else x) := by
  unfold CompleteViewChange
  simp only []
  split_ifs <;> split <;> simp [updateOperation]

theorem CompleteViewChange_completed (s : ScrollPresenter α)
    (o : InteractionTrackerAsyncOperation α) (r : ScrollPresenterViewChangeResult) :
    (s.CompleteViewChange o r).completedViewChanges =
      s.completedViewChanges ++ [(o.SetIsCompleted true, r)] := by
  unfold CompleteViewChange
  simp only []
  split_ifs <;> split <;> simp [updateOperation]


theorem filter_id_ne_map_update (q : List (InteractionTrackerAsyncOperation α)) (i : Nat)
    (f : InteractionTrackerAsyncOperation α → InteractionTrackerAsyncOperation α)
    (hf : ∀ x, (f x).id = x.id) :
    (q.map (fun x => if x.id == i then f x else x)).filter (fun x => x.id != i) =
      q.filter (fun x => x.id != i) := by
  induction q with
  | nil => rfl
  | cons a t ih =>
    by_cases h : a.id = i
    · have h2 : (f a).id = i := by rw [hf, h]
      simpa [List.filter_cons, h, h2] using ih
    · simpa [List.filter_cons, h] using ih

theorem completeOperationStep_eq (requestId : Int)
    (r1 r2 r3 : ScrollPresenterViewChangeResult) (b1 b2 b3 b4 : Bool)
    (s : ScrollPresenter α) (o : InteractionTrackerAsyncOperation α) :
    completeOperationStep requestId r1 r2 r3 b1 b2 b3 b4 s o =
      if sweepCompletes requestId b1 b2 b3 b4 o then
        (let s2 := (s.CompleteViewChange o (sweepResult requestId r1 r2 r3 o)).removeOperation o
         let s3 := if s2.m_interactionTrackerAsyncOperations.isEmpty then s2.ResetAnticipatedView else s2
         match o.operationType with
         | .TryUpdatePositionWithAdditionalVelocity => s3.PostProcessOffsetsChange o
         | .TryUpdateScaleWithAdditionalVelocity => s3.PostProcessZoomFactorChange o
         | _ => s3)
      else s := by
  unfold completeOperationStep sweepCompletes sweepResult
  simp only []
  generalize (requestId == -1 || requestId == o.requestId) = m
  generalize (decide (requestId > o.requestId) && (-1 : Int) != o.requestId) = p
  generalize o.IsAnimated = a
  cases m <;> cases p <;> cases a <;> cases b1 <;> cases b2 <;> cases b3 <;> cases b4 <;> rfl


@[simp] theorem PostProcessOffsetsChange_queue (s : ScrollPresenter α)
    (o : InteractionTrackerAsyncOperation α) :
    (s.PostProcessOffsetsChange o).m_interactionTrackerAsyncOperations =
      s.m_interactionTrackerAsyncOperations := by
  unfold PostProcessOffsetsChange
  simp only []
  split_ifs <;> rfl

@[simp] theorem PostProcessOffsetsChange_completed (s : ScrollPresenter α)
    (o : InteractionTrackerAsyncOperation α) :
    (s.PostProcessOffsetsChange o).completedViewChanges = s.completedViewChanges := by
  unfold PostProcessOffsetsChange
  simp only []
  split_ifs <;> rfl

@[simp] theorem PostProcessZoomFactorChange_queue (s : ScrollPresenter α)
    (o : InteractionTrackerAsyncOperation α) :
    (s.PostProcessZoomFactorChange o).m_interactionTrackerAsyncOperations =
      s.m_interactionTrackerAsyncOperations := by
  unfold PostProcessZoomFactorChange
  simp only []
  split_ifs <;> rfl

@[simp] theorem PostProcessZoomFactorChange_completed (s : ScrollPresenter α)
    (o : InteractionTrackerAsyncOperation α) :
    (s.PostProcessZoomFactorChange o).completedViewChanges = s.completedViewChanges := by
  unfold PostProcessZoomFactorChange
  simp only []
  split_ifs <;> rfl

theorem completeOperationStep_queue (requestId : Int)
    (r1 r2 r3 : ScrollPresenterViewChangeResult) (b1 b2 b3 b4 : Bool)
    (s : ScrollPresenter α) (o : InteractionTrackerAsyncOperation α) :
    (completeOperationStep requestId r1 r2 r3 b1 b2 b3 b4 s o).m_interactionTrackerAsyncOperations =
      if sweepCompletes requestId b1 b2 b3 b4 o then
        s.m_interactionTrackerAsyncOperations.filter (fun x => x.id != o.id)
      else s.m_interactionTrackerAsyncOperations := by
  rw [completeOperationStep_eq]
  by_cases h : sweepCompletes requestId b1 b2 b3 b4 o = true
  · have hq : ((s.CompleteViewChange o (sweepResult requestId r1 r2 r3 o)).removeOperation
        o).m_interactionTrackerAsyncOperations =
        s.m_interactionTrackerAsyncOperations.filter (fun x => x.id != o.id) := by
      simp only [removeOperation, CompleteViewChange_queue]
      exact filter_id_ne_map_update _ _ _ (fun _ => rfl)
    simp only [h, if_true]
    split <;> (try simp only [PostProcessOffsetsChange_queue, PostProcessZoomFactorChange_queue]) <;>
      split_ifs <;> exact hq
  · simp only [h, Bool.false_eq_true, if_false]

theorem completeOperationStep_completed (requestId : Int)
    (r1 r2 r3 : ScrollPresenterViewChangeResult) (b1 b2 b3 b4 : Bool)
    (s : ScrollPresenter α) (o : InteractionTrackerAsyncOperation α) :
    (completeOperationStep requestId r1 r2 r3 b1 b2 b3 b4 s o).completedViewChanges =
      if sweepCompletes requestId b1 b2 b3 b4 o then
        s.completedViewChanges ++ [(o.SetIsCompleted true, sweepResult requestId r1 r2 r3 o)]
      else s.completedViewChanges := by
  rw [completeOperationStep_eq]
  by_cases h : sweepCompletes requestId b1 b2 b3 b4 o = true
  · have hq : ((s.CompleteViewChange o (sweepResult requestId r1 r2 r3 o)).removeOperation
        o).completedViewChanges =
        s.completedViewChanges ++ [(o.SetIsCompleted true, sweepResult requestId r1 r2 r3 o)] := by
      simp only [removeOperation, CompleteViewChange_completed]
    simp only [h, if_true]
    split <;> (try simp only [PostProcessOffsetsChange_completed, PostProcessZoomFactorChange_completed]) <;>
      split_ifs <;> exact hq
  · simp only [h, Bool.false_eq_true, if_false]

theorem sweep_foldl_queue (requestId : Int)
    (r1 r2 r3 : ScrollPresenterViewChangeResult) (b1 b2 b3 b4 : Bool)
    (l : List (InteractionTrackerAsyncOperation α)) (s : ScrollPresenter α) :
    (l.foldl (completeOperationStep requestId r1 r2 r3 b1 b2 b3 b4) s).m_interactionTrackerAsyncOperations =
      s.m_interactionTrackerAsyncOperations.filter
        (fun x => l.all (fun o => !(sweepCompletes requestId b1 b2 b3 b4 o) || x.id != o.id)) := by
  induction l generalizing s with
  | nil => simp
  | cons o t ih =>
    rw [List.foldl_cons, ih, completeOperationStep_queue]
    by_cases h : sweepCompletes requestId b1 b2 b3 b4 o = true
    · simp only [h, if_true, List.filter_filter, List.all_cons, Bool.not_true, Bool.false_or]
      apply List.filter_congr
      intro x _
      rw [Bool.and_comm]
    · simp only [h, Bool.false_eq_true, if_false, List.all_cons]
      apply List.filter_congr
      intro x _
      simp [h]

theorem sweep_foldl_completed (requestId : Int)
    (r1 r2 r3 : ScrollPresenterViewChangeResult) (b1 b2 b3 b4 : Bool)
    (l : List (InteractionTrackerAsyncOperation α)) (s : ScrollPresenter α) :
    (l.foldl (completeOperationStep requestId r1 r2 r3 b1 b2 b3 b4) s).completedViewChanges =
      s.completedViewChanges ++
        (l.filter (sweepCompletes requestId b1 b2 b3 b4)).map
          (fun o => (o.SetIsCompleted true, sweepResult requestId r1 r2 r3 o)) := by
  induction l generalizing s with
  | nil => simp
  | cons o t ih =>
    rw [List.foldl_cons, ih, completeOperationStep_completed]
    by_cases h : sweepCompletes requestId b1 b2 b3 b4 o = true
    · simp [h, List.filter_cons]
    · simp [h, List.filter_cons]

theorem filter_all_ids_eq (q : List (InteractionTrackerAsyncOperation α))
    (hq : (q.map (fun o => o.id)).Nodup) (c : InteractionTrackerAsyncOperation α → Bool) :
    q.filter (fun x => q.all (fun o => !(c o) || x.id != o.id)) = q.filter (fun x => !(c x)) := by
  apply List.filter_congr
  intro x hx
  by_cases hc : c x = true
  · simp only [hc, Bool.not_true]
    rw [List.all_eq_false]
    exact ⟨x, hx, by simp [hc]⟩
  · simp only [hc, Bool.not_false]
    rw [List.all_eq_true]
    intro o ho
    by_cases hco : c o = true
    · have hne : x.id ≠ o.id := by
        intro hid
        have := List.inj_on_of_nodup_map hq hx ho hid
        rw [this] at hc
        exact hc hco
      simp [hne]
    · simp [hco]

@[simp] theorem UpdateState_queue (s : ScrollPresenter α) (st : ScrollingInteractionState) :
    (s.UpdateState st).m_interactionTrackerAsyncOperations =
      s.m_interactionTrackerAsyncOperations := by
  unfold UpdateState
  simp only []
  split_ifs <;> rfl

@[simp] theorem UpdateState_completed (s : ScrollPresenter α) (st : ScrollingInteractionState) :
    (s.UpdateState st).completedViewChanges = s.completedViewChanges := by
  unfold UpdateState
  simp only []
  split_ifs <;> rfl

theorem sweep_queue (s : ScrollPresenter α) (requestId : Int)
    (r1 r2 r3 : ScrollPresenterViewChangeResult) (b1 b2 b3 b4 : Bool) :
    (s.CompleteInteractionTrackerOperations requestId r1 r2 r3 b1 b2 b3 b4).m_interactionTrackerAsyncOperations =
      s.m_interactionTrackerAsyncOperations.filter
        (fun x => s.m_interactionTrackerAsyncOperations.all
          (fun o => !(sweepCompletes requestId b1 b2 b3 b4 o) || x.id != o.id)) := by
  unfold CompleteInteractionTrackerOperations
  split_ifs with h
  · rw [List.isEmpty_iff] at h
    simp [h]
  · exact sweep_foldl_queue _ _ _ _ _ _ _ _ _ _

theorem sweep_completed (s : ScrollPresenter α) (requestId : Int)
    (r1 r2 r3 : ScrollPresenterViewChangeResult) (b1 b2 b3 b4 : Bool) :
    (s.CompleteInteractionTrackerOperations requestId r1 r2 r3 b1 b2 b3 b4).completedViewChanges =
      s.completedViewChanges ++
        (s.m_interactionTrackerAsyncOperations.filter (sweepCompletes requestId b1 b2 b3 b4)).map
          (fun o => (o.SetIsCompleted true, sweepResult requestId r1 r2 r3 o)) := by
  unfold CompleteInteractionTrackerOperations
  split_ifs with h
  · rw [List.isEmpty_iff] at h
    simp [h]
  · exact sweep_foldl_completed _ _ _ _ _ _ _ _ _ _

theorem sweep_unchanged (s : ScrollPresenter α) (requestId : Int)
    (r1 r2 r3 : ScrollPresenterViewChangeResult) (b1 b2 b3 b4 : Bool)
    (h : ∀ o ∈ s.m_interactionTrackerAsyncOperations, sweepCompletes requestId b1 b2 b3 b4 o = false) :
    s.CompleteInteractionTrackerOperations requestId r1 r2 r3 b1 b2 b3 b4 = s := by
  unfold CompleteInteractionTrackerOperations
  split_ifs
  · rfl
  · generalize s.m_interactionTrackerAsyncOperations = l at h
    induction l with
    | nil => rfl
    | cons o t ih =>
      rw [List.foldl_cons, completeOperationStep_eq, h o (List.mem_cons_self _ _)]
      exact ih (fun x hx => h x (List.mem_cons_of_mem _ hx))

/-- C1 (failing input): with a dispatched non-animated offsets operation and a dispatched
animated zoom operation in the queue, entering the Interacting state does not complete the
non-animated operation with result Completed, although the call of
`CompleteInteractionTrackerOperations` in `InteractingStateEntered` passes `Completed` as
the result of prior non-animated operations with every completion flag set: under the
request ID -1 every operation of the queue is a match, so the prior-operation branch that
would use that result is never reached. -/
theorem InteractingStateEntered_nonAnimated_not_Completed :
    ¬ ((∀ o ∈ (samplePresenter [sampleOperation 0 .TryUpdatePosition 1 1,
            sampleOperation 1 .TryUpdateScaleWithAnimation 2 2]).m_interactionTrackerAsyncOperations,
          (o.IsAnimated = false → (o.SetIsCompleted true, ScrollPresenterViewChangeResult.Completed) ∈
            (samplePresenter [sampleOperation 0 .TryUpdatePosition 1 1,
              sampleOperation 1 .TryUpdateScaleWithAnimation 2 2]).InteractingStateEntered.completedViewChanges) ∧
          (o.IsAnimated = true → (o.SetIsCompleted true, ScrollPresenterViewChangeResult.Interrupted) ∈
            (samplePresenter [sampleOperation 0 .TryUpdatePosition 1 1,
              sampleOperation 1 .TryUpdateScaleWithAnimation 2 2]).InteractingStateEntered.completedViewChanges)) ∧
        (samplePresenter [sampleOperation 0 .TryUpdatePosition 1 1,
            sampleOperation 1 .TryUpdateScaleWithAnimation 2 2]).InteractingStateEntered.m_interactionTrackerAsyncOperations = []) := by
  decide

/-- What `InteractingStateEntered` does on any queue: it completes every operation,
animated or not, with result Interrupted, in queue order, and leaves the queue empty. The
result `Completed` passed for prior non-animated operations is never used. -/
theorem InteractingStateEntered_interrupts_all (s : ScrollPresenter α) :
    s.InteractingStateEntered.m_interactionTrackerAsyncOperations = [] ∧
    s.InteractingStateEntered.completedViewChanges =
      s.completedViewChanges ++
        s.m_interactionTrackerAsyncOperations.map
          (fun o => (o.SetIsCompleted true, ScrollPresenterViewChangeResult.Interrupted)) := by
  have hc : ∀ o : InteractionTrackerAsyncOperation α,
      sweepCompletes (-1) true true true true o = true := by
    intro o
    unfold sweepCompletes
    cases o.IsAnimated <;> simp
  have hr : ∀ o : InteractionTrackerAsyncOperation α,
      sweepResult (-1) .Interrupted .Completed .Interrupted o = .Interrupted := by
    intro o
    simp [sweepResult]
  unfold InteractingStateEntered
  simp only []
  split_ifs with h1 h2 h2
  all_goals first
    | (simp only [sweep_queue, sweep_completed, hc, hr, UpdateState_queue, UpdateState_completed,
        ResetOffsetsInertiaDecayRate, ResetZoomFactorInertiaDecayRate]
       refine ⟨?_, by rw [List.filter_eq_self.2 (fun o _ => hc o)]⟩
       rw [List.filter_eq_nil_iff]
       intro x hx
       simp only [Bool.not_true, Bool.false_or, List.all_eq_true, not_forall]
       exact ⟨x, hx, by simp⟩)
    | (simp only [Bool.not_eq_true', Bool.not_eq_false] at h2
       simp only [UpdateState_queue, ResetOffsetsInertiaDecayRate, ResetZoomFactorInertiaDecayRate,
         List.isEmpty_iff, Bool.not_eq_true, Bool.not_eq_false, Bool.not_eq_true'] at h2 ⊢
       simp_all [UpdateState_queue, UpdateState_completed])

theorem sweep_queue_nodup (s : ScrollPresenter α) (requestId : Int)
    (r1 r2 r3 : ScrollPresenterViewChangeResult) (b1 b2 b3 b4 : Bool)
    (hq : (s.m_interactionTrackerAsyncOperations.map (fun o => o.id)).Nodup) :
    (s.CompleteInteractionTrackerOperations requestId r1 r2 r3 b1 b2 b3 b4).m_interactionTrackerAsyncOperations =
      s.m_interactionTrackerAsyncOperations.filter
        (fun x => !(sweepCompletes requestId b1 b2 b3 b4 x)) := by
  rw [sweep_queue]
  exact filter_all_ids_eq _ hq _

/-- C2: for a request ID `r` other than 0 and other than the not-dispatched marker -1,
`IdleStateEntered r` completes, in queue order, exactly the operations whose request ID is
`r` (result Completed) and the dispatched operations with a smaller request ID (Completed
when non-animated, Interrupted when animated), removes exactly those, and keeps the
operations with a larger request ID or with request ID -1 in their original order. -/
theorem IdleStateEntered_completes_match_and_priors (s : ScrollPresenter α) (r : Int)
    (h0 : r ≠ 0) (h1 : r ≠ -1)
    (hq : (s.m_interactionTrackerAsyncOperations.map (fun o => o.id)).Nodup) :
    (s.IdleStateEntered r).m_interactionTrackerAsyncOperations =
      s.m_interactionTrackerAsyncOperations.filter
        (fun o => decide (r < o.requestId) || o.requestId == -1) ∧
    (s.IdleStateEntered r).completedViewChanges =
      s.completedViewChanges ++
        (s.m_interactionTrackerAsyncOperations.filter
          (fun o => o.requestId == r || (decide (o.requestId < r) && o.requestId != -1))).map
          (fun o => (o.SetIsCompleted true,
            if o.requestId = r then ScrollPresenterViewChangeResult.Completed
            else if o.IsAnimated then ScrollPresenterViewChangeResult.Interrupted
            else ScrollPresenterViewChangeResult.Completed)) := by
  have hr1 : (r == -1) = false := by simpa using h1
  have hc : ∀ o : InteractionTrackerAsyncOperation α,
      sweepCompletes r true true true true o =
        (o.requestId == r || (decide (o.requestId < r) && o.requestId != -1)) := by
    intro o
    unfold sweepCompletes
    simp only [hr1, Bool.false_or, gt_iff_lt, Bool.and_true]
    have e1 : (r == o.requestId) = (o.requestId == r) := BEq.comm
    have e2 : ((-1 : Int) != o.requestId) = (o.requestId != -1) := by
      unfold bne
      rw [BEq.comm]
    rw [e1, e2]
    cases o.IsAnimated <;> cases (o.requestId == r) <;>
      cases (decide (o.requestId < r) && o.requestId != -1) <;> rfl
  have hn : ∀ o : InteractionTrackerAsyncOperation α,
      (!(sweepCompletes r true true true true o)) =
        (decide (r < o.requestId) || o.requestId == -1) := by
    intro o
    rw [hc, Bool.eq_iff_iff]
    simp only [Bool.not_eq_true', Bool.or_eq_false_iff, beq_eq_false_iff_ne, ne_eq,
      Bool.and_eq_false_imp, decide_eq_true_eq, bne_eq_false_iff_eq, Bool.or_eq_true, beq_iff_eq]
    constructor
    · rintro ⟨hne, himp⟩
      by_cases hlt : o.requestId < r
      · exact Or.inr (himp hlt)
      · exact Or.inl (lt_of_le_of_ne (not_lt.1 hlt) (Ne.symm hne))
    · rintro (hlt | heq)
      · exact ⟨ne_of_gt hlt, fun h => absurd h (not_lt.2 (le_of_lt hlt))⟩
      · exact ⟨by rw [heq]; exact Ne.symm h1, fun _ => heq⟩
  have hres : ∀ o : InteractionTrackerAsyncOperation α,
      sweepResult r .Completed .Completed .Interrupted o =
        (if o.requestId = r then ScrollPresenterViewChangeResult.Completed
         else if o.IsAnimated then ScrollPresenterViewChangeResult.Interrupted
         else ScrollPresenterViewChangeResult.Completed) := by
    intro o
    unfold sweepResult
    simp only [hr1, Bool.false_or, beq_iff_eq]
    by_cases h : r = o.requestId
    · simp [h]
    · simp [h, Ne.symm h]
  have hf : (sweepCompletes r true true true true : InteractionTrackerAsyncOperation α → Bool) =
      fun o => (o.requestId == r || (decide (o.requestId < r) && o.requestId != -1)) :=
    funext hc
  unfold IdleStateEntered
  simp only []
  split_ifs with he
  · have hq2 : ((s.UpdateState .Idle).m_interactionTrackerAsyncOperations.map
        (fun o => o.id)).Nodup := by simpa using hq
    constructor
    · rw [sweep_queue_nodup _ _ _ _ _ _ _ _ _ hq2]
      simp only [UpdateState_queue, hn]
    · rw [sweep_completed]
      simp only [UpdateState_queue, UpdateState_completed, hres]
      rw [hf]
  · simp only [Bool.not_eq_true', Bool.not_eq_false, Bool.not_eq_true, UpdateState_queue,
      List.isEmpty_iff] at he
    simp [he]

theorem sweep_new_completed (s : ScrollPresenter α) (requestId : Int)
    (r1 r2 r3 : ScrollPresenterViewChangeResult) (b1 b2 b3 b4 : Bool) :
    (s.CompleteInteractionTrackerOperations requestId r1 r2 r3 b1 b2 b3 b4).completedViewChanges.drop
        s.completedViewChanges.length =
      (s.m_interactionTrackerAsyncOperations.filter (sweepCompletes requestId b1 b2 b3 b4)).map
        (fun o => (o.SetIsCompleted true, sweepResult requestId r1 r2 r3 o)) := by
  rw [sweep_completed, List.drop_left]

theorem sweep_completed_mem (s : ScrollPresenter α) (requestId : Int)
    (r1 r2 r3 : ScrollPresenterViewChangeResult) (b1 b2 b3 b4 : Bool)
    (hq : (s.m_interactionTrackerAsyncOperations.map (fun o => o.id)).Nodup)
    (o : InteractionTrackerAsyncOperation α) (ho : o ∈ s.m_interactionTrackerAsyncOperations)
    (hc : sweepCompletes requestId b1 b2 b3 b4 o = true) :
    o ∉ (s.CompleteInteractionTrackerOperations requestId r1 r2 r3 b1 b2 b3
        b4).m_interactionTrackerAsyncOperations ∧
    (o.SetIsCompleted true, sweepResult requestId r1 r2 r3 o) ∈
      (s.CompleteInteractionTrackerOperations requestId r1 r2 r3 b1 b2 b3
        b4).completedViewChanges.drop s.completedViewChanges.length := by
  constructor
  · rw [sweep_queue_nodup _ _ _ _ _ _ _ _ _ hq, List.mem_filter]
    simp [hc]
  · rw [sweep_new_completed, List.mem_map]
    exact ⟨o, List.mem_filter.2 ⟨ho, hc⟩, rfl⟩

theorem sweep_kept_mem (s : ScrollPresenter α) (requestId : Int)
    (r1 r2 r3 : ScrollPresenterViewChangeResult) (b1 b2 b3 b4 : Bool)
    (hq : (s.m_interactionTrackerAsyncOperations.map (fun o => o.id)).Nodup)
    (o : InteractionTrackerAsyncOperation α) (ho : o ∈ s.m_interactionTrackerAsyncOperations)
    (hc : sweepCompletes requestId b1 b2 b3 b4 o = false) :
    o ∈ (s.CompleteInteractionTrackerOperations requestId r1 r2 r3 b1 b2 b3
        b4).m_interactionTrackerAsyncOperations ∧
    ∀ e ∈ (s.CompleteInteractionTrackerOperations requestId r1 r2 r3 b1 b2 b3
        b4).completedViewChanges.drop s.completedViewChanges.length, e.1.id ≠ o.id := by
  constructor
  · rw [sweep_queue_nodup _ _ _ _ _ _ _ _ _ hq, List.mem_filter]
    simp [hc, ho]
  · rw [sweep_new_completed]
    intro e he
    rw [List.mem_map] at he
    obtain ⟨x, hx, rfl⟩ := he
    rw [List.mem_filter] at hx
    intro hid
    have hxo : x = o := List.inj_on_of_nodup_map hq hx.1 ho hid
    rw [hxo, hc] at hx
    exact Bool.false_ne_true hx.2

/-- Value of the sweep test for the flags `ValuesChanged` passes. -/
theorem sweepCompletes_ValuesChanged (r : Int) (h1 : r ≠ -1)
    (o : InteractionTrackerAsyncOperation α) :
    sweepCompletes r true false true true o =
      ((o.requestId == r && !o.IsAnimated) || (decide (o.requestId < r) && o.requestId != -1)) := by
  have hr1 : (r == -1) = false := by simpa using h1
  unfold sweepCompletes
  simp only [hr1, Bool.false_or, gt_iff_lt, Bool.and_true]
  have e1 : (r == o.requestId) = (o.requestId == r) := BEq.comm
  have e2 : ((-1 : Int) != o.requestId) = (o.requestId != -1) := by
    unfold bne
    rw [BEq.comm]
  rw [e1, e2]
  cases o.IsAnimated <;> cases (o.requestId == r) <;>
    cases (decide (o.requestId < r) && o.requestId != -1) <;> rfl

theorem ValuesChanged_eq (s : ScrollPresenter α) (r : Int) (h0 : r ≠ 0) :
    s.ValuesChanged r =
      s.CompleteInteractionTrackerOperations r .Completed .Completed .Interrupted
        true false true true := by
  unfold ValuesChanged
  simp only []
  split_ifs with h
  · rfl
  · have he : s.m_interactionTrackerAsyncOperations.isEmpty = true := by
      by_contra hne
      exact h ⟨h0, hne⟩
    unfold CompleteInteractionTrackerOperations
    rw [if_pos he]

/-- C3 (as stated, refuted): a values-changed callback for request 2 completes the animated
operation dispatched earlier as request 1 and removes it from the queue. -/
theorem ValuesChanged_completes_prior_animated :
    ¬ (∀ o ∈ (samplePresenter
            [sampleOperation 0 .TryUpdatePositionWithAnimation 1 1]).m_interactionTrackerAsyncOperations,
          o.IsAnimated = true → o.requestId < 2 →
          o ∈ ((samplePresenter
            [sampleOperation 0 .TryUpdatePositionWithAnimation 1 1]).ValuesChanged
              2).m_interactionTrackerAsyncOperations ∧
          ∀ e ∈ ((samplePresenter
            [sampleOperation 0 .TryUpdatePositionWithAnimation 1 1]).ValuesChanged
              2).completedViewChanges, e.1.id ≠ o.id) := by
  decide

/-- C3 (amended): for a request ID `r` other than 0 and -1, `ValuesChanged r` completes
every animated operation that was dispatched with a smaller request ID with result
Interrupted and removes it; every other animated operation (request ID `r`, a larger
request ID, or not dispatched yet) stays in the queue and is not completed by the
callback. -/
theorem ValuesChanged_animated_operations (s : ScrollPresenter α) (r : Int)
    (h0 : r ≠ 0) (h1 : r ≠ -1)
    (hq : (s.m_interactionTrackerAsyncOperations.map (fun o => o.id)).Nodup) :
    ∀ o ∈ s.m_interactionTrackerAsyncOperations, o.IsAnimated = true →
      ((o.requestId < r ∧ o.requestId ≠ -1) →
        o ∉ (s.ValuesChanged r).m_interactionTrackerAsyncOperations ∧
        (o.SetIsCompleted true, ScrollPresenterViewChangeResult.Interrupted) ∈
          (s.ValuesChanged r).completedViewChanges.drop s.completedViewChanges.length) ∧
      (¬ (o.requestId < r ∧ o.requestId ≠ -1) →
        o ∈ (s.ValuesChanged r).m_interactionTrackerAsyncOperations ∧
        ∀ e ∈ (s.ValuesChanged r).completedViewChanges.drop s.completedViewChanges.length,
          e.1.id ≠ o.id) := by
  intro o ho ha
  rw [ValuesChanged_eq s r h0]
  constructor
  · rintro ⟨hlt, hne⟩
    have hc : sweepCompletes r true false true true o = true := by
      rw [sweepCompletes_ValuesChanged r h1]
      simp [hlt, hne]
    have hres : sweepResult r .Completed .Completed .Interrupted o = .Interrupted := by
      have hr1 : (r == -1) = false := by simpa using h1
      have hr2 : (r == o.requestId) = false := by simpa using (ne_of_gt hlt)
      simp [sweepResult, hr1, hr2, ha]
    have := sweep_completed_mem s r .Completed .Completed .Interrupted true false true true
      hq o ho hc
    rw [hres] at this
    exact this
  · intro hn
    have hc : sweepCompletes r true false true true o = false := by
      rw [sweepCompletes_ValuesChanged r h1, ha]
      simp only [Bool.not_true, Bool.and_false, Bool.false_or, Bool.and_eq_false_imp,
        decide_eq_true_eq, bne_eq_false_iff_eq]
      intro hlt
      by_contra hne
      exact hn ⟨hlt, hne⟩
    exact sweep_kept_mem s r .Completed .Completed .Interrupted true false true true hq o ho hc

/-- C4 (as stated, refuted): a values-changed callback carrying the request ID of an
animated operation leaves that operation in the queue, not completed. -/
theorem ValuesChanged_keeps_matching_animated :
    ¬ (∀ o ∈ (samplePresenter
            [sampleOperation 0 .TryUpdatePositionWithAnimation 5 1]).m_interactionTrackerAsyncOperations,
          o.requestId = 5 →
          o ∉ ((samplePresenter
            [sampleOperation 0 .TryUpdatePositionWithAnimation 5 1]).ValuesChanged
              5).m_interactionTrackerAsyncOperations ∧
          (o.SetIsCompleted true, ScrollPresenterViewChangeResult.Completed) ∈
            ((samplePresenter
              [sampleOperation 0 .TryUpdatePositionWithAnimation 5 1]).ValuesChanged
                5).completedViewChanges) := by
  decide

/-- C4 (amended): for a request ID `r` other than 0 and -1, `ValuesChanged r` completes
with result Completed and removes every non-animated operation whose request ID is `r` or
that was dispatched with a smaller request ID; an animated operation whose request ID is
`r` stays in the queue and is not completed by the callback. -/
theorem ValuesChanged_completes_nonAnimated (s : ScrollPresenter α) (r : Int)
    (h0 : r ≠ 0) (h1 : r ≠ -1)
    (hq : (s.m_interactionTrackerAsyncOperations.map (fun o => o.id)).Nodup) :
    ∀ o ∈ s.m_interactionTrackerAsyncOperations,
      (o.IsAnimated = false →
        (o.requestId = r ∨ (o.requestId < r ∧ o.requestId ≠ -1)) →
        o ∉ (s.ValuesChanged r).m_interactionTrackerAsyncOperations ∧
        (o.SetIsCompleted true, ScrollPresenterViewChangeResult.Completed) ∈
          (s.ValuesChanged r).completedViewChanges.drop s.completedViewChanges.length) ∧
      (o.IsAnimated = true → o.requestId = r →
        o ∈ (s.ValuesChanged r).m_interactionTrackerAsyncOperations ∧
        ∀ e ∈ (s.ValuesChanged r).completedViewChanges.drop s.completedViewChanges.length,
          e.1.id ≠ o.id) := by
  intro o ho
  rw [ValuesChanged_eq s r h0]
  constructor
  · intro ha hcase
    have hc : sweepCompletes r true false true true o = true := by
      rw [sweepCompletes_ValuesChanged r h1, ha]
      rcases hcase with h | ⟨hlt, hne⟩
      · simp [h]
      · simp [hlt, hne]
    have hres : sweepResult r .Completed .Completed .Interrupted o = .Completed := by
      unfold sweepResult
      rw [ha]
      simp
    have := sweep_completed_mem s r .Completed .Completed .Interrupted true false true true
      hq o ho hc
    rw [hres] at this
    exact this
  · intro ha hr
    have hc : sweepCompletes r true false true true o = false := by
      rw [sweepCompletes_ValuesChanged r h1, ha, hr]
      simp
    exact sweep_kept_mem s r .Completed .Completed .Interrupted true false true true hq o ho hc

/-- C2 (witness): the sample queue and request 2. -/
theorem IdleStateEntered_completes_match_and_priors_witness :
    (2 : Int) ≠ 0 ∧ (2 : Int) ≠ -1 ∧
    ((samplePresenter sampleQueue).m_interactionTrackerAsyncOperations.map (fun o => o.id)).Nodup ∧
    (((samplePresenter sampleQueue).IdleStateEntered 2).m_interactionTrackerAsyncOperations =
      (samplePresenter sampleQueue).m_interactionTrackerAsyncOperations.filter
        (fun o => decide (2 < o.requestId) || o.requestId == -1) ∧
    ((samplePresenter sampleQueue).IdleStateEntered 2).completedViewChanges =
      (samplePresenter sampleQueue).completedViewChanges ++
        ((samplePresenter sampleQueue).m_interactionTrackerAsyncOperations.filter
          (fun o => o.requestId == 2 || (decide (o.requestId < 2) && o.requestId != -1))).map
          (fun o => (o.SetIsCompleted true,
            if o.requestId = 2 then ScrollPresenterViewChangeResult.Completed
            else if o.IsAnimated then ScrollPresenterViewChangeResult.Interrupted
            else ScrollPresenterViewChangeResult.Completed))) :=
  ⟨by decide, by decide, by decide,
    IdleStateEntered_completes_match_and_priors (samplePresenter sampleQueue) 2
      (by decide) (by decide) (by decide)⟩

/-- C3 (witness): the sample queue and request 3. -/
theorem ValuesChanged_animated_operations_witness :
    (3 : Int) ≠ 0 ∧ (3 : Int) ≠ -1 ∧
    ((samplePresenter sampleQueue).m_interactionTrackerAsyncOperations.map (fun o => o.id)).Nodup ∧
    ∀ o ∈ (samplePresenter sampleQueue).m_interactionTrackerAsyncOperations, o.IsAnimated = true →
      ((o.requestId < 3 ∧ o.requestId ≠ -1) →
        o ∉ ((samplePresenter sampleQueue).ValuesChanged 3).m_interactionTrackerAsyncOperations ∧
        (o.SetIsCompleted true, ScrollPresenterViewChangeResult.Interrupted) ∈
          ((samplePresenter sampleQueue).ValuesChanged 3).completedViewChanges.drop
            (samplePresenter sampleQueue).completedViewChanges.length) ∧
      (¬ (o.requestId < 3 ∧ o.requestId ≠ -1) →
        o ∈ ((samplePresenter sampleQueue).ValuesChanged 3).m_interactionTrackerAsyncOperations ∧
        ∀ e ∈ ((samplePresenter sampleQueue).ValuesChanged 3).completedViewChanges.drop
            (samplePresenter sampleQueue).completedViewChanges.length,
          e.1.id ≠ o.id) :=
  ⟨by decide, by decide, by decide,
    ValuesChanged_animated_operations (samplePresenter sampleQueue) 3
      (by decide) (by decide) (by decide)⟩

/-- C4 (witness): the sample queue and request 1. -/
theorem ValuesChanged_completes_nonAnimated_witness :
    (1 : Int) ≠ 0 ∧ (1 : Int) ≠ -1 ∧
    ((samplePresenter sampleQueue).m_interactionTrackerAsyncOperations.map (fun o => o.id)).Nodup ∧
    ∀ o ∈ (samplePresenter sampleQueue).m_interactionTrackerAsyncOperations,
      (o.IsAnimated = false →
        (o.requestId = 1 ∨ (o.requestId < 1 ∧ o.requestId ≠ -1)) →
        o ∉ ((samplePresenter sampleQueue).ValuesChanged 1).m_interactionTrackerAsyncOperations ∧
        (o.SetIsCompleted true, ScrollPresenterViewChangeResult.Completed) ∈
          ((samplePresenter sampleQueue).ValuesChanged 1).completedViewChanges.drop
            (samplePresenter sampleQueue).completedViewChanges.length) ∧
      (o.IsAnimated = true → o.requestId = 1 →
        o ∈ ((samplePresenter sampleQueue).ValuesChanged 1).m_interactionTrackerAsyncOperations ∧
        ∀ e ∈ ((samplePresenter sampleQueue).ValuesChanged 1).completedViewChanges.drop
            (samplePresenter sampleQueue).completedViewChanges.length,
          e.1.id ≠ o.id) :=
  ⟨by decide, by decide, by decide,
    ValuesChanged_completes_nonAnimated (samplePresenter sampleQueue) 1
      (by decide) (by decide) (by decide)⟩

/-- C5: for a request ID `r` other than the not-dispatched marker -1, `RequestIgnored r`
completes exactly the operations whose request ID is `r`, with result Ignored, and removes
them; all other operations stay in the queue in their original order; when no operation
has request ID `r` the presenter is left unchanged. -/
theorem RequestIgnored_completes_only_match (s : ScrollPresenter α) (r : Int)
    (h1 : r ≠ -1)
    (hq : (s.m_interactionTrackerAsyncOperations.map (fun o => o.id)).Nodup) :
    (s.RequestIgnored r).m_interactionTrackerAsyncOperations =
      s.m_interactionTrackerAsyncOperations.filter (fun o => o.requestId != r) ∧
    (s.RequestIgnored r).completedViewChanges =
      s.completedViewChanges ++
        (s.m_interactionTrackerAsyncOperations.filter (fun o => o.requestId == r)).map
          (fun o => (o.SetIsCompleted true, ScrollPresenterViewChangeResult.Ignored)) ∧
    ((∀ o ∈ s.m_interactionTrackerAsyncOperations, o.requestId ≠ r) → s.RequestIgnored r = s) := by
  have hr1 : (r == -1) = false := by simpa using h1
  have hc : ∀ o : InteractionTrackerAsyncOperation α,
      sweepCompletes r true true false false o = (o.requestId == r) := by
    intro o
    unfold sweepCompletes
    simp only [hr1, Bool.false_or, Bool.and_true, Bool.and_false, Bool.false_and, Bool.or_false]
    have e1 : (r == o.requestId) = (o.requestId == r) := BEq.comm
    rw [e1]
    cases o.IsAnimated <;> cases (o.requestId == r) <;> rfl
  have hf : (sweepCompletes r true true false false : InteractionTrackerAsyncOperation α → Bool) =
      fun o => (o.requestId == r) := funext hc
  have he : s.RequestIgnored r =
      s.CompleteInteractionTrackerOperations r .Ignored .Ignored .Ignored true true false false := by
    unfold RequestIgnored
    split_ifs with h
    · rfl
    · simp only [Bool.not_eq_true', Bool.not_eq_false, Bool.not_eq_true] at h
      unfold CompleteInteractionTrackerOperations
      rw [if_pos h]
  rw [he]
  refine ⟨?_, ?_, ?_⟩
  · rw [sweep_queue_nodup _ _ _ _ _ _ _ _ _ hq]
    apply List.filter_congr
    intro o _
    rw [hc]
    rfl
  · rw [sweep_completed]
    congr 1
    rw [hf]
    apply List.map_congr_left
    intro o ho
    have : sweepResult r .Ignored .Ignored .Ignored o = .Ignored := by
      unfold sweepResult
      split_ifs <;> rfl
    rw [this]
  · intro hall
    apply sweep_unchanged
    intro o ho
    rw [hc]
    simpa using hall o ho

/-- C5 (witness): the sample queue and request 2. -/
theorem RequestIgnored_completes_only_match_witness :
    (2 : Int) ≠ -1 ∧
    ((samplePresenter sampleQueue).m_interactionTrackerAsyncOperations.map (fun o => o.id)).Nodup ∧
    (((samplePresenter sampleQueue).RequestIgnored 2).m_interactionTrackerAsyncOperations =
      (samplePresenter sampleQueue).m_interactionTrackerAsyncOperations.filter
        (fun o => o.requestId != 2) ∧
    ((samplePresenter sampleQueue).RequestIgnored 2).completedViewChanges =
      (samplePresenter sampleQueue).completedViewChanges ++
        ((samplePresenter sampleQueue).m_interactionTrackerAsyncOperations.filter
          (fun o => o.requestId == 2)).map
          (fun o => (o.SetIsCompleted true, ScrollPresenterViewChangeResult.Ignored)) ∧
    ((∀ o ∈ (samplePresenter sampleQueue).m_interactionTrackerAsyncOperations, o.requestId ≠ 2) →
      (samplePresenter sampleQueue).RequestIgnored 2 = samplePresenter sampleQueue)) :=
  ⟨by decide, by decide,
    RequestIgnored_completes_only_match (samplePresenter sampleQueue) 2 (by decide) (by decide)⟩

/-- C6: with no content attached, each of the four request entry points leaves the
presenter unchanged (queue, latest correlation ID, completions and trace of effects
included) and leaves the no-op correlation ID -1 in the out-parameter, and so each of the
six public request methods returns -1 without any effect. -/
theorem no_content_requests_are_noOps [Zero α] (s : ScrollPresenter α) (hc : s.Content = false) :
    (∀ (h v : α) (kind : ScrollPresenterViewKind) (options : Option ScrollingOptions)
        (args : Option (BringIntoViewData α)) (trigger : InteractionTrackerAsyncOperationTrigger)
        (existing : Int) (out : Bool),
      s.ChangeOffsetsPrivate h v kind options args trigger existing out =
        (s, if out then some s_noOpCorrelationId else none)) ∧
    (∀ (velocity anticipated : α × α) (decay : Option (α × α))
        (trigger : InteractionTrackerAsyncOperationTrigger) (out : Bool),
      s.ChangeOffsetsWithAdditionalVelocityPrivate velocity anticipated decay trigger out =
        (s, if out then some s_noOpCorrelationId else none)) ∧
    (∀ (zoomFactor : α) (centerPoint : Option (α × α)) (kind : ScrollPresenterViewKind)
        (options : Option ScrollingOptions) (out : Bool),
      s.ChangeZoomFactorPrivate zoomFactor centerPoint kind options out =
        (s, if out then some s_noOpCorrelationId else none)) ∧
    (∀ (velocity anticipated : α) (centerPoint : Option (α × α)) (decay : Option α)
        (trigger : InteractionTrackerAsyncOperationTrigger) (out : Bool),
      s.ChangeZoomFactorWithAdditionalVelocityPrivate velocity anticipated centerPoint decay
        trigger out = (s, if out then some s_noOpCorrelationId else none)) ∧
    (∀ (h v : α) (options : Option ScrollingOptions),
      s.ScrollTo h v options = (s, -1) ∧ s.ScrollBy h v options = (s, -1)) ∧
    (∀ (velocity : α × α) (decay : Option (α × α)), s.AddScrollVelocity velocity decay = (s, -1)) ∧
    (∀ (zoomFactor : α) (centerPoint : Option (α × α)) (options : Option ScrollingOptions),
      s.ZoomTo zoomFactor centerPoint options = (s, -1) ∧
      s.ZoomBy zoomFactor centerPoint options = (s, -1)) ∧
    (∀ (velocity : α) (centerPoint : Option (α × α)) (decay : Option α),
      s.AddZoomVelocity velocity centerPoint decay = (s, -1)) := by
  have h1 : ∀ (h v : α) (kind : ScrollPresenterViewKind) (options : Option ScrollingOptions)
      (args : Option (BringIntoViewData α)) (trigger : InteractionTrackerAsyncOperationTrigger)
      (existing : Int) (out : Bool),
      s.ChangeOffsetsPrivate h v kind options args trigger existing out =
        (s, if out then some s_noOpCorrelationId else none) := by
    intros
    simp [ChangeOffsetsPrivate, hc]
  have h2 : ∀ (velocity anticipated : α × α) (decay : Option (α × α))
      (trigger : InteractionTrackerAsyncOperationTrigger) (out : Bool),
      s.ChangeOffsetsWithAdditionalVelocityPrivate velocity anticipated decay trigger out =
        (s, if out then some s_noOpCorrelationId else none) := by
    intros
    simp [ChangeOffsetsWithAdditionalVelocityPrivate, hc]
  have h3 : ∀ (zoomFactor : α) (centerPoint : Option (α × α)) (kind : ScrollPresenterViewKind)
      (options : Option ScrollingOptions) (out : Bool),
      s.ChangeZoomFactorPrivate zoomFactor centerPoint kind options out =
        (s, if out then some s_noOpCorrelationId else none) := by
    intros
    simp [ChangeZoomFactorPrivate, hc]
  have h4 : ∀ (velocity anticipated : α) (centerPoint : Option (α × α)) (decay : Option α)
      (trigger : InteractionTrackerAsyncOperationTrigger) (out : Bool),
      s.ChangeZoomFactorWithAdditionalVelocityPrivate velocity anticipated centerPoint decay
        trigger out = (s, if out then some s_noOpCorrelationId else none) := by
    intros
    simp [ChangeZoomFactorWithAdditionalVelocityPrivate, hc]
  refine ⟨h1, h2, h3, h4, ?_, ?_, ?_, ?_⟩
  · intro h v options
    simp [ScrollTo, ScrollBy, returnedCorrelationId, h1, s_noOpCorrelationId]
  · intro velocity decay
    simp [AddScrollVelocity, returnedCorrelationId, h2, s_noOpCorrelationId]
  · intro z c options
    simp [ZoomTo, ZoomBy, returnedCorrelationId, h3, s_noOpCorrelationId]
  · intro velocity c decay
    simp [AddZoomVelocity, returnedCorrelationId, h4, s_noOpCorrelationId]

/-- C6 (witness): `ScrollTo (100, 200)` on the sample presenter without content. -/
theorem no_content_requests_are_noOps_witness :
    sampleNoContent.Content = false ∧
    sampleNoContent.ScrollTo 100 200 none = (sampleNoContent, -1) :=
  ⟨rfl, ((no_content_requests_are_noOps sampleNoContent rfl).2.2.2.2.1 100 200 none).1⟩

/-- C8 (evaluation at the failing input): the correlation ID generator hands out 0 after
`INT_MAX`; completing a direct offsets operation that carries correlation ID 0 marks it
completed but raises no ScrollCompleted notification although a listener is registered,
while the same operation with correlation ID 1 raises exactly one. -/
theorem CompleteViewChange_correlationId_zero_raises_nothing :
    ({ samplePresenter [] with m_latestViewChangeCorrelationId := INT_MAX }
        : ScrollPresenter Int).GetNextViewChangeCorrelationId = 0 ∧
    (samplePresenter []).m_scrollCompletedEventSource = true ∧
    ((samplePresenter [sampleOperation 0 .TryUpdatePosition 1 0]).CompleteViewChange
        (sampleOperation 0 .TryUpdatePosition 1 0) .Completed).trace = [] ∧
    ((samplePresenter [sampleOperation 0 .TryUpdatePosition 1 0]).CompleteViewChange
        (sampleOperation 0 .TryUpdatePosition 1 0) .Completed).completedViewChanges =
      [((sampleOperation 0 .TryUpdatePosition 1 0).SetIsCompleted true, .Completed)] ∧
    ((samplePresenter [sampleOperation 0 .TryUpdatePosition 1 1]).CompleteViewChange
        (sampleOperation 0 .TryUpdatePosition 1 1) .Completed).trace =
      [.ScrollCompleted 1 .Completed] := by
  decide

theorem GetNextViewChangeCorrelationId_eq_emod (s : ScrollPresenter α)
    (h0 : 0 ≤ s.m_latestViewChangeCorrelationId) (h1 : s.m_latestViewChangeCorrelationId ≤ INT_MAX) :
    s.GetNextViewChangeCorrelationId = (s.m_latestViewChangeCorrelationId + 1) % 2147483648 := by
  unfold GetNextViewChangeCorrelationId INT_MAX at *
  split_ifs with h
  · rw [h]; rfl
  · rw [Int.emod_eq_of_lt (by omega) (by omega)]

theorem storeNext_iterate_latest (s : ScrollPresenter α)
    (h0 : 0 ≤ s.m_latestViewChangeCorrelationId) (h1 : s.m_latestViewChangeCorrelationId ≤ INT_MAX)
    (k : Nat) :
    (storeNextViewChangeCorrelationId^[k] s).m_latestViewChangeCorrelationId =
      (s.m_latestViewChangeCorrelationId + k) % 2147483648 := by
  induction k with
  | zero =>
    unfold INT_MAX at h1
    simp only [Function.iterate_zero, id_eq, Nat.cast_zero, add_zero]
    rw [Int.emod_eq_of_lt h0 (by omega)]
  | succ n ih =>
    rw [Function.iterate_succ_apply']
    have hb0 : 0 ≤ (storeNextViewChangeCorrelationId^[n] s).m_latestViewChangeCorrelationId := by
      rw [ih]; exact Int.emod_nonneg _ (by norm_num)
    have hb1 : (storeNextViewChangeCorrelationId^[n] s).m_latestViewChangeCorrelationId ≤ INT_MAX := by
      rw [ih]
      have := Int.emod_lt_of_pos (s.m_latestViewChangeCorrelationId + n)
        (show (0 : Int) < 2147483648 by norm_num)
      unfold INT_MAX
      omega
    show (storeNextViewChangeCorrelationId^[n] s).GetNextViewChangeCorrelationId = _
    rw [GetNextViewChangeCorrelationId_eq_emod _ hb0 hb1, ih]
    push_cast
    omega


/-- The generator of correlation IDs: starting from a latest correlation ID `c` with
`0 ≤ c ≤ INT_MAX`, the next ID is `c + 1` while `c < INT_MAX` and 0 at `c = INT_MAX`, it
never leaves the range `[0, INT_MAX]` (no signed overflow), the ID stored after `k`
successive calls is `(c + k) mod 2^31`, and two IDs generated fewer than `2^31` calls apart
are distinct. -/
theorem GetNextViewChangeCorrelationId_sequence (s : ScrollPresenter α)
    (h0 : 0 ≤ s.m_latestViewChangeCorrelationId) (h1 : s.m_latestViewChangeCorrelationId ≤ INT_MAX) :
    (s.m_latestViewChangeCorrelationId < INT_MAX →
      s.GetNextViewChangeCorrelationId = s.m_latestViewChangeCorrelationId + 1) ∧
    (s.m_latestViewChangeCorrelationId = INT_MAX → s.GetNextViewChangeCorrelationId = 0) ∧
    (0 ≤ s.GetNextViewChangeCorrelationId ∧ s.GetNextViewChangeCorrelationId ≤ INT_MAX) ∧
    (∀ k : Nat, (storeNextViewChangeCorrelationId^[k] s).m_latestViewChangeCorrelationId =
      (s.m_latestViewChangeCorrelationId + k) % 2147483648) ∧
    (∀ k : Nat, s.m_latestViewChangeCorrelationId + k ≤ INT_MAX →
      (storeNextViewChangeCorrelationId^[k] s).m_latestViewChangeCorrelationId =
        s.m_latestViewChangeCorrelationId + k) ∧
    (∀ i j : Nat, i < j → j - i < 2147483648 →
      (storeNextViewChangeCorrelationId^[i] s).m_latestViewChangeCorrelationId ≠
        (storeNextViewChangeCorrelationId^[j] s).m_latestViewChangeCorrelationId) := by
  refine ⟨?_, ?_, ?_, storeNext_iterate_latest s h0 h1, ?_, ?_⟩
  · intro h
    unfold GetNextViewChangeCorrelationId
    rw [if_neg (ne_of_lt h)]
  · intro h
    unfold GetNextViewChangeCorrelationId
    rw [if_pos h]
  · unfold GetNextViewChangeCorrelationId INT_MAX at *
    split_ifs with h <;> omega
  · intro k hk
    rw [storeNext_iterate_latest s h0 h1]
    unfold INT_MAX at hk
    exact Int.emod_eq_of_lt (by omega) (by omega)
  · intro i j hij hd
    rw [storeNext_iterate_latest s h0 h1, storeNext_iterate_latest s h0 h1]
    unfold INT_MAX at h1
    omega

theorem kindsAgree_of_scrollModes (s : ScrollPresenter α) (h v : α) (k : ScrollPresenterViewKind)
    (o o2 : Option ScrollingOptions) (b : Option (BringIntoViewData α))
    (hm : scrollModes s.constants o2 = scrollModes s.constants o) :
    s.kindsAgree (.OffsetsChange h v k o b) k o2 = true := by
  cases o <;> cases o2 <;>
    simp_all [kindsAgree, viewKindOf, optionsOf, scrollModes, Prod.ext_iff]

/-- Shape of the single queued operation a run of coalesced controller requests keeps. -/
theorem coalesce_step [Add α] [Zero α] (s : ScrollPresenter α) (isH : Bool)
    (Options Options2 : Option ScrollingOptions) (d hacc vacc : α)
    (o : InteractionTrackerAsyncOperation α)
    (hq : s.m_interactionTrackerAsyncOperations = [o])
    (hm : scrollModes s.constants Options2 = scrollModes s.constants Options)
    (htr : o.operationTrigger = if isH then .horizontal else .vertical)
    (hcan : o.isCanceled = false)
    (hpre : o.preProcessingTicksCountdown = 1) (hqt : o.queuedOperationTicks = 1)
    (hty : o.operationType = .TryUpdatePosition ∨ o.operationType = .TryUpdatePositionBy ∨
      o.operationType = .TryUpdatePositionWithAnimation)
    (hvc : o.viewChangeBase = some (.OffsetsChange hacc vacc .RelativeToCurrentView Options none)) :
    (s.OnScrollControllerScrollByRequested isH d Options2).1.m_interactionTrackerAsyncOperations =
      [{ o with viewChangeBase := some (.OffsetsChange (if isH then hacc + d else hacc)
          (if isH then vacc else vacc + d) .RelativeToCurrentView Options none) }] ∧
    (s.OnScrollControllerScrollByRequested isH d Options2).2 =
      (if o.viewChangeCorrelationId ≠ s_noOpCorrelationId then some o.viewChangeCorrelationId
       else none) ∧
    (s.OnScrollControllerScrollByRequested isH d Options2).1.constants = s.constants := by
  have hfound : s.GetInteractionTrackerOperationFromKinds true
      (InteractionTrackerAsyncOperationTrigger.horizontal.union .vertical)
      .RelativeToCurrentView Options2 = some o := by
    unfold GetInteractionTrackerOperationFromKinds
    rw [hq]
    simp only [List.reverse_cons, List.reverse_nil, List.nil_append, fromKindsScan]
    have hint : o.operationTrigger.intersects
        (InteractionTrackerAsyncOperationTrigger.horizontal.union .vertical) = true := by
      rw [htr]; cases isH <;> rfl
    have hQ : o.IsQueued = true := by
      simp [InteractionTrackerAsyncOperation.IsQueued, hpre]
    have hU : o.IsUnqueueing = false := by
      simp [InteractionTrackerAsyncOperation.IsUnqueueing, hpre, hqt]
    simp only [hint, hcan, hvc, hQ, hU, kindsAgree_of_scrollModes s _ _ _ _ _ _ hm, Bool.not_true,
      Bool.false_and, Bool.false_eq_true, if_false, Bool.or_self, Bool.not_false, if_true]
    rcases hty with h | h | h <;> simp [h]
  unfold OnScrollControllerScrollByRequested
  simp only [hfound]
  refine ⟨?_, ?_, ?_⟩
  · simp only [updateOperation, hq, List.map_cons, List.map_nil, beq_self_eq_true, if_true]
    congr 1
    cases isH <;>
      simp [InteractionTrackerAsyncOperation.SetIsScrollControllerRequest, hvc, addOffsetDelta, htr,
        InteractionTrackerAsyncOperationTrigger.union, InteractionTrackerAsyncOperationTrigger.horizontal,
        InteractionTrackerAsyncOperationTrigger.vertical]
  · trivial
  · rfl

theorem coalesce_run [Add α] [Zero α] (isH : Bool) (Options : Option ScrollingOptions)
    (requests : List (α × Option ScrollingOptions)) :
    ∀ (s : ScrollPresenter α) (hacc vacc : α) (o : InteractionTrackerAsyncOperation α),
      s.m_interactionTrackerAsyncOperations = [o] →
      (∀ request ∈ requests,
        scrollModes s.constants request.2 = scrollModes s.constants Options) →
      o.operationTrigger = (if isH then .horizontal else .vertical) →
      o.isCanceled = false →
      o.preProcessingTicksCountdown = 1 → o.queuedOperationTicks = 1 →
      (o.operationType = .TryUpdatePosition ∨ o.operationType = .TryUpdatePositionBy ∨
        o.operationType = .TryUpdatePositionWithAnimation) →
      o.viewChangeBase = some (.OffsetsChange hacc vacc .RelativeToCurrentView Options none) →
      (scrollByRequests isH s requests).1.m_interactionTrackerAsyncOperations =
        [{ o with viewChangeBase := some (.OffsetsChange
            (if isH then (requests.map Prod.fst).foldl (fun a b => a + b) hacc else hacc)
            (if isH then vacc else (requests.map Prod.fst).foldl (fun a b => a + b) vacc)
            .RelativeToCurrentView Options none) }] ∧
      (scrollByRequests isH s requests).2 =
        List.replicate requests.length
          (if o.viewChangeCorrelationId ≠ s_noOpCorrelationId then some o.viewChangeCorrelationId
           else none) := by
  induction requests with
  | nil =>
    intro s hacc vacc o hq _ _ _ _ _ _ hvc
    refine ⟨?_, rfl⟩
    simp only [scrollByRequests, List.map_nil, List.foldl_nil, ite_self, hq]
    rw [← hvc]
  | cons request t ih =>
    intro s hacc vacc o hq hm htr hcan hpre hqt hty hvc
    obtain ⟨h1, h2, hk⟩ := coalesce_step s isH Options request.2 request.1 hacc vacc o hq
      (hm request (List.mem_cons_self _ _)) htr hcan hpre hqt hty hvc
    have hm2 : ∀ r ∈ t,
        scrollModes (s.OnScrollControllerScrollByRequested isH request.1 request.2).1.constants r.2 =
          scrollModes (s.OnScrollControllerScrollByRequested isH request.1 request.2).1.constants
            Options := by
      intro r hr
      rw [hk]
      exact hm r (List.mem_cons_of_mem _ hr)
    obtain ⟨h3, h4⟩ := ih (s.OnScrollControllerScrollByRequested isH request.1 request.2).1
      (if isH then hacc + request.1 else hacc) (if isH then vacc else vacc + request.1) _ h1 hm2
      htr hcan hpre hqt hty rfl
    refine ⟨?_, ?_⟩
    · simp only [scrollByRequests, h3, List.map_cons, List.foldl_cons]
      cases isH <;> rfl
    · simp only [scrollByRequests, h4, h2, List.length_cons, List.replicate_succ]

theorem first_request [Add α] [Zero α] (s : ScrollPresenter α)
    (hc : s.Content = true) (hl : s.IsLoaded = true) (ht : s.m_interactionTracker = true)
    (hq : s.m_interactionTrackerAsyncOperations = [])
    (isH : Bool) (Options : Option ScrollingOptions) (d : α) :
    ∃ o : InteractionTrackerAsyncOperation α,
      (s.OnScrollControllerScrollByRequested isH d Options).1.m_interactionTrackerAsyncOperations = [o] ∧
      (s.OnScrollControllerScrollByRequested isH d Options).2 =
        (if s.GetNextViewChangeCorrelationId ≠ s_noOpCorrelationId
          then some s.GetNextViewChangeCorrelationId else none) ∧
      o.viewChangeCorrelationId = s.GetNextViewChangeCorrelationId ∧
      o.operationTrigger = (if isH then .horizontal else .vertical) ∧
      o.isCanceled = false ∧
      o.preProcessingTicksCountdown = 1 ∧ o.queuedOperationTicks = 1 ∧
      (o.operationType = .TryUpdatePosition ∨ o.operationType = .TryUpdatePositionBy ∨
        o.operationType = .TryUpdatePositionWithAnimation) ∧
      o.viewChangeBase = some (.OffsetsChange (if isH then d else 0) (if isH then 0 else d)
        .RelativeToCurrentView Options none) ∧
      (s.OnScrollControllerScrollByRequested isH d Options).1.constants = s.constants := by
  have hfound : s.GetInteractionTrackerOperationFromKinds true
      (InteractionTrackerAsyncOperationTrigger.horizontal.union .vertical)
      .RelativeToCurrentView Options = none := by
    unfold GetInteractionTrackerOperationFromKinds
    rw [hq]
    rfl
  have hdel : s.CompleteDelayedOperations = s := by
    unfold CompleteDelayedOperations
    rw [hq]
    rfl
  have hticks : s.GetInteractionTrackerOperationsTicksCountdown = 0 := by
    unfold GetInteractionTrackerOperationsTicksCountdown
    rw [hq]
    rfl
  have hne : (if isH then InteractionTrackerAsyncOperationTrigger.horizontal
      else InteractionTrackerAsyncOperationTrigger.vertical) ≠ .direct := by
    cases isH <;> decide
  have hbiv : (if isH then InteractionTrackerAsyncOperationTrigger.horizontal
      else InteractionTrackerAsyncOperationTrigger.vertical).BringIntoViewRequest = false := by
    cases isH <;> rfl
  have hsc : ((if isH then InteractionTrackerAsyncOperationTrigger.horizontal
      else InteractionTrackerAsyncOperationTrigger.vertical).HorizontalScrollControllerRequest ||
      (if isH then InteractionTrackerAsyncOperationTrigger.horizontal
      else InteractionTrackerAsyncOperationTrigger.vertical).VerticalScrollControllerRequest) = true := by
    cases isH <;> rfl
  unfold OnScrollControllerScrollByRequested
  simp only [hfound]
  unfold ChangeOffsetsPrivate
  simp only [hc, hl, ht, IsLoadedAndSetUp, Bool.and_self, Bool.not_true, Bool.false_eq_true,
    if_false, Bool.not_false, if_true, hdel, hsc, Bool.and_false, s_noOpCorrelationId, ne_eq,
    not_true_eq_false, hbiv, initialTicks, hne, not_false_eq_true, hticks, returnedCorrelationId,
    assignNewCorrelationId, pushOperation, updateOperation, hq, List.nil_append, List.map_cons,
    List.map_nil, InteractionTrackerAsyncOperation.SetTicksCountdown,
    InteractionTrackerAsyncOperation.create,
    InteractionTrackerAsyncOperation.SetViewChangeCorrelationId, storeNextViewChangeCorrelationId,
    beq_self_eq_true, Option.getD_some]
  refine ⟨_, rfl, ?_, ?_, ?_, ?_, ?_, ?_, ?_, ?_, ?_⟩
  · rfl
  · rfl
  · rfl
  · rfl
  · rfl
  · rfl
  · generalize s.GetComputedAnimationMode _ = m
    cases m <;> simp
  · rfl
  · trivial

/-- C7: with content attached, the presenter loaded and set up, and an empty queue, a run of
`N ≥ 1` consecutive ScrollByRequested events of one scroll controller whose options objects
stand for the same animation mode and snap-points mode leaves exactly one operation in the
queue; it is still queued, its payload holds the left-to-right sum of the deltas on the
axis of the controller and `0.0` on the other axis, and all `N` requests report the same
correlation ID, the one minted for the first request. -/
theorem ScrollBy_requests_coalesce [Add α] [Zero α] (s : ScrollPresenter α)
    (hc : s.Content = true) (hl : s.IsLoaded = true) (ht : s.m_interactionTracker = true)
    (hq : s.m_interactionTrackerAsyncOperations = [])
    (isFromHorizontalScrollController : Bool) (d : α) (Options : Option ScrollingOptions)
    (requests : List (α × Option ScrollingOptions))
    (hm : ∀ request ∈ requests,
      scrollModes s.constants request.2 = scrollModes s.constants Options) :
    ∃ o : InteractionTrackerAsyncOperation α,
      (scrollByRequests isFromHorizontalScrollController s
        ((d, Options) :: requests)).1.m_interactionTrackerAsyncOperations = [o] ∧
      o.IsQueued = true ∧
      o.viewChangeCorrelationId = s.GetNextViewChangeCorrelationId ∧
      o.viewChangeBase = some (.OffsetsChange
        (if isFromHorizontalScrollController
          then (requests.map Prod.fst).foldl (fun a b => a + b) d else 0)
        (if isFromHorizontalScrollController
          then 0 else (requests.map Prod.fst).foldl (fun a b => a + b) d)
        .RelativeToCurrentView Options none) ∧
      (scrollByRequests isFromHorizontalScrollController s ((d, Options) :: requests)).2 =
        List.replicate (requests.length + 1)
          (if s.GetNextViewChangeCorrelationId ≠ s_noOpCorrelationId
            then some s.GetNextViewChangeCorrelationId else none) := by
  obtain ⟨o, h1, h2, hid, htr, hcan, hpre, hqt, hty, hvc, hk⟩ :=
    first_request s hc hl ht hq isFromHorizontalScrollController Options d
  have hm2 : ∀ r ∈ requests,
      scrollModes (s.OnScrollControllerScrollByRequested isFromHorizontalScrollController d
          Options).1.constants r.2 =
        scrollModes (s.OnScrollControllerScrollByRequested isFromHorizontalScrollController d
          Options).1.constants Options := by
    intro r hr
    rw [hk]
    exact hm r hr
  obtain ⟨h3, h4⟩ := coalesce_run isFromHorizontalScrollController Options requests
    (s.OnScrollControllerScrollByRequested isFromHorizontalScrollController d Options).1
    _ _ o h1 hm2 htr hcan hpre hqt hty hvc
  have h5 := h3
  rw [show (scrollByRequests isFromHorizontalScrollController
      (s.OnScrollControllerScrollByRequested isFromHorizontalScrollController d Options).1
      requests).1 =
      (scrollByRequests isFromHorizontalScrollController s ((d, Options) :: requests)).1
      from rfl] at h5
  refine ⟨_, h5, ?_, hid, ?_, ?_⟩
  · simp [InteractionTrackerAsyncOperation.IsQueued, hpre]
  · cases isFromHorizontalScrollController <;> rfl
  · simp only [scrollByRequests, h4, h2, hid, List.replicate_succ]

/-- C7 (witness): three horizontal requests with deltas 5, 7 and 11 on the sample presenter
with an empty queue, the first and third without options object, the second with an
options object that spells out the default modes. -/
theorem ScrollBy_requests_coalesce_witness :
    ((samplePresenter []).Content = true ∧ (samplePresenter []).IsLoaded = true ∧
      (samplePresenter []).m_interactionTracker = true ∧
      (samplePresenter []).m_interactionTrackerAsyncOperations = [] ∧
      ∀ request ∈ [((7 : Int), some (ScrollingOptions.mk .Auto .Default)), (11, none)],
        scrollModes (samplePresenter []).constants request.2 =
          scrollModes (samplePresenter []).constants none) ∧
    ∃ o : InteractionTrackerAsyncOperation Int,
      (scrollByRequests true (samplePresenter [])
        [(5, none), (7, some (ScrollingOptions.mk .Auto .Default)),
          (11, none)]).1.m_interactionTrackerAsyncOperations = [o] ∧
      o.IsQueued = true ∧
      o.viewChangeCorrelationId = (samplePresenter []).GetNextViewChangeCorrelationId ∧
      o.viewChangeBase = some (.OffsetsChange 23 0 .RelativeToCurrentView none none) ∧
      (scrollByRequests true (samplePresenter [])
        [(5, none), (7, some (ScrollingOptions.mk .Auto .Default)), (11, none)]).2 =
        [some 8, some 8, some 8] :=
  ⟨by decide,
    ScrollBy_requests_coalesce (samplePresenter []) rfl rfl rfl rfl true 5 none
      [(7, some (ScrollingOptions.mk .Auto .Default)), (11, none)] (by decide)⟩

@[simp] theorem updateOperation_trace (s : ScrollPresenter α) (i : Nat)
    (f : InteractionTrackerAsyncOperation α → InteractionTrackerAsyncOperation α) :
    (s.updateOperation i f).trace = s.trace := rfl

@[simp] theorem updateOperation_latestRequest (s : ScrollPresenter α) (i : Nat)
    (f : InteractionTrackerAsyncOperation α → InteractionTrackerAsyncOperation α) :
    (s.updateOperation i f).m_latestInteractionTrackerRequest =
      s.m_latestInteractionTrackerRequest := rfl

theorem updateOperation_mem_other (s : ScrollPresenter α) (i : Nat)
    (f : InteractionTrackerAsyncOperation α → InteractionTrackerAsyncOperation α)
    (o : InteractionTrackerAsyncOperation α) (ho : o ∈ s.m_interactionTrackerAsyncOperations)
    (hne : o.id ≠ i) : o ∈ (s.updateOperation i f).m_interactionTrackerAsyncOperations := by
  simp only [updateOperation, List.mem_map]
  exact ⟨o, ho, by simp [hne]⟩

theorem removeOperation_mem_other (s : ScrollPresenter α)
    (p o : InteractionTrackerAsyncOperation α) (ho : o ∈ s.m_interactionTrackerAsyncOperations)
    (hne : o.id ≠ p.id) : o ∈ (s.removeOperation p).m_interactionTrackerAsyncOperations := by
  simp only [removeOperation, List.mem_filter]
  exact ⟨ho, by simp [hne]⟩

theorem RaiseViewChangeCompleted_requests (s : ScrollPresenter α) (b : Bool)
    (r : ScrollPresenterViewChangeResult) (c : Int) :
    (s.RaiseViewChangeCompleted b r c).interactionTrackerRequests = s.interactionTrackerRequests ∧
    (s.RaiseViewChangeCompleted b r c).m_latestInteractionTrackerRequest =
      s.m_latestInteractionTrackerRequest := by
  unfold RaiseViewChangeCompleted
  split_ifs <;> simp [interactionTrackerRequests, emit]

theorem CompleteViewChange_requests (s : ScrollPresenter α)
    (o : InteractionTrackerAsyncOperation α) (r : ScrollPresenterViewChangeResult) :
    (s.CompleteViewChange o r).interactionTrackerRequests = s.interactionTrackerRequests ∧
    (s.CompleteViewChange o r).m_latestInteractionTrackerRequest =
      s.m_latestInteractionTrackerRequest := by
  unfold CompleteViewChange
  simp only []
  split_ifs <;> split <;>
    simp [interactionTrackerRequests, emit, updateOperation,
      (RaiseViewChangeCompleted_requests _ _ _ _).2] <;>
    exact (RaiseViewChangeCompleted_requests _ _ _ _).1

theorem CompleteViewChange_mem_other (s : ScrollPresenter α)
    (p o : InteractionTrackerAsyncOperation α) (r : ScrollPresenterViewChangeResult)
    (ho : o ∈ s.m_interactionTrackerAsyncOperations) (hne : o.id ≠ p.id) :
    o ∈ (s.CompleteViewChange p r).m_interactionTrackerAsyncOperations := by
  rw [CompleteViewChange_queue, List.mem_map]
  exact ⟨o, ho, by simp [hne]⟩

set_option linter.unusedTactic false in
/-- One step of the tick walk leaves the objects of the other operations untouched. -/
theorem tickStep_mem_other (tracker : Nat → Int) (st : ScrollPresenter α × Bool)
    (p o : InteractionTrackerAsyncOperation α)
    (ho : o ∈ st.1.m_interactionTrackerAsyncOperations) (hne : o.id ≠ p.id) :
    o ∈ (tickStep tracker st p).1.m_interactionTrackerAsyncOperations := by
  unfold tickStep
  simp only []
  split_ifs <;> (try split) <;> (try split_ifs) <;>
    first
    | exact ho
    | exact updateOperation_mem_other _ _ _ _ ho hne
    | exact updateOperation_mem_other _ _ _ _ (updateOperation_mem_other _ _ _ _ ho hne) hne
    | (unfold ProcessDequeuedViewChange
       exact updateOperation_mem_other _ _ _ _ (updateOperation_mem_other _ _ _ _ ho hne) hne)
    | (unfold ProcessDequeuedViewChange
       exact updateOperation_mem_other _ _ _ _
        (updateOperation_mem_other _ _ _ _ (updateOperation_mem_other _ _ _ _ ho hne) hne) hne)
    | exact removeOperation_mem_other _ _ _
        (CompleteViewChange_mem_other _ _ _ _ (updateOperation_mem_other _ _ _ _ ho hne) hne) hne


theorem tickStep_foldl_mem_other (tracker : Nat → Int)
    (l : List (InteractionTrackerAsyncOperation α)) (st : ScrollPresenter α × Bool)
    (o : InteractionTrackerAsyncOperation α)
    (ho : o ∈ st.1.m_interactionTrackerAsyncOperations) (hne : ∀ p ∈ l, o.id ≠ p.id) :
    o ∈ (l.foldl (tickStep tracker) st).1.m_interactionTrackerAsyncOperations := by
  induction l generalizing st with
  | nil => exact ho
  | cons p t ih =>
    rw [List.foldl_cons]
    exact ih _ (tickStep_mem_other tracker st p o ho (hne p (List.mem_cons_self _ _)))
      (fun q hq => hne q (List.mem_cons_of_mem _ hq))

/-- Once the flag `delayProcessingViewChanges` is set, a step of the tick walk keeps it set
and makes no motion-engine request. -/
theorem tickStep_delayed (tracker : Nat → Int) (s : ScrollPresenter α)
    (p : InteractionTrackerAsyncOperation α) :
    (tickStep tracker (s, true) p).2 = true ∧
    (tickStep tracker (s, true) p).1.interactionTrackerRequests = s.interactionTrackerRequests ∧
    (tickStep tracker (s, true) p).1.m_latestInteractionTrackerRequest =
      s.m_latestInteractionTrackerRequest := by
  unfold tickStep
  simp only [Bool.not_true, Bool.false_and, Bool.false_eq_true, if_false, if_true]
  split_ifs <;>
    first
    | exact ⟨rfl, rfl, rfl⟩
    | (refine ⟨rfl, ?_, ?_⟩
       · simp only [ResetAnticipatedView, removeOperation]
         exact (CompleteViewChange_requests _ _ _).1
       · simp only [ResetAnticipatedView, removeOperation]
         exact (CompleteViewChange_requests _ _ _).2)

theorem tickStep_foldl_delayed (tracker : Nat → Int)
    (l : List (InteractionTrackerAsyncOperation α)) (s : ScrollPresenter α) :
    (l.foldl (tickStep tracker) (s, true)).2 = true ∧
    (l.foldl (tickStep tracker) (s, true)).1.interactionTrackerRequests =
      s.interactionTrackerRequests ∧
    (l.foldl (tickStep tracker) (s, true)).1.m_latestInteractionTrackerRequest =
      s.m_latestInteractionTrackerRequest := by
  induction l generalizing s with
  | nil => exact ⟨rfl, rfl, rfl⟩
  | cons p t ih =>
    rw [List.foldl_cons]
    obtain ⟨h1, h2, h3⟩ := tickStep_delayed tracker s p
    have hst : tickStep tracker (s, true) p = ((tickStep tracker (s, true) p).1, true) :=
      Prod.ext rfl h1
    rw [hst]
    obtain ⟨i1, i2, i3⟩ := ih (tickStep tracker (s, true) p).1
    exact ⟨i1, i2.trans h2, i3.trans h3⟩

/-- The step of the tick walk for an operation at its last tick whose required operation is
pending: nothing changes except that the flag is set. -/
theorem tickStep_deferred (tracker : Nat → Int) (s : ScrollPresenter α) (d : Bool)
    (o required : InteractionTrackerAsyncOperation α) (rid : Nat)
    (hdel : o.isDelayed = false) (hcnt : o.GetTicksCountdown = 1)
    (hreq : o.requiredOperation = some rid)
    (hlook : s.lookupOperation rid = some required)
    (hcan : required.isCanceled = false) (hcomp : required.isCompleted = false) :
    tickStep tracker (s, d) o = (s, true) := by
  have hQ : o.IsQueued = true := by
    unfold InteractionTrackerAsyncOperation.GetTicksCountdown at hcnt
    simp [InteractionTrackerAsyncOperation.IsQueued, hcnt]
  unfold tickStep
  cases d <;>
    simp [hdel, hQ, hcnt, hreq, hlook, hcan, hcomp]


/-- C10: in one run of the tick handler on a loaded presenter whose queue is
`pre ++ op :: post` (distinct objects), if, when the walk reaches `op`, it is queued and not
delayed with countdown 1 and its required operation is neither canceled nor completed, then
`op` is still in the queue after the run exactly as it was (countdown 1, not dispatched),
and every motion-engine request of the run was made before the walk reached `op`: no
operation of `post` is dispatched, and the latest request ID is the one reached after
`pre`. -/
theorem OnCompositionTargetRendering_defers_to_required_operation (tracker : Nat → Int)
    (s : ScrollPresenter α) (pre post : List (InteractionTrackerAsyncOperation α))
    (op required : InteractionTrackerAsyncOperation α) (rid : Nat)
    (hl : s.IsLoaded = true)
    (hq : s.m_interactionTrackerAsyncOperations = pre ++ op :: post)
    (hnd : (s.m_interactionTrackerAsyncOperations.map (fun o => o.id)).Nodup)
    (hdel : op.isDelayed = false) (hcnt : op.GetTicksCountdown = 1)
    (hreq : op.requiredOperation = some rid)
    (hlook : (pre.foldl (tickStep tracker) (s, false)).1.lookupOperation rid = some required)
    (hcan : required.isCanceled = false) (hcomp : required.isCompleted = false) :
    op ∈ (s.OnCompositionTargetRendering tracker).m_interactionTrackerAsyncOperations ∧
    (s.OnCompositionTargetRendering tracker).interactionTrackerRequests =
      (pre.foldl (tickStep tracker) (s, false)).1.interactionTrackerRequests ∧
    (s.OnCompositionTargetRendering tracker).m_latestInteractionTrackerRequest =
      (pre.foldl (tickStep tracker) (s, false)).1.m_latestInteractionTrackerRequest := by
  have hrun : s.OnCompositionTargetRendering tracker =
      (post.foldl (tickStep tracker) ((pre.foldl (tickStep tracker) (s, false)).1, true)).1 := by
    unfold OnCompositionTargetRendering
    have hne : s.m_interactionTrackerAsyncOperations.isEmpty = false := by
      rw [hq]
      cases pre <;> rfl
    simp only [hne, hl, Bool.not_false, Bool.and_self, if_true]
    rw [hq, List.foldl_append, List.foldl_cons]
    have hmid : pre.foldl (tickStep tracker) (s, false) =
        ((pre.foldl (tickStep tracker) (s, false)).1, (pre.foldl (tickStep tracker) (s, false)).2) :=
      rfl
    rw [hmid, tickStep_deferred tracker _ _ op required rid hdel hcnt hreq hlook hcan hcomp]
  rw [hq, List.map_append, List.map_cons] at hnd
  have hparts := List.nodup_append.1 hnd
  have hpre : ∀ p ∈ pre, op.id ≠ p.id := by
    intro p hp hid
    exact hparts.2.2 (List.mem_map.2 ⟨p, hp, rfl⟩) (List.mem_cons.2 (Or.inl hid.symm))
  have hpost : ∀ p ∈ post, op.id ≠ p.id := by
    intro p hp hid
    exact (List.nodup_cons.1 hparts.2.1).1 (List.mem_map.2 ⟨p, hp, hid.symm⟩)
  have hmem0 : op ∈ (s, false).1.m_interactionTrackerAsyncOperations := by
    rw [show (s, false).1 = s from rfl, hq]
    exact List.mem_append_right _ (List.mem_cons_self _ _)
  have hmem1 := tickStep_foldl_mem_other tracker pre (s, false) op hmem0 hpre
  have hmem2 := tickStep_foldl_mem_other tracker post
    ((pre.foldl (tickStep tracker) (s, false)).1, true) op hmem1 hpost
  obtain ⟨_, h2, h3⟩ := tickStep_foldl_delayed tracker post (pre.foldl (tickStep tracker) (s, false)).1
  rw [hrun]
  exact ⟨hmem2, h2, h3⟩

/-- C10 (witness): the queue `[sampleRequired, sampleDeferred, sampleFollower]`; the walk
reaches `sampleDeferred` while `sampleRequired` has one more tick to go. -/
theorem OnCompositionTargetRendering_defers_to_required_operation_witness :
    ((samplePresenter [sampleRequired, sampleDeferred, sampleFollower]).IsLoaded = true ∧
      (samplePresenter [sampleRequired, sampleDeferred, sampleFollower]).m_interactionTrackerAsyncOperations =
        [sampleRequired] ++ sampleDeferred :: [sampleFollower] ∧
      ((samplePresenter [sampleRequired, sampleDeferred,
        sampleFollower]).m_interactionTrackerAsyncOperations.map (fun o => o.id)).Nodup ∧
      sampleDeferred.isDelayed = false ∧ sampleDeferred.GetTicksCountdown = 1 ∧
      sampleDeferred.requiredOperation = some 0 ∧
      ([sampleRequired].foldl (tickStep sampleTracker)
        (samplePresenter [sampleRequired, sampleDeferred, sampleFollower], false)).1.lookupOperation 0 =
          some sampleRequired.TickNonAnimatedOperation ∧
      sampleRequired.TickNonAnimatedOperation.isCanceled = false ∧
      sampleRequired.TickNonAnimatedOperation.isCompleted = false) ∧
    (sampleDeferred ∈ ((samplePresenter [sampleRequired, sampleDeferred,
        sampleFollower]).OnCompositionTargetRendering sampleTracker).m_interactionTrackerAsyncOperations ∧
      ((samplePresenter [sampleRequired, sampleDeferred,
        sampleFollower]).OnCompositionTargetRendering sampleTracker).interactionTrackerRequests =
        ([sampleRequired].foldl (tickStep sampleTracker)
          (samplePresenter [sampleRequired, sampleDeferred, sampleFollower], false)).1.interactionTrackerRequests ∧
      ((samplePresenter [sampleRequired, sampleDeferred,
        sampleFollower]).OnCompositionTargetRendering sampleTracker).m_latestInteractionTrackerRequest =
        ([sampleRequired].foldl (tickStep sampleTracker)
          (samplePresenter [sampleRequired, sampleDeferred,
            sampleFollower], false)).1.m_latestInteractionTrackerRequest) :=
  ⟨by decide,
    OnCompositionTargetRendering_defers_to_required_operation sampleTracker
      (samplePresenter [sampleRequired, sampleDeferred, sampleFollower])
      [sampleRequired] [sampleFollower] sampleDeferred sampleRequired.TickNonAnimatedOperation 0
      rfl rfl (by decide) rfl rfl rfl (by decide) rfl rfl⟩

theorem CompleteViewChange_allocated (s : ScrollPresenter α)
    (o : InteractionTrackerAsyncOperation α) (r : ScrollPresenterViewChangeResult) :
    (s.CompleteViewChange o r).allocatedOperations = s.allocatedOperations := by
  unfold CompleteViewChange
  simp only []
  split_ifs <;> split <;> simp [updateOperation, RaiseViewChangeCompleted, emit] <;>
    split_ifs <;> rfl

theorem completeDelayedStep_queue (s : ScrollPresenter α)
    (o : InteractionTrackerAsyncOperation α) :
    (completeDelayedStep s o).m_interactionTrackerAsyncOperations =
      if o.isDelayed then s.m_interactionTrackerAsyncOperations.filter (fun x => x.id != o.id)
      else s.m_interactionTrackerAsyncOperations := by
  unfold completeDelayedStep
  by_cases h : o.isDelayed = true
  · have hq : ((s.CompleteViewChange o .Interrupted).removeOperation
        o).m_interactionTrackerAsyncOperations =
        s.m_interactionTrackerAsyncOperations.filter (fun x => x.id != o.id) := by
      simp only [removeOperation, CompleteViewChange_queue]
      exact filter_id_ne_map_update _ _ _ (fun _ => rfl)
    simp only [h, if_true]
    split_ifs <;> exact hq
  · simp only [h, Bool.false_eq_true, if_false]

theorem completeDelayedStep_completed (s : ScrollPresenter α)
    (o : InteractionTrackerAsyncOperation α) :
    (completeDelayedStep s o).completedViewChanges =
      if o.isDelayed then s.completedViewChanges ++ [(o.SetIsCompleted true, .Interrupted)]
      else s.completedViewChanges := by
  unfold completeDelayedStep
  by_cases h : o.isDelayed = true
  · have hq : ((s.CompleteViewChange o .Interrupted).removeOperation o).completedViewChanges =
        s.completedViewChanges ++ [(o.SetIsCompleted true, .Interrupted)] := by
      simp only [removeOperation, CompleteViewChange_completed]
    simp only [h, if_true]
    split_ifs <;> exact hq
  · simp only [h, Bool.false_eq_true, if_false]

theorem completeDelayedStep_allocated (s : ScrollPresenter α)
    (o : InteractionTrackerAsyncOperation α) :
    (completeDelayedStep s o).allocatedOperations = s.allocatedOperations := by
  unfold completeDelayedStep
  simp only []
  split_ifs <;> simp [ResetAnticipatedView, removeOperation, CompleteViewChange_allocated]

theorem delayed_foldl_queue (l : List (InteractionTrackerAsyncOperation α))
    (s : ScrollPresenter α) :
    (l.foldl completeDelayedStep s).m_interactionTrackerAsyncOperations =
      s.m_interactionTrackerAsyncOperations.filter
        (fun x => l.all (fun o => !o.isDelayed || x.id != o.id)) := by
  induction l generalizing s with
  | nil => simp
  | cons o t ih =>
    rw [List.foldl_cons, ih, completeDelayedStep_queue]
    by_cases h : o.isDelayed = true
    · simp only [h, if_true, List.filter_filter, List.all_cons, Bool.not_true, Bool.false_or]
      apply List.filter_congr
      intro x _
      rw [Bool.and_comm]
    · simp only [h, Bool.false_eq_true, if_false, List.all_cons]
      apply List.filter_congr
      intro x _
      simp [h]

theorem delayed_foldl_completed (l : List (InteractionTrackerAsyncOperation α))
    (s : ScrollPresenter α) :
    (l.foldl completeDelayedStep s).completedViewChanges =
      s.completedViewChanges ++
        (l.filter (fun o => o.isDelayed)).map
          (fun o => (o.SetIsCompleted true, ScrollPresenterViewChangeResult.Interrupted)) := by
  induction l generalizing s with
  | nil => simp
  | cons o t ih =>
    rw [List.foldl_cons, ih, completeDelayedStep_completed]
    by_cases h : o.isDelayed = true
    · simp [h, List.filter_cons]
    · simp [h, List.filter_cons]

theorem delayed_foldl_allocated (l : List (InteractionTrackerAsyncOperation α))
    (s : ScrollPresenter α) :
    (l.foldl completeDelayedStep s).allocatedOperations = s.allocatedOperations := by
  induction l generalizing s with
  | nil => rfl
  | cons o t ih => rw [List.foldl_cons, ih, completeDelayedStep_allocated]

theorem CompleteDelayedOperations_queue (s : ScrollPresenter α)
    (hq : (s.m_interactionTrackerAsyncOperations.map (fun o => o.id)).Nodup) :
    s.CompleteDelayedOperations.m_interactionTrackerAsyncOperations =
      s.m_interactionTrackerAsyncOperations.filter (fun o => !o.isDelayed) := by
  unfold CompleteDelayedOperations
  split_ifs with h
  · rw [List.isEmpty_iff] at h
    simp [h]
  · rw [delayed_foldl_queue]
    exact filter_all_ids_eq _ hq _

theorem CompleteDelayedOperations_completed (s : ScrollPresenter α) :
    s.CompleteDelayedOperations.completedViewChanges =
      s.completedViewChanges ++
        (s.m_interactionTrackerAsyncOperations.filter (fun o => o.isDelayed)).map
          (fun o => (o.SetIsCompleted true, ScrollPresenterViewChangeResult.Interrupted)) := by
  unfold CompleteDelayedOperations
  split_ifs with h
  · rw [List.isEmpty_iff] at h
    simp [h]
  · exact delayed_foldl_completed _ _

theorem CompleteDelayedOperations_allocated (s : ScrollPresenter α) :
    s.CompleteDelayedOperations.allocatedOperations = s.allocatedOperations := by
  unfold CompleteDelayedOperations
  split_ifs with h
  · rfl
  · exact delayed_foldl_allocated _ _


theorem map_update_fresh (q : List (InteractionTrackerAsyncOperation α)) (i : Nat)
    (f : InteractionTrackerAsyncOperation α → InteractionTrackerAsyncOperation α)
    (h : ∀ o ∈ q, o.id ≠ i) :
    q.map (fun o => if o.id == i then f o else o) = q := by
  induction q with
  | nil => rfl
  | cons a t ih =>
    have ha : a.id ≠ i := h a (List.mem_cons_self _ _)
    simp only [List.map_cons, beq_iff_eq, ha, if_false]
    rw [show t.map (fun o => if o.id = i then f o else o) = t from by
      simpa only [beq_iff_eq] using ih (fun o ho => h o (List.mem_cons_of_mem _ ho))]

theorem ChangeOffsetsPrivate_appends (s : ScrollPresenter α)
    (zoomedHorizontalOffset zoomedVerticalOffset : α) (offsetsKind : ScrollPresenterViewKind)
    (options : Option ScrollingOptions)
    (bringIntoViewRequestedEventArgs : Option (BringIntoViewData α))
    (operationTrigger : InteractionTrackerAsyncOperationTrigger)
    (existingViewChangeCorrelationId : Int) (viewChangeCorrelationId : Bool)
    (hc : s.Content = true) (s1 : ScrollPresenter α)
    (hs1 : s1 = if s.IsLoadedAndSetUp then s.CompleteDelayedOperations else s)
    (hfresh : ∀ o ∈ s1.m_interactionTrackerAsyncOperations, o.id ≠ s1.allocatedOperations) :
    ∃ newOp : InteractionTrackerAsyncOperation α,
      (s.ChangeOffsetsPrivate zoomedHorizontalOffset zoomedVerticalOffset offsetsKind options
        bringIntoViewRequestedEventArgs operationTrigger existingViewChangeCorrelationId
        viewChangeCorrelationId).1.m_interactionTrackerAsyncOperations =
        s1.m_interactionTrackerAsyncOperations ++ [newOp] ∧
      newOp.id = s1.allocatedOperations ∧
      newOp.isDelayed = !s.IsLoadedAndSetUp ∧
      newOp.isCompleted = false ∧ newOp.isCanceled = false ∧
      newOp.preProcessingTicksCountdown =
        (if operationTrigger ≠ .direct then max 1 s1.GetInteractionTrackerOperationsTicksCountdown
         else InteractionTrackerAsyncOperation.c_queuedOperationTicks) ∧
      (s.ChangeOffsetsPrivate zoomedHorizontalOffset zoomedVerticalOffset offsetsKind options
        bringIntoViewRequestedEventArgs operationTrigger existingViewChangeCorrelationId
        viewChangeCorrelationId).1.completedViewChanges = s1.completedViewChanges ∧
      (s.ChangeOffsetsPrivate zoomedHorizontalOffset zoomedVerticalOffset offsetsKind options
        bringIntoViewRequestedEventArgs operationTrigger existingViewChangeCorrelationId
        viewChangeCorrelationId).1.trace = s1.trace ∧
      (s.ChangeOffsetsPrivate zoomedHorizontalOffset zoomedVerticalOffset offsetsKind options
        bringIntoViewRequestedEventArgs operationTrigger existingViewChangeCorrelationId
        viewChangeCorrelationId).1.allocatedOperations = s1.allocatedOperations + 1 := by
  have hs1b : (if (!(!s.IsLoadedAndSetUp)) = true then s.CompleteDelayedOperations else s) = s1 := by
    rw [hs1]; cases s.IsLoadedAndSetUp <;> rfl
  unfold ChangeOffsetsPrivate
  simp only [hc, Bool.not_true, Bool.false_eq_true, if_false, hs1b]
  simp only [pushOperation, initialTicks, InteractionTrackerAsyncOperation.create,
    InteractionTrackerAsyncOperation.SetTicksCountdown, assignNewCorrelationId,
    storeNextViewChangeCorrelationId, updateOperation, List.map_append, List.map_cons,
    List.map_nil, InteractionTrackerAsyncOperation.SetViewChangeCorrelationId, if_true]
  by_cases ht : operationTrigger = .direct <;> cases viewChangeCorrelationId <;>
    by_cases he : existingViewChangeCorrelationId = s_noOpCorrelationId <;>
    simp only [ht, he, ne_eq, not_true_eq_false, not_false_eq_true, if_true, if_false,
      Bool.false_eq_true, beq_self_eq_true] <;>
    (try rw [map_update_fresh _ _ _ hfresh]) <;>
    (refine ⟨_, rfl, ?_, ?_, ?_, ?_, ?_, ?_, ?_, ?_⟩ <;> first | rfl | trivial)


theorem ChangeOffsetsWithAdditionalVelocityPrivate_appends (s : ScrollPresenter α)
    (offsetsVelocity anticipatedOffsetsChange : α × α) (inertiaDecayRate : Option (α × α))
    (operationTrigger : InteractionTrackerAsyncOperationTrigger)
    (viewChangeCorrelationId : Bool)
    (hc : s.Content = true) (s1 : ScrollPresenter α)
    (hs1 : s1 = if s.IsLoadedAndSetUp then s.CompleteDelayedOperations else s)
    (hfresh : ∀ o ∈ s1.m_interactionTrackerAsyncOperations, o.id ≠ s1.allocatedOperations) :
    ∃ newOp : InteractionTrackerAsyncOperation α,
      (s.ChangeOffsetsWithAdditionalVelocityPrivate offsetsVelocity anticipatedOffsetsChange
        inertiaDecayRate operationTrigger
        viewChangeCorrelationId).1.m_interactionTrackerAsyncOperations =
        s1.m_interactionTrackerAsyncOperations ++ [newOp] ∧
      newOp.id = s1.allocatedOperations ∧
      newOp.isDelayed = !s.IsLoadedAndSetUp ∧
      newOp.isCompleted = false ∧ newOp.isCanceled = false ∧
      newOp.preProcessingTicksCountdown =
        (if operationTrigger ≠ .direct then max 1 s1.GetInteractionTrackerOperationsTicksCountdown
         else InteractionTrackerAsyncOperation.c_queuedOperationTicks) ∧
      (s.ChangeOffsetsWithAdditionalVelocityPrivate offsetsVelocity anticipatedOffsetsChange
        inertiaDecayRate operationTrigger viewChangeCorrelationId).1.completedViewChanges =
        s1.completedViewChanges ∧
      (s.ChangeOffsetsWithAdditionalVelocityPrivate offsetsVelocity anticipatedOffsetsChange
        inertiaDecayRate operationTrigger viewChangeCorrelationId).1.trace = s1.trace ∧
      (s.ChangeOffsetsWithAdditionalVelocityPrivate offsetsVelocity anticipatedOffsetsChange
        inertiaDecayRate operationTrigger viewChangeCorrelationId).1.allocatedOperations =
        s1.allocatedOperations + 1 := by
  have hs1b : (if (!(!s.IsLoadedAndSetUp)) = true then s.CompleteDelayedOperations else s) = s1 := by
    rw [hs1]; cases s.IsLoadedAndSetUp <;> rfl
  unfold ChangeOffsetsWithAdditionalVelocityPrivate
  simp only [hc, Bool.not_true, Bool.false_eq_true, if_false, hs1b]
  simp only [pushOperation, initialTicks, InteractionTrackerAsyncOperation.create,
    InteractionTrackerAsyncOperation.SetTicksCountdown, assignNewCorrelationId,
    storeNextViewChangeCorrelationId, updateOperation, List.map_append, List.map_cons,
    List.map_nil, InteractionTrackerAsyncOperation.SetViewChangeCorrelationId, if_true]
  by_cases ht : operationTrigger = .direct <;> cases viewChangeCorrelationId <;>
    simp only [ht, ne_eq, not_true_eq_false, not_false_eq_true, if_true, if_false,
      Bool.false_eq_true, beq_self_eq_true] <;>
    (try rw [map_update_fresh _ _ _ hfresh]) <;>
    (refine ⟨_, rfl, ?_, ?_, ?_, ?_, ?_, ?_, ?_, ?_⟩ <;> first | rfl | trivial)

theorem ChangeZoomFactorWithAdditionalVelocityPrivate_appends (s : ScrollPresenter α)
    (zoomFactorVelocity anticipatedZoomFactorChange : α) (centerPoint : Option (α × α))
    (inertiaDecayRate : Option α) (operationTrigger : InteractionTrackerAsyncOperationTrigger)
    (viewChangeCorrelationId : Bool)
    (hc : s.Content = true) (s1 : ScrollPresenter α)
    (hs1 : s1 = if s.IsLoadedAndSetUp then s.CompleteDelayedOperations else s)
    (hfresh : ∀ o ∈ s1.m_interactionTrackerAsyncOperations, o.id ≠ s1.allocatedOperations) :
    ∃ newOp : InteractionTrackerAsyncOperation α,
      (s.ChangeZoomFactorWithAdditionalVelocityPrivate zoomFactorVelocity
        anticipatedZoomFactorChange centerPoint inertiaDecayRate operationTrigger
        viewChangeCorrelationId).1.m_interactionTrackerAsyncOperations =
        s1.m_interactionTrackerAsyncOperations ++ [newOp] ∧
      newOp.id = s1.allocatedOperations ∧
      newOp.isDelayed = !s.IsLoadedAndSetUp ∧
      newOp.isCompleted = false ∧ newOp.isCanceled = false ∧
      newOp.preProcessingTicksCountdown =
        (if operationTrigger ≠ .direct then max 1 s1.GetInteractionTrackerOperationsTicksCountdown
         else InteractionTrackerAsyncOperation.c_queuedOperationTicks) ∧
      (s.ChangeZoomFactorWithAdditionalVelocityPrivate zoomFactorVelocity
        anticipatedZoomFactorChange centerPoint inertiaDecayRate operationTrigger
        viewChangeCorrelationId).1.completedViewChanges = s1.completedViewChanges ∧
      (s.ChangeZoomFactorWithAdditionalVelocityPrivate zoomFactorVelocity
        anticipatedZoomFactorChange centerPoint inertiaDecayRate operationTrigger
        viewChangeCorrelationId).1.trace = s1.trace ∧
      (s.ChangeZoomFactorWithAdditionalVelocityPrivate zoomFactorVelocity
        anticipatedZoomFactorChange centerPoint inertiaDecayRate operationTrigger
        viewChangeCorrelationId).1.allocatedOperations = s1.allocatedOperations + 1 := by
  have hs1b : (if (!(!s.IsLoadedAndSetUp)) = true then s.CompleteDelayedOperations else s) = s1 := by
    rw [hs1]; cases s.IsLoadedAndSetUp <;> rfl
  unfold ChangeZoomFactorWithAdditionalVelocityPrivate
  simp only [hc, Bool.not_true, Bool.false_eq_true, if_false, hs1b]
  simp only [pushOperation, initialTicks, InteractionTrackerAsyncOperation.create,
    InteractionTrackerAsyncOperation.SetTicksCountdown, assignNewCorrelationId,
    storeNextViewChangeCorrelationId, updateOperation, List.map_append, List.map_cons,
    List.map_nil, InteractionTrackerAsyncOperation.SetViewChangeCorrelationId, if_true]
  by_cases ht : operationTrigger = .direct <;> cases viewChangeCorrelationId <;>
    simp only [ht, ne_eq, not_true_eq_false, not_false_eq_true, if_true, if_false,
      Bool.false_eq_true, beq_self_eq_true] <;>
    (try rw [map_update_fresh _ _ _ hfresh]) <;>
    (refine ⟨_, rfl, ?_, ?_, ?_, ?_, ?_, ?_, ?_, ?_⟩ <;> first | rfl | trivial)

theorem lastNonAnimatedScan_seen (i : Nat) (l : List (InteractionTrackerAsyncOperation α)) :
    lastNonAnimatedScan i true l =
      l.find? (fun o => !o.IsAnimated && !o.isCompleted && !o.isCanceled) := by
  induction l with
  | nil => rfl
  | cons a t ih =>
    unfold lastNonAnimatedScan
    simp only [Bool.not_true, Bool.false_and, Bool.false_eq_true, if_false, Bool.true_and,
      List.find?_cons]
    by_cases h : (!a.IsAnimated && !a.isCompleted && !a.isCanceled) = true
    · simp only [h, if_true]
    · simp only [h, if_false]
      rw [ih]
      simp only [Bool.not_eq_true] at h
      simp only [h, Bool.false_eq_true, if_false]

theorem ChangeZoomFactorPrivate_appends (s : ScrollPresenter α) (zoomFactor : α)
    (centerPoint : Option (α × α)) (zoomFactorKind : ScrollPresenterViewKind)
    (options : Option ScrollingOptions) (viewChangeCorrelationId : Bool)
    (hc : s.Content = true) (s1 : ScrollPresenter α)
    (hs1 : s1 = if s.IsLoadedAndSetUp then s.CompleteDelayedOperations else s)
    (hfresh : ∀ o ∈ s1.m_interactionTrackerAsyncOperations, o.id ≠ s1.allocatedOperations) :
    ∃ newOp : InteractionTrackerAsyncOperation α,
      (s.ChangeZoomFactorPrivate zoomFactor centerPoint zoomFactorKind options
        viewChangeCorrelationId).1.m_interactionTrackerAsyncOperations =
        s1.m_interactionTrackerAsyncOperations ++ [newOp] ∧
      newOp.id = s1.allocatedOperations ∧
      newOp.isDelayed = !s.IsLoadedAndSetUp ∧
      newOp.requiredOperation =
        (s1.m_interactionTrackerAsyncOperations.reverse.find?
          (fun o => !o.IsAnimated && !o.isCompleted && !o.isCanceled)).map (fun o => o.id) ∧
      newOp.isCompleted = false ∧ newOp.isCanceled = false ∧
      newOp.preProcessingTicksCountdown = InteractionTrackerAsyncOperation.c_queuedOperationTicks ∧
      (s.ChangeZoomFactorPrivate zoomFactor centerPoint zoomFactorKind options
        viewChangeCorrelationId).1.completedViewChanges = s1.completedViewChanges ∧
      (s.ChangeZoomFactorPrivate zoomFactor centerPoint zoomFactorKind options
        viewChangeCorrelationId).1.trace = s1.trace ∧
      (s.ChangeZoomFactorPrivate zoomFactor centerPoint zoomFactorKind options
        viewChangeCorrelationId).1.allocatedOperations = s1.allocatedOperations + 1 := by
  have hs1b : (if (!(!s.IsLoadedAndSetUp)) = true then s.CompleteDelayedOperations else s) = s1 := by
    rw [hs1]; cases s.IsLoadedAndSetUp <;> rfl
  unfold ChangeZoomFactorPrivate
  simp only [hc, Bool.not_true, Bool.false_eq_true, if_false, hs1b]
  simp only [GetLastNonAnimatedInteractionTrackerOperation, pushOperation, List.reverse_append,
    List.reverse_cons, List.reverse_nil, List.nil_append, List.singleton_append,
    InteractionTrackerAsyncOperation.create]
  rw [lastNonAnimatedScan]
  simp only [Bool.not_false, Bool.true_and, beq_self_eq_true, if_true, lastNonAnimatedScan_seen]
  unfold assignNewCorrelationId
  cases viewChangeCorrelationId
  · simp only [Bool.false_eq_true, if_false, updateOperation, List.map_append, List.map_cons,
      List.map_nil, beq_self_eq_true, if_true]
    rw [map_update_fresh _ _ _ hfresh]
    (refine ⟨_, rfl, ?_, ?_, ?_, ?_, ?_, ?_, ?_, ?_, ?_⟩ <;> first | rfl | trivial)
  · simp only [if_true, updateOperation, List.map_append, List.map_cons, storeNextViewChangeCorrelationId,
      List.map_nil, beq_self_eq_true, if_true, InteractionTrackerAsyncOperation.SetRequiredOperation,
      InteractionTrackerAsyncOperation.SetViewChangeCorrelationId]
    rw [map_update_fresh _ _ _ hfresh, map_update_fresh _ _ _ hfresh]
    (refine ⟨_, rfl, ?_, ?_, ?_, ?_, ?_, ?_, ?_, ?_, ?_⟩ <;> first | rfl | trivial)


theorem CompleteDelayedOperations_mem (s : ScrollPresenter α)
    (o : InteractionTrackerAsyncOperation α)
    (h : o ∈ s.CompleteDelayedOperations.m_interactionTrackerAsyncOperations) :
    o ∈ s.m_interactionTrackerAsyncOperations := by
  unfold CompleteDelayedOperations at h
  split_ifs at h with h0
  · exact h
  · rw [delayed_foldl_queue] at h
    exact (List.mem_filter.mp h).1

theorem find?_reverse_eq_some {β : Type} (p : β → Bool) (l : List β) (b : β) :
    l.reverse.find? p = some b ↔
      p b = true ∧ ∃ pre post, l = pre ++ b :: post ∧ ∀ x ∈ post, p x = false := by
  rw [List.find?_eq_some]
  constructor
  · rintro ⟨hb, as, bs, hl, has⟩
    refine ⟨hb, bs.reverse, as.reverse, ?_, ?_⟩
    · have := congrArg List.reverse hl
      simpa using this
    · intro x hx
      have := has x (List.mem_reverse.mp hx)
      simpa using this
  · rintro ⟨hb, pre, post, hl, hpost⟩
    refine ⟨hb, post.reverse, pre.reverse, ?_, ?_⟩
    · rw [hl]; simp
    · intro x hx
      simp [hpost x (List.mem_reverse.mp hx)]

/-- C11: with content attached and every queued operation older than the next allocation,
`ChangeZoomFactorPrivate` leaves the queue as the prior operations (those left by
`CompleteDelayedOperations` when the presenter is loaded and set up, the whole former queue
otherwise) followed by the new zoom operation, and the required operation recorded on the
new operation is `r` exactly when the prior operations split as `pre ++ o :: post` with `o`
of identity `r`, not animated, not completed, not canceled, and no operation of `post` in
that situation; it is null exactly when no prior operation is in that situation; and a
recorded required operation is never the new operation and never an animated one. -/
theorem ChangeZoomFactorPrivate_records_last_nonAnimated_operation (s : ScrollPresenter α)
    (zoomFactor : α) (centerPoint : Option (α × α)) (zoomFactorKind : ScrollPresenterViewKind)
    (options : Option ScrollingOptions) (viewChangeCorrelationId : Bool)
    (hc : s.Content = true)
    (hfresh : ∀ o ∈ s.m_interactionTrackerAsyncOperations, o.id < s.allocatedOperations)
    (hq : (s.m_interactionTrackerAsyncOperations.map (fun o => o.id)).Nodup) :
    ∃ (prior : List (InteractionTrackerAsyncOperation α))
      (newOp : InteractionTrackerAsyncOperation α),
      (s.ChangeZoomFactorPrivate zoomFactor centerPoint zoomFactorKind options
        viewChangeCorrelationId).1.m_interactionTrackerAsyncOperations = prior ++ [newOp] ∧
      prior = (if s.IsLoadedAndSetUp then s.CompleteDelayedOperations
        else s).m_interactionTrackerAsyncOperations ∧
      (∀ o ∈ prior, o.id ≠ newOp.id) ∧
      (∀ r : Nat, newOp.requiredOperation = some r ↔
        ∃ pre o post, prior = pre ++ o :: post ∧ o.id = r ∧
          (o.IsAnimated = false ∧ o.isCompleted = false ∧ o.isCanceled = false) ∧
          ∀ x ∈ post, ¬ (x.IsAnimated = false ∧ x.isCompleted = false ∧ x.isCanceled = false)) ∧
      (newOp.requiredOperation = none ↔
        ∀ o ∈ prior, ¬ (o.IsAnimated = false ∧ o.isCompleted = false ∧ o.isCanceled = false)) ∧
      (∀ r : Nat, newOp.requiredOperation = some r →
        r ≠ newOp.id ∧ ∀ o ∈ prior, o.id = r → o.IsAnimated = false) := by
  have hsub : ∀ o ∈ (if s.IsLoadedAndSetUp then s.CompleteDelayedOperations
      else s).m_interactionTrackerAsyncOperations, o ∈ s.m_interactionTrackerAsyncOperations := by
    intro o ho
    split_ifs at ho
    · exact CompleteDelayedOperations_mem s o ho
    · exact ho
  have hal : (if s.IsLoadedAndSetUp then s.CompleteDelayedOperations
      else s).allocatedOperations = s.allocatedOperations := by
    split_ifs
    · exact CompleteDelayedOperations_allocated s
    · rfl
  have hnd : ((if s.IsLoadedAndSetUp then s.CompleteDelayedOperations
      else s).m_interactionTrackerAsyncOperations.map (fun o => o.id)).Nodup := by
    split_ifs
    · rw [CompleteDelayedOperations_queue s hq]
      exact (List.filter_sublist _).map _ |>.nodup hq
    · exact hq
  obtain ⟨newOp, h1, h2, _, h4, _⟩ := ChangeZoomFactorPrivate_appends s zoomFactor centerPoint
    zoomFactorKind options viewChangeCorrelationId hc _ rfl
    (fun o ho => by rw [hal]; exact Nat.ne_of_lt (hfresh o (hsub o ho)))
  generalize (if s.IsLoadedAndSetUp then s.CompleteDelayedOperations
      else s).m_interactionTrackerAsyncOperations = prior at h1 h4 hsub hnd
  have hpred : ∀ o : InteractionTrackerAsyncOperation α,
      (!o.IsAnimated && !o.isCompleted && !o.isCanceled) = true ↔
        (o.IsAnimated = false ∧ o.isCompleted = false ∧ o.isCanceled = false) := by
    intro o
    cases o.IsAnimated <;> cases o.isCompleted <;> cases o.isCanceled <;> simp
  have hiff : ∀ r : Nat, newOp.requiredOperation = some r ↔
      ∃ pre o post, prior = pre ++ o :: post ∧ o.id = r ∧
        (o.IsAnimated = false ∧ o.isCompleted = false ∧ o.isCanceled = false) ∧
        ∀ x ∈ post, ¬ (x.IsAnimated = false ∧ x.isCompleted = false ∧ x.isCanceled = false) := by
    intro r
    rw [h4, Option.map_eq_some']
    constructor
    · rintro ⟨o, ho, hr⟩
      obtain ⟨hp, pre, post, hl, hpost⟩ := (find?_reverse_eq_some _ _ _).mp ho
      refine ⟨pre, o, post, hl, hr, (hpred o).mp hp, ?_⟩
      intro x hx hx2
      have := hpost x hx
      rw [(hpred x).mpr hx2] at this
      exact Bool.noConfusion this
    · rintro ⟨pre, o, post, hl, hr, hp, hpost⟩
      refine ⟨o, (find?_reverse_eq_some _ _ _).mpr ⟨(hpred o).mpr hp, pre, post, hl, ?_⟩, hr⟩
      intro x hx
      have := hpost x hx
      rw [← hpred x] at this
      simpa using this
  refine ⟨prior, newOp, h1, rfl, ?_, hiff, ?_, ?_⟩
  · intro o ho
    rw [h2, hal]
    exact Nat.ne_of_lt (hfresh o (hsub o ho))
  · rw [h4, Option.map_eq_none', List.find?_eq_none]
    constructor
    · intro h o ho
      rw [← hpred o]
      exact h o (List.mem_reverse.mpr ho)
    · intro h o ho
      rw [hpred o]
      exact h o (List.mem_reverse.mp ho)
  · intro r hr
    obtain ⟨pre, o, post, hl, hid, hp, _⟩ := (hiff r).mp hr
    have ho : o ∈ prior := by rw [hl]; simp
    refine ⟨?_, ?_⟩
    · rw [← hid, h2, hal]
      exact Nat.ne_of_lt (hfresh o (hsub o ho))
    · intro x hx hxr
      have : x = o := List.inj_on_of_nodup_map hnd hx ho (by rw [hxr, hid])
      rw [this]
      exact hp.1


/-- C11 (witness): a zoom request on the sample presenter, whose queue holds a dispatched
non-animated offsets change, an animated zoom factor change and a queued non-animated
offsets change. -/
theorem ChangeZoomFactorPrivate_records_last_nonAnimated_operation_witness :
    ((samplePresenter sampleQueue).Content = true ∧
      (∀ o ∈ (samplePresenter sampleQueue).m_interactionTrackerAsyncOperations,
        o.id < (samplePresenter sampleQueue).allocatedOperations) ∧
      ((samplePresenter sampleQueue).m_interactionTrackerAsyncOperations.map
        (fun o => o.id)).Nodup) ∧
    ∃ (prior : List (InteractionTrackerAsyncOperation Int))
      (newOp : InteractionTrackerAsyncOperation Int),
      ((samplePresenter sampleQueue).ChangeZoomFactorPrivate 2 none .Absolute none
        true).1.m_interactionTrackerAsyncOperations = prior ++ [newOp] ∧
      prior = (if (samplePresenter sampleQueue).IsLoadedAndSetUp
        then (samplePresenter sampleQueue).CompleteDelayedOperations
        else samplePresenter sampleQueue).m_interactionTrackerAsyncOperations ∧
      (∀ o ∈ prior, o.id ≠ newOp.id) ∧
      (∀ r : Nat, newOp.requiredOperation = some r ↔
        ∃ pre o post, prior = pre ++ o :: post ∧ o.id = r ∧
          (o.IsAnimated = false ∧ o.isCompleted = false ∧ o.isCanceled = false) ∧
          ∀ x ∈ post, ¬ (x.IsAnimated = false ∧ x.isCompleted = false ∧ x.isCanceled = false)) ∧
      (newOp.requiredOperation = none ↔
        ∀ o ∈ prior, ¬ (o.IsAnimated = false ∧ o.isCompleted = false ∧ o.isCanceled = false)) ∧
      (∀ r : Nat, newOp.requiredOperation = some r →
        r ≠ newOp.id ∧ ∀ o ∈ prior, o.id = r → o.IsAnimated = false) :=
  ⟨⟨rfl, by decide, by decide⟩,
    ChangeZoomFactorPrivate_records_last_nonAnimated_operation (samplePresenter sampleQueue)
      2 none .Absolute none true rfl (by decide) (by decide)⟩

/-- C12: with content attached, the presenter loaded and set up, and queued operations that
are distinct objects older than the next allocation, each of the four request entry points
leaves the queue as the operations that were not flagged delayed, in their order, followed
by the new operation, which is not delayed; the calls of `CompleteViewChange` it adds are
exactly one per delayed operation, in queue order, with result Interrupted; and no
operation of the resulting queue is delayed. -/
theorem request_admission_interrupts_delayed_operations (s : ScrollPresenter α)
    (zoomedHorizontalOffset zoomedVerticalOffset : α) (offsetsKind : ScrollPresenterViewKind)
    (options : Option ScrollingOptions)
    (bringIntoViewRequestedEventArgs : Option (BringIntoViewData α))
    (operationTrigger : InteractionTrackerAsyncOperationTrigger)
    (existingViewChangeCorrelationId : Int) (viewChangeCorrelationId : Bool)
    (offsetsVelocity anticipatedOffsetsChange : α × α) (offsetsInertiaDecayRate : Option (α × α))
    (zoomFactor : α) (centerPoint : Option (α × α)) (zoomFactorKind : ScrollPresenterViewKind)
    (zoomFactorVelocity anticipatedZoomFactorChange : α) (zoomInertiaDecayRate : Option α)
    (hc : s.Content = true) (hl : s.IsLoadedAndSetUp = true)
    (hfresh : ∀ o ∈ s.m_interactionTrackerAsyncOperations, o.id < s.allocatedOperations)
    (hq : (s.m_interactionTrackerAsyncOperations.map (fun o => o.id)).Nodup) :
    ∀ r : ScrollPresenter α,
      (r = (s.ChangeOffsetsPrivate zoomedHorizontalOffset zoomedVerticalOffset offsetsKind
            options bringIntoViewRequestedEventArgs operationTrigger
            existingViewChangeCorrelationId viewChangeCorrelationId).1 ∨
        r = (s.ChangeOffsetsWithAdditionalVelocityPrivate offsetsVelocity
            anticipatedOffsetsChange offsetsInertiaDecayRate operationTrigger
            viewChangeCorrelationId).1 ∨
        r = (s.ChangeZoomFactorPrivate zoomFactor centerPoint zoomFactorKind options
            viewChangeCorrelationId).1 ∨
        r = (s.ChangeZoomFactorWithAdditionalVelocityPrivate zoomFactorVelocity
            anticipatedZoomFactorChange centerPoint zoomInertiaDecayRate operationTrigger
            viewChangeCorrelationId).1) →
      ∃ newOp : InteractionTrackerAsyncOperation α,
        r.m_interactionTrackerAsyncOperations =
          s.m_interactionTrackerAsyncOperations.filter (fun o => !o.isDelayed) ++ [newOp] ∧
        newOp.isDelayed = false ∧ newOp.id = s.allocatedOperations ∧
        r.completedViewChanges = s.completedViewChanges ++
          (s.m_interactionTrackerAsyncOperations.filter (fun o => o.isDelayed)).map
            (fun o => (o.SetIsCompleted true, ScrollPresenterViewChangeResult.Interrupted)) ∧
        ∀ o ∈ r.m_interactionTrackerAsyncOperations, o.isDelayed = false := by
  have hs1 : s.CompleteDelayedOperations =
      if s.IsLoadedAndSetUp then s.CompleteDelayedOperations else s := by rw [hl]; rfl
  have hf1 : ∀ o ∈ s.CompleteDelayedOperations.m_interactionTrackerAsyncOperations,
      o.id ≠ s.CompleteDelayedOperations.allocatedOperations := by
    intro o ho
    rw [CompleteDelayedOperations_allocated]
    exact Nat.ne_of_lt (hfresh o (CompleteDelayedOperations_mem s o ho))
  have key : ∀ (r : ScrollPresenter α) (newOp : InteractionTrackerAsyncOperation α),
      r.m_interactionTrackerAsyncOperations =
        s.CompleteDelayedOperations.m_interactionTrackerAsyncOperations ++ [newOp] →
      newOp.id = s.CompleteDelayedOperations.allocatedOperations →
      newOp.isDelayed = !s.IsLoadedAndSetUp →
      r.completedViewChanges = s.CompleteDelayedOperations.completedViewChanges →
      ∃ newOp : InteractionTrackerAsyncOperation α,
        r.m_interactionTrackerAsyncOperations =
          s.m_interactionTrackerAsyncOperations.filter (fun o => !o.isDelayed) ++ [newOp] ∧
        newOp.isDelayed = false ∧ newOp.id = s.allocatedOperations ∧
        r.completedViewChanges = s.completedViewChanges ++
          (s.m_interactionTrackerAsyncOperations.filter (fun o => o.isDelayed)).map
            (fun o => (o.SetIsCompleted true, ScrollPresenterViewChangeResult.Interrupted)) ∧
        ∀ o ∈ r.m_interactionTrackerAsyncOperations, o.isDelayed = false := by
    intro r newOp h1 h2 h3 h4
    rw [CompleteDelayedOperations_queue s hq] at h1
    rw [CompleteDelayedOperations_allocated] at h2
    rw [hl] at h3
    rw [CompleteDelayedOperations_completed] at h4
    refine ⟨newOp, h1, h3, h2, h4, ?_⟩
    intro o ho
    rw [h1, List.mem_append] at ho
    rcases ho with ho | ho
    · have := (List.mem_filter.mp ho).2
      simpa using this
    · rw [List.mem_singleton.mp ho]
      exact h3
  intro r hr
  rcases hr with hr | hr | hr | hr
  · obtain ⟨newOp, h1, h2, h3, _, _, _, h7, _⟩ := ChangeOffsetsPrivate_appends s
      zoomedHorizontalOffset zoomedVerticalOffset offsetsKind options
      bringIntoViewRequestedEventArgs operationTrigger existingViewChangeCorrelationId
      viewChangeCorrelationId hc _ hs1 hf1
    rw [← hr] at h1 h7
    exact key r newOp h1 h2 h3 h7
  · obtain ⟨newOp, h1, h2, h3, _, _, _, h7, _⟩ :=
      ChangeOffsetsWithAdditionalVelocityPrivate_appends s offsetsVelocity
        anticipatedOffsetsChange offsetsInertiaDecayRate operationTrigger
        viewChangeCorrelationId hc _ hs1 hf1
    rw [← hr] at h1 h7
    exact key r newOp h1 h2 h3 h7
  · obtain ⟨newOp, h1, h2, h3, _, _, _, _, h7, _⟩ := ChangeZoomFactorPrivate_appends s
      zoomFactor centerPoint zoomFactorKind options viewChangeCorrelationId hc _ hs1 hf1
    rw [← hr] at h1 h7
    exact key r newOp h1 h2 h3 h7
  · obtain ⟨newOp, h1, h2, h3, _, _, _, h7, _⟩ :=
      ChangeZoomFactorWithAdditionalVelocityPrivate_appends s zoomFactorVelocity
        anticipatedZoomFactorChange centerPoint zoomInertiaDecayRate operationTrigger
        viewChangeCorrelationId hc _ hs1 hf1
    rw [← hr] at h1 h7
    exact key r newOp h1 h2 h3 h7

/-- C12 (witness): the four entry points on the sample presenter holding two delayed
operations around a dispatched animated one. -/
theorem request_admission_interrupts_delayed_operations_witness :
    ((samplePresenter sampleDelayedQueue).Content = true ∧
      (samplePresenter sampleDelayedQueue).IsLoadedAndSetUp = true ∧
      (∀ o ∈ (samplePresenter sampleDelayedQueue).m_interactionTrackerAsyncOperations,
        o.id < (samplePresenter sampleDelayedQueue).allocatedOperations) ∧
      ((samplePresenter sampleDelayedQueue).m_interactionTrackerAsyncOperations.map
        (fun o => o.id)).Nodup) ∧
    ∀ r : ScrollPresenter Int,
      (r = ((samplePresenter sampleDelayedQueue).ChangeOffsetsPrivate 5 7 .Absolute none none
            .direct s_noOpCorrelationId true).1 ∨
        r = ((samplePresenter sampleDelayedQueue).ChangeOffsetsWithAdditionalVelocityPrivate
            (40, 0) (0, 0) none .direct true).1 ∨
        r = ((samplePresenter sampleDelayedQueue).ChangeZoomFactorPrivate 2 none .Absolute none
            true).1 ∨
        r = ((samplePresenter sampleDelayedQueue).ChangeZoomFactorWithAdditionalVelocityPrivate
            3 0 none none .direct true).1) →
      ∃ newOp : InteractionTrackerAsyncOperation Int,
        r.m_interactionTrackerAsyncOperations =
          (samplePresenter sampleDelayedQueue).m_interactionTrackerAsyncOperations.filter
            (fun o => !o.isDelayed) ++ [newOp] ∧
        newOp.isDelayed = false ∧
        newOp.id = (samplePresenter sampleDelayedQueue).allocatedOperations ∧
        r.completedViewChanges = (samplePresenter sampleDelayedQueue).completedViewChanges ++
          ((samplePresenter sampleDelayedQueue).m_interactionTrackerAsyncOperations.filter
            (fun o => o.isDelayed)).map
            (fun o => (o.SetIsCompleted true, ScrollPresenterViewChangeResult.Interrupted)) ∧
        ∀ o ∈ r.m_interactionTrackerAsyncOperations, o.isDelayed = false :=
  ⟨⟨rfl, rfl, by decide, by decide⟩,
    request_admission_interrupts_delayed_operations (samplePresenter sampleDelayedQueue)
      5 7 .Absolute none none .direct s_noOpCorrelationId true (40, 0) (0, 0) none
      2 none .Absolute 3 0 none rfl rfl (by decide) (by decide)⟩

theorem stdMax_eq_max [LinearOrder α] (a b : α) : stdMax a b = max a b := by
  unfold stdMax
  rcases lt_trichotomy a b with h | h | h
  · rw [if_pos h, max_eq_right h.le]
  · subst h; simp
  · rw [if_neg (not_lt.mpr h.le), max_eq_left h.le]

theorem stdMin_eq_min [LinearOrder α] (a b : α) : stdMin a b = min a b := by
  unfold stdMin
  rcases lt_trichotomy a b with h | h | h
  · rw [if_neg (not_lt.mpr h.le), min_eq_left h.le]
  · subst h; simp
  · rw [if_pos h, min_eq_right h.le]

theorem stdClamp_eq_min_max [LinearOrder α] (v lo hi : α) (h : lo ≤ hi) :
    stdClamp v lo hi = min (max v lo) hi := by
  unfold stdClamp
  by_cases h1 : v < lo
  · rw [if_pos h1, max_eq_right h1.le, min_eq_left h]
  · rw [if_neg h1, max_eq_left (not_lt.mp h1)]
    by_cases h2 : hi < v
    · rw [if_pos h2, min_eq_right h2.le]
    · rw [if_neg h2, min_eq_left (not_lt.mp h2)]

/-- C16: `ComputeValueAfterSnapPoints` returns the evaluation of the value by the first
snap point, in set order, whose applicable zone holds the value; it returns the value
itself when no zone holds it, in particular for the empty set; and as soon as some zone
holds the value there is such a first snap point, so that the value comes back without an
evaluation exactly when no zone holds it. -/
theorem ComputeValueAfterSnapPoints_first_applicable_zone [LinearOrder α] (value : α)
    (snapPointsSet : List (SnapPointWrapper α)) :
    (∀ pre w post, snapPointsSet = pre ++ w :: post →
      (w.ActualApplicableZone.1 ≤ value ∧ value ≤ w.ActualApplicableZone.2) →
      (∀ x ∈ pre, ¬ (x.ActualApplicableZone.1 ≤ value ∧ value ≤ x.ActualApplicableZone.2)) →
      ComputeValueAfterSnapPoints value snapPointsSet = w.Evaluate value) ∧
    ((∀ x ∈ snapPointsSet,
        ¬ (x.ActualApplicableZone.1 ≤ value ∧ value ≤ x.ActualApplicableZone.2)) →
      ComputeValueAfterSnapPoints value snapPointsSet = value) ∧
    ((∃ x ∈ snapPointsSet,
        x.ActualApplicableZone.1 ≤ value ∧ value ≤ x.ActualApplicableZone.2) →
      ∃ pre w post, snapPointsSet = pre ++ w :: post ∧
        (w.ActualApplicableZone.1 ≤ value ∧ value ≤ w.ActualApplicableZone.2) ∧
        (∀ x ∈ pre, ¬ (x.ActualApplicableZone.1 ≤ value ∧ value ≤ x.ActualApplicableZone.2)) ∧
        ComputeValueAfterSnapPoints value snapPointsSet = w.Evaluate value) ∧
    ComputeValueAfterSnapPoints value ([] : List (SnapPointWrapper α)) = value := by
  have hnone : ∀ l : List (SnapPointWrapper α),
      (∀ x ∈ l, ¬ (x.ActualApplicableZone.1 ≤ value ∧ value ≤ x.ActualApplicableZone.2)) →
      ComputeValueAfterSnapPoints value l = value := by
    intro l
    induction l with
    | nil => intro _; rfl
    | cons a t ih =>
      intro h
      unfold ComputeValueAfterSnapPoints
      rw [if_neg (h a (List.mem_cons_self _ _))]
      exact ih (fun x hx => h x (List.mem_cons_of_mem _ hx))
  have hfirst : ∀ (pre : List (SnapPointWrapper α)) (w : SnapPointWrapper α)
      (post : List (SnapPointWrapper α)),
      (w.ActualApplicableZone.1 ≤ value ∧ value ≤ w.ActualApplicableZone.2) →
      (∀ x ∈ pre, ¬ (x.ActualApplicableZone.1 ≤ value ∧ value ≤ x.ActualApplicableZone.2)) →
      ComputeValueAfterSnapPoints value (pre ++ w :: post) = w.Evaluate value := by
    intro pre w post hw
    induction pre with
    | nil =>
      intro _
      simp only [List.nil_append]
      unfold ComputeValueAfterSnapPoints
      rw [if_pos hw]
    | cons a t ih =>
      intro h
      simp only [List.cons_append]
      unfold ComputeValueAfterSnapPoints
      rw [if_neg (h a (List.mem_cons_self _ _))]
      exact ih (fun x hx => h x (List.mem_cons_of_mem _ hx))
  refine ⟨?_, hnone _, ?_, rfl⟩
  · intro pre w post hl hw hpre
    rw [hl]
    exact hfirst pre w post hw hpre
  · intro hex
    induction snapPointsSet with
    | nil =>
      obtain ⟨x, hx, _⟩ := hex
      exact absurd hx (List.not_mem_nil _)
    | cons a t ih =>
      by_cases ha : a.ActualApplicableZone.1 ≤ value ∧ value ≤ a.ActualApplicableZone.2
      · exact ⟨[], a, t, rfl, ha, fun x hx => absurd hx (List.not_mem_nil _),
          hfirst [] a t ha (fun x hx => absurd hx (List.not_mem_nil _))⟩
      · have hex2 : ∃ x ∈ t,
            x.ActualApplicableZone.1 ≤ value ∧ value ≤ x.ActualApplicableZone.2 := by
          obtain ⟨x, hx, hz⟩ := hex
          rcases List.mem_cons.mp hx with h | h
          · rw [h] at hz; exact absurd hz ha
          · exact ⟨x, h, hz⟩
        obtain ⟨pre, w, post, hl, hw, hpre, _⟩ := ih hex2
        have hpre2 : ∀ x ∈ a :: pre,
            ¬ (x.ActualApplicableZone.1 ≤ value ∧ value ≤ x.ActualApplicableZone.2) := by
          intro x hx
          rcases List.mem_cons.mp hx with h | h
          · rw [h]; exact ha
          · exact hpre x h
        refine ⟨a :: pre, w, post, by rw [hl]; rfl, hw, hpre2, ?_⟩
        rw [hl]
        exact hfirst (a :: pre) w post hw hpre2

/-- C18: a velocity request applies a supplied inertia decay rate to the motion engine as
`min (max r 0) 1` on each component, both axes for an offsets change and the scalar for a
zoom factor change, and resets the decay rate of the engine to null when none is
supplied. -/
theorem velocity_requests_clamp_inertia_decay_rate [LinearOrderedRing α] [Div α]
    (s : ScrollPresenter α) (view : ScrollPresenterView α)
    (operationTrigger : InteractionTrackerAsyncOperationTrigger)
    (OffsetsVelocity : α × α) (ZoomFactorVelocity : α) (CenterPoint : Option (α × α))
    (offsetsInertiaDecayRate : α × α) (zoomInertiaDecayRate : α) (requestId : Int) :
    (s.ProcessOffsetsChangeWithAdditionalVelocity operationTrigger OffsetsVelocity
        (some offsetsInertiaDecayRate) requestId).1.PositionInertiaDecayRate =
      some (min (max offsetsInertiaDecayRate.1 0) 1, min (max offsetsInertiaDecayRate.2 0) 1) ∧
    (s.ProcessOffsetsChangeWithAdditionalVelocity operationTrigger OffsetsVelocity
        none requestId).1.PositionInertiaDecayRate = none ∧
    (s.ProcessZoomFactorChangeWithAdditionalVelocity view ZoomFactorVelocity CenterPoint
        (some zoomInertiaDecayRate) requestId).1.ScaleInertiaDecayRate =
      some (min (max zoomInertiaDecayRate 0) 1) ∧
    (s.ProcessZoomFactorChangeWithAdditionalVelocity view ZoomFactorVelocity CenterPoint
        none requestId).1.ScaleInertiaDecayRate = none := by
  refine ⟨?_, rfl, ?_, rfl⟩
  · simp only [ProcessOffsetsChangeWithAdditionalVelocity, ResetAnticipatedView,
      stdClamp_eq_min_max _ _ _ (zero_le_one' α)]
  · simp only [ProcessZoomFactorChangeWithAdditionalVelocity, ResetAnticipatedView,
      stdClamp_eq_min_max _ _ _ (zero_le_one' α)]



/-- C14 (failing input): on the sample presenter, whose queue is empty and whose
anticipated view is NaN, `ScrollToOffsets` to (5, 7) asks the motion engine for the jump
and leaves the queue empty with the anticipated offsets 5 and 7; the engine callbacks
`ValuesChanged` and `IdleStateEntered` for the request find the queue empty and leave them
in place, so that with a confirmed horizontal offset of 40 the accessor still answers 5. -/
theorem ScrollToOffsets_leaves_anticipated_offsets_with_empty_queue :
    (samplePresenter []).m_interactionTrackerAsyncOperations = [] ∧
    (samplePresenter []).m_anticipatedZoomedHorizontalOffset = none ∧
    ((samplePresenter []).ScrollToOffsets sampleView sampleBringIntoView 5 7 11).2 =
      [.TryUpdatePosition (5, 7), .ScrollStarting (-1) 5 7 1] ∧
    ((samplePresenter []).ScrollToOffsets sampleView sampleBringIntoView 5 7
      11).1.m_interactionTrackerAsyncOperations = [] ∧
    ((samplePresenter []).ScrollToOffsets sampleView sampleBringIntoView 5 7
      11).1.m_anticipatedZoomedHorizontalOffset = some 5 ∧
    ((samplePresenter []).ScrollToOffsets sampleView sampleBringIntoView 5 7
      11).1.m_anticipatedZoomedVerticalOffset = some 7 ∧
    ((((samplePresenter []).ScrollToOffsets sampleView sampleBringIntoView 5 7
      11).1.ValuesChanged 11).IdleStateEntered 11).m_anticipatedZoomedHorizontalOffset =
      some 5 ∧
    ((((samplePresenter []).ScrollToOffsets sampleView sampleBringIntoView 5 7
      11).1.ValuesChanged 11).IdleStateEntered 11).AnticipatedZoomedHorizontalOffset
      { sampleView with m_zoomedHorizontalOffset := 40 } = 5 := by
  decide

/-- C17 (failing input): in the Idle state, an offsets change with additional velocity
(10, -20) whose trigger holds both scroll-controller bits is handed to the motion engine
with the velocity (10, -20), whereas the same request with the trigger of the horizontal
controller alone is handed over as (40, -50); with the direct trigger, or in the Inertia
state, the velocity is handed over unchanged. -/
theorem ProcessOffsetsChange_both_controllers_velocity_unchanged :
    (samplePresenter []).m_state = .Idle ∧
    ((samplePresenter []).ProcessOffsetsChangeWithAdditionalVelocity
      (InteractionTrackerAsyncOperationTrigger.horizontal.union .vertical) (10, -20) none
      11).2 = [.TryUpdatePositionWithAdditionalVelocity (10, -20)] ∧
    ((samplePresenter []).ProcessOffsetsChangeWithAdditionalVelocity .horizontal (10, -20) none
      11).2 = [.TryUpdatePositionWithAdditionalVelocity (40, -50)] ∧
    ((samplePresenter []).ProcessOffsetsChangeWithAdditionalVelocity .vertical (10, 0) none
      11).2 = [.TryUpdatePositionWithAdditionalVelocity (40, 0)] ∧
    ((samplePresenter []).ProcessOffsetsChangeWithAdditionalVelocity .direct (10, -20) none
      11).2 = [.TryUpdatePositionWithAdditionalVelocity (10, -20)] ∧
    (({ samplePresenter [] with m_state := .Inertia }).ProcessOffsetsChangeWithAdditionalVelocity
      .horizontal (10, -20) none 11).2 = [.TryUpdatePositionWithAdditionalVelocity (10, -20)] := by
  decide



/-- C15: a zoom factor change whose computed animation mode is Disabled, processed with
prior anticipated zoom factor `z0`, not 0, and prior anticipated offsets `oh` and `ov`, hands
the resolved zoom factor `z1` (the requested one, added to `z0` for a relative request, then
snapped in snap-points mode Default) and the content-local center point `c` to
`TryUpdateScale`; afterwards the anticipated zoom factor is `z1`, the anticipated offset on
each axis is `z1 / z0 * (o + c) - c` clamped to `[0, max 0 (extent * z1 - viewport)]`, and
the ZoomStarting event, raised when a listener is registered, reports these three values. -/
theorem ProcessZoomFactorChange_anticipated_view [LinearOrderedRing α] [Div α]
    (s : ScrollPresenter α) (view : ScrollPresenterView α) (ZoomFactor : α)
    (CenterPoint : Option (α × α)) (ViewKind : ScrollPresenterViewKind)
    (Options : Option ScrollingOptions) (zoomFactorChangeCorrelationId requestId : Int)
    (z0 oh ov : α)
    (hmode : s.GetComputedAnimationMode (scrollModes s.constants Options).1 = .Disabled)
    (hz0 : s.AnticipatedZoomFactor view = z0) (_hz : z0 ≠ 0)
    (hoh : s.AnticipatedZoomedHorizontalOffset view = oh)
    (hov : s.AnticipatedZoomedVerticalOffset view = ov) :
    ∃ (z1 : α) (c : α × α),
      z1 = (if (scrollModes s.constants Options).2 = .Default then
              ComputeValueAfterSnapPoints
                (match ViewKind with
                 | .RelativeToCurrentView => ZoomFactor + z0
                 | .Absolute => ZoomFactor) view.m_sortedConsolidatedZoomSnapPoints
            else
              (match ViewKind with
               | .RelativeToCurrentView => ZoomFactor + z0
               | .Absolute => ZoomFactor)) ∧
      c = ((match CenterPoint with
            | none => (view.m_viewportWidth / 2, view.m_viewportHeight / 2)
            | some nullableCenterPoint => nullableCenterPoint).1 - view.m_contentLayoutOffsetX,
           (match CenterPoint with
            | none => (view.m_viewportWidth / 2, view.m_viewportHeight / 2)
            | some nullableCenterPoint => nullableCenterPoint).2 - view.m_contentLayoutOffsetY) ∧
      (s.ProcessZoomFactorChange view ZoomFactor CenterPoint ViewKind Options
        zoomFactorChangeCorrelationId requestId).1.m_anticipatedZoomFactor = some z1 ∧
      (s.ProcessZoomFactorChange view ZoomFactor CenterPoint ViewKind Options
        zoomFactorChangeCorrelationId requestId).1.m_anticipatedZoomedHorizontalOffset =
        some (min (max 0 (view.m_unzoomedExtentWidth * z1 - view.m_viewportWidth))
          (max 0 (z1 / z0 * (oh + c.1) - c.1))) ∧
      (s.ProcessZoomFactorChange view ZoomFactor CenterPoint ViewKind Options
        zoomFactorChangeCorrelationId requestId).1.m_anticipatedZoomedVerticalOffset =
        some (min (max 0 (view.m_unzoomedExtentHeight * z1 - view.m_viewportHeight))
          (max 0 (z1 / z0 * (ov + c.2) - c.2))) ∧
      (s.ProcessZoomFactorChange view ZoomFactor CenterPoint ViewKind Options
        zoomFactorChangeCorrelationId requestId).2 =
        .TryUpdateScale z1 c ::
          (if view.m_zoomStartingEventSource then
            [.ZoomStarting zoomFactorChangeCorrelationId
              (min (max 0 (view.m_unzoomedExtentWidth * z1 - view.m_viewportWidth))
                (max 0 (z1 / z0 * (oh + c.1) - c.1)))
              (min (max 0 (view.m_unzoomedExtentHeight * z1 - view.m_viewportHeight))
                (max 0 (z1 / z0 * (ov + c.2) - c.2))) z1]
           else []) := by
  have h1 : ({ s with m_latestInteractionTrackerRequest := requestId } :
      ScrollPresenter α).AnticipatedZoomFactor view = z0 := hz0
  have h2 : ({ s with m_latestInteractionTrackerRequest := requestId } :
      ScrollPresenter α).AnticipatedZoomedHorizontalOffset view = oh := hoh
  have h3 : ({ s with m_latestInteractionTrackerRequest := requestId } :
      ScrollPresenter α).AnticipatedZoomedVerticalOffset view = ov := hov
  refine ⟨_, _, rfl, rfl, ?_, ?_, ?_, ?_⟩
  all_goals
    cases Options <;> cases CenterPoint <;> cases ViewKind <;>
    simp only [scrollModes] at hmode ⊢ <;>
    unfold ProcessZoomFactorChange <;>
    simp only [hmode, h1, h2, h3, hz0] <;>
    simp only [UpdateAnticipatedOffset, UpdateAnticipatedZoomFactor, AnticipatedScrollableWidth,
      AnticipatedScrollableHeight, AnticipatedZoomFactor, stdMax_eq_max, stdMin_eq_min,
      RaiseZoomStarting]

/-- C15 (witness): an absolute zoom to factor 2 around the default center point on the
sample presenter, from zoom factor 1 and offsets (0, 0). -/
theorem ProcessZoomFactorChange_anticipated_view_witness :
    ((samplePresenter []).GetComputedAnimationMode
        (scrollModes (samplePresenter []).constants (some ⟨.Disabled, .Ignore⟩)).1 = .Disabled ∧
      (samplePresenter []).AnticipatedZoomFactor sampleView = 1 ∧ (1 : Int) ≠ 0 ∧
      (samplePresenter []).AnticipatedZoomedHorizontalOffset sampleView = 0 ∧
      (samplePresenter []).AnticipatedZoomedVerticalOffset sampleView = 0) ∧
    ∃ (z1 : Int) (c : Int × Int),
      z1 = 2 ∧ c = (25, 25) ∧
      ((samplePresenter []).ProcessZoomFactorChange sampleView 2 none .Absolute
        (some ⟨.Disabled, .Ignore⟩) 3 11).1.m_anticipatedZoomFactor = some z1 ∧
      ((samplePresenter []).ProcessZoomFactorChange sampleView 2 none .Absolute
        (some ⟨.Disabled, .Ignore⟩) 3 11).1.m_anticipatedZoomedHorizontalOffset =
        some (min (max 0 (100 * z1 - 50)) (max 0 (z1 / 1 * (0 + c.1) - c.1))) ∧
      ((samplePresenter []).ProcessZoomFactorChange sampleView 2 none .Absolute
        (some ⟨.Disabled, .Ignore⟩) 3 11).2 =
        [.TryUpdateScale z1 c, .ZoomStarting 3 25 25 z1] := by
  refine ⟨⟨by decide, rfl, by decide, rfl, rfl⟩, ?_⟩
  obtain ⟨z1, c, hz, hc, h1, h2, _, h4⟩ :=
    ProcessZoomFactorChange_anticipated_view (samplePresenter []) sampleView 2 none .Absolute
      (some ⟨.Disabled, .Ignore⟩) 3 11 1 0 0 (by decide) rfl (by decide) rfl rfl
  have hz2 : z1 = 2 := by rw [hz]; decide
  have hc2 : c = (25, 25) := by rw [hc]; decide
  refine ⟨z1, c, hz2, hc2, h1, h2, ?_⟩
  rw [h4, hz2, hc2]
  decide



theorem ProcessOffsetsChange_relative_step [LinearOrderedRing α] (s : ScrollPresenter α)
    (view : ScrollPresenterView α)
    (ComputeBringIntoViewUpdatedTargetOffsets :
      BringIntoViewData α → ScrollingSnapPointsMode → α × α)
    (operationTrigger : InteractionTrackerAsyncOperationTrigger) (dh dv : α)
    (Options : Option ScrollingOptions) (offsetsChangeCorrelationId requestId : Int)
    (hmode : s.GetComputedAnimationMode (scrollModes s.constants Options).1 = .Disabled)
    (hbiv : operationTrigger.BringIntoViewRequest = false)
    (hsnap : (scrollModes s.constants Options).2 = .Default →
      view.m_sortedConsolidatedHorizontalSnapPoints = [] ∧
        view.m_sortedConsolidatedVerticalSnapPoints = [])
    (hH : 0 ≤ s.AnticipatedZoomedHorizontalOffset view ∧
      s.AnticipatedZoomedHorizontalOffset view ≤ s.AnticipatedScrollableWidth view)
    (hV : 0 ≤ s.AnticipatedZoomedVerticalOffset view ∧
      s.AnticipatedZoomedVerticalOffset view ≤ s.AnticipatedScrollableHeight view) :
    (s.ProcessOffsetsChange view ComputeBringIntoViewUpdatedTargetOffsets operationTrigger
        dh dv .RelativeToCurrentView Options none offsetsChangeCorrelationId
        requestId).1.AnticipatedZoomedHorizontalOffset view =
      min (s.AnticipatedScrollableWidth view)
        (max 0 (s.AnticipatedZoomedHorizontalOffset view + dh)) ∧
    (s.ProcessOffsetsChange view ComputeBringIntoViewUpdatedTargetOffsets operationTrigger
        dh dv .RelativeToCurrentView Options none offsetsChangeCorrelationId
        requestId).1.AnticipatedZoomedVerticalOffset view =
      min (s.AnticipatedScrollableHeight view)
        (max 0 (s.AnticipatedZoomedVerticalOffset view + dv)) ∧
    (s.ProcessOffsetsChange view ComputeBringIntoViewUpdatedTargetOffsets operationTrigger
        dh dv .RelativeToCurrentView Options none offsetsChangeCorrelationId
        requestId).1.m_anticipatedZoomFactor = s.m_anticipatedZoomFactor ∧
    (s.ProcessOffsetsChange view ComputeBringIntoViewUpdatedTargetOffsets operationTrigger
        dh dv .RelativeToCurrentView Options none offsetsChangeCorrelationId
        requestId).1.constants = s.constants ∧
    (s.ProcessOffsetsChange view ComputeBringIntoViewUpdatedTargetOffsets operationTrigger
        dh dv .RelativeToCurrentView Options none offsetsChangeCorrelationId
        requestId).1.isAnimationsEnabled = s.isAnimationsEnabled := by
  have hkeepH : s.AnticipatedZoomedHorizontalOffset view =
      min (s.AnticipatedScrollableWidth view) (max 0 (s.AnticipatedZoomedHorizontalOffset view + 0)) := by
    rw [add_zero, max_eq_right hH.1, min_eq_right hH.2]
  have hkeepV : s.AnticipatedZoomedVerticalOffset view =
      min (s.AnticipatedScrollableHeight view) (max 0 (s.AnticipatedZoomedVerticalOffset view + 0)) := by
    rw [add_zero, max_eq_right hV.1, min_eq_right hV.2]
  have hmodes : ∃ m : ScrollingSnapPointsMode, (scrollModes s.constants Options).2 = m := ⟨_, rfl⟩
  obtain ⟨m, hm⟩ := hmodes
  cases m
  · -- snap-points mode Default, no snap point
    obtain ⟨hhs, hvs⟩ := hsnap hm
    cases Options <;> simp only [scrollModes] at hmode hm <;>
      unfold ProcessOffsetsChange <;>
      simp only [hmode, hm, hbiv, Bool.false_and, Bool.false_eq_true, if_false, true_or, if_true,
        hhs, hvs, ComputeValueAfterSnapPoints, and_false, reduceCtorEq] <;>
      simp only [UpdateAnticipatedOffset, AnticipatedScrollableWidth, AnticipatedScrollableHeight,
        AnticipatedZoomFactor, AnticipatedZoomedHorizontalOffset, AnticipatedZoomedVerticalOffset,
        stdMax_eq_max, stdMin_eq_min, add_comm dh, add_comm dv] <;>
      trivial
  · -- snap-points mode Ignore
    by_cases h0 : dh = 0 <;> by_cases v0 : dv = 0 <;>
      cases Options <;> simp only [scrollModes] at hmode hm <;>
      unfold ProcessOffsetsChange <;>
      simp only [hmode, hm, hbiv, Bool.false_and, Bool.false_eq_true, if_false, if_true,
        and_self, reduceCtorEq, or_self, h0, v0, ne_eq, not_true_eq_false,
        not_false_eq_true] <;>
      simp only [UpdateAnticipatedOffset, AnticipatedScrollableWidth, AnticipatedScrollableHeight,
        AnticipatedZoomFactor, AnticipatedZoomedHorizontalOffset, AnticipatedZoomedVerticalOffset,
        stdMax_eq_max, stdMin_eq_min, add_comm dh, add_comm dv] <;>
      simp only [AnticipatedScrollableWidth, AnticipatedScrollableHeight,
        AnticipatedZoomFactor, AnticipatedZoomedHorizontalOffset, AnticipatedZoomedVerticalOffset,
        stdMax_eq_max] at hkeepH hkeepV <;>
      trivial


theorem foldl_clamp_mem [LinearOrderedRing α] (W : α) (hW : 0 ≤ W) (l : List α) (a : α)
    (ha : 0 ≤ a ∧ a ≤ W) :
    0 ≤ l.foldl (fun x d => min W (max 0 (x + d))) a ∧
      l.foldl (fun x d => min W (max 0 (x + d))) a ≤ W := by
  induction l generalizing a with
  | nil => exact ha
  | cons d t ih =>
    rw [List.foldl_cons]
    exact ih _ ⟨le_min hW (le_max_left _ _), min_le_left _ _⟩

theorem foldl_clamp_eq_sum [LinearOrderedRing α] (W : α) (l : List α) (a : α)
    (h : ∀ k, k ≤ l.length → 0 ≤ a + (l.take k).sum ∧ a + (l.take k).sum ≤ W) :
    l.foldl (fun x d => min W (max 0 (x + d))) a = a + l.sum := by
  induction l generalizing a with
  | nil => simp
  | cons d t ih =>
    have h1 := h 1 (by simp)
    simp only [List.take_succ_cons, List.take_zero, List.sum_cons, List.sum_nil, add_zero] at h1
    rw [List.foldl_cons, max_eq_right h1.1, min_eq_right h1.2, ih, List.sum_cons, add_assoc]
    intro k hk
    have h2 := h (k + 1) (by simpa using hk)
    simpa only [List.take_succ_cons, List.sum_cons, add_assoc] using h2

theorem processRelativeOffsetsChanges_fold [LinearOrderedRing α] (view : ScrollPresenterView α)
    (ComputeBringIntoViewUpdatedTargetOffsets :
      BringIntoViewData α → ScrollingSnapPointsMode → α × α)
    (operationTrigger : InteractionTrackerAsyncOperationTrigger)
    (Options : Option ScrollingOptions) (offsetsChangeCorrelationId requestId : Int)
    (hbiv : operationTrigger.BringIntoViewRequest = false)
    (deltas : List (α × α)) (s : ScrollPresenter α)
    (hmode : s.GetComputedAnimationMode (scrollModes s.constants Options).1 = .Disabled)
    (hsnap : (scrollModes s.constants Options).2 = .Default →
      view.m_sortedConsolidatedHorizontalSnapPoints = [] ∧
        view.m_sortedConsolidatedVerticalSnapPoints = [])
    (hH : 0 ≤ s.AnticipatedZoomedHorizontalOffset view ∧
      s.AnticipatedZoomedHorizontalOffset view ≤ s.AnticipatedScrollableWidth view)
    (hV : 0 ≤ s.AnticipatedZoomedVerticalOffset view ∧
      s.AnticipatedZoomedVerticalOffset view ≤ s.AnticipatedScrollableHeight view) :
    (processRelativeOffsetsChanges view ComputeBringIntoViewUpdatedTargetOffsets
        operationTrigger Options offsetsChangeCorrelationId requestId s
        deltas).AnticipatedZoomedHorizontalOffset view =
      (deltas.map Prod.fst).foldl
        (fun a d => min (s.AnticipatedScrollableWidth view) (max 0 (a + d)))
        (s.AnticipatedZoomedHorizontalOffset view) ∧
    (processRelativeOffsetsChanges view ComputeBringIntoViewUpdatedTargetOffsets
        operationTrigger Options offsetsChangeCorrelationId requestId s
        deltas).AnticipatedZoomedVerticalOffset view =
      (deltas.map Prod.snd).foldl
        (fun a d => min (s.AnticipatedScrollableHeight view) (max 0 (a + d)))
        (s.AnticipatedZoomedVerticalOffset view) := by
  induction deltas generalizing s with
  | nil => exact ⟨rfl, rfl⟩
  | cons d t ih =>
    obtain ⟨h1, h2, h3, h4, h5⟩ := ProcessOffsetsChange_relative_step s view
      ComputeBringIntoViewUpdatedTargetOffsets operationTrigger d.1 d.2 Options
      offsetsChangeCorrelationId requestId hmode hbiv hsnap hH hV
    have hW : (s.ProcessOffsetsChange view ComputeBringIntoViewUpdatedTargetOffsets
        operationTrigger d.1 d.2 .RelativeToCurrentView Options none offsetsChangeCorrelationId
        requestId).1.AnticipatedScrollableWidth view = s.AnticipatedScrollableWidth view := by
      simp only [AnticipatedScrollableWidth, AnticipatedZoomFactor, h3]
    have hHt : (s.ProcessOffsetsChange view ComputeBringIntoViewUpdatedTargetOffsets
        operationTrigger d.1 d.2 .RelativeToCurrentView Options none offsetsChangeCorrelationId
        requestId).1.AnticipatedScrollableHeight view = s.AnticipatedScrollableHeight view := by
      simp only [AnticipatedScrollableHeight, AnticipatedZoomFactor, h3]
    have hmode2 : (s.ProcessOffsetsChange view ComputeBringIntoViewUpdatedTargetOffsets
        operationTrigger d.1 d.2 .RelativeToCurrentView Options none offsetsChangeCorrelationId
        requestId).1.GetComputedAnimationMode
        (scrollModes (s.ProcessOffsetsChange view ComputeBringIntoViewUpdatedTargetOffsets
          operationTrigger d.1 d.2 .RelativeToCurrentView Options none
          offsetsChangeCorrelationId requestId).1.constants Options).1 = .Disabled := by
      rw [h4]
      simpa only [GetComputedAnimationMode, h5] using hmode
    have ih2 := ih _ hmode2 (by rw [h4]; exact hsnap)
      (by rw [h1, hW]; exact ⟨le_min (hH.1.trans hH.2) (le_max_left _ _), min_le_left _ _⟩)
      (by rw [h2, hHt]; exact ⟨le_min (hV.1.trans hV.2) (le_max_left _ _), min_le_left _ _⟩)
    rw [hW, hHt, h1, h2] at ih2
    simpa only [processRelativeOffsetsChanges, List.map_cons, List.foldl_cons] using ih2

/-- C13 (as stated, refuted): on the sample presenter with confirmed horizontal offset 0
and a scrollable width of 50, two RelativeToCurrentView requests with horizontal deltas -10
and 10, animation disabled and snap points ignored, leave the anticipated horizontal
offset at 10, whereas the confirmed offset plus the sum of the deltas clamped to the
scrollable range is 0. -/
theorem relative_offsets_changes_not_clamped_sum :
    (samplePresenter []).m_anticipatedZoomedHorizontalOffset = none ∧
    sampleView.m_zoomedHorizontalOffset = 0 ∧
    (samplePresenter []).AnticipatedScrollableWidth sampleView = 50 ∧
    (processRelativeOffsetsChanges sampleView sampleBringIntoView .direct
      (some ⟨.Disabled, .Ignore⟩) 3 11 (samplePresenter [])
      [(-10, 0), (10, 0)]).AnticipatedZoomedHorizontalOffset sampleView = 10 ∧
    min ((samplePresenter []).AnticipatedScrollableWidth sampleView)
      (max 0 (sampleView.m_zoomedHorizontalOffset + (-10 + 10))) = 0 := by
  decide

/-- C13 (amended): for a run of RelativeToCurrentView offsets changes whose computed
animation mode is Disabled, not triggered by a bring-into-view request, with snap points
ignored or absent, handed to the motion engine one after the other from anticipated offsets
that lie in `[0, scrollable extent]`, the anticipated offset on each axis after the last
request is obtained by adding each delta in turn and clamping to `[0, scrollable extent]`
after every request; when every partial sum of the deltas keeps the offset in that range,
this is the initial anticipated offset plus the sum of the deltas, clamped. -/
theorem relative_offsets_changes_clamp_after_every_request [LinearOrderedRing α]
    (s : ScrollPresenter α) (view : ScrollPresenterView α)
    (ComputeBringIntoViewUpdatedTargetOffsets :
      BringIntoViewData α → ScrollingSnapPointsMode → α × α)
    (operationTrigger : InteractionTrackerAsyncOperationTrigger)
    (Options : Option ScrollingOptions) (offsetsChangeCorrelationId requestId : Int)
    (deltas : List (α × α))
    (hmode : s.GetComputedAnimationMode (scrollModes s.constants Options).1 = .Disabled)
    (hbiv : operationTrigger.BringIntoViewRequest = false)
    (hsnap : (scrollModes s.constants Options).2 = .Default →
      view.m_sortedConsolidatedHorizontalSnapPoints = [] ∧
        view.m_sortedConsolidatedVerticalSnapPoints = [])
    (hH : 0 ≤ s.AnticipatedZoomedHorizontalOffset view ∧
      s.AnticipatedZoomedHorizontalOffset view ≤ s.AnticipatedScrollableWidth view)
    (hV : 0 ≤ s.AnticipatedZoomedVerticalOffset view ∧
      s.AnticipatedZoomedVerticalOffset view ≤ s.AnticipatedScrollableHeight view) :
    (processRelativeOffsetsChanges view ComputeBringIntoViewUpdatedTargetOffsets
        operationTrigger Options offsetsChangeCorrelationId requestId s
        deltas).AnticipatedZoomedHorizontalOffset view =
      (deltas.map Prod.fst).foldl
        (fun a d => min (s.AnticipatedScrollableWidth view) (max 0 (a + d)))
        (s.AnticipatedZoomedHorizontalOffset view) ∧
    (processRelativeOffsetsChanges view ComputeBringIntoViewUpdatedTargetOffsets
        operationTrigger Options offsetsChangeCorrelationId requestId s
        deltas).AnticipatedZoomedVerticalOffset view =
      (deltas.map Prod.snd).foldl
        (fun a d => min (s.AnticipatedScrollableHeight view) (max 0 (a + d)))
        (s.AnticipatedZoomedVerticalOffset view) ∧
    ((∀ k, k ≤ deltas.length →
        0 ≤ s.AnticipatedZoomedHorizontalOffset view + ((deltas.map Prod.fst).take k).sum ∧
        s.AnticipatedZoomedHorizontalOffset view + ((deltas.map Prod.fst).take k).sum ≤
          s.AnticipatedScrollableWidth view) →
      (processRelativeOffsetsChanges view ComputeBringIntoViewUpdatedTargetOffsets
        operationTrigger Options offsetsChangeCorrelationId requestId s
        deltas).AnticipatedZoomedHorizontalOffset view =
        min (s.AnticipatedScrollableWidth view)
          (max 0 (s.AnticipatedZoomedHorizontalOffset view + (deltas.map Prod.fst).sum))) ∧
    ((∀ k, k ≤ deltas.length →
        0 ≤ s.AnticipatedZoomedVerticalOffset view + ((deltas.map Prod.snd).take k).sum ∧
        s.AnticipatedZoomedVerticalOffset view + ((deltas.map Prod.snd).take k).sum ≤
          s.AnticipatedScrollableHeight view) →
      (processRelativeOffsetsChanges view ComputeBringIntoViewUpdatedTargetOffsets
        operationTrigger Options offsetsChangeCorrelationId requestId s
        deltas).AnticipatedZoomedVerticalOffset view =
        min (s.AnticipatedScrollableHeight view)
          (max 0 (s.AnticipatedZoomedVerticalOffset view + (deltas.map Prod.snd).sum))) := by
  obtain ⟨h1, h2⟩ := processRelativeOffsetsChanges_fold view
    ComputeBringIntoViewUpdatedTargetOffsets operationTrigger Options
    offsetsChangeCorrelationId requestId hbiv deltas s hmode hsnap hH hV
  refine ⟨h1, h2, ?_, ?_⟩
  · intro h
    have hk := h deltas.length le_rfl
    rw [List.take_of_length_le (by simp)] at hk
    rw [h1, foldl_clamp_eq_sum _ _ _ (fun k hk => h k (by simpa using hk)),
      max_eq_right hk.1, min_eq_right hk.2]
  · intro h
    have hk := h deltas.length le_rfl
    rw [List.take_of_length_le (by simp)] at hk
    rw [h2, foldl_clamp_eq_sum _ _ _ (fun k hk => h k (by simpa using hk)),
      max_eq_right hk.1, min_eq_right hk.2]

/-- C13 (amended, witness): the two requests with horizontal deltas -10 and 10 on the
sample presenter. -/
theorem relative_offsets_changes_clamp_after_every_request_witness :
    ((samplePresenter []).GetComputedAnimationMode
        (scrollModes (samplePresenter []).constants (some ⟨.Disabled, .Ignore⟩)).1 = .Disabled ∧
      InteractionTrackerAsyncOperationTrigger.direct.BringIntoViewRequest = false ∧
      sampleView.m_sortedConsolidatedHorizontalSnapPoints = [] ∧
      sampleView.m_sortedConsolidatedVerticalSnapPoints = [] ∧
      (0 ≤ (samplePresenter []).AnticipatedZoomedHorizontalOffset sampleView ∧
        (samplePresenter []).AnticipatedZoomedHorizontalOffset sampleView ≤
          (samplePresenter []).AnticipatedScrollableWidth sampleView) ∧
      (0 ≤ (samplePresenter []).AnticipatedZoomedVerticalOffset sampleView ∧
        (samplePresenter []).AnticipatedZoomedVerticalOffset sampleView ≤
          (samplePresenter []).AnticipatedScrollableHeight sampleView)) ∧
    (processRelativeOffsetsChanges sampleView sampleBringIntoView .direct
        (some ⟨.Disabled, .Ignore⟩) 3 11 (samplePresenter [])
        [(-10, 0), (10, 0)]).AnticipatedZoomedHorizontalOffset sampleView =
      ([(-10, 0), (10, 0)].map Prod.fst).foldl
        (fun a d => min ((samplePresenter []).AnticipatedScrollableWidth sampleView)
          (max 0 (a + d)))
        ((samplePresenter []).AnticipatedZoomedHorizontalOffset sampleView) :=
  ⟨⟨by decide, rfl, rfl, rfl, by decide, by decide⟩,
    (relative_offsets_changes_clamp_after_every_request (samplePresenter []) sampleView
      sampleBringIntoView .direct (some ⟨.Disabled, .Ignore⟩) 3 11 [(-10, 0), (10, 0)]
      (by decide) rfl (fun _ => ⟨rfl, rfl⟩) (by decide) (by decide)).1⟩


theorem clamp_mono (a b lo hi : Int) (h : a ≤ b) :
    min (max a lo) hi ≤ min (max b lo) hi :=
  min_le_min (max_le_max h le_rfl) le_rfl

theorem updateOperation_focus (s : ScrollPresenter α)
    (done rest : List (InteractionTrackerAsyncOperation α)) (o : InteractionTrackerAsyncOperation α)
    (f : InteractionTrackerAsyncOperation α → InteractionTrackerAsyncOperation α) (i : Nat)
    (hq : s.m_interactionTrackerAsyncOperations = done ++ o :: rest)
    (hi : o.id = i)
    (hd : ∀ x ∈ done, x.id ≠ i) (hr : ∀ x ∈ rest, x.id ≠ i) :
    (s.updateOperation i f).m_interactionTrackerAsyncOperations = done ++ f o :: rest := by
  simp only [updateOperation, hq, List.map_append, List.map_cons, hi, beq_self_eq_true, if_true]
  rw [map_update_fresh _ _ _ hd, map_update_fresh _ _ _ hr]

theorem removeOperation_focus (s : ScrollPresenter α)
    (done rest : List (InteractionTrackerAsyncOperation α))
    (o p : InteractionTrackerAsyncOperation α)
    (hq : s.m_interactionTrackerAsyncOperations = done ++ o :: rest)
    (hi : o.id = p.id)
    (hd : ∀ x ∈ done, x.id ≠ p.id) (hr : ∀ x ∈ rest, x.id ≠ p.id) :
    (s.removeOperation p).m_interactionTrackerAsyncOperations = done ++ rest := by
  simp only [removeOperation, hq, List.filter_append, List.filter_cons, hi, bne_self_eq_false,
    Bool.false_eq_true, if_false]
  congr 1
  · exact List.filter_eq_self.mpr (fun x hx => by simp [hd x hx])
  · exact List.filter_eq_self.mpr (fun x hx => by simp [hr x hx])

theorem CompleteViewChange_focus (s : ScrollPresenter α)
    (done rest : List (InteractionTrackerAsyncOperation α))
    (o p : InteractionTrackerAsyncOperation α) (r : ScrollPresenterViewChangeResult)
    (hq : s.m_interactionTrackerAsyncOperations = done ++ o :: rest)
    (hi : o.id = p.id)
    (hd : ∀ x ∈ done, x.id ≠ p.id) (hr : ∀ x ∈ rest, x.id ≠ p.id) :
    (s.CompleteViewChange p r).m_interactionTrackerAsyncOperations =
      done ++ o.SetIsCompleted true :: rest := by
  rw [CompleteViewChange_queue]
  simp only [hq, List.map_append, List.map_cons, hi, beq_self_eq_true, if_true]
  rw [map_update_fresh _ _ _ hd, map_update_fresh _ _ _ hr]

theorem dispatchedOperations_of_requests (s t : ScrollPresenter α)
    (h : t.interactionTrackerRequests = s.interactionTrackerRequests) :
    t.dispatchedOperations = s.dispatchedOperations := by
  unfold dispatchedOperations
  rw [h]

theorem ProcessDequeuedViewChange_dispatched (s : ScrollPresenter α) (tracker : Nat → Int)
    (o : InteractionTrackerAsyncOperation α) :
    (s.ProcessDequeuedViewChange tracker o).dispatchedOperations =
      s.dispatchedOperations ++ [o.id] := by
  simp [ProcessDequeuedViewChange, dispatchedOperations, interactionTrackerRequests, emit,
    updateOperation, List.filter_append, List.filterMap_append]

theorem tickStep_eq_decision (tracker : Nat → Int) (s : ScrollPresenter α) (flag : Bool)
    (o : InteractionTrackerAsyncOperation α) :
    tickStep tracker (s, flag) o =
      if o.isDelayed then (s.updateOperation o.id (fun x => x.SetIsDelayed false), flag)
      else if o.IsQueued then
        if (requiredOperationDecision s flag o).2 then
          ((if o.GetTicksCountdown > 1 then
              (requiredOperationDecision s flag o).1.updateOperation o.id
                (fun x => x.TickQueuedOperation)
            else (requiredOperationDecision s flag o).1), (requiredOperationDecision s flag o).2)
        else
          if o.TickQueuedOperation.preProcessingTicksCountdown == 0 then
            (((requiredOperationDecision s flag o).1.updateOperation o.id
              (fun x => x.TickQueuedOperation)).ProcessDequeuedViewChange tracker o,
              (requiredOperationDecision s flag o).2)
          else ((requiredOperationDecision s flag o).1.updateOperation o.id
            (fun x => x.TickQueuedOperation), (requiredOperationDecision s flag o).2)
      else if !o.IsAnimated then
        if o.TickNonAnimatedOperation.postProcessingTicksCountdown == 0 then
          ((if (((s.updateOperation o.id (fun x => x.TickNonAnimatedOperation)).CompleteViewChange
                o.TickNonAnimatedOperation .Completed).removeOperation
                o).m_interactionTrackerAsyncOperations.isEmpty then
              (((s.updateOperation o.id (fun x => x.TickNonAnimatedOperation)).CompleteViewChange
                o.TickNonAnimatedOperation .Completed).removeOperation o).ResetAnticipatedView
            else
              ((s.updateOperation o.id (fun x => x.TickNonAnimatedOperation)).CompleteViewChange
                o.TickNonAnimatedOperation .Completed).removeOperation o), flag)
        else (s.updateOperation o.id (fun x => x.TickNonAnimatedOperation), flag)
      else (s, flag) := rfl

theorem requiredOperationDecision_spec (s : ScrollPresenter α) (flag : Bool)
    (done rest : List (InteractionTrackerAsyncOperation α)) (o : InteractionTrackerAsyncOperation α)
    (hq : s.m_interactionTrackerAsyncOperations = done ++ o :: rest)
    (hd : ∀ x ∈ done, x.id ≠ o.id) (hr : ∀ x ∈ rest, x.id ≠ o.id) :
    ∃ o1 : InteractionTrackerAsyncOperation α,
      (requiredOperationDecision s flag o).1.m_interactionTrackerAsyncOperations =
        done ++ o1 :: rest ∧
      o1.id = o.id ∧ o1.isCompleted = o.isCompleted ∧ o1.isCanceled = o.isCanceled ∧
      o1.isDelayed = o.isDelayed ∧
      o1.preProcessingTicksCountdown = o.preProcessingTicksCountdown ∧
      (requiredOperationDecision s flag o).1.interactionTrackerRequests =
        s.interactionTrackerRequests ∧
      (requiredOperationDecision s flag o).1.allocatedOperations = s.allocatedOperations ∧
      (flag = true → (requiredOperationDecision s flag o).2 = true) := by
  unfold requiredOperationDecision
  split_ifs with h1
  · split
    · exact ⟨o, hq, rfl, rfl, rfl, rfl, rfl, rfl, rfl, fun h => h⟩
    · simp only []
      split_ifs with h2
      · exact ⟨o, hq, rfl, rfl, rfl, rfl, rfl, rfl, rfl, fun _ => rfl⟩
      · refine ⟨_, updateOperation_focus s done rest o _ o.id hq rfl hd hr, rfl, rfl, rfl, rfl,
          rfl, rfl, rfl, fun h => ?_⟩
        simp [h]
  · exact ⟨o, hq, rfl, rfl, rfl, rfl, rfl, rfl, rfl, fun h => h⟩

theorem ProcessDequeuedViewChange_focus (s : ScrollPresenter α) (tracker : Nat → Int)
    (done rest : List (InteractionTrackerAsyncOperation α))
    (x o : InteractionTrackerAsyncOperation α)
    (hq : s.m_interactionTrackerAsyncOperations = done ++ x :: rest)
    (hi : x.id = o.id)
    (hd : ∀ y ∈ done, y.id ≠ o.id) (hr : ∀ y ∈ rest, y.id ≠ o.id) :
    ∃ x' : InteractionTrackerAsyncOperation α,
      (s.ProcessDequeuedViewChange tracker o).m_interactionTrackerAsyncOperations =
        done ++ x' :: rest ∧
      x'.id = x.id ∧ x'.isCompleted = x.isCompleted ∧ x'.isCanceled = x.isCanceled ∧
      x'.isDelayed = x.isDelayed ∧
      x'.preProcessingTicksCountdown = x.preProcessingTicksCountdown ∧
      (s.ProcessDequeuedViewChange tracker o).allocatedOperations = s.allocatedOperations := by
  unfold ProcessDequeuedViewChange
  exact ⟨_, updateOperation_focus _ done rest x _ o.id hq hi hd hr, rfl, rfl, rfl, rfl, rfl, rfl⟩

theorem CompleteViewChange_dispatched (s : ScrollPresenter α)
    (o : InteractionTrackerAsyncOperation α) (r : ScrollPresenterViewChangeResult) :
    (s.CompleteViewChange o r).dispatchedOperations = s.dispatchedOperations :=
  dispatchedOperations_of_requests _ _ (CompleteViewChange_requests s o r).1

theorem tickStep_spec (tracker : Nat → Int) (s : ScrollPresenter α) (flag : Bool)
    (done rest : List (InteractionTrackerAsyncOperation α)) (o : InteractionTrackerAsyncOperation α)
    (hq : s.m_interactionTrackerAsyncOperations = done ++ o :: rest)
    (hd : ∀ x ∈ done, x.id ≠ o.id) (hr : ∀ x ∈ rest, x.id ≠ o.id) :
    ∃ r : Option (InteractionTrackerAsyncOperation α),
      (tickStep tracker (s, flag) o).1.m_interactionTrackerAsyncOperations =
        done ++ (r.toList ++ rest) ∧
      (∀ o', r = some o' →
        o'.id = o.id ∧ (o.isCompleted = false → o'.isCompleted = false) ∧
        o'.isCanceled = o.isCanceled ∧ o'.isDelayed = false ∧
        o'.preProcessingTicksCountdown =
          (if o.isDelayed then o.preProcessingTicksCountdown
           else if 0 < o.preProcessingTicksCountdown then
             (if (tickStep tracker (s, flag) o).2 then
               (if 1 < o.preProcessingTicksCountdown then o.preProcessingTicksCountdown - 1
                else o.preProcessingTicksCountdown)
              else o.preProcessingTicksCountdown - 1)
           else o.preProcessingTicksCountdown)) ∧
      (r = none → o.isDelayed = false ∧ o.preProcessingTicksCountdown ≤ 0) ∧
      (tickStep tracker (s, flag) o).1.dispatchedOperations =
        s.dispatchedOperations ++
          (if o.isDelayed = false ∧ 0 < o.preProcessingTicksCountdown ∧
              (tickStep tracker (s, flag) o).2 = false ∧ o.preProcessingTicksCountdown = 1
            then [o.id] else []) ∧
      (tickStep tracker (s, flag) o).1.allocatedOperations = s.allocatedOperations ∧
      (flag = true → (tickStep tracker (s, flag) o).2 = true) := by
  obtain ⟨o1, hq1, hid1, hc1, hcan1, hdel1, hp1, hreq1, hal1, hfl1⟩ :=
    requiredOperationDecision_spec s flag done rest o hq hd hr
  have hdisp1 := dispatchedOperations_of_requests s _ hreq1
  rw [tickStep_eq_decision]
  generalize requiredOperationDecision s flag o = dec at hq1 hreq1 hal1 hfl1 hdisp1 ⊢
  by_cases hD : o.isDelayed = true
  · simp only [hD, if_true]
    refine ⟨some (o.SetIsDelayed false), ?_, ?_, ?_, ?_, rfl, fun h => h⟩
    · exact updateOperation_focus s done rest o _ o.id hq rfl hd hr
    · intro o' ho'
      cases ho'
      exact ⟨rfl, fun h => h, rfl, rfl, rfl⟩
    · intro h; cases h
    · simp [dispatchedOperations, interactionTrackerRequests, updateOperation]
  · have hD' : o.isDelayed = false := by simpa using hD
    simp only [hD', Bool.false_eq_true, if_false]
    by_cases hQ : o.IsQueued = true
    · have hpos : 0 < o.preProcessingTicksCountdown := by
        simpa [InteractionTrackerAsyncOperation.IsQueued] using hQ
      simp only [hQ, if_true, hpos]
      cases hf : dec.2
      · -- processing is not deferred
        simp only [Bool.false_eq_true, if_false]
        by_cases h0 : o.preProcessingTicksCountdown = 1
        · -- dispatch
          have h0' : (o.TickQueuedOperation.preProcessingTicksCountdown == 0) = true := by
            simp [InteractionTrackerAsyncOperation.TickQueuedOperation, h0]
          simp only [h0', if_true]
          have hq2 := updateOperation_focus dec.1 done rest o1
            (fun x => x.TickQueuedOperation) o.id hq1 hid1 hd hr
          obtain ⟨x', hq3, hx1, hx2, hx3, hx4, hx5, hx6⟩ :=
            ProcessDequeuedViewChange_focus _ tracker done rest _ o hq2 hid1 hd hr
          refine ⟨some x', hq3, ?_, ?_, ?_, ?_, fun h => ?_⟩
          · intro o' ho'
            cases ho'
            refine ⟨hx1.trans hid1, fun h => ?_, ?_, ?_, ?_⟩
            · rw [hx2]; exact hc1.trans h
            · rw [hx3]; exact hcan1
            · rw [hx4]; exact hdel1.trans hD'
            · rw [hx5]
              simp [InteractionTrackerAsyncOperation.TickQueuedOperation, hp1]
          · intro h; cases h
          · rw [ProcessDequeuedViewChange_dispatched]
            simp [h0, dispatchedOperations, interactionTrackerRequests, updateOperation] 
            exact hdisp1
          · rw [hx6]; exact hal1
          · rw [hfl1 h] at hf; cases hf
        · -- tick without dispatch
          have h0' : (o.TickQueuedOperation.preProcessingTicksCountdown == 0) = false := by
            simp only [InteractionTrackerAsyncOperation.TickQueuedOperation, beq_eq_false_iff_ne,
              ne_eq]
            omega
          simp only [h0', Bool.false_eq_true, if_false]
          have hq2 := updateOperation_focus dec.1 done rest o1
            (fun x => x.TickQueuedOperation) o.id hq1 hid1 hd hr
          refine ⟨some o1.TickQueuedOperation, hq2, ?_, ?_, ?_, hal1, fun h => ?_⟩
          · intro o' ho'
            cases ho'
            refine ⟨hid1, fun h => hc1.trans h, hcan1, hdel1.trans hD', ?_⟩
            simp [InteractionTrackerAsyncOperation.TickQueuedOperation, hp1]
          · intro h; cases h
          · simp only [h0, and_false, if_false, List.append_nil]
            exact hdisp1
          · rw [hfl1 h] at hf; cases hf
      · -- processing is deferred
        simp only [if_true]
        by_cases h1 : 1 < o.preProcessingTicksCountdown
        · have h1' : o.GetTicksCountdown > 1 := h1
          simp only [h1', if_true, h1]
          have hq2 := updateOperation_focus dec.1 done rest o1
            (fun x => x.TickQueuedOperation) o.id hq1 hid1 hd hr
          refine ⟨some o1.TickQueuedOperation, hq2, ?_, ?_, ?_, hal1, fun _ => trivial⟩
          · intro o' ho'
            cases ho'
            refine ⟨hid1, fun h => hc1.trans h, hcan1, hdel1.trans hD', ?_⟩
            simp [InteractionTrackerAsyncOperation.TickQueuedOperation, hp1]
          · intro h; cases h
          · simp only [Bool.true_eq_false, false_and, and_false, if_false, List.append_nil]
            exact hdisp1
        · have h1' : ¬ o.GetTicksCountdown > 1 := h1
          simp only [h1', if_false, h1]
          refine ⟨some o1, hq1, ?_, ?_, ?_, hal1, fun _ => trivial⟩
          · intro o' ho'
            cases ho'
            exact ⟨hid1, fun h => hc1.trans h, hcan1, hdel1.trans hD', hp1⟩
          · intro h; cases h
          · simp only [Bool.true_eq_false, false_and, and_false, if_false, List.append_nil]
            exact hdisp1
    · -- the operation has been dispatched
      have hQ' : o.IsQueued = false := by simpa using hQ
      have hnp : ¬ 0 < o.preProcessingTicksCountdown := by
        simpa [InteractionTrackerAsyncOperation.IsQueued] using hQ'
      simp only [hQ', Bool.false_eq_true, if_false, hnp, false_and, and_false, List.append_nil]
      by_cases hA : o.IsAnimated = true
      · simp only [hA, Bool.not_true, Bool.false_eq_true, if_false]
        refine ⟨some o, hq, ?_, ?_, trivial, trivial, fun h => h⟩
        · intro o' ho'
          cases ho'
          exact ⟨rfl, fun h => h, rfl, hD', rfl⟩
        · intro h; cases h
      · have hA' : o.IsAnimated = false := by simpa using hA
        simp only [hA', Bool.not_false, if_true]
        have hq2 := updateOperation_focus s done rest o
          (fun x => x.TickNonAnimatedOperation) o.id hq rfl hd hr
        by_cases hpost : (o.TickNonAnimatedOperation.postProcessingTicksCountdown == 0) = true
        · simp only [hpost, if_true]
          have hq3 := CompleteViewChange_focus _ done rest o.TickNonAnimatedOperation
            o.TickNonAnimatedOperation .Completed hq2 rfl hd hr
          have hq4 := removeOperation_focus _ done rest _ o hq3 rfl hd hr
          refine ⟨none, ?_, ?_, fun _ => ⟨trivial, not_lt.mp hnp⟩, ?_, ?_, fun h => h⟩
          · split_ifs
            · simpa [ResetAnticipatedView] using hq4
            · simpa using hq4
          · intro o' ho'; cases ho'
          · split_ifs <;>
              simp only [ResetAnticipatedView, removeOperation] <;>
              exact (CompleteViewChange_dispatched _ _ _).trans (by
                simp [dispatchedOperations, interactionTrackerRequests, updateOperation])
          · split_ifs <;>
              simp only [ResetAnticipatedView, removeOperation, CompleteViewChange_allocated] <;>
              rfl
        · simp only [hpost, if_false]
          refine ⟨some o.TickNonAnimatedOperation, hq2, ?_, ?_, ?_, rfl, fun h => h⟩
          · intro o' ho'
            cases ho'
            exact ⟨rfl, fun h => h, rfl, hD', rfl⟩
          · intro h; cases h
          · simp [dispatchedOperations, interactionTrackerRequests, updateOperation]

theorem tick_walk_invariant (tracker : Nat → Int)
    (rest done : List (InteractionTrackerAsyncOperation α)) (s : ScrollPresenter α) (flag : Bool)
    (W0 : s.m_interactionTrackerAsyncOperations = done ++ rest)
    (W1 : (done ++ rest).Pairwise (fun a b => a.id < b.id))
    (W2 : ∀ o ∈ done ++ rest, o.id < s.allocatedOperations)
    (W3 : ∀ o ∈ done ++ rest,
      o.isCompleted = false ∧ o.isCanceled = false ∧ 0 ≤ o.preProcessingTicksCountdown ∧
        o.preProcessingTicksCountdown ≤ 3)
    (W4a : done.Pairwise
      (fun a b => a.preProcessingTicksCountdown ≤ b.preProcessingTicksCountdown))
    (W4b : ∀ a ∈ done, a.isDelayed = false)
    (W4c : rest.Pairwise
      (fun a b => a.preProcessingTicksCountdown ≤ b.preProcessingTicksCountdown ∧
        (a.isDelayed = true → b.isDelayed = true)))
    (W4d : ∀ a ∈ done, ∀ b ∈ rest, a.preProcessingTicksCountdown ≤
      (if b.isDelayed then b.preProcessingTicksCountdown
       else if flag then
         (if 1 < b.preProcessingTicksCountdown then b.preProcessingTicksCountdown - 1
          else b.preProcessingTicksCountdown)
       else
         (if 0 < b.preProcessingTicksCountdown then b.preProcessingTicksCountdown - 1
          else b.preProcessingTicksCountdown)))
    (W5 : s.dispatchedOperations.Pairwise (fun a b => a < b))
    (W6 : ∀ d ∈ s.dispatchedOperations, d < s.allocatedOperations)
    (W7a : ∀ o ∈ rest, 0 < o.preProcessingTicksCountdown →
      ∀ d ∈ s.dispatchedOperations, d < o.id)
    (W7b : ∀ o ∈ done, 0 < o.preProcessingTicksCountdown →
      ∀ d ∈ s.dispatchedOperations, d < o.id) :
    SchedulingInvariant (rest.foldl (tickStep tracker) (s, flag)).1 := by
  induction rest generalizing done s flag with
  | nil =>
    simp only [List.append_nil] at W0 W1 W2 W3
    simp only [List.foldl_nil, SchedulingInvariant, W0, List.pairwise_map]
    refine ⟨W1, W2, W3, ?_, W5, W6, W7b⟩
    exact W4a.imp_of_mem (fun {a b} ha _ h => ⟨h, fun hda => by rw [W4b a ha] at hda; cases hda⟩)
  | cons b rest' ih =>
    have W1' := List.pairwise_append.mp W1
    have hb1 := List.pairwise_cons.mp W1'.2.1
    have hd : ∀ x ∈ done, x.id ≠ b.id :=
      fun x hx => Nat.ne_of_lt (W1'.2.2 x hx b (List.mem_cons_self _ _))
    have hr : ∀ x ∈ rest', x.id ≠ b.id := fun x hx => Nat.ne_of_gt (hb1.1 x hx)
    obtain ⟨r, hq', hprops, hnone, hdisp, halloc, hflag⟩ :=
      tickStep_spec tracker s flag done rest' b W0 hd hr
    rw [List.foldl_cons]
    have hb3 := W3 b (by simp)
    have hc := List.pairwise_cons.mp W4c
    have hst : tickStep tracker (s, flag) b =
        ((tickStep tracker (s, flag) b).1, (tickStep tracker (s, flag) b).2) := rfl
    rw [hst]
    generalize (tickStep tracker (s, flag) b).1 = s' at hq' hdisp halloc ⊢
    generalize (tickStep tracker (s, flag) b).2 = flag' at hprops hdisp hflag ⊢
    -- facts about the remaining operations
    have hlow : ∀ c ∈ rest', ∀ a : Int,
        a ≤ (if c.isDelayed then c.preProcessingTicksCountdown
          else if flag then
            (if 1 < c.preProcessingTicksCountdown then c.preProcessingTicksCountdown - 1
             else c.preProcessingTicksCountdown)
          else
            (if 0 < c.preProcessingTicksCountdown then c.preProcessingTicksCountdown - 1
             else c.preProcessingTicksCountdown)) →
        a ≤ (if c.isDelayed then c.preProcessingTicksCountdown
          else if flag' then
            (if 1 < c.preProcessingTicksCountdown then c.preProcessingTicksCountdown - 1
             else c.preProcessingTicksCountdown)
          else
            (if 0 < c.preProcessingTicksCountdown then c.preProcessingTicksCountdown - 1
             else c.preProcessingTicksCountdown)) := by
      intro c _ a ha
      cases flag
      · cases flag'
        · exact ha
        · simp only [Bool.false_eq_true, if_false, if_true] at ha ⊢
          split_ifs at ha ⊢ <;> omega
      · rw [hflag rfl]
        exact ha
    have hdispMem : ∀ d ∈ s'.dispatchedOperations,
        d ∈ s.dispatchedOperations ∨
          (d = b.id ∧ b.isDelayed = false ∧ flag' = false ∧ b.preProcessingTicksCountdown = 1) := by
      intro d hdm
      rw [hdisp, List.mem_append] at hdm
      rcases hdm with h | h
      · exact Or.inl h
      · split_ifs at h with hcond
        · exact Or.inr ⟨List.mem_singleton.mp h, hcond.1, hcond.2.2.1, hcond.2.2.2⟩
        · cases h
    have W5' : s'.dispatchedOperations.Pairwise (fun a b => a < b) := by
      rw [hdisp]
      split_ifs with hcond
      · rw [List.pairwise_append]
        refine ⟨W5, List.pairwise_singleton _ _, ?_⟩
        intro d hdm x hx
        rw [List.mem_singleton.mp hx]
        exact W7a b (List.mem_cons_self _ _) hcond.2.1 d hdm
      · simpa using W5
    have W6' : ∀ d ∈ s'.dispatchedOperations, d < s'.allocatedOperations := by
      intro d hdm
      rw [halloc]
      rcases hdispMem d hdm with h | h
      · exact W6 d h
      · rw [h.1]; exact W2 b (by simp)
    have W7a' : ∀ o ∈ rest', 0 < o.preProcessingTicksCountdown →
        ∀ d ∈ s'.dispatchedOperations, d < o.id := by
      intro o ho hpos d hdm
      rcases hdispMem d hdm with h | h
      · exact W7a o (List.mem_cons_of_mem _ ho) hpos d h
      · rw [h.1]; exact hb1.1 o ho
    have hdoneWait : ∀ a ∈ done, 0 < a.preProcessingTicksCountdown →
        ∀ d ∈ s'.dispatchedOperations, d < a.id := by
      intro a ha hpos d hdm
      rcases hdispMem d hdm with h | h
      · exact W7b a ha hpos d h
      · exfalso
        have := W4d a ha b (List.mem_cons_self _ _)
        have hfl : flag = false := by
          cases flag
          · rfl
          · rw [hflag rfl] at h; exact absurd h.2.2.1 (by simp)
        simp only [h.2.1, hfl, h.2.2.2, Bool.false_eq_true, if_false] at this
        norm_num at this
        omega
    cases r with
    | none =>
      simp only [Option.toList, List.nil_append] at hq'
      apply ih done s' flag' hq'
      · exact List.pairwise_append.mpr ⟨W1'.1, hb1.2,
          fun a ha c hc' => W1'.2.2 a ha c (List.mem_cons_of_mem _ hc')⟩
      · intro o ho
        rw [halloc]
        rcases List.mem_append.mp ho with h | h
        · exact W2 o (List.mem_append_left _ h)
        · exact W2 o (List.mem_append_right _ (List.mem_cons_of_mem _ h))
      · intro o ho
        rcases List.mem_append.mp ho with h | h
        · exact W3 o (List.mem_append_left _ h)
        · exact W3 o (List.mem_append_right _ (List.mem_cons_of_mem _ h))
      · exact W4a
      · exact W4b
      · exact hc.2
      · intro a ha c hc'
        exact hlow c hc' _ (W4d a ha c (List.mem_cons_of_mem _ hc'))
      · exact W5'
      · exact W6'
      · exact W7a'
      · exact hdoneWait
    | some b' =>
      obtain ⟨hid, hcomp, hcan, hdel, hpre⟩ := hprops b' rfl
      simp only [Option.toList, List.singleton_append] at hq'
      have hq'' : s'.m_interactionTrackerAsyncOperations = (done ++ [b']) ++ rest' := by
        rw [hq']; simp
      -- the countdown of the processed operation
      have hb'le : b'.preProcessingTicksCountdown ≤ b.preProcessingTicksCountdown := by
        rw [hpre]; split_ifs <;> omega
      have hb'ge : 0 ≤ b'.preProcessingTicksCountdown := by
        rw [hpre]; split_ifs <;> omega
      have hb'low : (if b.isDelayed then b.preProcessingTicksCountdown
          else if flag then
            (if 1 < b.preProcessingTicksCountdown then b.preProcessingTicksCountdown - 1
             else b.preProcessingTicksCountdown)
          else
            (if 0 < b.preProcessingTicksCountdown then b.preProcessingTicksCountdown - 1
             else b.preProcessingTicksCountdown)) ≤ b'.preProcessingTicksCountdown := by
        rw [hpre]
        cases flag
        · cases flag' <;> simp only [Bool.false_eq_true, if_false, if_true] <;>
            split_ifs <;> omega
        · rw [hflag rfl]
          simp only [if_true]
          split_ifs <;> omega
      apply ih (done ++ [b']) s' flag' hq''
      · rw [List.append_assoc, List.singleton_append]
        refine List.pairwise_append.mpr ⟨W1'.1, List.pairwise_cons.mpr ⟨?_, hb1.2⟩, ?_⟩
        · intro c hc'; rw [hid]; exact hb1.1 c hc'
        · intro a ha c hc'
          rcases List.mem_cons.mp hc' with h | h
          · rw [h, hid]; exact W1'.2.2 a ha b (List.mem_cons_self _ _)
          · exact W1'.2.2 a ha c (List.mem_cons_of_mem _ h)
      · intro o ho
        rw [halloc]
        simp only [List.mem_append, List.mem_singleton] at ho
        rcases ho with (h | h) | h
        · exact W2 o (List.mem_append_left _ h)
        · rw [h, hid]; exact W2 b (by simp)
        · exact W2 o (List.mem_append_right _ (List.mem_cons_of_mem _ h))
      · intro o ho
        simp only [List.mem_append, List.mem_singleton] at ho
        rcases ho with (h | h) | h
        · exact W3 o (List.mem_append_left _ h)
        · rw [h]
          exact ⟨hcomp hb3.1, hcan.trans hb3.2.1, hb'ge, hb'le.trans hb3.2.2.2⟩
        · exact W3 o (List.mem_append_right _ (List.mem_cons_of_mem _ h))
      · refine List.pairwise_append.mpr ⟨W4a, List.pairwise_singleton _ _, ?_⟩
        intro a ha x hx
        rw [List.mem_singleton.mp hx]
        exact (W4d a ha b (List.mem_cons_self _ _)).trans hb'low
      · intro a ha
        rcases List.mem_append.mp ha with h | h
        · exact W4b a h
        · rw [List.mem_singleton.mp h]; exact hdel
      · exact hc.2
      · intro a ha c hc'
        rcases List.mem_append.mp ha with h | h
        · exact hlow c hc' _ (W4d a h c (List.mem_cons_of_mem _ hc'))
        · rw [List.mem_singleton.mp h, hpre]
          have hbc := hc.1 c hc'
          have hc3 := W3 c (List.mem_append_right _ (List.mem_cons_of_mem _ hc'))
          by_cases hbd : b.isDelayed = true
          · simp only [hbd, hbc.2 hbd, if_true]
            exact hbc.1
          · have hbd' : b.isDelayed = false := by simpa using hbd
            simp only [hbd', Bool.false_eq_true, if_false]
            cases flag' <;> simp only [Bool.false_eq_true, if_false, if_true] <;>
              split_ifs <;> omega
      · exact W5'
      · exact W6'
      · exact W7a'
      · intro a ha hpos d hdm
        rcases List.mem_append.mp ha with h | h
        · exact hdoneWait a h hpos d hdm
        · rw [List.mem_singleton.mp h] at hpos ⊢
          rw [hid]
          rcases hdispMem d hdm with h2 | h2
          · exact W7a b (List.mem_cons_self _ _) (lt_of_lt_of_le hpos hb'le) d h2
          · exfalso
            rw [hpre] at hpos
            simp only [h2.2.1, h2.2.2.1, h2.2.2.2, Bool.false_eq_true, if_false] at hpos
            norm_num at hpos


theorem PostProcessOffsetsChange_frame (s : ScrollPresenter α)
    (o : InteractionTrackerAsyncOperation α) :
    (s.PostProcessOffsetsChange o).interactionTrackerRequests = s.interactionTrackerRequests ∧
    (s.PostProcessOffsetsChange o).allocatedOperations = s.allocatedOperations := by
  unfold PostProcessOffsetsChange
  simp only []
  split_ifs <;> exact ⟨rfl, rfl⟩

theorem PostProcessZoomFactorChange_frame (s : ScrollPresenter α)
    (o : InteractionTrackerAsyncOperation α) :
    (s.PostProcessZoomFactorChange o).interactionTrackerRequests = s.interactionTrackerRequests ∧
    (s.PostProcessZoomFactorChange o).allocatedOperations = s.allocatedOperations := by
  unfold PostProcessZoomFactorChange
  simp only []
  split_ifs <;> exact ⟨rfl, rfl⟩

theorem completeOperationStep_frame (requestId : Int)
    (r1 r2 r3 : ScrollPresenterViewChangeResult) (b1 b2 b3 b4 : Bool)
    (s : ScrollPresenter α) (o : InteractionTrackerAsyncOperation α) :
    (completeOperationStep requestId r1 r2 r3 b1 b2 b3 b4 s o).interactionTrackerRequests =
      s.interactionTrackerRequests ∧
    (completeOperationStep requestId r1 r2 r3 b1 b2 b3 b4 s o).allocatedOperations =
      s.allocatedOperations := by
  rw [completeOperationStep_eq]
  have h0 : ((s.CompleteViewChange o (sweepResult requestId r1 r2 r3 o)).removeOperation
      o).interactionTrackerRequests = s.interactionTrackerRequests ∧
      ((s.CompleteViewChange o (sweepResult requestId r1 r2 r3 o)).removeOperation
      o).allocatedOperations = s.allocatedOperations :=
    ⟨(CompleteViewChange_requests s o _).1, CompleteViewChange_allocated s o _⟩
  split_ifs with h
  · simp only []
    split <;> split_ifs <;>
      first
      | exact h0
      | exact ⟨(PostProcessOffsetsChange_frame _ _).1.trans h0.1,
          (PostProcessOffsetsChange_frame _ _).2.trans h0.2⟩
      | exact ⟨(PostProcessZoomFactorChange_frame _ _).1.trans h0.1,
          (PostProcessZoomFactorChange_frame _ _).2.trans h0.2⟩
  · exact ⟨rfl, rfl⟩

theorem sweep_frame (s : ScrollPresenter α) (requestId : Int)
    (r1 r2 r3 : ScrollPresenterViewChangeResult) (b1 b2 b3 b4 : Bool) :
    (s.CompleteInteractionTrackerOperations requestId r1 r2 r3 b1 b2 b3
      b4).interactionTrackerRequests = s.interactionTrackerRequests ∧
    (s.CompleteInteractionTrackerOperations requestId r1 r2 r3 b1 b2 b3
      b4).allocatedOperations = s.allocatedOperations := by
  have hfold : ∀ (l : List (InteractionTrackerAsyncOperation α)) (s : ScrollPresenter α),
      (l.foldl (completeOperationStep requestId r1 r2 r3 b1 b2 b3 b4)
        s).interactionTrackerRequests = s.interactionTrackerRequests ∧
      (l.foldl (completeOperationStep requestId r1 r2 r3 b1 b2 b3 b4)
        s).allocatedOperations = s.allocatedOperations := by
    intro l
    induction l with
    | nil => intro s; exact ⟨rfl, rfl⟩
    | cons o t ih =>
      intro s
      rw [List.foldl_cons]
      obtain ⟨h1, h2⟩ := completeOperationStep_frame requestId r1 r2 r3 b1 b2 b3 b4 s o
      obtain ⟨i1, i2⟩ := ih (completeOperationStep requestId r1 r2 r3 b1 b2 b3 b4 s o)
      exact ⟨i1.trans h1, i2.trans h2⟩
  unfold CompleteInteractionTrackerOperations
  split_ifs
  · exact ⟨rfl, rfl⟩
  · exact hfold _ _

theorem completeDelayedStep_requests (s : ScrollPresenter α)
    (o : InteractionTrackerAsyncOperation α) :
    (completeDelayedStep s o).interactionTrackerRequests = s.interactionTrackerRequests := by
  unfold completeDelayedStep
  simp only []
  split_ifs <;>
    first
    | rfl
    | exact (CompleteViewChange_requests s o _).1

theorem CompleteDelayedOperations_requests (s : ScrollPresenter α) :
    s.CompleteDelayedOperations.interactionTrackerRequests = s.interactionTrackerRequests := by
  have hfold : ∀ (l : List (InteractionTrackerAsyncOperation α)) (s : ScrollPresenter α),
      (l.foldl completeDelayedStep s).interactionTrackerRequests =
        s.interactionTrackerRequests := by
    intro l
    induction l with
    | nil => intro s; rfl
    | cons o t ih =>
      intro s
      rw [List.foldl_cons]
      exact (ih _).trans (completeDelayedStep_requests s o)
  unfold CompleteDelayedOperations
  split_ifs
  · rfl
  · exact hfold _ _

theorem UpdateState_frame (s : ScrollPresenter α) (st : ScrollingInteractionState) :
    (s.UpdateState st).interactionTrackerRequests = s.interactionTrackerRequests ∧
    (s.UpdateState st).allocatedOperations = s.allocatedOperations := by
  unfold UpdateState
  simp only []
  split_ifs <;> simp [interactionTrackerRequests, emit]

/-- The invariant only depends on the queue, the requests made and the allocation count,
and is kept when operations leave the queue. -/
theorem SchedulingInvariant_of_sublist (s t : ScrollPresenter α)
    (hq : t.m_interactionTrackerAsyncOperations.Sublist s.m_interactionTrackerAsyncOperations)
    (hr : t.interactionTrackerRequests = s.interactionTrackerRequests)
    (ha : t.allocatedOperations = s.allocatedOperations)
    (h : SchedulingInvariant s) : SchedulingInvariant t := by
  obtain ⟨h1, h2, h3, h4, h5, h6, h7⟩ := h
  have hd := dispatchedOperations_of_requests s t hr
  refine ⟨h1.sublist (hq.map _), ?_, ?_, h4.sublist hq, ?_, ?_, ?_⟩
  · intro o ho; rw [ha]; exact h2 o (hq.subset ho)
  · intro o ho; exact h3 o (hq.subset ho)
  · rw [hd]; exact h5
  · intro d hdm; rw [ha]; rw [hd] at hdm; exact h6 d hdm
  · intro o ho hpos d hdm
    rw [hd] at hdm
    exact h7 o (hq.subset ho) hpos d hdm

theorem ticksCountdown_foldl (l : List (InteractionTrackerAsyncOperation α)) (init : Int) :
    init ≤ l.foldl (fun ticksCountdown o =>
        if !o.isCompleted && !o.isCanceled then max ticksCountdown o.GetTicksCountdown
        else ticksCountdown) init ∧
    (∀ o ∈ l, o.isCompleted = false → o.isCanceled = false →
      o.preProcessingTicksCountdown ≤ l.foldl (fun ticksCountdown o =>
        if !o.isCompleted && !o.isCanceled then max ticksCountdown o.GetTicksCountdown
        else ticksCountdown) init) ∧
    (init ≤ 3 → (∀ o ∈ l, o.preProcessingTicksCountdown ≤ 3) →
      l.foldl (fun ticksCountdown o =>
        if !o.isCompleted && !o.isCanceled then max ticksCountdown o.GetTicksCountdown
        else ticksCountdown) init ≤ 3) := by
  induction l generalizing init with
  | nil => exact ⟨le_rfl, fun o ho => absurd ho (List.not_mem_nil _), fun h _ => h⟩
  | cons a t ih =>
    rw [List.foldl_cons]
    obtain ⟨i1, i2, i3⟩ := ih (if !a.isCompleted && !a.isCanceled then
      max init a.GetTicksCountdown else init)
    refine ⟨?_, ?_, ?_⟩
    · refine le_trans ?_ i1
      split_ifs
      · exact le_max_left _ _
      · exact le_rfl
    · intro o ho hc hcan
      rcases List.mem_cons.mp ho with h | h
      · refine le_trans ?_ i1
        subst h
        simp only [hc, hcan, Bool.not_false, Bool.and_self, if_true]
        exact le_max_right _ _
      · exact i2 o h hc hcan
    · intro h3 hall
      apply i3
      · split_ifs
        · exact max_le h3 (hall a (List.mem_cons_self _ _))
        · exact h3
      · exact fun o ho => hall o (List.mem_cons_of_mem _ ho)

theorem SchedulingInvariant_append (s1 r : ScrollPresenter α)
    (newOp : InteractionTrackerAsyncOperation α) (h : SchedulingInvariant s1)
    (hq : r.m_interactionTrackerAsyncOperations =
      s1.m_interactionTrackerAsyncOperations ++ [newOp])
    (hid : newOp.id = s1.allocatedOperations)
    (hcomp : newOp.isCompleted = false) (hcan : newOp.isCanceled = false)
    (hpre : newOp.preProcessingTicksCountdown = InteractionTrackerAsyncOperation.c_queuedOperationTicks ∨
      newOp.preProcessingTicksCountdown = max 1 s1.GetInteractionTrackerOperationsTicksCountdown)
    (hdel : ∀ a ∈ s1.m_interactionTrackerAsyncOperations, a.isDelayed = true →
      newOp.isDelayed = true)
    (htr : r.trace = s1.trace) (hal : r.allocatedOperations = s1.allocatedOperations + 1) :
    SchedulingInvariant r := by
  obtain ⟨h1, h2, h3, h4, h5, h6, h7⟩ := h
  have hd : r.dispatchedOperations = s1.dispatchedOperations := by
    simp only [dispatchedOperations, interactionTrackerRequests, htr]
  obtain ⟨t1, t2, t3⟩ := ticksCountdown_foldl s1.m_interactionTrackerAsyncOperations 0
  have hbound : 0 ≤ newOp.preProcessingTicksCountdown ∧
      newOp.preProcessingTicksCountdown ≤ InteractionTrackerAsyncOperation.c_queuedOperationTicks ∧
      ∀ a ∈ s1.m_interactionTrackerAsyncOperations,
        a.preProcessingTicksCountdown ≤ newOp.preProcessingTicksCountdown := by
    rcases hpre with hp | hp
    · rw [hp]
      exact ⟨by decide, le_rfl, fun a ha => (h3 a ha).2.2.2⟩
    · rw [hp]
      refine ⟨le_trans (by decide) (le_max_left _ _), max_le (by decide) ?_, fun a ha => ?_⟩
      · exact t3 (by decide) (fun o ho => (h3 o ho).2.2.2)
      · exact le_trans (t2 a ha (h3 a ha).1 (h3 a ha).2.1) (le_max_right _ _)
  unfold SchedulingInvariant
  rw [hq, hd, hal]
  refine ⟨?_, ?_, ?_, ?_, h5, ?_, ?_⟩
  · rw [List.map_append, List.pairwise_append]
    refine ⟨h1, List.pairwise_singleton _ _, ?_⟩
    intro a ha b hb
    simp only [List.map_cons, List.map_nil, List.mem_singleton] at hb
    obtain ⟨x, hx, rfl⟩ := List.mem_map.mp ha
    rw [hb, hid]
    exact h2 x hx
  · intro o ho
    rcases List.mem_append.mp ho with h | h
    · exact Nat.lt_succ_of_lt (h2 o h)
    · rw [List.mem_singleton.mp h, hid]; exact Nat.lt_succ_self _
  · intro o ho
    rcases List.mem_append.mp ho with h | h
    · exact h3 o h
    · rw [List.mem_singleton.mp h]; exact ⟨hcomp, hcan, hbound.1, hbound.2.1⟩
  · rw [List.pairwise_append]
    refine ⟨h4, List.pairwise_singleton _ _, ?_⟩
    intro a ha b hb
    rw [List.mem_singleton.mp hb]
    exact ⟨hbound.2.2 a ha, hdel a ha⟩
  · intro d hdm; exact Nat.lt_succ_of_lt (h6 d hdm)
  · intro o ho hpos d hdm
    rcases List.mem_append.mp ho with h | h
    · exact h7 o h hpos d hdm
    · rw [List.mem_singleton.mp h, hid]; exact h6 d hdm

theorem SchedulingInvariant_admission_state (s : ScrollPresenter α) (h : SchedulingInvariant s) :
    SchedulingInvariant (if s.IsLoadedAndSetUp then s.CompleteDelayedOperations else s) ∧
    (∀ o ∈ (if s.IsLoadedAndSetUp then s.CompleteDelayedOperations
        else s).m_interactionTrackerAsyncOperations,
      o.id ≠ (if s.IsLoadedAndSetUp then s.CompleteDelayedOperations
        else s).allocatedOperations) ∧
    (s.IsLoadedAndSetUp = true →
      ∀ o ∈ (if s.IsLoadedAndSetUp then s.CompleteDelayedOperations
        else s).m_interactionTrackerAsyncOperations, o.isDelayed = false) := by
  have hnd : (s.m_interactionTrackerAsyncOperations.map (fun o => o.id)).Nodup :=
    h.1.imp (fun hab => Nat.ne_of_lt hab)
  have hq := CompleteDelayedOperations_queue s hnd
  have hinv : SchedulingInvariant s.CompleteDelayedOperations :=
    SchedulingInvariant_of_sublist s _ (by rw [hq]; exact List.filter_sublist _)
      (CompleteDelayedOperations_requests s) (CompleteDelayedOperations_allocated s) h
  by_cases hl : s.IsLoadedAndSetUp = true
  · simp only [hl, if_true]
    refine ⟨hinv, fun o ho => Nat.ne_of_lt (hinv.2.1 o ho), fun _ o ho => ?_⟩
    rw [hq] at ho
    simpa using (List.mem_filter.mp ho).2
  · simp only [hl, if_false]
    exact ⟨h, fun o ho => Nat.ne_of_lt (h.2.1 o ho), fun h' => absurd h' (by simp)⟩

theorem SchedulingInvariant_ChangeOffsetsPrivate (s : ScrollPresenter α)
    (zoomedHorizontalOffset zoomedVerticalOffset : α) (offsetsKind : ScrollPresenterViewKind)
    (options : Option ScrollingOptions)
    (bringIntoViewRequestedEventArgs : Option (BringIntoViewData α))
    (operationTrigger : InteractionTrackerAsyncOperationTrigger)
    (existingViewChangeCorrelationId : Int) (viewChangeCorrelationId : Bool)
    (h : SchedulingInvariant s) :
    SchedulingInvariant (s.ChangeOffsetsPrivate zoomedHorizontalOffset zoomedVerticalOffset
      offsetsKind options bringIntoViewRequestedEventArgs operationTrigger
      existingViewChangeCorrelationId viewChangeCorrelationId).1 := by
  by_cases hc : s.Content = true
  · obtain ⟨hinv, hfresh, hdel⟩ := SchedulingInvariant_admission_state s h
    obtain ⟨newOp, h1, h2, h3, h4, h5, h6, _, h8, h9⟩ := ChangeOffsetsPrivate_appends s
      zoomedHorizontalOffset zoomedVerticalOffset offsetsKind options
      bringIntoViewRequestedEventArgs operationTrigger existingViewChangeCorrelationId
      viewChangeCorrelationId hc _ rfl hfresh
    refine SchedulingInvariant_append _ _ newOp hinv h1 h2 h4 h5 ?_ ?_ h8 h9
    · rw [h6]
      by_cases ht : operationTrigger ≠ .direct
      · rw [if_pos ht]; exact Or.inr rfl
      · rw [if_neg ht]; exact Or.inl rfl
    · intro a ha had
      rw [h3]
      by_cases hl : s.IsLoadedAndSetUp = true
      · rw [hdel hl a ha] at had; cases had
      · simpa using hl
  · have hc' : s.Content = false := by simpa using hc
    have : (s.ChangeOffsetsPrivate zoomedHorizontalOffset zoomedVerticalOffset
      offsetsKind options bringIntoViewRequestedEventArgs operationTrigger
      existingViewChangeCorrelationId viewChangeCorrelationId).1 = s := by
      unfold ChangeOffsetsPrivate
      simp [hc']
    rw [this]
    exact h

theorem SchedulingInvariant_ChangeOffsetsWithAdditionalVelocityPrivate (s : ScrollPresenter α)
    (offsetsVelocity anticipatedOffsetsChange : α × α) (inertiaDecayRate : Option (α × α))
    (operationTrigger : InteractionTrackerAsyncOperationTrigger)
    (viewChangeCorrelationId : Bool) (h : SchedulingInvariant s) :
    SchedulingInvariant (s.ChangeOffsetsWithAdditionalVelocityPrivate offsetsVelocity
      anticipatedOffsetsChange inertiaDecayRate operationTrigger viewChangeCorrelationId).1 := by
  by_cases hc : s.Content = true
  · obtain ⟨hinv, hfresh, hdel⟩ := SchedulingInvariant_admission_state s h
    obtain ⟨newOp, h1, h2, h3, h4, h5, h6, _, h8, h9⟩ :=
      ChangeOffsetsWithAdditionalVelocityPrivate_appends s offsetsVelocity
        anticipatedOffsetsChange inertiaDecayRate operationTrigger viewChangeCorrelationId
        hc _ rfl hfresh
    refine SchedulingInvariant_append _ _ newOp hinv h1 h2 h4 h5 ?_ ?_ h8 h9
    · rw [h6]
      by_cases ht : operationTrigger ≠ .direct
      · rw [if_pos ht]; exact Or.inr rfl
      · rw [if_neg ht]; exact Or.inl rfl
    · intro a ha had
      rw [h3]
      by_cases hl : s.IsLoadedAndSetUp = true
      · rw [hdel hl a ha] at had; cases had
      · simpa using hl
  · have hc' : s.Content = false := by simpa using hc
    have : (s.ChangeOffsetsWithAdditionalVelocityPrivate offsetsVelocity
      anticipatedOffsetsChange inertiaDecayRate operationTrigger viewChangeCorrelationId).1 =
        s := by
      unfold ChangeOffsetsWithAdditionalVelocityPrivate
      simp [hc']
    rw [this]
    exact h

theorem SchedulingInvariant_ChangeZoomFactorPrivate (s : ScrollPresenter α) (zoomFactor : α)
    (centerPoint : Option (α × α)) (zoomFactorKind : ScrollPresenterViewKind)
    (options : Option ScrollingOptions) (viewChangeCorrelationId : Bool)
    (h : SchedulingInvariant s) :
    SchedulingInvariant (s.ChangeZoomFactorPrivate zoomFactor centerPoint zoomFactorKind options
      viewChangeCorrelationId).1 := by
  by_cases hc : s.Content = true
  · obtain ⟨hinv, hfresh, hdel⟩ := SchedulingInvariant_admission_state s h
    obtain ⟨newOp, h1, h2, h3, _, h4, h5, h6, _, h8, h9⟩ := ChangeZoomFactorPrivate_appends s
      zoomFactor centerPoint zoomFactorKind options viewChangeCorrelationId hc _ rfl hfresh
    refine SchedulingInvariant_append _ _ newOp hinv h1 h2 h4 h5 (Or.inl h6) ?_ h8 h9
    intro a ha had
    rw [h3]
    by_cases hl : s.IsLoadedAndSetUp = true
    · rw [hdel hl a ha] at had; cases had
    · simpa using hl
  · have hc' : s.Content = false := by simpa using hc
    have : (s.ChangeZoomFactorPrivate zoomFactor centerPoint zoomFactorKind options
      viewChangeCorrelationId).1 = s := by
      unfold ChangeZoomFactorPrivate
      simp [hc']
    rw [this]
    exact h

theorem SchedulingInvariant_ChangeZoomFactorWithAdditionalVelocityPrivate
    (s : ScrollPresenter α) (zoomFactorVelocity anticipatedZoomFactorChange : α)
    (centerPoint : Option (α × α)) (inertiaDecayRate : Option α)
    (operationTrigger : InteractionTrackerAsyncOperationTrigger)
    (viewChangeCorrelationId : Bool) (h : SchedulingInvariant s) :
    SchedulingInvariant (s.ChangeZoomFactorWithAdditionalVelocityPrivate zoomFactorVelocity
      anticipatedZoomFactorChange centerPoint inertiaDecayRate operationTrigger
      viewChangeCorrelationId).1 := by
  by_cases hc : s.Content = true
  · obtain ⟨hinv, hfresh, hdel⟩ := SchedulingInvariant_admission_state s h
    obtain ⟨newOp, h1, h2, h3, h4, h5, h6, _, h8, h9⟩ :=
      ChangeZoomFactorWithAdditionalVelocityPrivate_appends s zoomFactorVelocity
        anticipatedZoomFactorChange centerPoint inertiaDecayRate operationTrigger
        viewChangeCorrelationId hc _ rfl hfresh
    refine SchedulingInvariant_append _ _ newOp hinv h1 h2 h4 h5 ?_ ?_ h8 h9
    · rw [h6]
      by_cases ht : operationTrigger ≠ .direct
      · rw [if_pos ht]; exact Or.inr rfl
      · rw [if_neg ht]; exact Or.inl rfl
    · intro a ha had
      rw [h3]
      by_cases hl : s.IsLoadedAndSetUp = true
      · rw [hdel hl a ha] at had; cases had
      · simpa using hl
  · have hc' : s.Content = false := by simpa using hc
    have : (s.ChangeZoomFactorWithAdditionalVelocityPrivate zoomFactorVelocity
      anticipatedZoomFactorChange centerPoint inertiaDecayRate operationTrigger
      viewChangeCorrelationId).1 = s := by
      unfold ChangeZoomFactorWithAdditionalVelocityPrivate
      simp [hc']
    rw [this]
    exact h

/-- Completion sweeps keep the scheduling invariant: they only remove operations. -/
theorem SchedulingInvariant_sweep (s : ScrollPresenter α) (requestId : Int)
    (r1 r2 r3 : ScrollPresenterViewChangeResult) (b1 b2 b3 b4 : Bool)
    (h : SchedulingInvariant s) :
    SchedulingInvariant (s.CompleteInteractionTrackerOperations requestId r1 r2 r3 b1 b2 b3 b4) :=
  SchedulingInvariant_of_sublist s _ (by rw [sweep_queue]; exact List.filter_sublist _)
    (sweep_frame s requestId r1 r2 r3 b1 b2 b3 b4).1
    (sweep_frame s requestId r1 r2 r3 b1 b2 b3 b4).2 h

theorem SchedulingInvariant_UpdateState (s : ScrollPresenter α) (st : ScrollingInteractionState)
    (h : SchedulingInvariant s) : SchedulingInvariant (s.UpdateState st) :=
  SchedulingInvariant_of_sublist s _ (by rw [UpdateState_queue])
    (UpdateState_frame s st).1 (UpdateState_frame s st).2 h

/-- One tick of `OnCompositionTargetRendering` keeps the scheduling invariant. -/
theorem SchedulingInvariant_OnCompositionTargetRendering (s : ScrollPresenter α)
    (tracker : Nat → Int) (h : SchedulingInvariant s) :
    SchedulingInvariant (s.OnCompositionTargetRendering tracker) := by
  unfold OnCompositionTargetRendering
  split_ifs
  · obtain ⟨h1, h2, h3, h4, h5, h6, h7⟩ := h
    refine tick_walk_invariant tracker _ [] s false rfl ?_ ?_ ?_ List.Pairwise.nil
      (fun a ha => absurd ha (List.not_mem_nil _)) h4
      (fun a ha => absurd ha (List.not_mem_nil _)) h5 h6 h7
      (fun a ha => absurd ha (List.not_mem_nil _))
    · simpa [List.pairwise_map] using h1
    · simpa using h2
    · simpa [InteractionTrackerAsyncOperation.c_queuedOperationTicks] using h3
  · exact h

/-- Every event keeps the scheduling invariant. -/
theorem SchedulingInvariant_handleEvent (s : ScrollPresenter α) (e : PresenterEvent α)
    (h : SchedulingInvariant s) : SchedulingInvariant (s.handleEvent e) := by
  cases e with
  | ChangeOffsets a b c d e f g i => exact SchedulingInvariant_ChangeOffsetsPrivate s _ _ _ _ _ _ _ _ h
  | ChangeOffsetsWithAdditionalVelocity a b c d e =>
    exact SchedulingInvariant_ChangeOffsetsWithAdditionalVelocityPrivate s _ _ _ _ _ h
  | ChangeZoomFactor a b c d e => exact SchedulingInvariant_ChangeZoomFactorPrivate s _ _ _ _ _ h
  | ChangeZoomFactorWithAdditionalVelocity a b c d e f =>
    exact SchedulingInvariant_ChangeZoomFactorWithAdditionalVelocityPrivate s _ _ _ _ _ _ h
  | CompositionTargetRendering tracker =>
    exact SchedulingInvariant_OnCompositionTargetRendering s tracker h
  | IdleStateEntered RequestId =>
    simp only [handleEvent, IdleStateEntered]
    split_ifs
    · exact SchedulingInvariant_sweep _ _ _ _ _ _ _ _ _ (SchedulingInvariant_UpdateState s _ h)
    · exact SchedulingInvariant_UpdateState s _ h
    · exact SchedulingInvariant_UpdateState s _ h
  | InteractingStateEntered =>
    have h0 : SchedulingInvariant (if s.m_state = .Inertia then
        s.ResetOffsetsInertiaDecayRate.ResetZoomFactorInertiaDecayRate else s) := by
      split_ifs
      · exact SchedulingInvariant_of_sublist s _ (List.Sublist.refl _) rfl rfl h
      · exact h
    simp only [handleEvent, InteractingStateEntered]
    generalize (if s.m_state = .Inertia then
      s.ResetOffsetsInertiaDecayRate.ResetZoomFactorInertiaDecayRate else s) = s1 at h0 ⊢
    split_ifs
    · exact SchedulingInvariant_sweep _ _ _ _ _ _ _ _ _ (SchedulingInvariant_UpdateState _ _ h0)
    · exact SchedulingInvariant_UpdateState _ _ h0
  | RequestIgnored RequestId =>
    simp only [handleEvent, RequestIgnored]
    split_ifs
    · exact SchedulingInvariant_sweep _ _ _ _ _ _ _ _ _ h
    · exact h
  | ValuesChanged RequestId =>
    simp only [handleEvent, ValuesChanged]
    split_ifs
    · exact SchedulingInvariant_sweep _ _ _ _ _ _ _ _ _ h
    · exact h
  | Loaded isLoaded => exact SchedulingInvariant_of_sublist s _ (List.Sublist.refl _) rfl rfl h
  | InteractionTrackerSetUp isSetUp =>
    exact SchedulingInvariant_of_sublist s _ (List.Sublist.refl _) rfl rfl h

/-- Every sequence of events keeps the scheduling invariant. -/
theorem SchedulingInvariant_handleEvents (events : List (PresenterEvent α))
    (s : ScrollPresenter α) (h : SchedulingInvariant s) :
    SchedulingInvariant (s.handleEvents events) := by
  unfold handleEvents
  induction events generalizing s with
  | nil => exact h
  | cons e t ih =>
    rw [List.foldl_cons]
    exact ih _ (SchedulingInvariant_handleEvent s e h)

/-- The walk of `MaximizeInteractionTrackerOperationsTicksCountdown` over the part `rest`
of the snapshot resets the operations of that part that pass the test and leaves the
others, and every other member of the presenter, as they are. -/
theorem maximize_walk (rest done : List (InteractionTrackerAsyncOperation α))
    (s : ScrollPresenter α)
    (hq : s.m_interactionTrackerAsyncOperations = done ++ rest)
    (hn : (rest.map (fun o => o.id)).Nodup)
    (hd : ∀ x ∈ done, ∀ y ∈ rest, x.id ≠ y.id) :
    rest.foldl maximizeStep s =
      { s with m_interactionTrackerAsyncOperations :=
          done ++ rest.map (fun o => if maximizeApplies o then o.SetMaxTicksCountdown else o) } := by
  induction rest generalizing done s with
  | nil =>
    simp only [List.foldl_nil, List.map_nil, List.append_nil]
    rw [← List.append_nil done, ← hq]
  | cons o rest ih =>
    rw [List.foldl_cons]
    have hn' := List.nodup_cons.mp hn
    have hr : ∀ x ∈ rest, x.id ≠ o.id := by
      intro x hx h
      exact hn'.1 (List.mem_map.mpr ⟨x, hx, h⟩)
    have hdo : ∀ x ∈ done, x.id ≠ o.id := fun x hx => hd x hx o (List.mem_cons_self _ _)
    have hstep : maximizeStep s o =
        { s with m_interactionTrackerAsyncOperations :=
            (done ++ [if maximizeApplies o then o.SetMaxTicksCountdown else o]) ++ rest } := by
      unfold maximizeStep
      by_cases ha : maximizeApplies o = true
      · have ha' := ha
        unfold maximizeApplies at ha'
        rw [if_pos ha', if_pos ha]
        have h := updateOperation_focus s done rest o (fun o => o.SetMaxTicksCountdown) o.id hq
          rfl hdo hr
        unfold updateOperation at h ⊢
        simp only at h
        rw [h]
        simp
      · have ha' := ha
        unfold maximizeApplies at ha'
        rw [if_neg ha', if_neg ha]
        rw [List.append_assoc, List.singleton_append, ← hq]
    rw [hstep]
    have hid : (if maximizeApplies o then o.SetMaxTicksCountdown else o).id = o.id := by
      split_ifs <;> rfl
    rw [ih (done ++ [if maximizeApplies o then o.SetMaxTicksCountdown else o]) _ rfl hn'.2]
    · simp
    · intro x hx y hy
      rcases List.mem_append.mp hx with hx | hx
      · exact hd x hx y (List.mem_cons_of_mem _ hy)
      · rw [List.mem_singleton.mp hx, hid]
        exact fun h => hr y hy h.symm

/-- C21 (counterexample): a presenter that is not loaded admits a relative offsets request
of its horizontal scroll controller; the operation is delayed and waits with the countdown
1.  After `MaximizeInteractionTrackerOperationsTicksCountdown` the operation is still
queued, not dispatched, and its countdown is still 1, not the maximum value 3. -/
theorem MaximizeInteractionTrackerOperationsTicksCountdown_skips_delayed_operation :
    (((samplePresenter []).handleEvents
        sampleDelayedEvents).MaximizeInteractionTrackerOperationsTicksCountdown
      ).m_interactionTrackerAsyncOperations.map
        (fun o => (o.IsQueued, o.isDelayed, o.preProcessingTicksCountdown)) =
      [(true, true, 1)] ∧
    InteractionTrackerAsyncOperation.c_queuedOperationTicks = 3 := by
  decide

/-- C21 (amended): when the operations of the queue are distinct objects,
`MaximizeInteractionTrackerOperationsTicksCountdown` changes nothing of the presenter but
the queue, in which it resets the operations that are queued and neither delayed nor
canceled nor completed and leaves every other operation as it is: such an operation is
found with the maximum countdown afterwards, and an operation that is already dispatched,
delayed, canceled or completed is found unchanged. -/
theorem MaximizeInteractionTrackerOperationsTicksCountdown_resets_undelayed_queued_operations
    (s : ScrollPresenter α)
    (hq : (s.m_interactionTrackerAsyncOperations.map (fun o => o.id)).Nodup) :
    s.MaximizeInteractionTrackerOperationsTicksCountdown =
      { s with
        m_interactionTrackerAsyncOperations :=
          s.m_interactionTrackerAsyncOperations.map
            (fun o => if !o.isDelayed && !o.isCanceled && !o.isCompleted && o.IsQueued then
              o.SetMaxTicksCountdown else o) } ∧
    (∀ o ∈ s.m_interactionTrackerAsyncOperations,
      o.isDelayed = false → o.isCanceled = false → o.isCompleted = false → o.IsQueued = true →
      ∃ o' ∈ s.MaximizeInteractionTrackerOperationsTicksCountdown.m_interactionTrackerAsyncOperations,
        o'.id = o.id ∧
        o'.preProcessingTicksCountdown = InteractionTrackerAsyncOperation.c_queuedOperationTicks ∧
        o' = o.SetMaxTicksCountdown) ∧
    (∀ o ∈ s.m_interactionTrackerAsyncOperations,
      (o.IsQueued = false ∨ o.isDelayed = true ∨ o.isCanceled = true ∨ o.isCompleted = true) →
      o ∈ s.MaximizeInteractionTrackerOperationsTicksCountdown.m_interactionTrackerAsyncOperations) := by
  have key : s.MaximizeInteractionTrackerOperationsTicksCountdown =
      { s with
        m_interactionTrackerAsyncOperations :=
          s.m_interactionTrackerAsyncOperations.map
            (fun o => if !o.isDelayed && !o.isCanceled && !o.isCompleted && o.IsQueued then
              o.SetMaxTicksCountdown else o) } := by
    unfold MaximizeInteractionTrackerOperationsTicksCountdown
    by_cases he : s.m_interactionTrackerAsyncOperations.isEmpty = true
    · rw [if_pos he]
      have h0 : s.m_interactionTrackerAsyncOperations = [] := List.isEmpty_iff.mp he
      rw [h0, List.map_nil, ← h0]
    · rw [if_neg he]
      have h := maximize_walk s.m_interactionTrackerAsyncOperations [] s rfl hq
        (fun x hx => by cases hx)
      rw [h]
      simp only [List.nil_append, maximizeApplies]
  refine ⟨key, ?_, ?_⟩
  · intro o ho h1 h2 h3 h4
    refine ⟨o.SetMaxTicksCountdown, ?_, rfl, rfl, rfl⟩
    rw [key]
    refine List.mem_map.mpr ⟨o, ho, ?_⟩
    simp [h1, h2, h3, h4]
  · intro o ho h
    rw [key]
    refine List.mem_map.mpr ⟨o, ho, ?_⟩
    have : (!o.isDelayed && !o.isCanceled && !o.isCompleted && o.IsQueued) = false := by
      rcases h with h | h | h | h <;> simp [h]
    simp [this]

theorem MaximizeInteractionTrackerOperationsTicksCountdown_resets_undelayed_queued_operations_witness :
    ((samplePresenter sampleQueue).m_interactionTrackerAsyncOperations.map
      (fun o => o.id)).Nodup ∧
    (samplePresenter sampleQueue).MaximizeInteractionTrackerOperationsTicksCountdown =
      { samplePresenter sampleQueue with
        m_interactionTrackerAsyncOperations :=
          (samplePresenter sampleQueue).m_interactionTrackerAsyncOperations.map
            (fun o => if !o.isDelayed && !o.isCanceled && !o.isCompleted && o.IsQueued then
              o.SetMaxTicksCountdown else o) } :=
  ⟨by decide,
    (MaximizeInteractionTrackerOperationsTicksCountdown_resets_undelayed_queued_operations
      (samplePresenter sampleQueue) (by decide)).1⟩

/-- C24 (failing input): the horizontal scroll controller asks for additional velocity; the
operation waits in the queue with the countdown it was queued with.  A search for an offsets
change of the scroll controllers with the view kind Absolute and the default options
returns that operation, whose payload is an additional velocity and carries neither a view
kind nor options. -/
theorem GetInteractionTrackerOperationFromKinds_returns_velocity_operation :
    (((samplePresenter []).handleEvents sampleVelocityEvents).GetInteractionTrackerOperationFromKinds
        true (InteractionTrackerAsyncOperationTrigger.horizontal.union .vertical)
        .Absolute none).map
      (fun o => (o.operationType, o.IsQueued, o.IsUnqueueing, o.isCanceled)) =
      some (.TryUpdatePositionWithAdditionalVelocity, true, false, false) ∧
    (((samplePresenter []).handleEvents sampleVelocityEvents).GetInteractionTrackerOperationFromKinds
        true (InteractionTrackerAsyncOperationTrigger.horizontal.union .vertical)
        .Absolute none).map
      (fun o => (o.viewChangeBase.bind viewKindOf, o.viewChangeBase.bind optionsOf)) =
      some (none, none) := by
  decide

/-- C22: `ValidateZoomFactoryBoundary` throws `E_INVALIDARG` if and only if the value is NaN
or one of the two infinities, and returns normally if and only if the value is finite; for
every finite value, zero and the negative values included, it returns normally and
`IsZoomFactorBoundaryValid` is true. -/
theorem ValidateZoomFactoryBoundary_throws_iff_not_finite (value : DoubleValue α) :
    (ValidateZoomFactoryBoundary value = .error E_INVALIDARG ↔
      (value = .notANumber ∨ value = .positiveInfinity ∨ value = .negativeInfinity)) ∧
    (ValidateZoomFactoryBoundary value = .ok () ↔ ∃ x, value = .finite x) ∧
    (∀ x : α, ValidateZoomFactoryBoundary (.finite x) = .ok () ∧
      IsZoomFactorBoundaryValid (DoubleValue.finite x) = true) := by
  refine ⟨?_, ?_, fun x => ⟨rfl, rfl⟩⟩
  · cases value <;>
      simp [ValidateZoomFactoryBoundary, IsZoomFactorBoundaryValid, isnan, isfinite]
  · cases value <;>
      simp [ValidateZoomFactoryBoundary, IsZoomFactorBoundaryValid, isnan, isfinite]

/-- C23: in `OnScrollControllerPanningInfoPanRequested`, for a request that is not handled
yet and a sender whose visual interaction source is present, exactly one redirection call
is made, for that source and the pointer point of the request; when the call succeeds the
request leaves the handler marked Handled; when it fails with `E_ACCESSDENIED` the handler
returns normally and the request is left as it came, not Handled; when it fails with any
other error that error leaves the handler.  A request that is already Handled leads to no
redirection call and is left as it came. -/
theorem OnScrollControllerPanningInfoPanRequested_redirection
    (horizontalSource verticalSource : Option Nat)
    (TryRedirectForManipulation : Nat → Nat → Except Int Unit)
    (isFromHorizontalScrollController : Bool) (args : ScrollControllerPanRequestedEventArgs) :
    (args.Handled = false →
      ∀ source, (if isFromHorizontalScrollController then horizontalSource
          else verticalSource) = some source →
        (OnScrollControllerPanningInfoPanRequested horizontalSource verticalSource
          TryRedirectForManipulation isFromHorizontalScrollController args).1 =
            [(source, args.PointerPoint)] ∧
        (TryRedirectForManipulation source args.PointerPoint = .ok () →
          (OnScrollControllerPanningInfoPanRequested horizontalSource verticalSource
            TryRedirectForManipulation isFromHorizontalScrollController args).2 =
              .ok { args with Handled := true }) ∧
        (TryRedirectForManipulation source args.PointerPoint = .error E_ACCESSDENIED →
          (OnScrollControllerPanningInfoPanRequested horizontalSource verticalSource
            TryRedirectForManipulation isFromHorizontalScrollController args).2 = .ok args) ∧
        (∀ e, e ≠ E_ACCESSDENIED →
          TryRedirectForManipulation source args.PointerPoint = .error e →
          (OnScrollControllerPanningInfoPanRequested horizontalSource verticalSource
            TryRedirectForManipulation isFromHorizontalScrollController args).2 = .error e)) ∧
    (args.Handled = true →
      OnScrollControllerPanningInfoPanRequested horizontalSource verticalSource
        TryRedirectForManipulation isFromHorizontalScrollController args = ([], .ok args)) := by
  constructor
  · intro hh source hs
    unfold OnScrollControllerPanningInfoPanRequested
    simp only [hh, Bool.false_eq_true, if_false, hs]
    cases hcall : TryRedirectForManipulation source args.PointerPoint with
    | error e =>
      by_cases he : e = E_ACCESSDENIED
      · subst he
        refine ⟨by simp, ?_, ?_, ?_⟩
        · intro h; cases h
        · intro _; simp
        · intro e2 he2 h
          exact absurd (Except.error.inj h).symm he2
      · refine ⟨by simp [he], ?_, ?_, ?_⟩
        · intro h; cases h
        · intro h
          exact absurd (Except.error.inj h) he
        · intro e2 _ h
          rw [← Except.error.inj h]
          simp [he]
    | ok u =>
      refine ⟨by simp, ?_, ?_, ?_⟩
      · intro _; simp
      · intro h; cases h
      · intro e _ h; cases h
  · intro hh
    unfold OnScrollControllerPanningInfoPanRequested
    simp only [hh, if_true]

/-- C30: for an engine whose minimum scale does not exceed its maximum scale,
`SetupInteractionTrackerZoomFactorBoundaries` ends with the minimum scale `max 0 min` and
the maximum scale `max MinScale max`, and between its two assignments, as after them, the
minimum scale of the engine does not exceed its maximum scale. -/
theorem SetupInteractionTrackerZoomFactorBoundaries_keeps_min_below_max
    [LinearOrder α] [Zero α]
    (m_interactionTracker : InteractionTrackerScaleBoundaries α)
    (minZoomFactor maxZoomFactor : α)
    (h : m_interactionTracker.MinScale ≤ m_interactionTracker.MaxScale) :
    (SetupInteractionTrackerZoomFactorBoundaries m_interactionTracker minZoomFactor
      maxZoomFactor).2.MinScale = max 0 minZoomFactor ∧
    (SetupInteractionTrackerZoomFactorBoundaries m_interactionTracker minZoomFactor
      maxZoomFactor).2.MaxScale =
        max (SetupInteractionTrackerZoomFactorBoundaries m_interactionTracker minZoomFactor
          maxZoomFactor).2.MinScale maxZoomFactor ∧
    (SetupInteractionTrackerZoomFactorBoundaries m_interactionTracker minZoomFactor
      maxZoomFactor).1.MinScale ≤
        (SetupInteractionTrackerZoomFactorBoundaries m_interactionTracker minZoomFactor
          maxZoomFactor).1.MaxScale ∧
    (SetupInteractionTrackerZoomFactorBoundaries m_interactionTracker minZoomFactor
      maxZoomFactor).2.MinScale ≤
        (SetupInteractionTrackerZoomFactorBoundaries m_interactionTracker minZoomFactor
          maxZoomFactor).2.MaxScale := by
  unfold SetupInteractionTrackerZoomFactorBoundaries
  simp only [stdMax_eq_max]
  by_cases hc : max 0 minZoomFactor > m_interactionTracker.MaxScale
  · simp only [hc, if_true]
    refine ⟨trivial, trivial, ?_, le_max_left _ _⟩
    exact le_trans h (le_trans hc.le (le_max_left _ _))
  · simp only [hc, if_false]
    exact ⟨trivial, trivial, not_lt.mp hc, le_max_left _ _⟩

theorem SetupInteractionTrackerZoomFactorBoundaries_keeps_min_below_max_witness :
    (⟨1, 2⟩ : InteractionTrackerScaleBoundaries Int).MinScale ≤
      (⟨1, 2⟩ : InteractionTrackerScaleBoundaries Int).MaxScale ∧
    (SetupInteractionTrackerZoomFactorBoundaries (⟨1, 2⟩ : InteractionTrackerScaleBoundaries Int)
      5 3).1 = ⟨1, 5⟩ ∧
    (SetupInteractionTrackerZoomFactorBoundaries (⟨1, 2⟩ : InteractionTrackerScaleBoundaries Int)
      5 3).2 = ⟨5, 5⟩ ∧
    (SetupInteractionTrackerZoomFactorBoundaries (⟨1, 2⟩ : InteractionTrackerScaleBoundaries Int)
      5 3).1.MinScale ≤
        (SetupInteractionTrackerZoomFactorBoundaries (⟨1, 2⟩ : InteractionTrackerScaleBoundaries Int)
          5 3).1.MaxScale :=
  ⟨by decide, by decide, by decide,
    (SetupInteractionTrackerZoomFactorBoundaries_keeps_min_below_max
      (⟨1, 2⟩ : InteractionTrackerScaleBoundaries Int) 5 3 (by decide)).2.2.1⟩

section SnapPointsSet

variable {W : Type}

/-- The wrapper at the lower bound of an item does not compare less than the item. -/
theorem lower_bound_getElem? (less : W → W → Bool) (p : W) (l : List W) (w : W)
    (h : l[lower_bound less p l]? = some w) : less w p = false := by
  induction l with
  | nil => cases h
  | cons a rest ih =>
    unfold lower_bound at h
    by_cases ha : less a p = true
    · rw [if_pos ha, List.getElem?_cons_succ] at h
      exact ih h
    · rw [if_neg ha, List.getElem?_cons_zero] at h
      rw [← Option.some.inj h]
      exact Bool.eq_false_iff.mpr ha

/-- What `SnapPointsVectorItemInsertedHelper` does for a comparator that is a strict weak
ordering, a set in the order of the comparator and a comparison `==` that is the
equivalence of the comparator: the wrapper at the lower bound is combined with the item
when it is equivalent to it, and the item is put at the lower bound otherwise. -/
theorem SnapPointsVectorItemInsertedHelper_spec (less equal : W → W → Bool) (Combine : W → W → W)
    (p : W) (l : List W)
    (hneg : ∀ a b c, less a b = true → less a c = true ∨ less c b = true)
    (hsorted : l.Pairwise (fun a b => less a b = true))
    (heq : ∀ a b, equal a b = equivalent less a b) :
    (∀ w, l[lower_bound less p l]? = some w → equal w p = true →
      SnapPointsVectorItemInsertedHelper less equal Combine p l =
        l.set (lower_bound less p l) (Combine w p)) ∧
    ((∀ w, l[lower_bound less p l]? = some w → equal w p = false) →
      SnapPointsVectorItemInsertedHelper less equal Combine p l =
        l.take (lower_bound less p l) ++ p :: l.drop (lower_bound less p l) ∧
      ∀ x ∈ l.drop (lower_bound less p l), less p x = true) := by
  constructor
  · intro w hw he
    unfold SnapPointsVectorItemInsertedHelper
    have hne : l.isEmpty = false := by
      cases l with
      | nil => cases hw
      | cons a r => rfl
    simp only [hne, Bool.false_eq_true, if_false, hw, he, if_true]
  · intro hno
    have hins : ∀ w, l[lower_bound less p l]? = some w → less p w = true := by
      intro w hw
      have h1 := lower_bound_getElem? less p l w hw
      have h2 := hno w hw
      rw [heq, equivalent, h1] at h2
      simpa using h2
    have hdrop : ∀ x ∈ l.drop (lower_bound less p l), less p x = true := by
      intro x hx
      cases hl : l[lower_bound less p l]? with
      | none =>
        rw [List.getElem?_eq_none_iff] at hl
        rw [List.drop_eq_nil_of_le hl] at hx
        cases hx
      | some w =>
        have hlt : lower_bound less p l < l.length := by
          by_contra hcon
          rw [List.getElem?_eq_none_iff.mpr (not_lt.mp hcon)] at hl
          cases hl
        have hw : l[lower_bound less p l] = w := by
          rw [List.getElem?_eq_getElem hlt] at hl
          exact Option.some.inj hl
        rw [List.drop_eq_getElem_cons hlt, hw] at hx
        rcases List.mem_cons.mp hx with hx | hx
        · rw [hx]; exact hins w hl
        · have hsplit : l = l.take (lower_bound less p l) ++ w :: l.drop (lower_bound less p l + 1) := by
            conv_lhs => rw [← List.take_append_drop (lower_bound less p l) l,
              List.drop_eq_getElem_cons hlt, hw]
          rw [hsplit] at hsorted
          have h3 := (List.pairwise_cons.mp (List.pairwise_append.mp hsorted).2.1).1 x hx
          rcases hneg w x p h3 with h4 | h4
          · rw [lower_bound_getElem? less p l w hl] at h4
            cases h4
          · exact h4
    have hset : setInsert less p l =
        l.take (lower_bound less p l) ++ p :: l.drop (lower_bound less p l) := by
      unfold setInsert
      cases hl : l[lower_bound less p l]? with
      | none =>
        have hlen := List.getElem?_eq_none_iff.mp hl
        simp only [hl, List.take_of_length_le hlen, List.drop_eq_nil_of_le hlen]
      | some w =>
        simp only [hl, hins w hl, if_true]
    refine ⟨?_, hdrop⟩
    unfold SnapPointsVectorItemInsertedHelper
    by_cases hne : l.isEmpty = true
    · rw [if_pos hne, hset]
    · rw [if_neg hne]
      cases hl : l[lower_bound less p l]? with
      | none => simp only [hl, hset]
      | some w =>
        simp only [hl, hno w hl, Bool.false_eq_true, if_false]
        cases hu : l[lower_bound less p l + 1]? with
        | none => simp only [hu, hset]
        | some u =>
          have hux : u ∈ l.drop (lower_bound less p l) := by
            rw [List.mem_drop_iff_getElem]
            have hlt : lower_bound less p l + 1 < l.length := by
              by_contra hcon
              rw [List.getElem?_eq_none_iff.mpr (not_lt.mp hcon)] at hu
              cases hu
            refine ⟨1, by omega, ?_⟩
            rw [List.getElem?_eq_getElem hlt] at hu
            exact Option.some.inj hu
          have hpu := hdrop u hux
          have heu : equal u p = false := by
            rw [heq, equivalent, hpu]
            simp
          simp only [hu, heu, Bool.false_eq_true, if_false, hset]

/-- When every wrapper of the set is before the item, `SnapPointsVectorItemInsertedHelper`
makes no comparison `==` at all: the item goes through `std::set::insert`, whatever the
domain equality. -/
theorem SnapPointsVectorItemInsertedHelper_all_before (less equal : W → W → Bool)
    (Combine : W → W → W) (p : W) (l : List W)
    (h : l[lower_bound less p l]? = none) :
    SnapPointsVectorItemInsertedHelper less equal Combine p l = setInsert less p l := by
  unfold SnapPointsVectorItemInsertedHelper
  split_ifs
  · rfl
  · simp only [h]

end SnapPointsSet

/-- C25 (failing input): the set holds one wrapper, with the range start 5 and the snap value
10.  A wrapper with the range start 7 and the same snap value 10 is added: the wrapper of
the set is directly before it in the order of the set and is domain-equal to it, the lower
bound is the end of the set, no comparison is made and the wrapper is inserted as a new
element, so that the set grows to two elements.  A wrapper with the range start 3 and the
snap value 10, for which the wrapper of the set is directly after, is combined, and the set
keeps its size. -/
theorem SnapPointsVectorItemInsertedHelper_inserts_after_equal_predecessor :
    sampleLess (5, 10) (7, 10) = true ∧ sampleEqual (5, 10) (7, 10) = true ∧
    lower_bound sampleLess (7, 10) [(5, 10)] = 1 ∧
    SnapPointsVectorItemInsertedHelper sampleLess sampleEqual sampleCombine (7, 10) [(5, 10)] =
      [(5, 10), (7, 10)] ∧
    sampleLess (3, 10) (5, 10) = true ∧ sampleEqual (5, 10) (3, 10) = true ∧
    lower_bound sampleLess (3, 10) [(5, 10)] = 0 ∧
    SnapPointsVectorItemInsertedHelper sampleLess sampleEqual sampleCombine (3, 10) [(5, 10)] =
      [(5, 10)] := by
  decide

section SnapPointsSet

variable {W : Type}

/-- The walk of `UpdateSnapPointsRanges` from a state whose variable
`nextSnapPointWrapper` holds a wrapper makes the expected calls for that wrapper and the
wrappers that remain. -/
theorem snapPointsRanges_walk (D : W → Option W → Option W → Bool → W) (flag : Bool)
    (rest : List W) (walk : SnapPointsRangesWalk W) (n : W)
    (hn : walk.nextSnapPointWrapper = some n) :
    (match (rest.foldl (snapPointsRangesStep D flag) walk).nextSnapPointWrapper with
      | some next =>
        ((rest.foldl (snapPointsRangesStep D flag) walk).updated ++
            [D next (rest.foldl (snapPointsRangesStep D flag) walk).currentSnapPointWrapper none
              flag],
          (rest.foldl (snapPointsRangesStep D flag) walk).calls ++
            [⟨next, (rest.foldl (snapPointsRangesStep D flag) walk).currentSnapPointWrapper, none,
              flag⟩])
      | none => ((rest.foldl (snapPointsRangesStep D flag) walk).updated,
          (rest.foldl (snapPointsRangesStep D flag) walk).calls)) =
      (walk.updated ++
          (expectedZoneCalls D flag walk.currentSnapPointWrapper (n :: rest)).map
            (fun c => D c.current c.previous c.next c.forImpulseOnly),
        walk.calls ++ expectedZoneCalls D flag walk.currentSnapPointWrapper (n :: rest)) := by
  induction rest generalizing walk n with
  | nil =>
    simp only [List.foldl_nil, hn, expectedZoneCalls, List.head?_nil, List.map_cons,
      List.map_nil]
  | cons w rest ih =>
    rw [List.foldl_cons]
    have hstep : snapPointsRangesStep D flag walk w =
        { updated := walk.updated ++ [D n walk.currentSnapPointWrapper (some w) flag],
          calls := walk.calls ++ [⟨n, walk.currentSnapPointWrapper, some w, flag⟩],
          previousSnapPointWrapper := walk.currentSnapPointWrapper,
          currentSnapPointWrapper := some (D n walk.currentSnapPointWrapper (some w) flag),
          nextSnapPointWrapper := some w } := by
      simp only [snapPointsRangesStep, hn]
    rw [hstep, ih _ w rfl]
    simp only [expectedZoneCalls, List.head?_cons, List.map_cons, List.append_assoc,
      List.singleton_append]

/-- The expected calls are made on the wrappers of the set, in set order. -/
theorem expectedZoneCalls_current (D : W → Option W → Option W → Bool → W) (flag : Bool)
    (l : List W) (previous : Option W) :
    (expectedZoneCalls D flag previous l).map (fun c => c.current) = l := by
  induction l generalizing previous with
  | nil => rfl
  | cons w rest ih => simp only [expectedZoneCalls, List.map_cons, ih]

/-- The expected calls pass the successor of each wrapper, null for the last one. -/
theorem expectedZoneCalls_next (D : W → Option W → Option W → Bool → W) (flag : Bool)
    (l : List W) (previous : Option W) :
    (expectedZoneCalls D flag previous l).map (fun c => c.next) =
      l.tail.map some ++ (if l.isEmpty then [] else [none]) := by
  induction l generalizing previous with
  | nil => rfl
  | cons w rest ih =>
    simp only [expectedZoneCalls, List.map_cons, ih, List.tail_cons, List.isEmpty_cons]
    cases rest with
    | nil => rfl
    | cons a r => simp

/-- The expected calls carry the flag of the walk. -/
theorem expectedZoneCalls_flag (D : W → Option W → Option W → Bool → W) (flag : Bool)
    (l : List W) (previous : Option W) :
    ∀ c ∈ expectedZoneCalls D flag previous l, c.forImpulseOnly = flag := by
  induction l generalizing previous with
  | nil => intro c hc; cases hc
  | cons w rest ih =>
    intro c hc
    simp only [expectedZoneCalls, List.mem_cons] at hc
    rcases hc with hc | hc
    · rw [hc]
    · exact ih _ c hc

/-- The expected calls pass the predecessor of each wrapper as its call left it, the given
value for the first one. -/
theorem expectedZoneCalls_previous (D : W → Option W → Option W → Bool → W) (flag : Bool)
    (l : List W) (previous : Option W) :
    (expectedZoneCalls D flag previous l).map (fun c => c.previous) =
      (if l.isEmpty then [] else [previous]) ++
        (((expectedZoneCalls D flag previous l).map
          (fun c => D c.current c.previous c.next c.forImpulseOnly)).dropLast).map some := by
  induction l generalizing previous with
  | nil => rfl
  | cons w rest ih =>
    simp only [expectedZoneCalls, List.map_cons, List.isEmpty_cons, ih]
    cases rest with
    | nil => rfl
    | cons a r =>
      simp [expectedZoneCalls, List.dropLast]

/-- C26: for every set `w1 .. wn` in set order, `UpdateSnapPointsRanges` makes the calls of
`DetermineActualApplicableZone` that the walk over consecutive triples describes: as many
calls as there are wrappers, the i-th call on the i-th wrapper, in set order, with the
successor of the wrapper as next (null for the last wrapper) and with its predecessor, as
the call on the predecessor left it, as previous (null for the first wrapper), every call
carrying the flag `forImpulseOnly`; the set is left with every wrapper as its call wrote
it; and no call is made for the empty set. -/
theorem UpdateSnapPointsRanges_calls_each_wrapper_with_its_neighbours
    (DetermineActualApplicableZone : W → Option W → Option W → Bool → W)
    (snapPointsSet : List W) (forImpulseOnly : Bool) :
    (UpdateSnapPointsRanges DetermineActualApplicableZone snapPointsSet forImpulseOnly).2 =
      expectedZoneCalls DetermineActualApplicableZone forImpulseOnly none snapPointsSet ∧
    (UpdateSnapPointsRanges DetermineActualApplicableZone snapPointsSet
      forImpulseOnly).2.length = snapPointsSet.length ∧
    (UpdateSnapPointsRanges DetermineActualApplicableZone snapPointsSet forImpulseOnly).2.map
      (fun c => c.current) = snapPointsSet ∧
    (UpdateSnapPointsRanges DetermineActualApplicableZone snapPointsSet forImpulseOnly).2.map
      (fun c => c.next) =
        snapPointsSet.tail.map some ++ (if snapPointsSet.isEmpty then [] else [none]) ∧
    (UpdateSnapPointsRanges DetermineActualApplicableZone snapPointsSet forImpulseOnly).2.map
      (fun c => c.previous) =
        (if snapPointsSet.isEmpty then [] else [none]) ++
          ((UpdateSnapPointsRanges DetermineActualApplicableZone snapPointsSet
            forImpulseOnly).1.dropLast).map some ∧
    (∀ c ∈ (UpdateSnapPointsRanges DetermineActualApplicableZone snapPointsSet
      forImpulseOnly).2, c.forImpulseOnly = forImpulseOnly) ∧
    (UpdateSnapPointsRanges DetermineActualApplicableZone snapPointsSet forImpulseOnly).1 =
      (UpdateSnapPointsRanges DetermineActualApplicableZone snapPointsSet forImpulseOnly).2.map
        (fun c => DetermineActualApplicableZone c.current c.previous c.next c.forImpulseOnly) ∧
    UpdateSnapPointsRanges DetermineActualApplicableZone ([] : List W) forImpulseOnly =
      ([], []) := by
  have key : UpdateSnapPointsRanges DetermineActualApplicableZone snapPointsSet forImpulseOnly =
      ((expectedZoneCalls DetermineActualApplicableZone forImpulseOnly none snapPointsSet).map
          (fun c => DetermineActualApplicableZone c.current c.previous c.next c.forImpulseOnly),
        expectedZoneCalls DetermineActualApplicableZone forImpulseOnly none snapPointsSet) := by
    cases snapPointsSet with
    | nil => rfl
    | cons w rest =>
      unfold UpdateSnapPointsRanges
      rw [List.foldl_cons]
      have hstep : snapPointsRangesStep DetermineActualApplicableZone forImpulseOnly
          ⟨[], [], none, none, none⟩ w = ⟨[], [], none, none, some w⟩ := rfl
      rw [hstep]
      have h := snapPointsRanges_walk DetermineActualApplicableZone forImpulseOnly rest
        ⟨[], [], none, none, some w⟩ w rfl
      simp only [List.nil_append] at h
      exact h
  rw [key]
  refine ⟨rfl, ?_, expectedZoneCalls_current _ _ _ _, expectedZoneCalls_next _ _ _ _,
    expectedZoneCalls_previous _ _ _ _, expectedZoneCalls_flag _ _ _ _, rfl, rfl⟩
  have h := congrArg List.length
    (expectedZoneCalls_current DetermineActualApplicableZone forImpulseOnly snapPointsSet none)
  rw [List.length_map] at h
  exact h

end SnapPointsSet

/-- The three cases of `ComputeZoomedOffsetWithMinimalChange` with its tests as
propositions. -/
theorem ComputeZoomedOffsetWithMinimalChange_eq [LinearOrderedRing α] (vs ve cs ce : α) :
    ComputeZoomedOffsetWithMinimalChange vs ve cs ce =
      if ((cs < vs ∧ ce < ve) ∧ ¬ (ve - vs < ce - cs)) ∨
          ((ve < ce ∧ vs < cs) ∧ ve - vs < ce - cs) then cs
      else if (cs < vs ∧ ce < ve) ∨ (ve < ce ∧ vs < cs) then ce - ve + vs
      else vs := by
  unfold ComputeZoomedOffsetWithMinimalChange
  simp only [gt_iff_lt, Bool.or_eq_true, Bool.and_eq_true, decide_eq_true_eq,
    Bool.not_eq_true', decide_eq_false_iff_not]

/-- C27: for a viewport from `vs` to `ve` of length `L = ve - vs` and a child from `cs` to
`ce` (the bounds in any order, in particular for `vs ≤ ve` and `cs ≤ ce`), with
`r = ComputeZoomedOffsetWithMinimalChange vs ve cs ce`: when the child lies within the
viewport or spans it, `r = vs`; otherwise the child is above the viewport (it starts and
ends before the viewport does) or below it (it starts and ends after), and then, when the
child is not larger than the viewport, the viewport `[r, r + L]` holds the whole child with
one edge aligned (`r = cs` above, `r = ce - L` below), and when the child is larger than
the viewport, the viewport `[r, r + L]` lies inside the child (`r = ce - L` above, `r = cs`
below). -/
theorem ComputeZoomedOffsetWithMinimalChange_minimal_change [LinearOrderedRing α]
    (vs ve cs ce : α) :
    (((vs ≤ cs ∧ ce ≤ ve) ∨ (cs ≤ vs ∧ ve ≤ ce)) →
      ComputeZoomedOffsetWithMinimalChange vs ve cs ce = vs) ∧
    (¬ ((vs ≤ cs ∧ ce ≤ ve) ∨ (cs ≤ vs ∧ ve ≤ ce)) →
      ((cs < vs ∧ ce < ve) ∨ (ve < ce ∧ vs < cs)) ∧
      (ce - cs ≤ ve - vs →
        ((cs < vs ∧ ce < ve) → ComputeZoomedOffsetWithMinimalChange vs ve cs ce = cs) ∧
        ((ve < ce ∧ vs < cs) →
          ComputeZoomedOffsetWithMinimalChange vs ve cs ce = ce - (ve - vs)) ∧
        ComputeZoomedOffsetWithMinimalChange vs ve cs ce ≤ cs ∧
        ce ≤ ComputeZoomedOffsetWithMinimalChange vs ve cs ce + (ve - vs)) ∧
      (ve - vs < ce - cs →
        ((cs < vs ∧ ce < ve) →
          ComputeZoomedOffsetWithMinimalChange vs ve cs ce = ce - (ve - vs)) ∧
        ((ve < ce ∧ vs < cs) → ComputeZoomedOffsetWithMinimalChange vs ve cs ce = cs) ∧
        cs ≤ ComputeZoomedOffsetWithMinimalChange vs ve cs ce ∧
        ComputeZoomedOffsetWithMinimalChange vs ve cs ce + (ve - vs) ≤ ce)) := by
  rw [ComputeZoomedOffsetWithMinimalChange_eq]
  have hsub : ce - ve + vs = ce - (ve - vs) := by abel
  constructor
  · intro h
    have h1 : ¬ (cs < vs ∧ ce < ve) := by
      rintro ⟨h1, h2⟩
      rcases h with h | h
      · exact absurd h.1 (not_le.mpr h1)
      · exact absurd h.2 (not_le.mpr h2)
    have h2 : ¬ (ve < ce ∧ vs < cs) := by
      rintro ⟨h1, h2⟩
      rcases h with h | h
      · exact absurd h.2 (not_le.mpr h1)
      · exact absurd h.1 (not_le.mpr h2)
    simp only [h1, h2, false_and, or_self, if_false]
  · intro h
    rw [not_or, not_and_or, not_and_or] at h
    have hab : (cs < vs ∧ ce < ve) ∨ (ve < ce ∧ vs < cs) := by
      rcases h with ⟨h1 | h1, h2 | h2⟩
      · exact absurd (lt_trans (not_le.mp h2) (not_le.mp h1)) (lt_irrefl _)
      · exact Or.inl ⟨not_le.mp h1, not_le.mp h2⟩
      · exact Or.inr ⟨not_le.mp h1, not_le.mp h2⟩
      · exact absurd (lt_trans (not_le.mp h2) (not_le.mp h1)) (lt_irrefl _)
    have hexcl : ¬ ((cs < vs ∧ ce < ve) ∧ (ve < ce ∧ vs < cs)) := by
      rintro ⟨⟨h1, _⟩, ⟨_, h4⟩⟩
      exact absurd (lt_trans h1 h4) (lt_irrefl _)
    refine ⟨hab, ?_, ?_⟩
    · intro hsmall
      have hnl : ¬ (ve - vs < ce - cs) := not_lt.mpr hsmall
      rcases hab with ha | hb
      · have hval : (if ((cs < vs ∧ ce < ve) ∧ ¬ (ve - vs < ce - cs)) ∨
            ((ve < ce ∧ vs < cs) ∧ ve - vs < ce - cs) then cs
            else if (cs < vs ∧ ce < ve) ∨ (ve < ce ∧ vs < cs) then ce - ve + vs
            else vs) = cs := if_pos (Or.inl ⟨ha, hnl⟩)
        rw [hval]
        exact ⟨fun _ => rfl, fun hb => absurd ⟨ha, hb⟩ hexcl, le_refl _,
          sub_le_iff_le_add'.mp hsmall⟩
      · have hval : (if ((cs < vs ∧ ce < ve) ∧ ¬ (ve - vs < ce - cs)) ∨
            ((ve < ce ∧ vs < cs) ∧ ve - vs < ce - cs) then cs
            else if (cs < vs ∧ ce < ve) ∨ (ve < ce ∧ vs < cs) then ce - ve + vs
            else vs) = ce - (ve - vs) := by
          rw [if_neg, if_pos (Or.inr hb), hsub]
          rintro (⟨ha, _⟩ | ⟨_, hl⟩)
          · exact hexcl ⟨ha, hb⟩
          · exact hnl hl
        rw [hval]
        exact ⟨fun ha => absurd ⟨ha, hb⟩ hexcl, fun _ => rfl, sub_le_comm.mp hsmall,
          (sub_add_cancel _ _).ge⟩
    · intro hlarge
      rcases hab with ha | hb
      · have hval : (if ((cs < vs ∧ ce < ve) ∧ ¬ (ve - vs < ce - cs)) ∨
            ((ve < ce ∧ vs < cs) ∧ ve - vs < ce - cs) then cs
            else if (cs < vs ∧ ce < ve) ∨ (ve < ce ∧ vs < cs) then ce - ve + vs
            else vs) = ce - (ve - vs) := by
          rw [if_neg, if_pos (Or.inl ha), hsub]
          rintro (⟨_, hl⟩ | ⟨hb, _⟩)
          · exact hl hlarge
          · exact hexcl ⟨ha, hb⟩
        rw [hval]
        exact ⟨fun _ => rfl, fun hb => absurd ⟨ha, hb⟩ hexcl, (lt_sub_comm.mp hlarge).le,
          (sub_add_cancel _ _).le⟩
      · have hval : (if ((cs < vs ∧ ce < ve) ∧ ¬ (ve - vs < ce - cs)) ∨
            ((ve < ce ∧ vs < cs) ∧ ve - vs < ce - cs) then cs
            else if (cs < vs ∧ ce < ve) ∨ (ve < ce ∧ vs < cs) then ce - ve + vs
            else vs) = cs := if_pos (Or.inr ⟨hb, hlarge⟩)
        rw [hval]
        exact ⟨fun ha => absurd ⟨ha, hb⟩ hexcl, fun _ => rfl, le_refl _,
          (lt_sub_iff_add_lt'.mp hlarge).le⟩

/-- A maximum with 0 is not negative. -/
theorem stdMax_zero_nonneg [LinearOrder α] [Zero α] (x : α) : 0 ≤ stdMax 0 x := by
  rw [stdMax_eq_max]; exact le_max_left _ _

/-- A clamped value lies between the bounds. -/
theorem stdClamp_mem [LinearOrder α] (v lo hi : α) (h : lo ≤ hi) :
    lo ≤ stdClamp v lo hi ∧ stdClamp v lo hi ≤ hi := by
  rw [stdClamp_eq_min_max v lo hi h]
  exact ⟨le_min (le_max_right _ _) h, min_le_right _ _⟩

/-- In exact arithmetic, the applied-offset step keeps a target that lies in the scrollable
range in that range, and applies an offset between 0 and the requested one. -/
theorem applyBringIntoViewOffset_spec [LinearOrderedRing α] (t S offset : α)
    (h0 : 0 ≤ t) (h1 : t ≤ S) :
    0 ≤ (applyBringIntoViewOffset t S offset).1 ∧
    (applyBringIntoViewOffset t S offset).1 ≤ S ∧
    (applyBringIntoViewOffset t S offset).1 = t - (applyBringIntoViewOffset t S offset).2 ∧
    (0 < offset → 0 ≤ (applyBringIntoViewOffset t S offset).2 ∧
      (applyBringIntoViewOffset t S offset).2 ≤ offset) ∧
    (offset < 0 → offset ≤ (applyBringIntoViewOffset t S offset).2 ∧
      (applyBringIntoViewOffset t S offset).2 ≤ 0) ∧
    (offset = 0 → (applyBringIntoViewOffset t S offset).2 = 0) := by
  unfold applyBringIntoViewOffset
  by_cases hz : offset = 0
  · subst hz
    simp only [ne_eq, not_true_eq_false, false_and, if_false, sub_zero]
    exact ⟨h0, h1, trivial, fun h => absurd h (lt_irrefl _), fun h => absurd h (lt_irrefl _),
      fun _ => trivial⟩
  · have hc : offset ≠ 0 ∧ t ≥ 0 := ⟨hz, h0⟩
    rw [if_pos hc, if_pos h1]
    simp only [stdMin_eq_min]
    by_cases hp : offset > 0
    · rw [if_pos hp]
      refine ⟨sub_nonneg.mpr (min_le_left _ _), ?_, trivial, fun _ => ⟨?_, min_le_right _ _⟩, ?_,
        fun h => absurd h hz⟩
      · exact le_trans (sub_le_self _ (le_min h0 hp.le)) h1
      · exact le_min h0 hp.le
      · intro hn
        exact absurd (lt_trans hn hp) (lt_irrefl _)
    · have hn : offset < 0 := lt_of_le_of_ne (not_lt.mp hp) hz
      have hm0 : 0 ≤ min (S - t) (-offset) :=
        le_min (sub_nonneg.mpr h1) (neg_nonneg.mpr hn.le)
      rw [if_neg hp, sub_neg_eq_add]
      refine ⟨add_nonneg h0 hm0, ?_, trivial, fun h => absurd h hp, fun _ => ⟨?_, ?_⟩,
        fun h => absurd h hz⟩
      · calc t + min (S - t) (-offset) ≤ t + (S - t) := add_le_add_left (min_le_left _ _) _
          _ = S := by abel
      · exact le_neg.mpr (min_le_right _ _)
      · exact neg_nonpos.mpr hm0

/-- In exact arithmetic (a linearly ordered ring with a division), whatever the rectangle
of the element, the alignment ratios (NaN included), the snap-points mode, the snap points
and the requested extra offsets, the target offsets computed by
`ComputeBringIntoViewTargetOffsets` lie between 0 and `ScrollableWidth` and between 0 and
`ScrollableHeight`, the four `MUX_ASSERT` bounds checks that follow the applied-offset step
hold and so do the four that follow the snap points, and each applied offset lies between 0
and the requested offset.  The upper bounds rest on `t + (S - t) = S`, which the `double`
arithmetic of the program does not satisfy. -/
theorem ComputeBringIntoViewTargetOffsets_within_scrollable_range_exact [LinearOrderedRing α] [Div α]
    (view : ScrollPresenterView α) (transformedRect : DescendantBounds α)
    (snapPointsMode : ScrollingSnapPointsMode)
    (horizontalAlignmentRatio verticalAlignmentRatio : Option α)
    (horizontalOffset verticalOffset : α) :
    (0 ≤ (ComputeBringIntoViewTargetOffsets view transformedRect snapPointsMode
        horizontalAlignmentRatio verticalAlignmentRatio horizontalOffset
        verticalOffset).targetZoomedHorizontalOffset ∧
      (ComputeBringIntoViewTargetOffsets view transformedRect snapPointsMode
        horizontalAlignmentRatio verticalAlignmentRatio horizontalOffset
        verticalOffset).targetZoomedHorizontalOffset ≤ ScrollableWidth view) ∧
    (0 ≤ (ComputeBringIntoViewTargetOffsets view transformedRect snapPointsMode
        horizontalAlignmentRatio verticalAlignmentRatio horizontalOffset
        verticalOffset).targetZoomedVerticalOffset ∧
      (ComputeBringIntoViewTargetOffsets view transformedRect snapPointsMode
        horizontalAlignmentRatio verticalAlignmentRatio horizontalOffset
        verticalOffset).targetZoomedVerticalOffset ≤ ScrollableHeight view) ∧
    (ComputeBringIntoViewTargetOffsets view transformedRect snapPointsMode
      horizontalAlignmentRatio verticalAlignmentRatio horizontalOffset
      verticalOffset).boundsAfterAppliedOffset = true ∧
    (ComputeBringIntoViewTargetOffsets view transformedRect snapPointsMode
      horizontalAlignmentRatio verticalAlignmentRatio horizontalOffset
      verticalOffset).boundsAfterSnapPoints = true ∧
    ((0 < horizontalOffset →
        0 ≤ (ComputeBringIntoViewTargetOffsets view transformedRect snapPointsMode
          horizontalAlignmentRatio verticalAlignmentRatio horizontalOffset
          verticalOffset).appliedOffsetX ∧
        (ComputeBringIntoViewTargetOffsets view transformedRect snapPointsMode
          horizontalAlignmentRatio verticalAlignmentRatio horizontalOffset
          verticalOffset).appliedOffsetX ≤ horizontalOffset) ∧
      (horizontalOffset < 0 →
        horizontalOffset ≤ (ComputeBringIntoViewTargetOffsets view transformedRect snapPointsMode
          horizontalAlignmentRatio verticalAlignmentRatio horizontalOffset
          verticalOffset).appliedOffsetX ∧
        (ComputeBringIntoViewTargetOffsets view transformedRect snapPointsMode
          horizontalAlignmentRatio verticalAlignmentRatio horizontalOffset
          verticalOffset).appliedOffsetX ≤ 0) ∧
      (horizontalOffset = 0 →
        (ComputeBringIntoViewTargetOffsets view transformedRect snapPointsMode
          horizontalAlignmentRatio verticalAlignmentRatio horizontalOffset
          verticalOffset).appliedOffsetX = 0)) ∧
    ((0 < verticalOffset →
        0 ≤ (ComputeBringIntoViewTargetOffsets view transformedRect snapPointsMode
          horizontalAlignmentRatio verticalAlignmentRatio horizontalOffset
          verticalOffset).appliedOffsetY ∧
        (ComputeBringIntoViewTargetOffsets view transformedRect snapPointsMode
          horizontalAlignmentRatio verticalAlignmentRatio horizontalOffset
          verticalOffset).appliedOffsetY ≤ verticalOffset) ∧
      (verticalOffset < 0 →
        verticalOffset ≤ (ComputeBringIntoViewTargetOffsets view transformedRect snapPointsMode
          horizontalAlignmentRatio verticalAlignmentRatio horizontalOffset
          verticalOffset).appliedOffsetY ∧
        (ComputeBringIntoViewTargetOffsets view transformedRect snapPointsMode
          horizontalAlignmentRatio verticalAlignmentRatio horizontalOffset
          verticalOffset).appliedOffsetY ≤ 0) ∧
      (verticalOffset = 0 →
        (ComputeBringIntoViewTargetOffsets view transformedRect snapPointsMode
          horizontalAlignmentRatio verticalAlignmentRatio horizontalOffset
          verticalOffset).appliedOffsetY = 0)) := by
  have hW : (0 : α) ≤ ScrollableWidth view := stdMax_zero_nonneg _
  have hH : (0 : α) ≤ ScrollableHeight view := stdMax_zero_nonneg _
  simp only [ComputeBringIntoViewTargetOffsets]
  generalize ComputeZoomedOffsetWithMinimalChange view.m_zoomedHorizontalOffset _ _ _ = tx
  generalize ComputeZoomedOffsetWithMinimalChange view.m_zoomedVerticalOffset _ _ _ = ty
  have hx := applyBringIntoViewOffset_spec (stdClamp tx 0 (ScrollableWidth view))
    (ScrollableWidth view) horizontalOffset (stdClamp_mem tx 0 _ hW).1 (stdClamp_mem tx 0 _ hW).2
  have hy := applyBringIntoViewOffset_spec (stdClamp ty 0 (ScrollableHeight view))
    (ScrollableHeight view) verticalOffset (stdClamp_mem ty 0 _ hH).1 (stdClamp_mem ty 0 _ hH).2
  generalize applyBringIntoViewOffset (stdClamp tx 0 (ScrollableWidth view))
    (ScrollableWidth view) horizontalOffset = ax at hx ⊢
  generalize applyBringIntoViewOffset (stdClamp ty 0 (ScrollableHeight view))
    (ScrollableHeight view) verticalOffset = ay at hy ⊢
  obtain ⟨hx0, hx1, -, hxp, hxn, hxz⟩ := hx
  obtain ⟨hy0, hy1, -, hyp, hyn, hyz⟩ := hy
  refine ⟨?_, ?_, ?_, ?_, ⟨hxp, hxn, hxz⟩, ⟨hyp, hyn, hyz⟩⟩
  · by_cases hm : snapPointsMode = .Default
    · simp only [hm, if_true]
      exact stdClamp_mem _ 0 _ hW
    · simp only [hm, if_false]
      exact ⟨hx0, hx1⟩
  · by_cases hm : snapPointsMode = .Default
    · simp only [hm, if_true]
      exact stdClamp_mem _ 0 _ hH
    · simp only [hm, if_false]
      exact ⟨hy0, hy1⟩
  · simp only [ge_iff_le, Bool.and_eq_true, decide_eq_true_eq]
    exact ⟨⟨⟨hx0, hy0⟩, hx1⟩, hy1⟩
  · by_cases hm : snapPointsMode = .Default
    · simp only [hm, if_true, ge_iff_le, Bool.and_eq_true, decide_eq_true_eq]
      exact ⟨⟨⟨(stdClamp_mem _ 0 _ hW).1, (stdClamp_mem _ 0 _ hH).1⟩, (stdClamp_mem _ 0 _ hW).2⟩,
        (stdClamp_mem _ 0 _ hH).2⟩
    · simp only [hm, if_false]

/-- A routine that removes from the queue the operations that pass a test, after it handed
each of them to `CompleteViewChange`, leaves the queue as completions must. -/
theorem CompletionsLeaveTheQueue_of_filter (s r : ScrollPresenter α)
    (p : InteractionTrackerAsyncOperation α → Bool)
    (res : InteractionTrackerAsyncOperation α → ScrollPresenterViewChangeResult)
    (hq : (s.m_interactionTrackerAsyncOperations.map (fun o => o.id)).Nodup)
    (hc : ∀ o ∈ s.m_interactionTrackerAsyncOperations, o.isCompleted = false)
    (h1 : r.m_interactionTrackerAsyncOperations =
      s.m_interactionTrackerAsyncOperations.filter (fun o => !p o))
    (h2 : r.completedViewChanges = s.completedViewChanges ++
      (s.m_interactionTrackerAsyncOperations.filter p).map
        (fun o => (o.SetIsCompleted true, res o))) :
    CompletionsLeaveTheQueue s r := by
  have hdrop : r.completedViewChanges.drop s.completedViewChanges.length =
      (s.m_interactionTrackerAsyncOperations.filter p).map
        (fun o => (o.SetIsCompleted true, res o)) := by
    rw [h2, List.drop_left]
  unfold CompletionsLeaveTheQueue
  rw [hdrop, h1]
  refine ⟨?_, ?_, ?_, ?_⟩
  · intro o ho
    exact hc o (List.mem_filter.mp ho).1
  · intro e he o ho h
    obtain ⟨o1, ho1, rfl⟩ := List.mem_map.mp he
    have hh1 := List.mem_filter.mp ho1
    have hh := List.mem_filter.mp ho
    have heq : o = o1 := List.inj_on_of_nodup_map hq hh.1 hh1.1 h
    rw [heq, hh1.2] at hh
    simp at hh
  · exact (List.filter_sublist _).map _
  · intro o ho
    by_cases hp : p o = true
    · exact Or.inr ⟨_, List.mem_map.mpr ⟨o, List.mem_filter.mpr ⟨ho, hp⟩, rfl⟩, rfl⟩
    · exact Or.inl ⟨o, List.mem_filter.mpr ⟨ho, by simpa using hp⟩, rfl⟩

/-- The examination of the required operation completes no operation. -/
theorem requiredOperationDecision_completed (s : ScrollPresenter α) (flag : Bool)
    (o : InteractionTrackerAsyncOperation α) :
    (requiredOperationDecision s flag o).1.completedViewChanges = s.completedViewChanges := by
  unfold requiredOperationDecision
  split_ifs
  · split
    · rfl
    · simp only []
      split_ifs <;> rfl
  · rfl

/-- One step of the tick walk, for the completions: the operation stays in the queue, with
its identity and not flagged completed unless it was, and no completion is made, or the
operation leaves the queue and one completion is made, for that operation. -/
theorem tickStep_completion (tracker : Nat → Int) (s : ScrollPresenter α) (flag : Bool)
    (done rest : List (InteractionTrackerAsyncOperation α)) (o : InteractionTrackerAsyncOperation α)
    (hq : s.m_interactionTrackerAsyncOperations = done ++ o :: rest)
    (hd : ∀ x ∈ done, x.id ≠ o.id) (hr : ∀ x ∈ rest, x.id ≠ o.id) :
    (∃ o', (tickStep tracker (s, flag) o).1.m_interactionTrackerAsyncOperations =
        done ++ o' :: rest ∧
      o'.id = o.id ∧ (o.isCompleted = false → o'.isCompleted = false) ∧
      (tickStep tracker (s, flag) o).1.completedViewChanges = s.completedViewChanges) ∨
    ((tickStep tracker (s, flag) o).1.m_interactionTrackerAsyncOperations = done ++ rest ∧
      ∃ e, e.1.id = o.id ∧
        (tickStep tracker (s, flag) o).1.completedViewChanges = s.completedViewChanges ++ [e]) := by
  obtain ⟨o1, hq1, hid1, hc1, -, -, -, -, -, -⟩ :=
    requiredOperationDecision_spec s flag done rest o hq hd hr
  have hcv1 := requiredOperationDecision_completed s flag o
  rw [tickStep_eq_decision]
  generalize requiredOperationDecision s flag o = dec at hq1 hcv1 ⊢
  by_cases hD : o.isDelayed = true
  · simp only [hD, if_true]
    exact Or.inl ⟨_, updateOperation_focus s done rest o _ o.id hq rfl hd hr, rfl, fun h => h, rfl⟩
  · have hD' : o.isDelayed = false := by simpa using hD
    simp only [hD', Bool.false_eq_true, if_false]
    by_cases hQ : o.IsQueued = true
    · simp only [hQ, if_true]
      have hq2 := updateOperation_focus dec.1 done rest o1
        (fun x => x.TickQueuedOperation) o.id hq1 hid1 hd hr
      cases hf : dec.2
      · simp only [Bool.false_eq_true, if_false]
        by_cases h0 : (o.TickQueuedOperation.preProcessingTicksCountdown == 0) = true
        · simp only [h0, if_true]
          obtain ⟨x', hq3, hx1, hx2, -, -, -, -⟩ :=
            ProcessDequeuedViewChange_focus _ tracker done rest _ o hq2 hid1 hd hr
          refine Or.inl ⟨x', hq3, hx1.trans hid1, fun h => ?_, hcv1⟩
          rw [hx2]; exact hc1.trans h
        · simp only [h0, if_false]
          exact Or.inl ⟨_, hq2, hid1, fun h => hc1.trans h, hcv1⟩
      · simp only [if_true]
        by_cases h1 : o.GetTicksCountdown > 1
        · simp only [h1, if_true]
          exact Or.inl ⟨_, hq2, hid1, fun h => hc1.trans h, hcv1⟩
        · simp only [h1, if_false]
          exact Or.inl ⟨_, hq1, hid1, fun h => hc1.trans h, hcv1⟩
    · have hQ' : o.IsQueued = false := by simpa using hQ
      simp only [hQ', Bool.false_eq_true, if_false]
      by_cases hA : o.IsAnimated = true
      · simp only [hA, Bool.not_true, Bool.false_eq_true, if_false]
        exact Or.inl ⟨o, hq, rfl, fun h => h, trivial⟩
      · have hA' : o.IsAnimated = false := by simpa using hA
        simp only [hA', Bool.not_false, if_true]
        have hq2 := updateOperation_focus s done rest o
          (fun x => x.TickNonAnimatedOperation) o.id hq rfl hd hr
        by_cases hpost : (o.TickNonAnimatedOperation.postProcessingTicksCountdown == 0) = true
        · simp only [hpost, if_true]
          have hq3 := CompleteViewChange_focus _ done rest o.TickNonAnimatedOperation
            o.TickNonAnimatedOperation .Completed hq2 rfl hd hr
          have hq4 := removeOperation_focus _ done rest _ o hq3 rfl hd hr
          refine Or.inr ⟨?_, (o.TickNonAnimatedOperation.SetIsCompleted true, .Completed), rfl, ?_⟩
          · split_ifs
            · simpa [ResetAnticipatedView] using hq4
            · simpa using hq4
          · split_ifs <;>
              simp only [ResetAnticipatedView, removeOperation, CompleteViewChange_completed] <;>
              rfl
        · simp only [hpost, if_false]
          exact Or.inl ⟨_, hq2, rfl, fun h => h, rfl⟩

/-- The tick walk over the part `rest` of the snapshot, for the completions. -/
theorem tick_walk_completion (tracker : Nat → Int) (ids : List Nat)
    (base : List (InteractionTrackerAsyncOperation α × ScrollPresenterViewChangeResult))
    (rest done : List (InteractionTrackerAsyncOperation α)) (s : ScrollPresenter α) (flag : Bool)
    (c : List (InteractionTrackerAsyncOperation α × ScrollPresenterViewChangeResult))
    (W0 : s.m_interactionTrackerAsyncOperations = done ++ rest)
    (W1 : ((done ++ rest).map (fun o => o.id)).Nodup)
    (W2 : ∀ o ∈ done ++ rest, o.isCompleted = false)
    (W3 : s.completedViewChanges = base ++ c)
    (W4 : ∀ e ∈ c, ∀ x ∈ done ++ rest, x.id ≠ e.1.id)
    (W5 : ((done ++ rest).map (fun o => o.id)).Sublist ids)
    (W6 : ∀ i ∈ ids, i ∈ (done ++ rest).map (fun o => o.id) ∨ ∃ e ∈ c, e.1.id = i) :
    ∃ c', (rest.foldl (tickStep tracker) (s, flag)).1.completedViewChanges = base ++ c' ∧
      (∀ o ∈ (rest.foldl (tickStep tracker) (s, flag)).1.m_interactionTrackerAsyncOperations,
        o.isCompleted = false) ∧
      (∀ e ∈ c', ∀ x ∈ (rest.foldl (tickStep tracker)
        (s, flag)).1.m_interactionTrackerAsyncOperations, x.id ≠ e.1.id) ∧
      (((rest.foldl (tickStep tracker) (s, flag)).1.m_interactionTrackerAsyncOperations.map
        (fun o => o.id)).Sublist ids) ∧
      (∀ i ∈ ids, i ∈ (rest.foldl (tickStep tracker)
          (s, flag)).1.m_interactionTrackerAsyncOperations.map (fun o => o.id) ∨
        ∃ e ∈ c', e.1.id = i) := by
  induction rest generalizing done s flag c with
  | nil =>
    rw [List.foldl_nil, W0]
    exact ⟨c, W3, W2, W4, W5, W6⟩
  | cons b rest ih =>
    have hnd : ∀ x ∈ done, x.id ≠ b.id := by
      intro x hx h
      rw [List.map_append, List.map_cons] at W1
      have := (List.nodup_append.mp W1).2.2
      exact this (List.mem_map.mpr ⟨x, hx, rfl⟩) (by rw [h]; exact List.mem_cons_self _ _)
    have hnr : ∀ x ∈ rest, x.id ≠ b.id := by
      intro x hx h
      rw [List.map_append, List.map_cons] at W1
      have := (List.nodup_cons.mp (List.nodup_append.mp W1).2.1).1
      exact this (List.mem_map.mpr ⟨x, hx, h⟩)
    rw [List.foldl_cons]
    have hst : tickStep tracker (s, flag) b =
        ((tickStep tracker (s, flag) b).1, (tickStep tracker (s, flag) b).2) := rfl
    rw [hst]
    rcases tickStep_completion tracker s flag done rest b W0 hnd hnr with
      ⟨b', hq', hid, hcomp, hcv⟩ | ⟨hq', e, he, hcv⟩
    · have hids : ((done ++ [b']) ++ rest).map (fun o => o.id) =
          (done ++ b :: rest).map (fun o => o.id) := by
        simp [hid]
      refine ih (done ++ [b']) _ _ c (by rw [hq']; simp) (by rw [hids]; exact W1) ?_
        (by rw [hcv]; exact W3) ?_ (by rw [hids]; exact W5) (by rw [hids]; exact W6)
      · intro o ho
        simp only [List.mem_append, List.mem_singleton] at ho
        rcases ho with (ho | ho) | ho
        · exact W2 o (List.mem_append_left _ ho)
        · rw [ho]
          exact hcomp (W2 b (by simp))
        · exact W2 o (List.mem_append_right _ (List.mem_cons_of_mem _ ho))
      · intro e he x hx
        simp only [List.mem_append, List.mem_singleton] at hx
        rcases hx with (hx | hx) | hx
        · exact W4 e he x (List.mem_append_left _ hx)
        · rw [hx, hid]
          exact W4 e he b (by simp)
        · exact W4 e he x (List.mem_append_right _ (List.mem_cons_of_mem _ hx))
    · have hsub : (done ++ rest).Sublist (done ++ b :: rest) :=
        List.Sublist.append_left (List.sublist_cons_self _ _) _
      refine ih done _ _ (c ++ [e]) hq' (W1.sublist (hsub.map _))
        (fun o ho => W2 o (hsub.subset ho)) (by rw [hcv, W3, List.append_assoc]) ?_
        ((hsub.map _).trans W5) ?_
      · intro e' he' x hx
        rcases List.mem_append.mp he' with he' | he'
        · exact W4 e' he' x (hsub.subset hx)
        · rw [List.mem_singleton.mp he', he]
          rcases List.mem_append.mp hx with hx | hx
          · exact hnd x hx
          · exact hnr x hx
      · intro i hi
        rcases W6 i hi with h | ⟨e', he', h⟩
        · obtain ⟨x, hx, rfl⟩ := List.mem_map.mp h
          simp only [List.mem_append, List.mem_cons] at hx
          rcases hx with hx | rfl | hx
          · exact Or.inl (List.mem_map.mpr ⟨x, List.mem_append_left _ hx, rfl⟩)
          · exact Or.inr ⟨e, by simp, he⟩
          · exact Or.inl (List.mem_map.mpr ⟨x, List.mem_append_right _ hx, rfl⟩)
        · exact Or.inr ⟨e', List.mem_append_left _ he', h⟩

/-- C29: on a queue of distinct operations none of which is flagged completed, each of the
three routines that complete operations (the completion sweep
`CompleteInteractionTrackerOperations` with any request ID, results and flags,
`CompleteDelayedOperations`, and a tick of `OnCompositionTargetRendering`, which
force-completes dispatched non-animated operations) returns with a queue in which no
operation is flagged completed: every operation the routine handed to `CompleteViewChange`
has left the queue, the operations that remain are in the order they had, and every
operation that was not handed to `CompleteViewChange` remains. -/
theorem completed_operations_leave_the_queue (s : ScrollPresenter α)
    (hq : (s.m_interactionTrackerAsyncOperations.map (fun o => o.id)).Nodup)
    (hc : ∀ o ∈ s.m_interactionTrackerAsyncOperations, o.isCompleted = false) :
    (∀ (requestId : Int) (r1 r2 r3 : ScrollPresenterViewChangeResult) (b1 b2 b3 b4 : Bool),
      CompletionsLeaveTheQueue s
        (s.CompleteInteractionTrackerOperations requestId r1 r2 r3 b1 b2 b3 b4)) ∧
    CompletionsLeaveTheQueue s s.CompleteDelayedOperations ∧
    (∀ tracker : Nat → Int, CompletionsLeaveTheQueue s (s.OnCompositionTargetRendering tracker)) := by
  refine ⟨?_, ?_, ?_⟩
  · intro requestId r1 r2 r3 b1 b2 b3 b4
    exact CompletionsLeaveTheQueue_of_filter s _ (sweepCompletes requestId b1 b2 b3 b4)
      (sweepResult requestId r1 r2 r3) hq hc (sweep_queue_nodup s requestId r1 r2 r3 b1 b2 b3 b4 hq)
      (sweep_completed s requestId r1 r2 r3 b1 b2 b3 b4)
  · refine CompletionsLeaveTheQueue_of_filter s _ (fun o => o.isDelayed)
      (fun _ => ScrollPresenterViewChangeResult.Interrupted) hq hc ?_
      (CompleteDelayedOperations_completed s)
    rw [CompleteDelayedOperations_queue s hq]
  · intro tracker
    unfold OnCompositionTargetRendering
    split_ifs
    · obtain ⟨c', h1, h2, h3, h4, h5⟩ := tick_walk_completion tracker
        (s.m_interactionTrackerAsyncOperations.map (fun o => o.id)) s.completedViewChanges
        s.m_interactionTrackerAsyncOperations [] s false [] rfl hq hc (by simp)
        (fun e he => by cases he) (List.Sublist.refl _) (fun i hi => Or.inl hi)
      have hdrop : ((s.m_interactionTrackerAsyncOperations.foldl (tickStep tracker)
          (s, false)).1.completedViewChanges).drop s.completedViewChanges.length = c' := by
        rw [h1, List.drop_left]
      unfold CompletionsLeaveTheQueue
      rw [hdrop]
      refine ⟨h2, h3, h4, ?_⟩
      intro o ho
      rcases h5 o.id (List.mem_map.mpr ⟨o, ho, rfl⟩) with h | h
      · obtain ⟨o', ho', h'⟩ := List.mem_map.mp h
        exact Or.inl ⟨o', ho', h'⟩
      · exact Or.inr h
    · unfold CompletionsLeaveTheQueue
      simp only [List.drop_length, List.not_mem_nil, false_implies, implies_true, true_and,
        List.Sublist.refl, exists_false, or_false, false_and]
      exact ⟨hc, fun o ho => ⟨o, ho, rfl⟩⟩

theorem completed_operations_leave_the_queue_witness :
    ((samplePresenter sampleQueue).m_interactionTrackerAsyncOperations.map
      (fun o => o.id)).Nodup ∧
    (∀ o ∈ (samplePresenter sampleQueue).m_interactionTrackerAsyncOperations,
      o.isCompleted = false) ∧
    ((samplePresenter sampleQueue).IdleStateEntered 2).m_interactionTrackerAsyncOperations.map
      (fun o => o.id) = [2] ∧
    CompletionsLeaveTheQueue (samplePresenter sampleQueue)
      ((samplePresenter sampleQueue).CompleteInteractionTrackerOperations 2 .Completed .Completed
        .Interrupted true true true true) :=
  ⟨by decide, by decide, by decide,
    (completed_operations_leave_the_queue (samplePresenter sampleQueue) (by decide)
      (by decide)).1 2 .Completed .Completed .Interrupted true true true true⟩

/-- What holds of an operation returned by the backward walk of
`GetInteractionTrackerOperationFromKinds`: every operation met before it (the more recent
ones) is canceled or shares a bit with the requested trigger; the operation shares a bit
with the requested trigger, is queued, not unqueueing and not canceled, and carries a
payload; and unless its type is one of the two additional-velocity types, it is of the
requested family and its payload has the requested view kind, animation mode and
snap-points mode. -/
theorem fromKindsScan_some (s : ScrollPresenter α) (isOperationTypeForOffsetsChange : Bool)
    (operationTrigger : InteractionTrackerAsyncOperationTrigger)
    (viewKind : ScrollPresenterViewKind) (options : Option ScrollingOptions)
    (l : List (InteractionTrackerAsyncOperation α)) (o : InteractionTrackerAsyncOperation α)
    (h : s.fromKindsScan isOperationTypeForOffsetsChange operationTrigger viewKind options l =
      some o) :
    ∃ pre post, l = pre ++ o :: post ∧
      (∀ x ∈ pre, x.operationTrigger.intersects operationTrigger = true ∨ x.isCanceled = true) ∧
      o.operationTrigger.intersects operationTrigger = true ∧ o.IsQueued = true ∧
      o.IsUnqueueing = false ∧ o.isCanceled = false ∧
      ∃ v, o.viewChangeBase = some v ∧
        (o.operationType ≠ .TryUpdatePositionWithAdditionalVelocity →
          o.operationType ≠ .TryUpdateScaleWithAdditionalVelocity →
          s.kindsAgree v viewKind options = true ∧
          (isOperationTypeForOffsetsChange = true ↔
            (o.operationType = .TryUpdatePosition ∨ o.operationType = .TryUpdatePositionBy ∨
              o.operationType = .TryUpdatePositionWithAnimation))) := by
  induction l with
  | nil => cases h
  | cons a rest ih =>
    unfold fromKindsScan at h
    by_cases h1 : (!(a.operationTrigger.intersects operationTrigger) && !a.isCanceled) = true
    · rw [if_pos h1] at h
      cases h
    · rw [if_neg h1] at h
      have ha : a.operationTrigger.intersects operationTrigger = true ∨ a.isCanceled = true := by
        cases hx : a.operationTrigger.intersects operationTrigger <;>
          cases hy : a.isCanceled <;> simp [hx, hy] at h1 ⊢
      have hrec : s.fromKindsScan isOperationTypeForOffsetsChange operationTrigger viewKind
          options rest = some o →
          ∃ pre post, a :: rest = pre ++ o :: post ∧
            (∀ x ∈ pre, x.operationTrigger.intersects operationTrigger = true ∨
              x.isCanceled = true) ∧
            o.operationTrigger.intersects operationTrigger = true ∧ o.IsQueued = true ∧
            o.IsUnqueueing = false ∧ o.isCanceled = false ∧
            ∃ v, o.viewChangeBase = some v ∧
              (o.operationType ≠ .TryUpdatePositionWithAdditionalVelocity →
                o.operationType ≠ .TryUpdateScaleWithAdditionalVelocity →
                s.kindsAgree v viewKind options = true ∧
                (isOperationTypeForOffsetsChange = true ↔
                  (o.operationType = .TryUpdatePosition ∨
                    o.operationType = .TryUpdatePositionBy ∨
                    o.operationType = .TryUpdatePositionWithAnimation))) := by
        intro hr
        obtain ⟨pre, post, hl, hpre, hrest⟩ := ih hr
        refine ⟨a :: pre, post, by rw [hl]; rfl, ?_, hrest⟩
        intro x hx
        rcases List.mem_cons.mp hx with hx | hx
        · rw [hx]; exact ha
        · exact hpre x hx
      cases hv : a.viewChangeBase with
      | none =>
        simp only [hv] at h
        exact hrec h
      | some v =>
        simp only [hv] at h
        by_cases h2 : (!(a.operationTrigger.intersects operationTrigger) || !a.IsQueued ||
            a.IsUnqueueing || a.isCanceled) = true
        · rw [if_pos h2] at h
          exact hrec h
        · rw [if_neg h2] at h
          simp only [Bool.or_eq_true, Bool.not_eq_true', not_or, Bool.not_eq_false,
            Bool.not_eq_true] at h2
          obtain ⟨⟨⟨h21, h22⟩, h23⟩, h24⟩ := h2
          by_cases hk : s.kindsAgree v viewKind options = true
          · cases ht : a.operationType <;> cases isOperationTypeForOffsetsChange <;>
              simp only [ht, hk, Bool.not_true, Bool.not_false, Bool.false_eq_true,
                if_true, if_false, Option.some.injEq] at h <;>
              first
              | exact hrec h
              | (subst h
                 refine ⟨[], rest, rfl, (fun x hx => by cases hx), h21, h22, h23, h24, v, hv, ?_⟩
                 intro hn1 hn2
                 simp_all)
          · cases ht : a.operationType <;> cases isOperationTypeForOffsetsChange <;>
              simp only [ht, hk, Bool.not_true, Bool.not_false, Bool.false_eq_true,
                if_true, if_false, Option.some.injEq] at h <;>
              first
              | exact hrec h
              | (subst h
                 refine ⟨[], rest, rfl, (fun x hx => by cases hx), h21, h22, h23, h24, v, hv, ?_⟩
                 intro hn1 hn2
                 simp_all)

/-- The model on well-known values of the `double` and `float` formats: 0.1 is
`0x1.999999999999ap-4`; 0.1 + 0.2 is 0.30000000000000004, not 0.3; 0.1 * 0.1 is
`0x1.47ae147ae147cp-7`; 1 / 3 is `0x1.5555555555555p-2`; the square root of 2 is
`0x1.6a09e667f3bcdp+0`; the `float` nearest to 0.1 is `0x1.99999ap-4`. -/
theorem Double_operations_on_known_values :
    (Double.ofRatio 1 10).units = 3602879701896397 * 2 ^ 1019 ∧
    Double.ofRatio 1 10 + Double.ofRatio 2 10 =
      Double.ofRatio 30000000000000004 100000000000000000 ∧
    Double.ofRatio 1 10 + Double.ofRatio 2 10 ≠ Double.ofRatio 3 10 ∧
    (Double.ofRatio 1 10 * Double.ofRatio 1 10).units = 1441151880758559 * 2 ^ 1017 ∧
    (Double.ofInt 1 / Double.ofInt 3).units = 6004799503160661 * 2 ^ 1020 ∧
    (Double.sqrt (Double.ofInt 2)).units = 6369051672525773 * 2 ^ 1022 ∧
    (Double.toSingle (Double.ofRatio 1 10)).units = 13421773 * 2 ^ 1047 := by
  decide!

/-- An `int64_t` result within the range of the type is the mathematical result. -/
theorem wrapInt64_eq (x : Int) (h1 : -9223372036854775808 ≤ x) (h2 : x < 9223372036854775808) :
    wrapInt64 x = x := by
  unfold wrapInt64
  omega

/-- The duration of an animation in terms of the distance when the product fits. -/
theorem animationDuration_eq (d unitDuration minDuration maxDuration : Int)
    (hmm : minDuration ≤ maxDuration)
    (hlo : -9223372036854775808 ≤ minDuration * 10000)
    (hhi : maxDuration * 10000 < 9223372036854775808)
    (h1 : -9223372036854775808 ≤ d * unitDuration) (h2 : d * unitDuration < 9223372036854775808) :
    wrapInt64 (stdClamp (wrapInt64 (d * unitDuration)) minDuration maxDuration * 10000) =
      min (max (d * unitDuration) minDuration) maxDuration * 10000 := by
  rw [wrapInt64_eq _ h1 h2, stdClamp_eq_min_max _ _ _ hmm]
  have hb : minDuration ≤ min (max (d * unitDuration) minDuration) maxDuration ∧
      min (max (d * unitDuration) minDuration) maxDuration ≤ maxDuration :=
    ⟨le_min (le_max_right _ _) hmm, min_le_right _ _⟩
  apply wrapInt64_eq <;> omega

/-- The duration of an animation lies between the bounds, whatever the product. -/
theorem animationDuration_mem (x minDuration maxDuration : Int)
    (hmm : minDuration ≤ maxDuration)
    (hlo : -9223372036854775808 ≤ minDuration * 10000)
    (hhi : maxDuration * 10000 < 9223372036854775808) :
    minDuration * 10000 ≤ wrapInt64 (stdClamp x minDuration maxDuration * 10000) ∧
    wrapInt64 (stdClamp x minDuration maxDuration * 10000) ≤ maxDuration * 10000 := by
  rw [stdClamp_eq_min_max _ _ _ hmm]
  have hb : minDuration ≤ min (max x minDuration) maxDuration ∧
      min (max x minDuration) maxDuration ≤ maxDuration :=
    ⟨le_min (le_max_right _ _) hmm, min_le_right _ _⟩
  rw [wrapInt64_eq] <;> omega

/-- With a per-unit duration that is not negative, the duration of an animation does not
decrease with the distance, as long as the products fit in `int64_t`. -/
theorem animationDuration_mono (d e unitDuration minDuration maxDuration : Int)
    (hmm : minDuration ≤ maxDuration)
    (hlo : -9223372036854775808 ≤ minDuration * 10000)
    (hhi : maxDuration * 10000 < 9223372036854775808)
    (hu : 0 ≤ unitDuration) (hd : 0 ≤ d) (hde : d ≤ e)
    (he : e * unitDuration < 9223372036854775808) :
    wrapInt64 (stdClamp (wrapInt64 (d * unitDuration)) minDuration maxDuration * 10000) ≤
      wrapInt64 (stdClamp (wrapInt64 (e * unitDuration)) minDuration maxDuration * 10000) := by
  have h1 : 0 ≤ d * unitDuration := mul_nonneg hd hu
  have h2 : d * unitDuration ≤ e * unitDuration := Int.mul_le_mul_of_nonneg_right hde hu
  rw [animationDuration_eq d _ _ _ hmm hlo hhi (by omega) (by omega),
    animationDuration_eq e _ _ _ hmm hlo hhi (by omega) he]
  have := clamp_mono _ _ minDuration maxDuration h2
  omega

/-- The conversion to `int64_t` of a `double` that is not negative and is below `2^63`
is its integer part. -/
theorem toInt64_floor (a : Double) (h0 : 0 ≤ a.units) (h : a.toRat < 9223372036854775808) :
    0 ≤ Double.toInt64 a ∧ (Double.toInt64 a : ℚ) ≤ a.toRat ∧
      a.toRat < (Double.toInt64 a : ℚ) + 1 := by
  obtain ⟨u⟩ := a
  simp only at h0
  obtain ⟨n, rfl⟩ := Int.eq_ofNat_of_zero_le h0
  obtain ⟨P, hP, hPq, hPn⟩ : ∃ P : ℕ, 0 < P ∧ (2 : ℚ) ^ Double.unitExponent = (P : ℚ) ∧
      2 ^ Double.unitExponent = P :=
    ⟨2 ^ Double.unitExponent, Nat.pow_pos (by decide), by rw [Nat.cast_pow, Nat.cast_ofNat], rfl⟩
  unfold Double.toRat at h ⊢
  unfold Double.toInt64
  simp only [Int.natAbs_ofNat, hPq, hPn, Int.cast_natCast] at h ⊢
  have hp : (0 : ℚ) < (P : ℚ) := by exact_mod_cast hP
  have hq : ((n / P : ℕ) : ℚ) ≤ (n : ℚ) / P := by
    rw [le_div_iff₀ hp]
    exact_mod_cast Nat.div_mul_le_self n _
  have hq2 : (n : ℚ) / P < ((n / P : ℕ) : ℚ) + 1 := by
    rw [div_lt_iff₀ hp]
    have h3 : n < (n / P + 1) * P := by
      rw [← Nat.div_lt_iff_lt_mul hP]
      exact Nat.lt_succ_self _
    exact_mod_cast h3
  have ht : ((n / P : ℕ) : Int) < 9223372036854775808 := by
    have h4 : ((n / P : ℕ) : ℚ) < 9223372036854775808 := lt_of_le_of_lt hq h
    exact_mod_cast h4
  have hn : ¬ ((n : Int) < 0) := by omega
  have hr : -9223372036854775808 ≤ ((n / P : ℕ) : Int) ∧
      ((n / P : ℕ) : Int) < 9223372036854775808 :=
    ⟨by have := Int.ofNat_nonneg (n / P); omega, ht⟩
  simp only [hn, if_false, hr, and_self, if_true]
  refine ⟨Int.ofNat_nonneg _, ?_, ?_⟩
  · exact_mod_cast hq
  · exact_mod_cast hq2

/-- A square root of the model is never negative. -/
theorem sqrt_units_nonneg (a : Double) : 0 ≤ (Double.sqrt a).units := by
  unfold Double.sqrt
  split_ifs
  · exact le_refl _
  · exact Int.ofNat_nonneg _

/-- An absolute value of the model is never negative. -/
theorem abs_units_nonneg (a : Double) : 0 ≤ (Double.abs a).units := Int.ofNat_nonneg _

/-- C19 (as stated, refuted): for a target zoom factor of 3/2 from the confirmed zoom factor
1, with 250 ms per unit and bounds of 50 ms and 1000 ms, `GetZoomFactorAnimation` gives the
animation a duration of 50 ms (500000 units of 100 ns), whereas the linear distance 1/2
times 250, clamped between 50 and 1000, is 125. -/
theorem GetZoomFactorAnimation_duration_not_clamped_distance :
    sampleDoubleView.m_zoomFactor.toRat = 1 ∧
    (Double.ofRatio 3 2).toRat = 3 / 2 ∧
    GetZoomFactorAnimation sampleDoubleView (Double.ofRatio 3 2) 250 50 1000 = 50 * 10000 ∧
    min (max (|(3 / 2 : ℚ) - 1| * 250) 50) 1000 = 125 := by
  have h1 : sampleDoubleView.m_zoomFactor.units = 2 ^ 1074 := by decide!
  have h2 : (Double.ofRatio 3 2).units = 3 * 2 ^ 1073 := by decide!
  refine ⟨?_, ?_, by decide!, ?_⟩
  · unfold Double.toRat Double.unitExponent
    rw [h1]
    norm_num
  · unfold Double.toRat Double.unitExponent
    rw [h2]
    norm_num
  · norm_num [abs_of_pos]

/-- A target offset of `10 ^ 19` from the confirmed offset 0: the distance is outside the
range of `int64_t`, its conversion gives `-2^63` and the animation gets the minimum
duration, 50 ms, not the maximum. -/
theorem GetPositionAnimation_distance_out_of_range :
    positionAnimationDistance sampleDoubleView (Double.ofInt (10 ^ 19)) (Double.ofInt 0) =
      -9223372036854775808 ∧
    GetPositionAnimation sampleDoubleView (Double.ofInt (10 ^ 19)) (Double.ofInt 0) 1 50 1000 =
      50 * 10000 := by
  decide!

/-- C19 (amended): the `Duration` of the default keyframe animation is, in milliseconds,
`clamp (d * msPerUnit, minMs, maxMs)` (the code stores it times 10000, in units of 100 ns),
where `d` is the local `distance`, as long as `d * msPerUnit` fits in `int64_t`.  The
distance `d` is the integer part of the distance computed in floating point,
`sqrt (pow (dx, 2.0) + pow (dy, 2.0))` in `double` arithmetic for `GetPositionAnimation` and
`abs (zoomFactor - m_zoomFactor)` in `float` arithmetic for `GetZoomFactorAnimation`, as
long as that distance is below `2^63`.  With `minMs ≤ maxMs` (and bounds whose product by
10000 fits in `int64_t`) the duration lies in `[minMs, maxMs]` in every case, and with
`msPerUnit ≥ 0` it does not decrease when `d` grows, as long as the products fit. -/
theorem animation_duration_clamps_truncated_distance (view : ScrollPresenterView Double)
    (zoomedHorizontalOffset zoomedVerticalOffset zoomFactor : Double)
    (unitDuration minDuration maxDuration : Int) (hmm : minDuration ≤ maxDuration)
    (hlo : -9223372036854775808 ≤ minDuration * 10000)
    (hhi : maxDuration * 10000 < 9223372036854775808) :
    ((Double.sqrt (Double.powTwo (zoomedHorizontalOffset - view.m_zoomedHorizontalOffset) +
        Double.powTwo (zoomedVerticalOffset - view.m_zoomedVerticalOffset))).toRat <
        9223372036854775808 →
      0 ≤ positionAnimationDistance view zoomedHorizontalOffset zoomedVerticalOffset ∧
      (positionAnimationDistance view zoomedHorizontalOffset zoomedVerticalOffset : ℚ) ≤
        (Double.sqrt (Double.powTwo (zoomedHorizontalOffset - view.m_zoomedHorizontalOffset) +
          Double.powTwo (zoomedVerticalOffset - view.m_zoomedVerticalOffset))).toRat ∧
      (Double.sqrt (Double.powTwo (zoomedHorizontalOffset - view.m_zoomedHorizontalOffset) +
          Double.powTwo (zoomedVerticalOffset - view.m_zoomedVerticalOffset))).toRat <
        (positionAnimationDistance view zoomedHorizontalOffset zoomedVerticalOffset : ℚ) + 1) ∧
    ((Double.abs (Double.subSingle zoomFactor view.m_zoomFactor)).toRat < 9223372036854775808 →
      0 ≤ zoomFactorAnimationDistance view zoomFactor ∧
      (zoomFactorAnimationDistance view zoomFactor : ℚ) ≤
        (Double.abs (Double.subSingle zoomFactor view.m_zoomFactor)).toRat ∧
      (Double.abs (Double.subSingle zoomFactor view.m_zoomFactor)).toRat <
        (zoomFactorAnimationDistance view zoomFactor : ℚ) + 1) ∧
    (-9223372036854775808 ≤
        positionAnimationDistance view zoomedHorizontalOffset zoomedVerticalOffset * unitDuration →
      positionAnimationDistance view zoomedHorizontalOffset zoomedVerticalOffset * unitDuration <
        9223372036854775808 →
      GetPositionAnimation view zoomedHorizontalOffset zoomedVerticalOffset unitDuration
          minDuration maxDuration =
        min (max (positionAnimationDistance view zoomedHorizontalOffset zoomedVerticalOffset *
          unitDuration) minDuration) maxDuration * 10000) ∧
    (-9223372036854775808 ≤ zoomFactorAnimationDistance view zoomFactor * unitDuration →
      zoomFactorAnimationDistance view zoomFactor * unitDuration < 9223372036854775808 →
      GetZoomFactorAnimation view zoomFactor unitDuration minDuration maxDuration =
        min (max (zoomFactorAnimationDistance view zoomFactor * unitDuration) minDuration)
          maxDuration * 10000) ∧
    (minDuration * 10000 ≤ GetPositionAnimation view zoomedHorizontalOffset zoomedVerticalOffset
        unitDuration minDuration maxDuration ∧
      GetPositionAnimation view zoomedHorizontalOffset zoomedVerticalOffset unitDuration
        minDuration maxDuration ≤ maxDuration * 10000) ∧
    (minDuration * 10000 ≤
        GetZoomFactorAnimation view zoomFactor unitDuration minDuration maxDuration ∧
      GetZoomFactorAnimation view zoomFactor unitDuration minDuration maxDuration ≤
        maxDuration * 10000) ∧
    (0 ≤ unitDuration → ∀ h v : Double,
      0 ≤ positionAnimationDistance view zoomedHorizontalOffset zoomedVerticalOffset →
      positionAnimationDistance view zoomedHorizontalOffset zoomedVerticalOffset ≤
        positionAnimationDistance view h v →
      positionAnimationDistance view h v * unitDuration < 9223372036854775808 →
      GetPositionAnimation view zoomedHorizontalOffset zoomedVerticalOffset unitDuration
          minDuration maxDuration ≤
        GetPositionAnimation view h v unitDuration minDuration maxDuration) ∧
    (0 ≤ unitDuration → ∀ z : Double,
      0 ≤ zoomFactorAnimationDistance view zoomFactor →
      zoomFactorAnimationDistance view zoomFactor ≤ zoomFactorAnimationDistance view z →
      zoomFactorAnimationDistance view z * unitDuration < 9223372036854775808 →
      GetZoomFactorAnimation view zoomFactor unitDuration minDuration maxDuration ≤
        GetZoomFactorAnimation view z unitDuration minDuration maxDuration) := by
  refine ⟨fun h => toInt64_floor _ (sqrt_units_nonneg _) h,
    fun h => toInt64_floor _ (abs_units_nonneg _) h,
    fun h1 h2 => animationDuration_eq _ _ _ _ hmm hlo hhi h1 h2,
    fun h1 h2 => animationDuration_eq _ _ _ _ hmm hlo hhi h1 h2,
    animationDuration_mem _ _ _ hmm hlo hhi, animationDuration_mem _ _ _ hmm hlo hhi,
    fun hu h v hd hde he => animationDuration_mono _ _ _ _ _ hmm hlo hhi hu hd hde he,
    fun hu z hd hde he => animationDuration_mono _ _ _ _ _ hmm hlo hhi hu hd hde he⟩

/-- C19 (amended, witness): a scroll to (30, 40) and a zoom to 3/2 on the sample view, with
2 ms per unit and bounds of 50 ms and 1000 ms: the distances are 50 and 0, the durations
100 ms and 50 ms. -/
theorem animation_duration_clamps_truncated_distance_witness :
    ((50 : Int) ≤ 1000 ∧ (-9223372036854775808 : Int) ≤ 50 * 10000 ∧
      (1000 : Int) * 10000 < 9223372036854775808) ∧
    (positionAnimationDistance sampleDoubleView (Double.ofInt 30) (Double.ofInt 40) = 50 ∧
      zoomFactorAnimationDistance sampleDoubleView (Double.ofRatio 3 2) = 0) ∧
    GetPositionAnimation sampleDoubleView (Double.ofInt 30) (Double.ofInt 40) 2 50 1000 =
      min (max (positionAnimationDistance sampleDoubleView (Double.ofInt 30) (Double.ofInt 40) *
        2) 50) 1000 * 10000 ∧
    (50 * 10000 ≤ GetZoomFactorAnimation sampleDoubleView (Double.ofRatio 3 2) 2 50 1000 ∧
      GetZoomFactorAnimation sampleDoubleView (Double.ofRatio 3 2) 2 50 1000 ≤ 1000 * 10000) :=
  ⟨by decide, by decide!,
    (animation_duration_clamps_truncated_distance sampleDoubleView (Double.ofInt 30)
      (Double.ofInt 40) (Double.ofRatio 3 2) 2 50 1000 (by decide) (by decide)
      (by decide)).2.2.1 (by decide!) (by decide!),
    (animation_duration_clamps_truncated_distance sampleDoubleView (Double.ofInt 30)
      (Double.ofInt 40) (Double.ofRatio 3 2) 2 50 1000 (by decide) (by decide)
      (by decide)).2.2.2.2.2.1⟩

/-- C28 (failing input): in `double` arithmetic the applied-offset step can push the target
above the scrollable width.  The content is 3.9 wide in a viewport 1 wide, so that
`ScrollableWidth` is the `double` 2.9; the view is at the horizontal offset 0.7 and shows
the element, so that the target before the extra offset is 0.7; the requested extra offset
is -100.  The applied offset is `-(2.9 - 0.7)`, which rounds to -2.2000000000000002, and
the target `0.7 - (-2.2000000000000002)` rounds to 2.9000000000000004, one unit in the last
place (`2 ^ 1023` units of the model) above `ScrollableWidth`: the check
`MUX_ASSERT (targetZoomedHorizontalOffsetTmp <= scrollableWidth)` fails and, the
snap-points mode being `Ignore`, that target is returned. -/
theorem ComputeBringIntoViewTargetOffsets_exceeds_ScrollableWidth :
    ScrollableWidth sampleBringIntoViewView = Double.ofRatio 29 10 ∧
    (Double.toSingle sampleBringIntoViewView.m_viewportWidth =
        sampleBringIntoViewView.m_viewportWidth ∧
      Double.toSingle sampleBringIntoViewView.m_zoomFactor =
        sampleBringIntoViewView.m_zoomFactor ∧
      Double.toSingle sampleDescendantBounds.X = sampleDescendantBounds.X) ∧
    (ComputeBringIntoViewTargetOffsets sampleBringIntoViewView sampleDescendantBounds .Ignore
      none none (Double.ofInt (-100)) (Double.ofInt 0)).appliedOffsetX =
      -(Double.ofRatio 29 10 - Double.ofRatio 7 10) ∧
    (ComputeBringIntoViewTargetOffsets sampleBringIntoViewView sampleDescendantBounds .Ignore
      none none (Double.ofInt (-100)) (Double.ofInt 0)).targetZoomedHorizontalOffset.units =
      (Double.ofRatio 29 10).units + 2 ^ 1023 ∧
    ScrollableWidth sampleBringIntoViewView <
      (ComputeBringIntoViewTargetOffsets sampleBringIntoViewView sampleDescendantBounds .Ignore
        none none (Double.ofInt (-100)) (Double.ofInt 0)).targetZoomedHorizontalOffset ∧
    (ComputeBringIntoViewTargetOffsets sampleBringIntoViewView sampleDescendantBounds .Ignore
      none none (Double.ofInt (-100)) (Double.ofInt 0)).boundsAfterAppliedOffset = false := by
  decide!

/-- The same failure at pixel scale: a content 651.4 wide in a viewport 200 wide at the
`float` zoom factor nearest to 1.1, scrolled to the offset 100, and an element 1 wide at the
`float` abscissa nearest to 4.1, with a requested extra offset of -1000000.  The target
that is returned exceeds `ScrollableWidth`. -/
theorem ComputeBringIntoViewTargetOffsets_exceeds_ScrollableWidth_at_pixel_scale :
    (ComputeBringIntoViewTargetOffsets samplePixelView samplePixelBounds .Ignore
      none none (Double.ofInt (-1000000)) (Double.ofInt 0)).boundsAfterAppliedOffset = false ∧
    ScrollableWidth samplePixelView <
      (ComputeBringIntoViewTargetOffsets samplePixelView samplePixelBounds .Ignore
        none none (Double.ofInt (-1000000)) (Double.ofInt 0)).targetZoomedHorizontalOffset := by
  decide!

/-- Raising a completion event changes neither the latest correlation ID nor the content. -/
theorem RaiseViewChangeCompleted_correlation (s : ScrollPresenter α) (b : Bool)
    (r : ScrollPresenterViewChangeResult) (c : Int) :
    (s.RaiseViewChangeCompleted b r c).m_latestViewChangeCorrelationId =
      s.m_latestViewChangeCorrelationId ∧
    (s.RaiseViewChangeCompleted b r c).Content = s.Content := by
  unfold RaiseViewChangeCompleted
  split_ifs <;> exact ⟨rfl, rfl⟩

/-- Completing an operation changes neither the latest correlation ID nor the content. -/
theorem CompleteViewChange_correlation (s : ScrollPresenter α)
    (o : InteractionTrackerAsyncOperation α) (r : ScrollPresenterViewChangeResult) :
    (s.CompleteViewChange o r).m_latestViewChangeCorrelationId =
      s.m_latestViewChangeCorrelationId ∧
    (s.CompleteViewChange o r).Content = s.Content := by
  unfold CompleteViewChange
  simp only []
  split_ifs <;> split <;>
    simp [emit, updateOperation, (RaiseViewChangeCompleted_correlation _ _ _ _).1,
      (RaiseViewChangeCompleted_correlation _ _ _ _).2]

/-- One step of the completion sweep changes neither the latest correlation ID nor the
content. -/
theorem completeOperationStep_correlation (requestId : Int)
    (r1 r2 r3 : ScrollPresenterViewChangeResult) (b1 b2 b3 b4 : Bool)
    (s : ScrollPresenter α) (o : InteractionTrackerAsyncOperation α) :
    (completeOperationStep requestId r1 r2 r3 b1 b2 b3 b4 s o).m_latestViewChangeCorrelationId =
      s.m_latestViewChangeCorrelationId ∧
    (completeOperationStep requestId r1 r2 r3 b1 b2 b3 b4 s o).Content = s.Content := by
  rw [completeOperationStep_eq]
  have h0 : ((s.CompleteViewChange o (sweepResult requestId r1 r2 r3 o)).removeOperation
      o).m_latestViewChangeCorrelationId = s.m_latestViewChangeCorrelationId ∧
      ((s.CompleteViewChange o (sweepResult requestId r1 r2 r3 o)).removeOperation
      o).Content = s.Content :=
    ⟨(CompleteViewChange_correlation s o _).1, (CompleteViewChange_correlation s o _).2⟩
  have hP : ∀ (t : ScrollPresenter α) (x : InteractionTrackerAsyncOperation α),
      (t.PostProcessOffsetsChange x).m_latestViewChangeCorrelationId =
        t.m_latestViewChangeCorrelationId ∧ (t.PostProcessOffsetsChange x).Content = t.Content := by
    intro t x
    unfold PostProcessOffsetsChange
    simp only []
    split_ifs <;> exact ⟨rfl, rfl⟩
  have hZ : ∀ (t : ScrollPresenter α) (x : InteractionTrackerAsyncOperation α),
      (t.PostProcessZoomFactorChange x).m_latestViewChangeCorrelationId =
        t.m_latestViewChangeCorrelationId ∧
      (t.PostProcessZoomFactorChange x).Content = t.Content := by
    intro t x
    unfold PostProcessZoomFactorChange
    simp only []
    split_ifs <;> exact ⟨rfl, rfl⟩
  split_ifs with h
  · simp only []
    split <;> split_ifs <;>
      first
      | exact h0
      | exact ⟨(hP _ _).1.trans h0.1, (hP _ _).2.trans h0.2⟩
      | exact ⟨(hZ _ _).1.trans h0.1, (hZ _ _).2.trans h0.2⟩
  · exact ⟨rfl, rfl⟩

/-- The completion sweep changes neither the latest correlation ID nor the content. -/
theorem sweep_correlation (s : ScrollPresenter α) (requestId : Int)
    (r1 r2 r3 : ScrollPresenterViewChangeResult) (b1 b2 b3 b4 : Bool) :
    (s.CompleteInteractionTrackerOperations requestId r1 r2 r3 b1 b2 b3
      b4).m_latestViewChangeCorrelationId = s.m_latestViewChangeCorrelationId ∧
    (s.CompleteInteractionTrackerOperations requestId r1 r2 r3 b1 b2 b3 b4).Content =
      s.Content := by
  have hfold : ∀ (l : List (InteractionTrackerAsyncOperation α)) (s : ScrollPresenter α),
      (l.foldl (completeOperationStep requestId r1 r2 r3 b1 b2 b3 b4)
        s).m_latestViewChangeCorrelationId = s.m_latestViewChangeCorrelationId ∧
      (l.foldl (completeOperationStep requestId r1 r2 r3 b1 b2 b3 b4) s).Content =
        s.Content := by
    intro l
    induction l with
    | nil => intro s; exact ⟨rfl, rfl⟩
    | cons o t ih =>
      intro s
      rw [List.foldl_cons]
      obtain ⟨h1, h2⟩ := completeOperationStep_correlation requestId r1 r2 r3 b1 b2 b3 b4 s o
      obtain ⟨i1, i2⟩ := ih (completeOperationStep requestId r1 r2 r3 b1 b2 b3 b4 s o)
      exact ⟨i1.trans h1, i2.trans h2⟩
  unfold CompleteInteractionTrackerOperations
  split_ifs
  · exact ⟨rfl, rfl⟩
  · exact hfold _ _

/-- Completing the delayed operations changes neither the latest correlation ID nor the
content. -/
theorem CompleteDelayedOperations_correlation (s : ScrollPresenter α) :
    s.CompleteDelayedOperations.m_latestViewChangeCorrelationId =
      s.m_latestViewChangeCorrelationId ∧
    s.CompleteDelayedOperations.Content = s.Content := by
  have hstep : ∀ (s : ScrollPresenter α) (o : InteractionTrackerAsyncOperation α),
      (completeDelayedStep s o).m_latestViewChangeCorrelationId =
        s.m_latestViewChangeCorrelationId ∧ (completeDelayedStep s o).Content = s.Content := by
    intro s o
    unfold completeDelayedStep
    simp only []
    split_ifs <;>
      first
      | exact ⟨rfl, rfl⟩
      | exact ⟨(CompleteViewChange_correlation s o _).1, (CompleteViewChange_correlation s o _).2⟩
  have hfold : ∀ (l : List (InteractionTrackerAsyncOperation α)) (s : ScrollPresenter α),
      (l.foldl completeDelayedStep s).m_latestViewChangeCorrelationId =
        s.m_latestViewChangeCorrelationId ∧
      (l.foldl completeDelayedStep s).Content = s.Content := by
    intro l
    induction l with
    | nil => intro s; exact ⟨rfl, rfl⟩
    | cons o t ih =>
      intro s
      rw [List.foldl_cons]
      exact ⟨(ih _).1.trans (hstep s o).1, (ih _).2.trans (hstep s o).2⟩
  unfold CompleteDelayedOperations
  split_ifs
  · exact ⟨rfl, rfl⟩
  · exact hfold _ _

/-- A change of state changes neither the latest correlation ID nor the content. -/
theorem UpdateState_correlation (s : ScrollPresenter α) (st : ScrollingInteractionState) :
    (s.UpdateState st).m_latestViewChangeCorrelationId = s.m_latestViewChangeCorrelationId ∧
    (s.UpdateState st).Content = s.Content := by
  unfold UpdateState
  simp only []
  split_ifs <;> exact ⟨rfl, rfl⟩

/-- One step of the tick walk changes neither the latest correlation ID nor the content. -/
theorem tickStep_correlation (tracker : Nat → Int) (s : ScrollPresenter α) (flag : Bool)
    (o : InteractionTrackerAsyncOperation α) :
    (tickStep tracker (s, flag) o).1.m_latestViewChangeCorrelationId =
      s.m_latestViewChangeCorrelationId ∧
    (tickStep tracker (s, flag) o).1.Content = s.Content := by
  unfold tickStep
  simp only []
  split_ifs <;>
    first
    | exact ⟨rfl, rfl⟩
    | (split <;> first
        | exact ⟨rfl, rfl⟩
        | (split_ifs <;> exact ⟨rfl, rfl⟩))
    | exact ⟨(CompleteViewChange_correlation _ _ _).1, (CompleteViewChange_correlation _ _ _).2⟩

/-- A tick changes neither the latest correlation ID nor the content. -/
theorem OnCompositionTargetRendering_correlation (s : ScrollPresenter α) (tracker : Nat → Int) :
    (s.OnCompositionTargetRendering tracker).m_latestViewChangeCorrelationId =
      s.m_latestViewChangeCorrelationId ∧
    (s.OnCompositionTargetRendering tracker).Content = s.Content := by
  have hfold : ∀ (l : List (InteractionTrackerAsyncOperation α)) (st : ScrollPresenter α × Bool),
      (l.foldl (tickStep tracker) st).1.m_latestViewChangeCorrelationId =
        st.1.m_latestViewChangeCorrelationId ∧
      (l.foldl (tickStep tracker) st).1.Content = st.1.Content := by
    intro l
    induction l with
    | nil => intro st; exact ⟨rfl, rfl⟩
    | cons o t ih =>
      intro st
      rw [List.foldl_cons]
      obtain ⟨s0, flag⟩ := st
      exact ⟨(ih _).1.trans (tickStep_correlation tracker s0 flag o).1,
        (ih _).2.trans (tickStep_correlation tracker s0 flag o).2⟩
  unfold OnCompositionTargetRendering
  split_ifs
  · exact hfold _ _
  · exact ⟨rfl, rfl⟩

/-- The next correlation ID only depends on the latest one. -/
theorem GetNextViewChangeCorrelationId_congr (s t : ScrollPresenter α)
    (h : t.m_latestViewChangeCorrelationId = s.m_latestViewChangeCorrelationId) :
    t.GetNextViewChangeCorrelationId = s.GetNextViewChangeCorrelationId := by
  unfold GetNextViewChangeCorrelationId
  rw [h]

/-- What `ChangeOffsetsPrivate` does with the correlation IDs of a presenter with content:
without an existing ID, a caller that passes the out-parameter is returned the next ID,
which becomes the latest; otherwise the latest ID is left as it is. -/
theorem ChangeOffsetsPrivate_correlation (s : ScrollPresenter α)
    (zoomedHorizontalOffset zoomedVerticalOffset : α) (offsetsKind : ScrollPresenterViewKind)
    (options : Option ScrollingOptions)
    (bringIntoViewRequestedEventArgs : Option (BringIntoViewData α))
    (operationTrigger : InteractionTrackerAsyncOperationTrigger)
    (existingViewChangeCorrelationId : Int) (viewChangeCorrelationId : Bool)
    (hc : s.Content = true) :
    (s.ChangeOffsetsPrivate zoomedHorizontalOffset zoomedVerticalOffset offsetsKind options
      bringIntoViewRequestedEventArgs operationTrigger existingViewChangeCorrelationId
      viewChangeCorrelationId).1.Content = true ∧
    (s.ChangeOffsetsPrivate zoomedHorizontalOffset zoomedVerticalOffset offsetsKind options
      bringIntoViewRequestedEventArgs operationTrigger existingViewChangeCorrelationId
      viewChangeCorrelationId).1.m_latestViewChangeCorrelationId =
      (if (viewChangeCorrelationId && existingViewChangeCorrelationId == s_noOpCorrelationId) = true
        then s.GetNextViewChangeCorrelationId else s.m_latestViewChangeCorrelationId) ∧
    ((viewChangeCorrelationId && existingViewChangeCorrelationId == s_noOpCorrelationId) = true →
      (s.ChangeOffsetsPrivate zoomedHorizontalOffset zoomedVerticalOffset offsetsKind options
        bringIntoViewRequestedEventArgs operationTrigger existingViewChangeCorrelationId
        viewChangeCorrelationId).2 = some s.GetNextViewChangeCorrelationId) := by
  obtain ⟨s1, hs1, hl, hc1⟩ : ∃ s1 : ScrollPresenter α,
      (if (!(!s.IsLoadedAndSetUp)) = true then s.CompleteDelayedOperations else s) = s1 ∧
      s1.m_latestViewChangeCorrelationId = s.m_latestViewChangeCorrelationId ∧
      s1.Content = s.Content := by
    refine ⟨_, rfl, ?_, ?_⟩ <;> split_ifs <;>
      first
      | rfl
      | exact (CompleteDelayedOperations_correlation s).1
      | exact (CompleteDelayedOperations_correlation s).2
  have hg := GetNextViewChangeCorrelationId_congr s s1 hl
  unfold ChangeOffsetsPrivate
  simp only [hc, Bool.not_true, Bool.false_eq_true, if_false, hs1]
  simp only [pushOperation, assignNewCorrelationId, storeNextViewChangeCorrelationId,
    updateOperation, if_true]
  cases viewChangeCorrelationId <;>
    by_cases he : existingViewChangeCorrelationId = s_noOpCorrelationId <;>
    simp [he, hc1, hc, hl, ← hg, GetNextViewChangeCorrelationId]

/-- What the three other entry points do with the correlation IDs of a presenter with
content: a caller that passes the out-parameter is returned the next ID, which becomes the
latest; otherwise the latest ID is left as it is. -/
theorem assignNewCorrelationId_correlation (s s2 : ScrollPresenter α)
    (o : InteractionTrackerAsyncOperation α) (viewChangeCorrelationId : Bool)
    (hl : s2.m_latestViewChangeCorrelationId = s.m_latestViewChangeCorrelationId)
    (hc : s2.Content = true) :
    (s2.assignNewCorrelationId o viewChangeCorrelationId).1.Content = true ∧
    (s2.assignNewCorrelationId o viewChangeCorrelationId).1.m_latestViewChangeCorrelationId =
      (if viewChangeCorrelationId = true then s.GetNextViewChangeCorrelationId
        else s.m_latestViewChangeCorrelationId) ∧
    (viewChangeCorrelationId = true →
      (s2.assignNewCorrelationId o viewChangeCorrelationId).2 =
        some s.GetNextViewChangeCorrelationId) := by
  have hg := GetNextViewChangeCorrelationId_congr s s2 hl
  cases viewChangeCorrelationId <;>
    simp [assignNewCorrelationId, storeNextViewChangeCorrelationId, updateOperation, hc, hl, hg]

/-- The completion of the delayed operations at the start of an admission changes neither
the latest correlation ID nor the content. -/
theorem delayedOrNot_correlation (s : ScrollPresenter α) :
    (if (!(!s.IsLoadedAndSetUp)) = true then s.CompleteDelayedOperations
      else s).m_latestViewChangeCorrelationId = s.m_latestViewChangeCorrelationId ∧
    (if (!(!s.IsLoadedAndSetUp)) = true then s.CompleteDelayedOperations else s).Content =
      s.Content := by
  split_ifs
  · exact CompleteDelayedOperations_correlation s
  · exact ⟨rfl, rfl⟩

/-- One event of a presenter with content: the content stays, a request that mints a
correlation ID is returned the next ID, which becomes the latest, and every other event
leaves the latest ID as it is. -/
theorem handleEvent_correlation (s : ScrollPresenter α) (e : PresenterEvent α)
    (hc : s.Content = true) :
    (s.handleEvent e).Content = true ∧
    (s.handleEvent e).m_latestViewChangeCorrelationId =
      (if mintsCorrelationId e = true then s.GetNextViewChangeCorrelationId
        else s.m_latestViewChangeCorrelationId) ∧
    (mintsCorrelationId e = true →
      s.returnedCorrelationIdOfEvent e = some s.GetNextViewChangeCorrelationId) := by
  have hd := delayedOrNot_correlation s
  cases e with
  | ChangeOffsets a b c d e f g i =>
    exact ChangeOffsetsPrivate_correlation s a b c d e f g i hc
  | ChangeOffsetsWithAdditionalVelocity a b c d e =>
    simp only [handleEvent, mintsCorrelationId, returnedCorrelationIdOfEvent,
      ChangeOffsetsWithAdditionalVelocityPrivate, hc, Bool.not_true, Bool.false_eq_true,
      if_false]
    exact assignNewCorrelationId_correlation s _ _ _ (by simpa [pushOperation] using hd.1)
      (by simpa [pushOperation, hc] using hd.2)
  | ChangeZoomFactor a b c d e =>
    simp only [handleEvent, mintsCorrelationId, returnedCorrelationIdOfEvent,
      ChangeZoomFactorPrivate, hc, Bool.not_true, Bool.false_eq_true, if_false]
    exact assignNewCorrelationId_correlation s _ _ _
      (by simpa [pushOperation, updateOperation] using hd.1)
      (by simpa [pushOperation, updateOperation, hc] using hd.2)
  | ChangeZoomFactorWithAdditionalVelocity a b c d e f =>
    simp only [handleEvent, mintsCorrelationId, returnedCorrelationIdOfEvent,
      ChangeZoomFactorWithAdditionalVelocityPrivate, hc, Bool.not_true, Bool.false_eq_true,
      if_false]
    exact assignNewCorrelationId_correlation s _ _ _ (by simpa [pushOperation] using hd.1)
      (by simpa [pushOperation, hc] using hd.2)
  | CompositionTargetRendering tracker =>
    simp only [handleEvent, mintsCorrelationId, Bool.false_eq_true, if_false, false_implies,
      and_true]
    exact ⟨(OnCompositionTargetRendering_correlation s tracker).2.trans hc,
      (OnCompositionTargetRendering_correlation s tracker).1⟩
  | IdleStateEntered RequestId =>
    simp only [handleEvent, mintsCorrelationId, Bool.false_eq_true, if_false, false_implies,
      and_true, IdleStateEntered]
    split_ifs <;>
      simp only [(sweep_correlation _ _ _ _ _ _ _ _ _).1, (sweep_correlation _ _ _ _ _ _ _ _ _).2,
        (UpdateState_correlation _ _).1, (UpdateState_correlation _ _).2, hc, and_self]
  | InteractingStateEntered =>
    have h0 : (if s.m_state = .Inertia then
        s.ResetOffsetsInertiaDecayRate.ResetZoomFactorInertiaDecayRate
        else s).m_latestViewChangeCorrelationId = s.m_latestViewChangeCorrelationId ∧
        (if s.m_state = .Inertia then
        s.ResetOffsetsInertiaDecayRate.ResetZoomFactorInertiaDecayRate
        else s).Content = s.Content := by
      split_ifs <;> exact ⟨rfl, rfl⟩
    simp only [handleEvent, mintsCorrelationId, Bool.false_eq_true, if_false, false_implies,
      and_true, InteractingStateEntered]
    generalize (if s.m_state = .Inertia then
      s.ResetOffsetsInertiaDecayRate.ResetZoomFactorInertiaDecayRate else s) = s1 at h0 ⊢
    split_ifs <;>
      simp only [(sweep_correlation _ _ _ _ _ _ _ _ _).1, (sweep_correlation _ _ _ _ _ _ _ _ _).2,
        (UpdateState_correlation _ _).1, (UpdateState_correlation _ _).2, h0.1, h0.2, hc,
        and_self]
  | RequestIgnored RequestId =>
    simp only [handleEvent, mintsCorrelationId, Bool.false_eq_true, if_false, false_implies,
      and_true, RequestIgnored]
    split_ifs <;>
      simp only [(sweep_correlation _ _ _ _ _ _ _ _ _).1, (sweep_correlation _ _ _ _ _ _ _ _ _).2,
        hc, and_self]
  | ValuesChanged RequestId =>
    simp only [handleEvent, mintsCorrelationId, Bool.false_eq_true, if_false, false_implies,
      and_true, ValuesChanged]
    split_ifs <;>
      simp only [(sweep_correlation _ _ _ _ _ _ _ _ _).1, (sweep_correlation _ _ _ _ _ _ _ _ _).2,
        hc, and_self]
  | Loaded isLoaded =>
    simp only [handleEvent, mintsCorrelationId, Bool.false_eq_true, if_false, false_implies,
      and_true]
    exact hc
  | InteractionTrackerSetUp isSetUp =>
    simp only [handleEvent, mintsCorrelationId, Bool.false_eq_true, if_false, false_implies,
      and_true]
    exact hc

/-- The correlation IDs minted along a sequence of events are the successors of the latest
ID, in order, and the latest ID stays between 0 and `INT_MAX`. -/
theorem mintedCorrelationIds_eq (events : List (PresenterEvent α)) (s : ScrollPresenter α)
    (hc : s.Content = true)
    (h0 : 0 ≤ s.m_latestViewChangeCorrelationId)
    (h1 : s.m_latestViewChangeCorrelationId ≤ INT_MAX) :
    mintedCorrelationIds s events =
      (List.range (events.countP mintsCorrelationId)).map
        (fun k : Nat => (s.m_latestViewChangeCorrelationId + 1 + (k : Int)) % 2147483648) := by
  induction events generalizing s with
  | nil => rfl
  | cons e rest ih =>
    obtain ⟨hc', hl', hr'⟩ := handleEvent_correlation s e hc
    have hn := GetNextViewChangeCorrelationId_eq_emod s h0 h1
    unfold INT_MAX at h1
    by_cases hm : mintsCorrelationId e = true
    · rw [if_pos hm] at hl'
      have h0' : 0 ≤ (s.handleEvent e).m_latestViewChangeCorrelationId := by rw [hl', hn]; omega
      have h1' : (s.handleEvent e).m_latestViewChangeCorrelationId ≤ INT_MAX := by
        rw [hl', hn]; unfold INT_MAX; omega
      have hcnt : (e :: rest).countP mintsCorrelationId =
          rest.countP mintsCorrelationId + 1 := by simp [List.countP_cons, hm]
      rw [mintedCorrelationIds, if_pos hm, hr' hm, ih _ hc' h0' h1', hcnt,
        List.range_succ_eq_map, hl', hn]
      simp only [Option.toList_some, List.singleton_append, List.map_cons, List.map_map,
        Nat.cast_zero, add_zero, List.cons.injEq, true_and]
      apply List.map_congr_left
      intro k _
      simp only [Function.comp, Nat.succ_eq_add_one, Nat.cast_add, Nat.cast_one]
      omega
    · rw [if_neg hm] at hl'
      have hcnt : (e :: rest).countP mintsCorrelationId = rest.countP mintsCorrelationId := by
        simp [List.countP_cons, hm]
      rw [mintedCorrelationIds, if_neg hm, List.nil_append,
        ih _ hc' (by rw [hl']; exact h0) (by rw [hl']; unfold INT_MAX; exact h1), hcnt, hl']

/-- The operation that `ChangeOffsetsPrivate` appends to the queue of a presenter with
content carries the next correlation ID when the request mints one, and otherwise the
existing ID it was called with, which is -1 for a request that brings none. -/
theorem ChangeOffsetsPrivate_operation_correlation (s : ScrollPresenter α)
    (zoomedHorizontalOffset zoomedVerticalOffset : α) (offsetsKind : ScrollPresenterViewKind)
    (options : Option ScrollingOptions)
    (bringIntoViewRequestedEventArgs : Option (BringIntoViewData α))
    (operationTrigger : InteractionTrackerAsyncOperationTrigger)
    (existingViewChangeCorrelationId : Int) (viewChangeCorrelationId : Bool)
    (hc : s.Content = true)
    (hfresh : ∀ o ∈ s.m_interactionTrackerAsyncOperations, o.id < s.allocatedOperations) :
    ∃ (kept : List (InteractionTrackerAsyncOperation α))
      (newOp : InteractionTrackerAsyncOperation α),
      (s.ChangeOffsetsPrivate zoomedHorizontalOffset zoomedVerticalOffset offsetsKind options
        bringIntoViewRequestedEventArgs operationTrigger existingViewChangeCorrelationId
        viewChangeCorrelationId).1.m_interactionTrackerAsyncOperations = kept ++ [newOp] ∧
      kept.Sublist s.m_interactionTrackerAsyncOperations ∧
      newOp.id = s.allocatedOperations ∧
      newOp.viewChangeCorrelationId =
        (if (viewChangeCorrelationId &&
            existingViewChangeCorrelationId == s_noOpCorrelationId) = true
          then s.GetNextViewChangeCorrelationId else existingViewChangeCorrelationId) := by
  obtain ⟨s1, hs1, hl, hsub, hal⟩ : ∃ s1 : ScrollPresenter α,
      (if (!(!s.IsLoadedAndSetUp)) = true then s.CompleteDelayedOperations else s) = s1 ∧
      s1.m_latestViewChangeCorrelationId = s.m_latestViewChangeCorrelationId ∧
      s1.m_interactionTrackerAsyncOperations.Sublist s.m_interactionTrackerAsyncOperations ∧
      s1.allocatedOperations = s.allocatedOperations := by
    refine ⟨_, rfl, ?_, ?_, ?_⟩ <;> split_ifs <;>
      first
      | rfl
      | exact List.Sublist.refl _
      | exact (CompleteDelayedOperations_correlation s).1
      | exact CompleteDelayedOperations_allocated s
      | (unfold CompleteDelayedOperations
         split_ifs
         · exact List.Sublist.refl _
         · rw [delayed_foldl_queue]
           exact List.filter_sublist _)
  have hf1 : ∀ o ∈ s1.m_interactionTrackerAsyncOperations, o.id ≠ s1.allocatedOperations := by
    intro o ho
    rw [hal]
    exact ne_of_lt (hfresh o (hsub.subset ho))
  unfold ChangeOffsetsPrivate
  simp only [hc, Bool.not_true, Bool.false_eq_true, if_false, hs1]
  simp only [pushOperation, initialTicks, InteractionTrackerAsyncOperation.create,
    InteractionTrackerAsyncOperation.SetTicksCountdown, assignNewCorrelationId,
    storeNextViewChangeCorrelationId, updateOperation, List.map_append, List.map_cons,
    List.map_nil, InteractionTrackerAsyncOperation.SetViewChangeCorrelationId, if_true]
  by_cases ht : operationTrigger = .direct <;> cases viewChangeCorrelationId <;>
    by_cases he : existingViewChangeCorrelationId = s_noOpCorrelationId <;>
    simp only [ht, he, ne_eq, not_true_eq_false, not_false_eq_true, if_true, if_false,
      Bool.false_eq_true, beq_self_eq_true] <;>
    (try rw [map_update_fresh _ _ _ hf1]) <;>
    (refine ⟨_, _, rfl, hsub, hal, ?_⟩
     simp [he, GetNextViewChangeCorrelationId, hl, s_noOpCorrelationId]
     try exact (if_neg he).symm)

/-- C9 (as stated, refuted): two bring-into-view requests for different targets reach a
presenter that has no listener of the BringingIntoView event.  Both are admitted, as the
operations 10 and 11 of the queue, and both carry the correlation ID -1; when they
complete, here because the user starts an interaction, the two ScrollCompleted events
carry the same ID. -/
theorem bring_into_view_requests_share_a_correlation_id :
    (((samplePresenter []).OnBringIntoViewRequestedHandler sampleView false false (30, 0) none
        false (30, 0) false sampleBringIntoViewData).OnBringIntoViewRequestedHandler sampleView
        false false (60, 0) none false (60, 0) false
        sampleBringIntoViewData).m_interactionTrackerAsyncOperations.map
      (fun o => (o.id, o.operationTrigger.BringIntoViewRequest, o.viewChangeCorrelationId)) =
      [(10, true, -1), (11, true, -1)] ∧
    ((((samplePresenter []).OnBringIntoViewRequestedHandler sampleView false false (30, 0) none
        false (30, 0) false sampleBringIntoViewData).OnBringIntoViewRequestedHandler sampleView
        false false (60, 0) none false (60, 0) false
        sampleBringIntoViewData).handleEvent .InteractingStateEntered).trace =
      [.StateChanged, .ScrollCompleted (-1) .Interrupted, .ScrollCompleted (-1) .Interrupted] := by
  decide

/-- What the handler of the BringIntoViewRequested event does with the correlation IDs when
it admits the request (the presenter has content, the request is not ignored and its
target differs from the confirmed offsets): without a listener of the BringingIntoView
event it mints no ID and the new operation carries -1; with listeners that let the request
go on, it mints the next ID before the event is raised and the new operation carries it. -/
theorem OnBringIntoViewRequestedHandler_correlation [DecidableEq α] (s : ScrollPresenter α)
    (view : ScrollPresenterView α) (targetOffsets updatedTargetOffsets : α × α)
    (snapPointsMode : ScrollingSnapPointsMode) (AnimationDesired : Bool)
    (args : BringIntoViewData α) (hc : s.Content = true)
    (hfresh : ∀ o ∈ s.m_interactionTrackerAsyncOperations, o.id < s.allocatedOperations) :
    ((targetOffsets.1 ≠ view.m_zoomedHorizontalOffset ∨
        targetOffsets.2 ≠ view.m_zoomedVerticalOffset) →
      ∀ (outcome : Option ScrollingSnapPointsMode) (ignoredAfterBringingIntoView : Bool),
      (s.OnBringIntoViewRequestedHandler view false false targetOffsets outcome
        ignoredAfterBringingIntoView updatedTargetOffsets AnimationDesired
        args).m_latestViewChangeCorrelationId = s.m_latestViewChangeCorrelationId ∧
      ∃ (kept : List (InteractionTrackerAsyncOperation α))
        (newOp : InteractionTrackerAsyncOperation α),
        (s.OnBringIntoViewRequestedHandler view false false targetOffsets outcome
          ignoredAfterBringingIntoView updatedTargetOffsets AnimationDesired
          args).m_interactionTrackerAsyncOperations = kept ++ [newOp] ∧
        kept.Sublist s.m_interactionTrackerAsyncOperations ∧
        newOp.id = s.allocatedOperations ∧
        newOp.viewChangeCorrelationId = s_noOpCorrelationId) ∧
    ((updatedTargetOffsets.1 ≠ view.m_zoomedHorizontalOffset ∨
        updatedTargetOffsets.2 ≠ view.m_zoomedVerticalOffset) →
      (s.OnBringIntoViewRequestedHandler view false true targetOffsets (some snapPointsMode)
        false updatedTargetOffsets AnimationDesired args).m_latestViewChangeCorrelationId =
        s.GetNextViewChangeCorrelationId ∧
      ∃ (kept : List (InteractionTrackerAsyncOperation α))
        (newOp : InteractionTrackerAsyncOperation α),
        (s.OnBringIntoViewRequestedHandler view false true targetOffsets (some snapPointsMode)
          false updatedTargetOffsets AnimationDesired
          args).m_interactionTrackerAsyncOperations = kept ++ [newOp] ∧
        kept.Sublist s.m_interactionTrackerAsyncOperations ∧
        newOp.id = s.allocatedOperations ∧
        newOp.viewChangeCorrelationId = s.GetNextViewChangeCorrelationId) := by
  constructor
  · intro ht outcome ignoredAfterBringingIntoView
    simp only [OnBringIntoViewRequestedHandler, Bool.false_eq_true, if_false, ht, if_true]
    refine ⟨?_, ?_⟩
    · have := (ChangeOffsetsPrivate_correlation s targetOffsets.1 targetOffsets.2 .Absolute
        (some ⟨if AnimationDesired then .Auto else .Disabled, .Ignore⟩) (some args)
        .bringIntoView s_noOpCorrelationId false hc).2.1
      simpa using this
    · have := ChangeOffsetsPrivate_operation_correlation s targetOffsets.1 targetOffsets.2
        .Absolute (some ⟨if AnimationDesired then .Auto else .Disabled, .Ignore⟩) (some args)
        .bringIntoView s_noOpCorrelationId false hc hfresh
      simpa using this
  · intro ht
    have hc1 : s.storeNextViewChangeCorrelationId.Content = true := hc
    have hf1 : ∀ o ∈ s.storeNextViewChangeCorrelationId.m_interactionTrackerAsyncOperations,
        o.id < s.storeNextViewChangeCorrelationId.allocatedOperations := hfresh
    simp only [OnBringIntoViewRequestedHandler, Bool.false_eq_true, if_false, if_true, ht, hc1,
      Bool.not_true, Bool.or_self]
    refine ⟨?_, ?_⟩
    · have := (ChangeOffsetsPrivate_correlation s.storeNextViewChangeCorrelationId
        updatedTargetOffsets.1 updatedTargetOffsets.2 .Absolute
        (some ⟨if AnimationDesired then .Auto else .Disabled, snapPointsMode⟩) (some args)
        .bringIntoView s.storeNextViewChangeCorrelationId.m_latestViewChangeCorrelationId false
        hc1).2.1
      simpa [storeNextViewChangeCorrelationId] using this
    · have := ChangeOffsetsPrivate_operation_correlation s.storeNextViewChangeCorrelationId
        updatedTargetOffsets.1 updatedTargetOffsets.2 .Absolute
        (some ⟨if AnimationDesired then .Auto else .Disabled, snapPointsMode⟩) (some args)
        .bringIntoView s.storeNextViewChangeCorrelationId.m_latestViewChangeCorrelationId false
        hc1 hf1
      simpa [storeNextViewChangeCorrelationId] using this

/-- C9 (amended): starting from a latest correlation ID `c` with `0 ≤ c ≤ INT_MAX`, the
next ID is `c + 1` while `c < INT_MAX` and 0 at `c = INT_MAX`, it never leaves the range
`[0, INT_MAX]` (no signed overflow), the ID stored after `k` successive calls is
`(c + k) mod 2^31`, and two IDs generated fewer than `2^31` calls apart are distinct.  On a
presenter with content, a request that mints a correlation ID (it passes the out-parameter
of its entry point and, for `ChangeOffsetsPrivate`, brings no existing ID) is returned the
next ID, which becomes the latest, and no other event changes the latest ID; so the IDs
returned to the minting requests of a sequence of events are `c + 1`, `c + 2`, ... modulo
`2^31`, they lie in `[0, INT_MAX]`, and two of them fewer than `2^31` minting requests
apart are distinct.  The operation that `ChangeOffsetsPrivate` appends carries the minted
ID, or else the existing ID it was called with.  A bring-into-view request passes no
out-parameter: its operation carries the ID that the handler mints before it raises the
BringingIntoView event when that event has a listener, and -1 when it has none. -/
theorem minted_correlation_ids_are_distinct [DecidableEq α] (s : ScrollPresenter α)
    (events : List (PresenterEvent α)) (hc : s.Content = true)
    (h0 : 0 ≤ s.m_latestViewChangeCorrelationId)
    (h1 : s.m_latestViewChangeCorrelationId ≤ INT_MAX)
    (hfresh : ∀ o ∈ s.m_interactionTrackerAsyncOperations, o.id < s.allocatedOperations) :
    ((s.m_latestViewChangeCorrelationId < INT_MAX →
        s.GetNextViewChangeCorrelationId = s.m_latestViewChangeCorrelationId + 1) ∧
      (s.m_latestViewChangeCorrelationId = INT_MAX → s.GetNextViewChangeCorrelationId = 0) ∧
      (0 ≤ s.GetNextViewChangeCorrelationId ∧ s.GetNextViewChangeCorrelationId ≤ INT_MAX) ∧
      (∀ k : Nat, (storeNextViewChangeCorrelationId^[k] s).m_latestViewChangeCorrelationId =
        (s.m_latestViewChangeCorrelationId + k) % 2147483648) ∧
      (∀ i j : Nat, i < j → j - i < 2147483648 →
        (storeNextViewChangeCorrelationId^[i] s).m_latestViewChangeCorrelationId ≠
          (storeNextViewChangeCorrelationId^[j] s).m_latestViewChangeCorrelationId)) ∧
    (∀ e : PresenterEvent α,
      (mintsCorrelationId e = true →
        s.returnedCorrelationIdOfEvent e = some s.GetNextViewChangeCorrelationId ∧
        (s.handleEvent e).m_latestViewChangeCorrelationId = s.GetNextViewChangeCorrelationId) ∧
      (mintsCorrelationId e = false →
        (s.handleEvent e).m_latestViewChangeCorrelationId =
          s.m_latestViewChangeCorrelationId)) ∧
    mintedCorrelationIds s events =
      (List.range (events.countP mintsCorrelationId)).map
        (fun k : Nat => (s.m_latestViewChangeCorrelationId + 1 + (k : Int)) % 2147483648) ∧
    (∀ a ∈ mintedCorrelationIds s events, 0 ≤ a ∧ a ≤ INT_MAX) ∧
    (∀ (i j : Nat) (a b : Int), i < j → j - i < 2147483648 →
      (mintedCorrelationIds s events)[i]? = some a →
      (mintedCorrelationIds s events)[j]? = some b → a ≠ b) ∧
    (∀ (zoomedHorizontalOffset zoomedVerticalOffset : α) (offsetsKind : ScrollPresenterViewKind)
      (options : Option ScrollingOptions)
      (bringIntoViewRequestedEventArgs : Option (BringIntoViewData α))
      (operationTrigger : InteractionTrackerAsyncOperationTrigger)
      (existingViewChangeCorrelationId : Int) (viewChangeCorrelationId : Bool),
      ∃ (kept : List (InteractionTrackerAsyncOperation α))
        (newOp : InteractionTrackerAsyncOperation α),
        (s.ChangeOffsetsPrivate zoomedHorizontalOffset zoomedVerticalOffset offsetsKind options
          bringIntoViewRequestedEventArgs operationTrigger existingViewChangeCorrelationId
          viewChangeCorrelationId).1.m_interactionTrackerAsyncOperations = kept ++ [newOp] ∧
        kept.Sublist s.m_interactionTrackerAsyncOperations ∧
        newOp.id = s.allocatedOperations ∧
        newOp.viewChangeCorrelationId =
          (if (viewChangeCorrelationId &&
              existingViewChangeCorrelationId == s_noOpCorrelationId) = true
            then s.GetNextViewChangeCorrelationId else existingViewChangeCorrelationId)) ∧
    (∀ (view : ScrollPresenterView α) (targetOffsets updatedTargetOffsets : α × α)
      (AnimationDesired : Bool) (args : BringIntoViewData α),
      ((targetOffsets.1 ≠ view.m_zoomedHorizontalOffset ∨
          targetOffsets.2 ≠ view.m_zoomedVerticalOffset) →
        ∀ (outcome : Option ScrollingSnapPointsMode) (ignoredAfterBringingIntoView : Bool),
        (s.OnBringIntoViewRequestedHandler view false false targetOffsets outcome
          ignoredAfterBringingIntoView updatedTargetOffsets AnimationDesired
          args).m_latestViewChangeCorrelationId = s.m_latestViewChangeCorrelationId ∧
        ∃ (kept : List (InteractionTrackerAsyncOperation α))
          (newOp : InteractionTrackerAsyncOperation α),
          (s.OnBringIntoViewRequestedHandler view false false targetOffsets outcome
            ignoredAfterBringingIntoView updatedTargetOffsets AnimationDesired
            args).m_interactionTrackerAsyncOperations = kept ++ [newOp] ∧
          kept.Sublist s.m_interactionTrackerAsyncOperations ∧
          newOp.id = s.allocatedOperations ∧
          newOp.viewChangeCorrelationId = s_noOpCorrelationId) ∧
      ((updatedTargetOffsets.1 ≠ view.m_zoomedHorizontalOffset ∨
          updatedTargetOffsets.2 ≠ view.m_zoomedVerticalOffset) →
        ∀ snapPointsMode : ScrollingSnapPointsMode,
        (s.OnBringIntoViewRequestedHandler view false true targetOffsets (some snapPointsMode)
          false updatedTargetOffsets AnimationDesired args).m_latestViewChangeCorrelationId =
          s.GetNextViewChangeCorrelationId ∧
        ∃ (kept : List (InteractionTrackerAsyncOperation α))
          (newOp : InteractionTrackerAsyncOperation α),
          (s.OnBringIntoViewRequestedHandler view false true targetOffsets (some snapPointsMode)
            false updatedTargetOffsets AnimationDesired
            args).m_interactionTrackerAsyncOperations = kept ++ [newOp] ∧
          kept.Sublist s.m_interactionTrackerAsyncOperations ∧
          newOp.id = s.allocatedOperations ∧
          newOp.viewChangeCorrelationId = s.GetNextViewChangeCorrelationId)) := by
  obtain ⟨g1, g2, g3, g4, _, g6⟩ := GetNextViewChangeCorrelationId_sequence s h0 h1
  have hm := mintedCorrelationIds_eq events s hc h0 h1
  refine ⟨⟨g1, g2, g3, g4, g6⟩, ?_, hm, ?_, ?_,
    fun a b c d e f g i => ChangeOffsetsPrivate_operation_correlation s a b c d e f g i hc hfresh,
    fun view targetOffsets updatedTargetOffsets AnimationDesired args =>
      ⟨(OnBringIntoViewRequestedHandler_correlation s view targetOffsets updatedTargetOffsets
          .Ignore AnimationDesired args hc hfresh).1,
        fun ht snapPointsMode =>
          (OnBringIntoViewRequestedHandler_correlation s view targetOffsets updatedTargetOffsets
            snapPointsMode AnimationDesired args hc hfresh).2 ht⟩⟩
  · intro e
    obtain ⟨_, hl, hr⟩ := handleEvent_correlation s e hc
    constructor
    · intro h
      rw [if_pos h] at hl
      exact ⟨hr h, hl⟩
    · intro h
      rw [if_neg (by simp [h])] at hl
      exact hl
  · intro a ha
    rw [hm] at ha
    obtain ⟨k, _, rfl⟩ := List.mem_map.mp ha
    unfold INT_MAX
    omega
  · intro i j a b hij hd ha hb
    rw [hm] at ha hb
    simp only [List.getElem?_map, List.getElem?_range, Option.map_eq_some'] at ha hb
    obtain ⟨x, hx, rfl⟩ := ha
    obtain ⟨y, hy, rfl⟩ := hb
    have hxi : x = i := by
      by_cases h : i < events.countP mintsCorrelationId
      · rw [List.getElem?_range h] at hx; exact (Option.some.inj hx).symm
      · rw [List.getElem?_eq_none (by simpa using h)] at hx; cases hx
    have hyj : y = j := by
      by_cases h : j < events.countP mintsCorrelationId
      · rw [List.getElem?_range h] at hy; exact (Option.some.inj hy).symm
      · rw [List.getElem?_eq_none (by simpa using h)] at hy; cases hy
    subst hxi hyj
    unfold INT_MAX at h1
    omega

/-- C9 (amended, witness): the sample presenter, whose latest correlation ID is 7, and the
sample sequence of events, whose three requests are returned the IDs 8, 9 and 10. -/
theorem minted_correlation_ids_are_distinct_witness :
    ((samplePresenter []).Content = true ∧
      0 ≤ (samplePresenter []).m_latestViewChangeCorrelationId ∧
      (samplePresenter []).m_latestViewChangeCorrelationId ≤ INT_MAX ∧
      ∀ o ∈ (samplePresenter []).m_interactionTrackerAsyncOperations,
        o.id < (samplePresenter []).allocatedOperations) ∧
    mintedCorrelationIds (samplePresenter []) sampleEvents = [8, 9, 10] ∧
    (∀ (i j : Nat) (a b : Int), i < j → j - i < 2147483648 →
      (mintedCorrelationIds (samplePresenter []) sampleEvents)[i]? = some a →
      (mintedCorrelationIds (samplePresenter []) sampleEvents)[j]? = some b → a ≠ b) :=
  ⟨by decide, by decide,
    (minted_correlation_ids_are_distinct (samplePresenter []) sampleEvents rfl (by decide)
      (by decide) (by decide)).2.2.2.2.1⟩

end ScrollPresenter
